import Mathlib

/-!
# Toplevel management of the owl / mwc compositor (`src/toplevel.c`)

A shallow embedding of the window-lifecycle code of `toplevel.c`.

* Toplevels, workspaces and outputs are addressed by natural-number handles;
  the server keeps one table per kind (`Nat → mwc_toplevel`, ...), which is
  the heap the C pointers point into.
* A `wl_list` is the list of the handles linked into it, head first.
  `wl_list_insert(list.prev, e)` appends, `wl_list_insert(&list, e)`
  prepends, `wl_list_remove(&e->link)` takes `e` out of whatever list its
  link is in.
* `struct wlr_box` has `int` fields; they are `Int` here and the
  `uint32_t` parameters of `toplevel_set_pending_state` are converted the way
  C converts them (`wrap_i32`).
* Code of the repository that is not in `toplevel.c` is either taken as
  given (the `X`/`Y` macros and the geometry of layout.c, collected in the
  structure `layout_h` and passed to the functions that call it) or modelled
  from the spec, which the doc comment of the definition then says.
-/

namespace Owl

/-! ## Data model -/

/-- Rectangle of wlroots, `struct wlr_box`: four C `int`s. -/
structure wlr_box where
  x : Int
  y : Int
  width : Int
  height : Int
deriving DecidableEq, Repr

/-- Conversion of a value to C `int` (32 bit two's complement). -/
def wrap_i32 (v : Int) : Int := (v + 2147483648) % 4294967296 - 2147483648

/-- Conversion of a value to C `uint32_t`. -/
def wrap_u32 (v : Int) : Int := v % 4294967296

/-- The integral part of a C `double`: the fraction is dropped (truncation
toward zero). -/
def c_int_of_double (q : Rat) : Int := q.num.tdiv q.den

/-- The values of a C `int`. -/
def in_i32 (v : Int) : Prop := -2147483648 ≤ v ∧ v < 2147483648

instance (v : Int) : Decidable (in_i32 v) :=
  inferInstanceAs (Decidable (-2147483648 ≤ v ∧ v < 2147483648))

/-- Conversion of a C `double` to `int` (or `int32_t`): the fraction is
dropped, and the result is `none` when the integral part is not a value of
`int`, where the behaviour of the C conversion is undefined. -/
def c_double_to_int (q : Rat) : Option Int :=
  if in_i32 (c_int_of_double q) then some (c_int_of_double q) else none

/-- The fraction `n / d` rounded to the nearest natural number, a tie going
to the even neighbour. -/
def round_half_even (n d : Nat) : Nat :=
  if 2 * (n % d) < d then n / d
  else if d < 2 * (n % d) then n / d + 1
  else if (n / d) % 2 = 0 then n / d else n / d + 1

/-- The number of low binary digits that a binary64 value does not hold, for
a magnitude of `m` units of 2^-1074 (rounded down): the largest `k` up to
`fuel` with `2 ^ (52 + k) ≤ m`, and 0 when there is none, so that `m`
without its `k` low digits has at most 53 digits. -/
def c_double_shift (fuel m : Nat) : Nat :=
  match fuel with
  | 0 => 0
  | k + 1 => if 2 ^ (53 + k) ≤ m then k + 1 else c_double_shift k m

/-- The value a C `double` operation stores for the exact result `q`:
rounding of IEEE 754 binary64 to the nearest value with a significand of 53
binary digits and no digit below 2^-1074, a tie going to the even
significand. The magnitude is taken in units of 2^-1074 and its
`c_double_shift` low digits are rounded away. C is taken to evaluate
`double` expressions in binary64 (`FLT_EVAL_METHOD` 0, as on x86-64). An
exact result of magnitude 2^53 or more is kept as it is: when the difference
`cursor - grab` is that large, its sum with an `int` and its difference from
an `int` are outside the range of `int`, and the conversion to `int` that
follows in toplevel.c is undefined whatever the rounding
(`c_double_to_int_large`). -/
def c_double_round (q : Rat) : Rat :=
  if 2 ^ 53 * q.den ≤ q.num.natAbs then q
  else
    mkRat
      (q.num.sign
        * (round_half_even (q.num.natAbs * 2 ^ 1074)
              (q.den * 2 ^ c_double_shift 1074 (q.num.natAbs * 2 ^ 1074 / q.den))
            * 2 ^ c_double_shift 1074 (q.num.natAbs * 2 ^ 1074 / q.den) : Nat))
      (2 ^ 1074)

/-- C `double` subtraction `a - b`: the exact difference, rounded. -/
def c_double_sub (a b : Rat) : Rat := c_double_round (a - b)

/-- C `double` addition `a + b`: the exact sum, rounded. -/
def c_double_add (a b : Rat) : Rat := c_double_round (a + b)

/-- All four fields of the box are C `int`s. -/
def wlr_box.in_range (b : wlr_box) : Prop :=
  in_i32 b.x ∧ in_i32 b.y ∧ in_i32 b.width ∧ in_i32 b.height

instance (b : wlr_box) : Decidable b.in_range :=
  inferInstanceAs (Decidable (in_i32 b.x ∧ in_i32 b.y ∧ in_i32 b.width ∧ in_i32 b.height))

/-- Emptiness test of wlroots, `wlr_box_empty`. -/
def wlr_box_empty (b : wlr_box) : Bool :=
  decide (b.width ≤ 0) || decide (b.height ≤ 0)

/-- Equality test of wlroots, `wlr_box_equal`: empty boxes are equal to each
other and to no other box. -/
def wlr_box_equal (a b : wlr_box) : Bool :=
  if wlr_box_empty a || wlr_box_empty b then wlr_box_empty a && wlr_box_empty b
  else a.x == b.x && a.y == b.y && a.width == b.width && a.height == b.height

/-- Values of `enum mwc_cursor_mode`. -/
inductive mwc_cursor_mode where
  | MWC_CURSOR_PASSTHROUGH
  | MWC_CURSOR_MOVE
  | MWC_CURSOR_RESIZE
deriving DecidableEq, Repr

/-- The three scene trees a toplevel node can be parented to. -/
inductive scene_tree where
  | floating_tree
  | tiled_tree
  | fullscreen_tree
deriving DecidableEq, Repr

/-- The ten `struct wl_listener` fields of `struct mwc_toplevel`. -/
inductive toplevel_listener where
  | map
  | unmap
  | commit
  | destroy
  | request_move
  | request_resize
  | request_maximize
  | request_fullscreen
  | set_app_id
  | set_title
deriving DecidableEq, Repr

/-- Animation sub-state of a toplevel, `toplevel->animation`. -/
structure mwc_animation where
  should_animate : Bool := false
  running : Bool := false
  initial : wlr_box := ⟨0, 0, 0, 0⟩
  current : wlr_box := ⟨0, 0, 0, 0⟩
  passed_frames : Nat := 0
  total_frames : Nat := 0
deriving DecidableEq, Repr

/-- A toplevel, `struct mwc_toplevel`, together with the fields of its
`wlr_xdg_toplevel`, surface, scene node and foreign-toplevel handle that
`toplevel.c` reads or writes. -/
structure mwc_toplevel where
  /-- Handle of `toplevel->workspace`. -/
  workspace : Nat := 0
  floating : Bool := false
  fullscreen : Bool := false
  resizing : Bool := false
  dirty : Bool := false
  pending : wlr_box := ⟨0, 0, 0, 0⟩
  current : wlr_box := ⟨0, 0, 0, 0⟩
  prev_geometry : wlr_box := ⟨0, 0, 0, 0⟩
  configure_serial : Nat := 0
  animation : mwc_animation := {}
  active_opacity : Rat := 1
  inactive_opacity : Rat := 1
  /-- Field `xdg_toplevel->base->surface->mapped`. -/
  mapped : Bool := false
  /-- Field `xdg_toplevel->base->initialized`. -/
  initialized : Bool := false
  /-- Field `xdg_toplevel->base->initial_commit`. -/
  initial_commit : Bool := false
  /-- Field `xdg_toplevel->base->current.configure_serial`: the serial the
  client acknowledged. -/
  acked_serial : Nat := 0
  /-- Geometry reported by `wlr_xdg_surface_get_geometry`. -/
  geometry : wlr_box := ⟨0, 0, 0, 0⟩
  app_id : Option String := none
  title : Option String := none
  min_width : Int := 0
  min_height : Int := 0
  max_width : Int := 0
  max_height : Int := 0
  /-- Whether `xdg_toplevel->parent` is not NULL. -/
  has_parent : Bool := false
  /-- Field `xdg_toplevel->requested.fullscreen`. -/
  requested_fullscreen : Bool := false
  /-- Size last passed to `wlr_xdg_toplevel_set_size`. -/
  xdg_size : Nat × Nat := (0, 0)
  /-- State last passed to `wlr_xdg_toplevel_set_maximized`. -/
  xdg_maximized : Bool := false
  /-- Edge mask last passed to `wlr_xdg_toplevel_set_tiled`. -/
  xdg_tiled : Nat := 0
  /-- State last passed to `wlr_xdg_toplevel_set_fullscreen`. -/
  xdg_fullscreen : Bool := false
  /-- State last passed to `wlr_xdg_toplevel_set_activated`. -/
  xdg_activated : Bool := false
  /-- State last passed to `wlr_foreign_toplevel_handle_v1_set_activated`. -/
  foreign_activated : Bool := false
  /-- State last passed to `wlr_foreign_toplevel_handle_v1_set_fullscreen`. -/
  foreign_fullscreen : Bool := false
  /-- Tree the scene node hangs in; `none` before the node is created. -/
  scene_parent : Option scene_tree := none
  /-- Enabled flag of the scene node. -/
  scene_enabled : Bool := true
  /-- Position of the scene node. -/
  scene_x : Int := 0
  scene_y : Int := 0
  /-- The listeners of the toplevel whose link is in the listener list of a
  signal (`wl_signal_add` puts it there, `wl_list_remove` takes it out). -/
  listeners : List toplevel_listener := []
deriving DecidableEq, Repr

/-- A workspace, `struct mwc_workspace`: the three `wl_list`s of toplevels
(head first), the fullscreen toplevel and the output it is shown on. -/
structure mwc_workspace where
  floating_toplevels : List Nat := []
  masters : List Nat := []
  slaves : List Nat := []
  fullscreen_toplevel : Option Nat := none
  output : Nat := 0
deriving DecidableEq, Repr

/-- An output, `struct mwc_output`, with the box the output layout gives it. -/
structure mwc_output where
  usable_area : wlr_box := ⟨0, 0, 0, 0⟩
  /-- Result of `wlr_output_layout_get_box` for this output. -/
  layout_box : wlr_box := ⟨0, 0, 0, 0⟩
  /-- Result of `output_frame_duration_ms`. -/
  frame_duration_ms : Nat := 16
  /-- Whether the top and bottom layer surfaces are shown. -/
  layers_under_fullscreen_enabled : Bool := true
deriving DecidableEq, Repr

/-- Condition of a window rule, `struct window_rule_regex`; a compiled regex
is the set of strings `regexec` accepts. -/
structure window_rule_regex where
  has_app_id_regex : Bool := false
  app_id_regex : String → Bool := fun _ => false
  has_title_regex : Bool := false
  title_regex : String → Bool := fun _ => false

/-- Float rule, `struct window_rule_float`. -/
structure window_rule_float where
  condition : window_rule_regex := {}

/-- Size rule, `struct window_rule_size`. -/
structure window_rule_size where
  condition : window_rule_regex := {}
  relative_width : Bool := false
  width : Nat := 0
  relative_height : Bool := false
  height : Nat := 0

/-- Opacity rule, `struct window_rule_opacity`. -/
structure window_rule_opacity where
  condition : window_rule_regex := {}
  active_value : Rat := 1
  inactive_value : Rat := 1

/-- The part of `struct mwc_config` read by `toplevel.c`. -/
structure mwc_config where
  master_count : Nat := 1
  min_toplevel_size : Int := 0
  animations : Bool := false
  animation_duration : Nat := 0
  active_opacity : Rat := 1
  inactive_opacity : Rat := 1
  rules_floating : List window_rule_float := []
  rules_size : List window_rule_size := []
  rules_opacity : List window_rule_opacity := []

/-- The global `struct mwc_server server`, with the tables the pointers of
the C program point into. Cursor coordinates are C doubles, and so are
`server.grab_x` and `server.grab_y`, which get their values from them; a
double is the rational number it holds, and the arithmetic on doubles rounds
(`c_double_sub`, `c_double_add`). -/
structure mwc_server where
  toplevels : Nat → mwc_toplevel := fun _ => {}
  workspaces : Nat → mwc_workspace := fun _ => {}
  outputs : Nat → mwc_output := fun _ => {}
  config : mwc_config := {}
  active_workspace : Nat := 0
  focused_toplevel : Option Nat := none
  prev_focused : Option Nat := none
  grabbed_toplevel : Option Nat := none
  cursor_mode : mwc_cursor_mode := mwc_cursor_mode.MWC_CURSOR_PASSTHROUGH
  cursor_x : Rat := 0
  cursor_y : Rat := 0
  grab_x : Rat := 0
  grab_y : Rat := 0
  grabbed_toplevel_initial_box : wlr_box := ⟨0, 0, 0, 0⟩
  resize_edges : Nat := 0
  client_driven_move_resize : Bool := false
  /-- Whether `server.lock` is not NULL. -/
  lock : Bool := false
  exclusive : Bool := false
  /-- Whether the seat has a keyboard (`wlr_seat_get_keyboard`). -/
  has_keyboard : Bool := true
  /-- Toplevel whose surface last got `wlr_seat_keyboard_notify_enter`. -/
  keyboard_focus : Option Nat := none
  /-- Number of `ipc_broadcast_message(IPC_ACTIVE_TOPLEVEL)` calls so far. -/
  ipc_active_toplevel_events : Nat := 0
  /-- Serial handed out by the last `wlr_xdg_toplevel_set_size`. -/
  display_serial : Nat := 0

/-- Declarations used by `toplevel.c` whose code lives elsewhere in the
repository (layout.c and the `X`/`Y` macros of toplevel.h); they are taken
as given. -/
structure layout_h where
  /-- Macro `X(toplevel)`. -/
  X : mwc_toplevel → Int
  /-- Macro `Y(toplevel)`. -/
  Y : mwc_toplevel → Int
  /-- Function `calculate_masters_dimensions(output, master_count,
  slave_count, &width, &height)`. -/
  calculate_masters_dimensions : mwc_output → Nat → Nat → Nat × Nat
  /-- Function `calculate_slaves_dimensions(output, slave_count, &width,
  &height)`. -/
  calculate_slaves_dimensions : mwc_output → Nat → Nat × Nat
  /-- Box the layout gives the master at an index, from the output and the
  numbers of masters and slaves. -/
  master_box : mwc_output → Nat → Nat → Nat → wlr_box
  /-- Box the layout gives the slave at an index, from the output and the
  numbers of masters and slaves. -/
  slave_box : mwc_output → Nat → Nat → Nat → wlr_box
  /-- Function `layout_toplevel_at(workspace, x, y)`: the tiled toplevel of
  the workspace under the point, if any. -/
  layout_toplevel_at : mwc_server → Nat → Int → Int → Option Nat

/-! ## Table updates -/

/-- Store a toplevel record under a handle. -/
def set_toplevel (s : mwc_server) (t : Nat) (v : mwc_toplevel) : mwc_server :=
  { s with toplevels := fun i => if i = t then v else s.toplevels i }

/-- Apply an update to the record of one toplevel. -/
def modify_toplevel (s : mwc_server) (t : Nat) (f : mwc_toplevel → mwc_toplevel) :
    mwc_server :=
  set_toplevel s t (f (s.toplevels t))

/-- Store a workspace record under a handle. -/
def set_workspace (s : mwc_server) (w : Nat) (v : mwc_workspace) : mwc_server :=
  { s with workspaces := fun i => if i = w then v else s.workspaces i }

/-- Store an output record under a handle. -/
def set_output (s : mwc_server) (o : Nat) (v : mwc_output) : mwc_server :=
  { s with outputs := fun i => if i = o then v else s.outputs i }

/-! ## wl_list -/

/-- Take a handle out of the three lists of a workspace. -/
def mwc_workspace.remove (w : mwc_workspace) (t : Nat) : mwc_workspace :=
  { w with
    floating_toplevels := w.floating_toplevels.erase t
    masters := w.masters.erase t
    slaves := w.slaves.erase t }

/-- Library call `wl_list_remove(&t->link)`: the link leaves the list it is
in, whichever that is. -/
def wl_list_remove (s : mwc_server) (t : Nat) : mwc_server :=
  { s with workspaces := fun i => (s.workspaces i).remove t }

/-- Insert `t` right before the first occurrence of `u`. -/
def list_insert_before (u t : Nat) : List Nat → List Nat
  | [] => []
  | a :: l => if a = u then t :: a :: l else a :: list_insert_before u t l

/-- Insert `t` right after the first occurrence of `u`. -/
def list_insert_after (u t : Nat) : List Nat → List Nat
  | [] => []
  | a :: l => if a = u then a :: t :: l else a :: list_insert_after u t l

/-- Link `t` in before `u` in the three lists of a workspace. -/
def mwc_workspace.insert_before (w : mwc_workspace) (u t : Nat) : mwc_workspace :=
  { w with
    floating_toplevels := list_insert_before u t w.floating_toplevels
    masters := list_insert_before u t w.masters
    slaves := list_insert_before u t w.slaves }

/-- Link `t` in after `u` in the three lists of a workspace. -/
def mwc_workspace.insert_after (w : mwc_workspace) (u t : Nat) : mwc_workspace :=
  { w with
    floating_toplevels := list_insert_after u t w.floating_toplevels
    masters := list_insert_after u t w.masters
    slaves := list_insert_after u t w.slaves }

/-- Library call `wl_list_insert(u->link.prev, &t->link)`: `t` is linked in
before `u`, in the list `u` is in. -/
def wl_list_insert_before (s : mwc_server) (u t : Nat) : mwc_server :=
  { s with workspaces := fun i => (s.workspaces i).insert_before u t }

/-- Library call `wl_list_insert(&u->link, &t->link)`: `t` is linked in
after `u`, in the list `u` is in. -/
def wl_list_insert_after (s : mwc_server) (u t : Nat) : mwc_server :=
  { s with workspaces := fun i => (s.workspaces i).insert_after u t }

/-- Element `t->link.next` within a list; `none` when the next link is the
list head. -/
def list_next : List Nat → Nat → Option Nat
  | [], _ => none
  | [_], _ => none
  | a :: b :: l, t => if a = t then some b else list_next (b :: l) t

/-- Element `t->link.prev` within a list; `none` when the previous link is
the list head. -/
def list_prev : List Nat → Nat → Option Nat
  | [], _ => none
  | [_], _ => none
  | a :: b :: l, t => if b = t then some a else list_prev (b :: l) t

/-- Link `list->next` of a list head, as `wl_container_of` reads it; `none`
when the list is empty. -/
def list_first (l : List Nat) : Option Nat := l.head?

/-- Link `list->prev` of a list head; `none` when the list is empty. -/
def list_last (l : List Nat) : Option Nat := l.getLast?

/-- Library call `wl_list_insert(workspace->masters.prev, &t->link)`. -/
def masters_insert_last (s : mwc_server) (w t : Nat) : mwc_server :=
  set_workspace s w { s.workspaces w with masters := (s.workspaces w).masters ++ [t] }

/-- Library call `wl_list_insert(workspace->slaves.prev, &t->link)`. -/
def slaves_insert_last (s : mwc_server) (w t : Nat) : mwc_server :=
  set_workspace s w { s.workspaces w with slaves := (s.workspaces w).slaves ++ [t] }

/-- Library call `wl_list_insert(&workspace->floating_toplevels, &t->link)`. -/
def floating_insert_first (s : mwc_server) (w t : Nat) : mwc_server :=
  set_workspace s w
    { s.workspaces w with floating_toplevels := t :: (s.workspaces w).floating_toplevels }

/-- Assignment `workspace->fullscreen_toplevel = v`. -/
def assign_fullscreen_toplevel (s : mwc_server) (w : Nat) (v : Option Nat) : mwc_server :=
  set_workspace s w { s.workspaces w with fullscreen_toplevel := v }

/-! ## Single statements on a toplevel -/

/-- Library call `wlr_xdg_toplevel_set_activated(t->xdg_toplevel, b)`. -/
def wlr_xdg_toplevel_set_activated (s : mwc_server) (t : Nat) (b : Bool) : mwc_server :=
  modify_toplevel s t (fun tl => { tl with xdg_activated := b })

/-- Library call
`wlr_foreign_toplevel_handle_v1_set_activated(t->foreign_toplevel_handle, b)`. -/
def wlr_foreign_toplevel_handle_v1_set_activated (s : mwc_server) (t : Nat) (b : Bool) :
    mwc_server :=
  modify_toplevel s t (fun tl => { tl with foreign_activated := b })

/-- Library call `wlr_xdg_toplevel_set_fullscreen(t->xdg_toplevel, b)`. -/
def wlr_xdg_toplevel_set_fullscreen (s : mwc_server) (t : Nat) (b : Bool) : mwc_server :=
  modify_toplevel s t (fun tl => { tl with xdg_fullscreen := b })

/-- Library call
`wlr_foreign_toplevel_handle_v1_set_fullscreen(t->foreign_toplevel_handle, b)`. -/
def wlr_foreign_toplevel_handle_v1_set_fullscreen (s : mwc_server) (t : Nat) (b : Bool) :
    mwc_server :=
  modify_toplevel s t (fun tl => { tl with foreign_fullscreen := b })

/-- Library call `wlr_scene_xdg_surface_create(tree, ...)` with the result
stored in `t->scene_tree`; a new node is enabled. -/
def wlr_scene_xdg_surface_create (s : mwc_server) (t : Nat) (tree : scene_tree) : mwc_server :=
  modify_toplevel s t (fun tl => { tl with scene_parent := some tree, scene_enabled := true })

/-- Library call `wlr_scene_node_reparent(&t->scene_tree->node, tree)`. -/
def wlr_scene_node_reparent (s : mwc_server) (t : Nat) (tree : scene_tree) : mwc_server :=
  modify_toplevel s t (fun tl => { tl with scene_parent := some tree })

/-- Library call `wlr_scene_node_set_position(&t->scene_tree->node, x, y)`. -/
def wlr_scene_node_set_position (s : mwc_server) (t : Nat) (x y : Int) : mwc_server :=
  modify_toplevel s t (fun tl => { tl with scene_x := x, scene_y := y })

/-- Library call `wlr_scene_node_set_enabled(&t->scene_tree->node, b)`. -/
def wlr_scene_node_set_enabled (s : mwc_server) (t : Nat) (b : Bool) : mwc_server :=
  modify_toplevel s t (fun tl => { tl with scene_enabled := b })

/-- The three loops `wl_list_for_each(u, ...) { if(u == t) continue;
wlr_scene_node_set_enabled(&u->scene_tree->node, b); }` over the masters, the
slaves and the floating toplevels of workspace `w`. -/
def scene_set_enabled_others (s : mwc_server) (w t : Nat) (b : Bool) : mwc_server :=
  { s with toplevels := fun i =>
      if i ≠ t ∧ (i ∈ (s.workspaces w).masters ∨ i ∈ (s.workspaces w).slaves
          ∨ i ∈ (s.workspaces w).floating_toplevels) then
        { s.toplevels i with scene_enabled := b }
      else s.toplevels i }

/-- Call `layers_under_fullscreen_set_enabled(output, b)`. -/
def layers_under_fullscreen_set_enabled (s : mwc_server) (o : Nat) (b : Bool) : mwc_server :=
  set_output s o { s.outputs o with layers_under_fullscreen_enabled := b }

/-- Assignment `toplevel->floating = b`. -/
def assign_floating (s : mwc_server) (t : Nat) (b : Bool) : mwc_server :=
  modify_toplevel s t (fun tl => { tl with floating := b })

/-- Assignment `toplevel->fullscreen = b`. -/
def assign_fullscreen (s : mwc_server) (t : Nat) (b : Bool) : mwc_server :=
  modify_toplevel s t (fun tl => { tl with fullscreen := b })

/-- Assignment `toplevel->resizing = b`. -/
def assign_resizing (s : mwc_server) (t : Nat) (b : Bool) : mwc_server :=
  modify_toplevel s t (fun tl => { tl with resizing := b })

/-- Assignment `toplevel->workspace = w`. -/
def assign_workspace (s : mwc_server) (t w : Nat) : mwc_server :=
  modify_toplevel s t (fun tl => { tl with workspace := w })

/-- Assignment `toplevel->prev_geometry = toplevel->current`. -/
def save_prev_geometry (s : mwc_server) (t : Nat) : mwc_server :=
  modify_toplevel s t (fun tl => { tl with prev_geometry := tl.current })

/-- The surface of a toplevel becomes mapped or unmapped (wlroots sets
`surface->mapped` before it emits the map or unmap event). -/
def surface_set_mapped (s : mwc_server) (t : Nat) (b : Bool) : mwc_server :=
  modify_toplevel s t (fun tl => { tl with mapped := b })

/-! ## Single statements on the server -/

/-- Assignment `server.focused_toplevel = v`. -/
def assign_focused_toplevel (s : mwc_server) (v : Option Nat) : mwc_server :=
  { s with focused_toplevel := v }

/-- Assignment `server.prev_focused = NULL`. -/
def clear_prev_focused (s : mwc_server) : mwc_server :=
  { s with prev_focused := none }

/-- Call `ipc_broadcast_message(IPC_ACTIVE_TOPLEVEL)`. -/
def ipc_broadcast_message (s : mwc_server) : mwc_server :=
  { s with ipc_active_toplevel_events := s.ipc_active_toplevel_events + 1 }

/-- Library call `wlr_seat_keyboard_notify_enter(seat, t's surface, ...)`. -/
def wlr_seat_keyboard_notify_enter (s : mwc_server) (t : Nat) : mwc_server :=
  { s with keyboard_focus := some t }

/-- The assignments that open a grab: `server.grabbed_toplevel`,
`server.cursor_mode`, `server.grab_x`, `server.grab_y` and
`server.grabbed_toplevel_initial_box`. -/
def grab_begin (s : mwc_server) (t : Nat) (mode : mwc_cursor_mode) (box : wlr_box) :
    mwc_server :=
  { s with
    grabbed_toplevel := some t
    cursor_mode := mode
    grab_x := s.cursor_x
    grab_y := s.cursor_y
    grabbed_toplevel_initial_box := box }

/-- Assignment `server.resize_edges = edges`. -/
def assign_resize_edges (s : mwc_server) (edges : Nat) : mwc_server :=
  { s with resize_edges := edges }

/-- Modelled from the spec: `server_reset_cursor_mode` is defined outside
toplevel.c. The grab ends: no toplevel is grabbed and the cursor is back in
passthrough mode. -/
def server_reset_cursor_mode (s : mwc_server) : mwc_server :=
  { s with
    grabbed_toplevel := none
    cursor_mode := mwc_cursor_mode.MWC_CURSOR_PASSTHROUGH }

/-! ## Geometry requests and commits -/

/-- The body of `toplevel_commit` on the toplevel record, given the value of
`animation_duration / output_frame_duration_ms(output)`. -/
def committed (frames : Nat) (tl : mwc_toplevel) : mwc_toplevel :=
  if tl.animation.should_animate then
    { tl with
      dirty := false
      current := tl.pending
      animation :=
        { tl.animation with
          initial := if tl.animation.running then tl.animation.current
                     else tl.animation.initial
          passed_frames := 0
          total_frames := frames
          running := true
          should_animate := false } }
  else { tl with dirty := false, current := tl.pending }

/-- C function `toplevel_commit` (toplevel.c 676-695). -/
def toplevel_commit (s : mwc_server) (t : Nat) : mwc_server :=
  modify_toplevel s t
    (committed (s.config.animation_duration
      / (s.outputs (s.workspaces (s.toplevels t).workspace).output).frame_duration_ms))

/-- The first half of `toplevel_set_pending_state` (toplevel.c 648-663): the
toplevel record with the new `pending` box and the animation decision. The
four arguments are the values handed to the `uint32_t` parameters; the box
keeps them as `int`s. -/
def pending_request (s : mwc_server) (t : Nat) (x y width height : Int) : mwc_toplevel :=
  let tl := s.toplevels t
  let pending : wlr_box := ⟨wrap_i32 x, wrap_i32 y, wrap_i32 width, wrap_i32 height⟩
  if !s.config.animations || s.grabbed_toplevel == some t
      || wlr_box_equal tl.current pending then
    { tl with
      pending := pending
      animation := { tl.animation with should_animate := false } }
  else
    { tl with
      pending := pending
      animation := { tl.animation with should_animate := true, initial := tl.current } }

/-- The statements `toplevel->configure_serial = wlr_xdg_toplevel_set_size(...);
toplevel->dirty = true;` on a toplevel record, for the serial handed out. -/
def size_requested (tl : mwc_toplevel) (serial : Nat) (width height : Int) : mwc_toplevel :=
  { tl with
    configure_serial := serial
    xdg_size := ((wrap_u32 width).toNat, (wrap_u32 height).toNat)
    dirty := true }

/-- The serial counter moves on by one configure. -/
def next_display_serial (s : mwc_server) : mwc_server :=
  { s with display_serial := s.display_serial + 1 }

/-- C function `toplevel_set_pending_state` (toplevel.c 645-674). The serial
`wlr_xdg_toplevel_set_size` returns is drawn from a counter. -/
def toplevel_set_pending_state (s : mwc_server) (t : Nat) (x y width height : Int) :
    mwc_server :=
  if (pending_request s t x y width height).current.width
        = (pending_request s t x y width height).pending.width
      ∧ (pending_request s t x y width height).current.height
        = (pending_request s t x y width height).pending.height then
    toplevel_commit (set_toplevel s t (pending_request s t x y width height)) t
  else
    set_toplevel (next_display_serial s) t
      (size_requested (pending_request s t x y width height) (s.display_serial + 1)
        width height)

/-! ## Code of layout.c, as the spec describes it -/

/-- Modelled from the spec: `toplevel_is_master` is defined in layout.c, which
is not under src/. A toplevel is a master when it is linked into the master
list of its workspace. -/
def toplevel_is_master (s : mwc_server) (t : Nat) : Bool :=
  decide (t ∈ (s.workspaces (s.toplevels t).workspace).masters)

/-- Request the geometry `box i` for the `i`-th toplevel of a list, counting
from `i`. -/
def layout_place (box : Nat → wlr_box) : List Nat → Nat → mwc_server → mwc_server
  | [], _, s => s
  | t :: l, i, s =>
    layout_place box l (i + 1)
      (toplevel_set_pending_state s t (box i).x (box i).y (box i).width (box i).height)

/-- Modelled from the spec: `layout_set_pending_state` is defined in layout.c,
which is not under src/. It "recalculates geometry for every tiled member":
every master and every slave of the workspace is sent its box through
`toplevel_set_pending_state`; the boxes themselves come from `layout_h`. -/
def layout_set_pending_state (L : layout_h) (s : mwc_server) (w : Nat) : mwc_server :=
  layout_place
    (L.slave_box (s.outputs (s.workspaces w).output)
      (s.workspaces w).masters.length (s.workspaces w).slaves.length)
    (s.workspaces w).slaves 0
    (layout_place
      (L.master_box (s.outputs (s.workspaces w).output)
        (s.workspaces w).masters.length (s.workspaces w).slaves.length)
      (s.workspaces w).masters 0 s)

/-! ## Focus -/

/-- The statements of `focus_toplevel` after its guards (toplevel.c 879-906). -/
def focus_apply (s : mwc_server) (t : Nat) : mwc_server :=
  let s1 :=
    match s.focused_toplevel with
    | some prev_toplevel =>
      wlr_foreign_toplevel_handle_v1_set_activated
        (wlr_xdg_toplevel_set_activated s prev_toplevel false) t false
    | none => s
  let s2 := assign_focused_toplevel s1 (some t)
  let s3 :=
    if (s2.toplevels t).floating then
      floating_insert_first (wl_list_remove s2 t) (s2.toplevels t).workspace t
    else s2
  let s4 := wlr_xdg_toplevel_set_activated s3 t true
  let s5 := if s4.has_keyboard then wlr_seat_keyboard_notify_enter s4 t else s4
  let s6 := ipc_broadcast_message s5
  wlr_foreign_toplevel_handle_v1_set_activated s6 t true

/-- C function `focus_toplevel` (toplevel.c 866-907). -/
def focus_toplevel (s : mwc_server) (t : Nat) : mwc_server :=
  if s.lock then s
  else if s.exclusive then s
  else if s.grabbed_toplevel ≠ none then s
  else if (s.workspaces (s.toplevels t).workspace).fullscreen_toplevel ≠ none
      ∧ (s.workspaces (s.toplevels t).workspace).fullscreen_toplevel ≠ some t then s
  else if s.focused_toplevel = some t then s
  else focus_apply s t

/-- The two statements `server.focused_toplevel = NULL;
ipc_broadcast_message(IPC_ACTIVE_TOPLEVEL);`. -/
def clear_focused_toplevel (s : mwc_server) : mwc_server :=
  ipc_broadcast_message (assign_focused_toplevel s none)

/-- The nested search of `toplevel_handle_unmap` for the link to focus next:
the link after `t` in its own list, else the link before `t`, else the
fallback link; `none` where the C code ends at a list head. -/
def focus_next_of (own : List Nat) (fallback : Option Nat) (t : Nat) : Option Nat :=
  match list_next own t with
  | some u => some u
  | none =>
    match list_prev own t with
    | some u => some u
    | none => fallback

/-- Focus the toplevel a link denotes, as `wl_container_of` followed by
`focus_toplevel` does; nothing happens for an absent link. -/
def focus_link (s : mwc_server) : Option Nat → mwc_server
  | some u => focus_toplevel s u
  | none => s

/-- The `if(focus_next != NULL) ... else ...` of `toplevel_handle_unmap`. -/
def focus_or_clear (s : mwc_server) : Option Nat → mwc_server
  | some u => focus_toplevel s u
  | none => clear_focused_toplevel s

/-! ## Window rules -/

/-- C function `toplevel_matches_window_rule` (toplevel.c 534-563). -/
def toplevel_matches_window_rule (tl : mwc_toplevel) (condition : window_rule_regex) : Bool :=
  let matches_app_id :=
    if condition.has_app_id_regex then
      match tl.app_id with
      | none => false
      | some app_id => condition.app_id_regex app_id
    else true
  let matches_title :=
    if condition.has_title_regex then
      match tl.title with
      | none => false
      | some title => condition.title_regex title
    else true
  matches_app_id && matches_title

/-- The loop of `toplevel_floating_size` over the size rules. -/
def floating_size_of (tl : mwc_toplevel) (usable_area : wlr_box) :
    List window_rule_size → Nat × Nat
  | [] => (0, 0)
  | r :: rest =>
    if toplevel_matches_window_rule tl r.condition then
      ( if r.relative_width then
          ((wrap_u32 usable_area.width).toNat * r.width % 4294967296) / 100
        else r.width,
        if r.relative_height then
          ((wrap_u32 usable_area.height).toNat * r.height % 4294967296) / 100
        else r.height )
    else floating_size_of tl usable_area rest

/-- C function `toplevel_floating_size` (toplevel.c 565-588); the pair is
`(*width, *height)`. -/
def toplevel_floating_size (s : mwc_server) (t : Nat) : Nat × Nat :=
  floating_size_of (s.toplevels t)
    (s.outputs (s.workspaces (s.toplevels t).workspace).output).usable_area
    s.config.rules_size

/-- C function `toplevel_should_float` (toplevel.c 590-612). -/
def toplevel_should_float (s : mwc_server) (t : Nat) : Bool :=
  let tl := s.toplevels t
  let b :=
    (tl.max_height != 0 && tl.max_height == tl.min_height)
    || (tl.max_width != 0 && tl.max_width == tl.min_width)
    || tl.has_parent
  if b then true
  else s.config.rules_floating.any (fun r => toplevel_matches_window_rule tl r.condition)

/-! ## Surface events -/

/-- Edge bit of the top edge, from `enum wlr_edges` of wlroots. -/
def WLR_EDGE_TOP : Nat := 1

/-- Edge bit of the bottom edge. -/
def WLR_EDGE_BOTTOM : Nat := 2

/-- Edge bit of the left edge. -/
def WLR_EDGE_LEFT : Nat := 4

/-- Edge bit of the right edge. -/
def WLR_EDGE_RIGHT : Nat := 8

/-- The three configure requests of `toplevel_handle_initial_commit`:
`wlr_xdg_toplevel_set_size`, `wlr_xdg_toplevel_set_maximized(.., true)` and
`wlr_xdg_toplevel_set_tiled` with the mask written in the source. -/
def initial_configure (s : mwc_server) (t : Nat) (size : Nat × Nat) : mwc_server :=
  modify_toplevel s t (fun tl =>
    { tl with
      xdg_size := size
      xdg_maximized := true
      xdg_tiled := WLR_EDGE_TOP &&& WLR_EDGE_RIGHT &&& WLR_EDGE_BOTTOM &&& WLR_EDGE_LEFT })

/-- The size `toplevel_handle_initial_commit` asks the client for. -/
def initial_size (L : layout_h) (s : mwc_server) (t : Nat) : Nat × Nat :=
  if (s.toplevels t).floating then toplevel_floating_size s t
  else if (s.workspaces (s.toplevels t).workspace).masters.length < s.config.master_count then
    L.calculate_masters_dimensions
      (s.outputs (s.workspaces (s.toplevels t).workspace).output)
      ((s.workspaces (s.toplevels t).workspace).masters.length + 1)
      (s.workspaces (s.toplevels t).workspace).slaves.length
  else
    L.calculate_slaves_dimensions
      (s.outputs (s.workspaces (s.toplevels t).workspace).output)
      ((s.workspaces (s.toplevels t).workspace).slaves.length + 1)

/-- C function `toplevel_handle_initial_commit` (toplevel.c 90-117). -/
def toplevel_handle_initial_commit (L : layout_h) (s : mwc_server) (t : Nat) : mwc_server :=
  initial_configure (assign_floating s t (toplevel_should_float s t)) t
    (initial_size L (assign_floating s t (toplevel_should_float s t)) t)

/-- The statements `pending.x = output_box.x + (output_box.width -
pending.width) / 2` and the same for `y`, in C `int` arithmetic. -/
def center_in (output_box : wlr_box) (tl : mwc_toplevel) : mwc_toplevel :=
  { tl with pending :=
    { tl.pending with
      x := output_box.x + (output_box.width - tl.pending.width).tdiv 2
      y := output_box.y + (output_box.height - tl.pending.height).tdiv 2 } }

/-- The statements taking the size of `toplevel_get_geometry` when
`pending.width == 0`. -/
def size_from_geometry (tl : mwc_toplevel) : mwc_toplevel :=
  if tl.pending.width = 0 then
    { tl with pending :=
      { tl.pending with width := tl.geometry.width, height := tl.geometry.height } }
  else tl

/-- The block of `toplevel_handle_commit` guarded by
`toplevel->floating && !toplevel->fullscreen` (toplevel.c 139-151). -/
def commit_place_floating (usable_area : wlr_box) (tl : mwc_toplevel) : mwc_toplevel :=
  if tl.floating && !tl.fullscreen then
    if wrap_u32 (size_from_geometry tl).pending.x = 4294967295 then
      center_in usable_area (size_from_geometry tl)
    else size_from_geometry tl
  else tl

/-- C function `toplevel_handle_commit` (toplevel.c 119-154). -/
def toplevel_handle_commit (L : layout_h) (s : mwc_server) (t : Nat) : mwc_server :=
  if !(s.toplevels t).initialized then s
  else if (s.toplevels t).initial_commit then toplevel_handle_initial_commit L s t
  else if (s.toplevels t).resizing then toplevel_commit s t
  else if !(s.toplevels t).dirty
      || decide ((s.toplevels t).acked_serial < (s.toplevels t).configure_serial) then s
  else
    toplevel_commit
      (modify_toplevel s t
        (commit_place_floating
          (s.outputs (s.workspaces (s.toplevels t).workspace).output).usable_area)) t

/-- The block of `toplevel_handle_map` guarded by `toplevel->floating`
(toplevel.c 200-210). -/
def map_place_floating (usable_area : wlr_box) (tl : mwc_toplevel) : mwc_toplevel :=
  if tl.floating then center_in usable_area (size_from_geometry tl) else tl

/-- The block of `toplevel_handle_map` that patches the startup animation
(toplevel.c 212-223). -/
def map_patch_animation (animations : Bool) (tl : mwc_toplevel) : mwc_toplevel :=
  if animations then
    { tl with animation :=
      { tl.animation with
        should_animate := true
        initial :=
          { x := tl.pending.x + tl.pending.width.tdiv 2
            y := tl.pending.y + tl.pending.height.tdiv 2
            width := 1
            height := 1 } } }
  else
    { tl with animation := { tl.animation with should_animate := false } }

/-- The first block of `toplevel_handle_map` (toplevel.c 161-175): the
toplevel is linked into a list and gets its scene node. -/
def map_link (L : layout_h) (s : mwc_server) (t : Nat) : mwc_server :=
  if (s.toplevels t).floating then
    wlr_scene_xdg_surface_create
      (floating_insert_first s (s.toplevels t).workspace t) t scene_tree.floating_tree
  else
    layout_set_pending_state L
      (wlr_scene_xdg_surface_create
        (if (s.workspaces (s.toplevels t).workspace).masters.length < s.config.master_count then
          masters_insert_last s (s.toplevels t).workspace t
        else slaves_insert_last s (s.toplevels t).workspace t)
        t scene_tree.tiled_tree)
      (s.toplevels t).workspace

/-- The statements of `toplevel_handle_map` between the linking and the call
of `focus_toplevel` (toplevel.c 180-187). -/
def map_place_node (s : mwc_server) (t : Nat) : mwc_server :=
  let w := (s.toplevels t).workspace
  let s1 := wlr_scene_node_set_position s t
    (s.outputs (s.workspaces w).output).usable_area.x
    (s.outputs (s.workspaces w).output).usable_area.y
  if (s1.workspaces w).fullscreen_toplevel ≠ none then wlr_scene_node_set_enabled s1 t false
  else s1

/-- The statements of `toplevel_handle_map` after the call of
`focus_toplevel` (toplevel.c 200-225). -/
def map_finish (s : mwc_server) (t : Nat) : mwc_server :=
  toplevel_commit
    (modify_toplevel
      (modify_toplevel s t
        (map_place_floating
          (s.outputs (s.workspaces (s.toplevels t).workspace).output).usable_area))
      t (map_patch_animation s.config.animations)) t

/-- C function `toplevel_handle_map` (toplevel.c 156-226). -/
def toplevel_handle_map (L : layout_h) (s : mwc_server) (t : Nat) : mwc_server :=
  map_finish (focus_toplevel (map_place_node (map_link L s t) t) t) t

/-- The block of `toplevel_handle_unmap` run when the unmapped toplevel is
the fullscreen one of its workspace (toplevel.c 259-275). -/
def unmap_clear_fullscreen (s : mwc_server) (w t : Nat) : mwc_server :=
  if (s.workspaces w).fullscreen_toplevel = some t then
    scene_set_enabled_others
      (layers_under_fullscreen_set_enabled (assign_fullscreen_toplevel s w none)
        (s.workspaces w).output true)
      w t true
  else s

/-- The block of `toplevel_handle_unmap` run when the grabbed toplevel is
unmapped (toplevel.c 241-256). -/
def unmap_grabbed (s : mwc_server) (w t : Nat) : mwc_server :=
  let s1 := server_reset_cursor_mode s
  if (s1.toplevels t).floating && !(s1.workspaces w).floating_toplevels.isEmpty then
    focus_link s1 (list_first (s1.workspaces w).floating_toplevels)
  else if !(s1.workspaces w).masters.isEmpty then
    focus_link s1 (list_first (s1.workspaces w).masters)
  else clear_focused_toplevel s1

/-- The floating branch of `toplevel_handle_unmap` (toplevel.c 277-302). -/
def unmap_floating (s : mwc_server) (w t : Nat) : mwc_server :=
  wl_list_remove
    (if s.focused_toplevel = some t then
      focus_or_clear s
        (focus_next_of (s.workspaces w).floating_toplevels
          (list_first (s.workspaces w).masters) t)
    else s) t

/-- The statements of `toplevel_handle_unmap` that promote a slave when a
master leaves (toplevel.c 305-310). -/
def unmap_promote (s : mwc_server) (w : Nat) : mwc_server :=
  match list_last (s.workspaces w).slaves with
  | some sl => masters_insert_last (wl_list_remove s sl) w sl
  | none => s

/-- The master branch of `toplevel_handle_unmap` (toplevel.c 304-334). -/
def unmap_master (s : mwc_server) (w t : Nat) : mwc_server :=
  let s2 := unmap_promote s w
  wl_list_remove
    (if s2.focused_toplevel = some t then
      focus_or_clear s2
        (focus_next_of (s2.workspaces w).masters
          (list_first (s2.workspaces w).floating_toplevels) t)
    else s2) t

/-- The slave branch of `toplevel_handle_unmap` (toplevel.c 335-353); `none`
where the C code takes `wl_container_of` of the head of the empty master list
and hands it to `focus_toplevel`. -/
def unmap_slave (s : mwc_server) (w t : Nat) : Option mwc_server :=
  if s.focused_toplevel = some t then
    match focus_next_of (s.workspaces w).slaves (list_last (s.workspaces w).masters) t with
    | some u => some (wl_list_remove (focus_toplevel s u) t)
    | none => none
  else some (wl_list_remove s t)

/-- The part of `toplevel_handle_unmap` run for a toplevel that is not
grabbed (toplevel.c 259-355). -/
def unmap_not_grabbed (L : layout_h) (s : mwc_server) (w t : Nat) : Option mwc_server :=
  let s1 := unmap_clear_fullscreen s w t
  if (s1.toplevels t).floating then some (unmap_floating s1 w t)
  else if toplevel_is_master s1 t then
    some (layout_set_pending_state L (unmap_master s1 w t) w)
  else
    (unmap_slave s1 w t).map (fun r => layout_set_pending_state L r w)

/-- C function `toplevel_handle_unmap` (toplevel.c 228-356). The result is
`none` where the behaviour of the C code is undefined (see `unmap_slave`). -/
def toplevel_handle_unmap (L : layout_h) (s : mwc_server) (t : Nat) : Option mwc_server :=
  let s1 := if s.prev_focused = some t then clear_prev_focused s else s
  if s1.grabbed_toplevel = some t then
    some (unmap_grabbed s1 (s.toplevels t).workspace t)
  else unmap_not_grabbed L s1 (s.toplevels t).workspace t

/-! ## Grabs -/

/-- The statements of `toplevel_start_move` that take the toplevel out of its
list (toplevel.c 400-412). -/
def move_lift (L : layout_h) (s : mwc_server) (t : Nat) : mwc_server :=
  let w := (s.toplevels t).workspace
  if (s.toplevels t).floating then wl_list_remove s t
  else
    let is_master := toplevel_is_master s t
    let s2 := wl_list_remove s t
    layout_set_pending_state L
      (if is_master && !(s2.workspaces w).slaves.isEmpty then
        match list_last (s2.workspaces w).slaves with
        | some last => masters_insert_last (wl_list_remove s2 last) w last
        | none => s2
      else s2) w

/-- C function `toplevel_start_move` (toplevel.c 383-413). -/
def toplevel_start_move (L : layout_h) (s : mwc_server) (t : Nat) : mwc_server :=
  if s.grabbed_toplevel ≠ none then s
  else
    move_lift L
      (grab_begin s t mwc_cursor_mode.MWC_CURSOR_MOVE
        { x := L.X (s.toplevels t), y := L.Y (s.toplevels t)
          width := (s.toplevels t).current.width, height := (s.toplevels t).current.height })
      t

/-- C function `toplevel_start_resize` (toplevel.c 415-427). -/
def toplevel_start_resize (s : mwc_server) (t : Nat) (edges : Nat) : mwc_server :=
  if s.grabbed_toplevel ≠ none then s
  else
    assign_resize_edges
      (grab_begin s t mwc_cursor_mode.MWC_CURSOR_RESIZE (s.toplevels t).current) edges

/-- C function `toplevel_move` (toplevel.c 782-792). In
`initial_box.x + (cursor->x - grab_x)` the difference and the sum are `double`
operations, the `int` operand being converted exactly, and the sum is
converted to `int32_t`. The result is `none` when no toplevel is grabbed (the
C code dereferences `server.grabbed_toplevel`) and when a sum is outside the
range of `int32_t`, where the conversion is undefined. -/
def toplevel_move (s : mwc_server) : Option mwc_server :=
  match s.grabbed_toplevel with
  | none => none
  | some t =>
    match c_double_to_int
        (c_double_add s.grabbed_toplevel_initial_box.x (c_double_sub s.cursor_x s.grab_x)),
      c_double_to_int
        (c_double_add s.grabbed_toplevel_initial_box.y (c_double_sub s.cursor_y s.grab_y)) with
    | some new_x, some new_y =>
      some (toplevel_set_pending_state s t new_x new_y
        (s.toplevels t).current.width (s.toplevels t).current.height)
    | _, _ => none

/-- Modelled from the spec: the macro `max` of helpers.h is not under src/;
the clamp is at `max(clientMinimum, configuredMinimum)`, the larger of the
two. This is `min_width` of `toplevel_resize`. -/
def resize_min_width (s : mwc_server) (t : Nat) : Int :=
  max (s.toplevels t).min_width s.config.min_toplevel_size

/-- The local `min_height` of `toplevel_resize`. -/
def resize_min_height (s : mwc_server) (t : Nat) : Int :=
  max (s.toplevels t).min_height s.config.min_toplevel_size

/-- The block of `toplevel_resize` for the top and bottom edges
(toplevel.c 815-828): the pair `(new_y, new_height)`. The difference
`cursor->y - grab_y` and its sum with or difference from the `int` start
value are `double` operations, each result converted to `int` when it is
assigned; the block is `none` when such a conversion is undefined. -/
def resize_vertical (edges : Nat) (start_y start_height min_height : Int)
    (cursor_y grab_y : Rat) : Option (Int × Int) :=
  if edges &&& WLR_EDGE_TOP ≠ 0 then
    match c_double_to_int (c_double_add start_y (c_double_sub cursor_y grab_y)),
      c_double_to_int (c_double_sub start_height (c_double_sub cursor_y grab_y)) with
    | some new_y, some new_height =>
      if new_height ≤ min_height then some (start_y + start_height - min_height, min_height)
      else some (new_y, new_height)
    | _, _ => none
  else if edges &&& WLR_EDGE_BOTTOM ≠ 0 then
    match c_double_to_int (c_double_add start_height (c_double_sub cursor_y grab_y)) with
    | some new_height =>
      if new_height ≤ min_height then some (start_y, min_height)
      else some (start_y, new_height)
    | none => none
  else some (start_y, start_height)

/-- The block of `toplevel_resize` for the left and right edges
(toplevel.c 829-842): the pair `(new_x, new_width)`, computed like the pair
of `resize_vertical`. -/
def resize_horizontal (edges : Nat) (start_x start_width min_width : Int)
    (cursor_x grab_x : Rat) : Option (Int × Int) :=
  if edges &&& WLR_EDGE_LEFT ≠ 0 then
    match c_double_to_int (c_double_add start_x (c_double_sub cursor_x grab_x)),
      c_double_to_int (c_double_sub start_width (c_double_sub cursor_x grab_x)) with
    | some new_x, some new_width =>
      if new_width ≤ min_width then some (start_x + start_width - min_width, min_width)
      else some (new_x, new_width)
    | _, _ => none
  else if edges &&& WLR_EDGE_RIGHT ≠ 0 then
    match c_double_to_int (c_double_add start_width (c_double_sub cursor_x grab_x)) with
    | some new_width =>
      if new_width ≤ min_width then some (start_x, min_width)
      else some (start_x, new_width)
    | none => none
  else some (start_x, start_width)

/-- The box `(new_x, new_y, new_width, new_height)` that `toplevel_resize`
hands to `toplevel_set_pending_state` for the grabbed toplevel `t`; `none`
when a conversion on the way is undefined. -/
def resize_request (s : mwc_server) (t : Nat) : Option wlr_box :=
  match resize_vertical s.resize_edges s.grabbed_toplevel_initial_box.y
      s.grabbed_toplevel_initial_box.height (resize_min_height s t) s.cursor_y s.grab_y,
    resize_horizontal s.resize_edges s.grabbed_toplevel_initial_box.x
      s.grabbed_toplevel_initial_box.width (resize_min_width s t) s.cursor_x s.grab_x with
  | some v, some h => some ⟨h.1, v.1, h.2, v.2⟩
  | _, _ => none

/-- C function `toplevel_resize` (toplevel.c 794-845). The result is `none`
when no toplevel is grabbed (the C code dereferences
`server.grabbed_toplevel`) and when a conversion from `double` to `int` is
undefined. -/
def toplevel_resize (s : mwc_server) : Option mwc_server :=
  match s.grabbed_toplevel with
  | none => none
  | some t =>
    match resize_request s t with
    | some b =>
      some (toplevel_set_pending_state (assign_resizing s t true) t b.x b.y b.width b.height)
    | none => none

/-! ## Insertion at a point -/

/-- The condition under which `toplevel_tiled_insert_into_layout` links the
new toplevel in before the one under the cursor (toplevel.c 1046-1056); `x`
and `y` are `uint32_t`, and the comparisons with the `int` box fields are
made in `uint32_t` as C does. -/
def insert_before_under_cursor (s : mwc_server) (w under_cursor x y : Nat) : Bool :=
  let c := (s.toplevels under_cursor).current
  let on_left_side := decide ((x : Int) ≤ wrap_u32 (c.x + c.width.tdiv 2))
  let on_top_side := decide ((y : Int) ≤ wrap_u32 (c.y + c.height.tdiv 2))
  let under_cursor_is_master := toplevel_is_master s under_cursor
  (under_cursor_is_master
      && decide (list_last (s.workspaces w).masters = some under_cursor)
      && decide ((s.workspaces w).slaves.length > 0))
    || (under_cursor_is_master && on_left_side)
    || (!under_cursor_is_master && on_top_side)

/-- The statements of `toplevel_tiled_insert_into_layout` that move the last
master to the slaves when the masters exceed `master_count`
(toplevel.c 1062-1066). -/
def insert_demote (s : mwc_server) (w : Nat) : mwc_server :=
  if (s.workspaces w).masters.length > s.config.master_count then
    match list_last (s.workspaces w).masters with
    | some last => slaves_insert_last (wl_list_remove s last) w last
    | none => s
  else s

/-- The statement of `toplevel_tiled_insert_into_layout` that links the new
toplevel in before or after the toplevel under the cursor
(toplevel.c 1053-1060). -/
def insert_link (s : mwc_server) (w t x y under_cursor : Nat) : mwc_server :=
  if insert_before_under_cursor s w under_cursor x y then
    wl_list_insert_before s under_cursor t
  else wl_list_insert_after s under_cursor t

/-- The body of `toplevel_tiled_insert_into_layout` after
`toplevel->workspace = workspace`, for the result of `layout_toplevel_at`. -/
def insert_at (s : mwc_server) (w t x y : Nat) : Option Nat → mwc_server
  | none =>
    if (s.workspaces w).masters.length < s.config.master_count then
      masters_insert_last s w t
    else slaves_insert_last s w t
  | some under_cursor => insert_demote (insert_link s w t x y under_cursor) w

/-- C function `toplevel_tiled_insert_into_layout` (toplevel.c 1031-1068). -/
def toplevel_tiled_insert_into_layout (L : layout_h) (s : mwc_server) (t : Nat) (x y : Nat) :
    mwc_server :=
  insert_at (assign_workspace s t s.active_workspace) s.active_workspace t x y
    (L.layout_toplevel_at (assign_workspace s t s.active_workspace) s.active_workspace x y)

/-! ## Fullscreen -/

/-- The statements of `toplevel_set_fullscreen` after its guards
(toplevel.c 704-739). -/
def set_fullscreen_apply (s : mwc_server) (t : Nat) : mwc_server :=
  let w := (s.toplevels t).workspace
  let o := (s.workspaces w).output
  let output_box := (s.outputs o).layout_box
  let s1 := save_prev_geometry s t
  let s2 := assign_fullscreen_toplevel s1 w (some t)
  let s3 := assign_fullscreen s2 t true
  let s4 := wlr_xdg_toplevel_set_fullscreen s3 t true
  let s5 := toplevel_set_pending_state s4 t
    output_box.x output_box.y output_box.width output_box.height
  let s6 := wlr_scene_node_reparent s5 t scene_tree.fullscreen_tree
  let s7 := scene_set_enabled_others s6 w t false
  let s8 := layers_under_fullscreen_set_enabled s7 o false
  wlr_foreign_toplevel_handle_v1_set_fullscreen s8 t true

/-- C function `toplevel_set_fullscreen` (toplevel.c 697-740). -/
def toplevel_set_fullscreen (s : mwc_server) (t : Nat) : mwc_server :=
  if !(s.toplevels t).mapped then s
  else if (s.workspaces (s.toplevels t).workspace).fullscreen_toplevel ≠ none then s
  else if s.grabbed_toplevel = some t then s
  else set_fullscreen_apply s t

/-- The `if(toplevel->floating) ... else ...` of `toplevel_unset_fullscreen`
(toplevel.c 753-760). -/
def unset_fullscreen_restore (s : mwc_server) (t : Nat) : mwc_server :=
  if (s.toplevels t).floating then
    wlr_scene_node_reparent
      (toplevel_set_pending_state s t
        (s.toplevels t).prev_geometry.x (s.toplevels t).prev_geometry.y
        (s.toplevels t).prev_geometry.width (s.toplevels t).prev_geometry.height)
      t scene_tree.floating_tree
  else wlr_scene_node_reparent s t scene_tree.tiled_tree

/-- The statements of `toplevel_unset_fullscreen` after its guard
(toplevel.c 746-779). -/
def unset_fullscreen_apply (L : layout_h) (s : mwc_server) (t : Nat) : mwc_server :=
  let w := (s.toplevels t).workspace
  let s1 := assign_fullscreen_toplevel s w none
  let s2 := assign_fullscreen s1 t false
  let s3 := wlr_xdg_toplevel_set_fullscreen s2 t false
  let s4 := unset_fullscreen_restore s3 t
  let s5 := scene_set_enabled_others s4 w t true
  let s6 := layers_under_fullscreen_set_enabled s5 (s5.workspaces w).output true
  let s7 := layout_set_pending_state L s6 w
  wlr_foreign_toplevel_handle_v1_set_fullscreen s7 t false

/-- C function `toplevel_unset_fullscreen` (toplevel.c 742-780). -/
def toplevel_unset_fullscreen (L : layout_h) (s : mwc_server) (t : Nat) : mwc_server :=
  if (s.workspaces (s.toplevels t).workspace).fullscreen_toplevel ≠ some t then s
  else unset_fullscreen_apply L s t

/-! ## Concrete inputs -/

/-- A master-stack layout without gaps: the masters share the left half of
the usable area (all of it when there is no slave), the slaves the right
half; `X`/`Y` read the scene node position and `layout_toplevel_at` takes the
first tiled toplevel whose current box holds the point. -/
def demo_layout : layout_h where
  X := fun tl => tl.scene_x
  Y := fun tl => tl.scene_y
  calculate_masters_dimensions := fun o nm ns =>
    ((if ns = 0 then o.usable_area.width else o.usable_area.width / 2).toNat,
     (o.usable_area.height / nm).toNat)
  calculate_slaves_dimensions := fun o ns =>
    ((o.usable_area.width / 2).toNat, (o.usable_area.height / ns).toNat)
  master_box := fun o nm ns i =>
    { x := o.usable_area.x
      y := o.usable_area.y + i * (o.usable_area.height / nm)
      width := if ns = 0 then o.usable_area.width else o.usable_area.width / 2
      height := o.usable_area.height / nm }
  slave_box := fun o _ ns i =>
    { x := o.usable_area.x + o.usable_area.width / 2
      y := o.usable_area.y + i * (o.usable_area.height / ns)
      width := o.usable_area.width / 2
      height := o.usable_area.height / ns }
  layout_toplevel_at := fun s w x y =>
    ((s.workspaces w).masters ++ (s.workspaces w).slaves).find? (fun u =>
      decide ((s.toplevels u).current.x ≤ x
        ∧ x < (s.toplevels u).current.x + (s.toplevels u).current.width
        ∧ (s.toplevels u).current.y ≤ y
        ∧ y < (s.toplevels u).current.y + (s.toplevels u).current.height))

/-- A server with one 1920x1080 output, `master_count = 1`, no toplevel
linked anywhere and every toplevel record in its zero state on workspace 0. -/
def demo_server : mwc_server :=
  { outputs := fun _ =>
      { usable_area := ⟨0, 0, 1920, 1080⟩, layout_box := ⟨0, 0, 1920, 1080⟩ }
    config := { master_count := 1 } }

/-! ## Runs of events and list invariants -/

/-- No toplevel is linked into any list of any workspace. -/
def workspaces_empty (s : mwc_server) : Prop :=
  ∀ w, (s.workspaces w).floating_toplevels = [] ∧ (s.workspaces w).masters = []
    ∧ (s.workspaces w).slaves = []

/-- The toplevel is a tiled toplevel of the workspace: it is linked into its
master list or its slave list. -/
def tiled (s : mwc_server) (w u : Nat) : Prop :=
  u ∈ (s.workspaces w).masters ∨ u ∈ (s.workspaces w).slaves

instance (s : mwc_server) (w u : Nat) : Decidable (tiled s w u) :=
  inferInstanceAs (Decidable (u ∈ (s.workspaces w).masters ∨ u ∈ (s.workspaces w).slaves))

/-- The toplevel is linked into no master or slave list. -/
def not_tiled (s : mwc_server) (t : Nat) : Prop := ∀ w, ¬ tiled s w t

/-- A link is in one list only: no toplevel is tiled on two workspaces. -/
def links_disjoint (s : mwc_server) : Prop :=
  ∀ w v u, tiled s w u → tiled s v u → w = v

/-- The master list of every workspace has at most `master_count` entries. -/
def masters_bounded (s : mwc_server) : Prop :=
  ∀ w, (s.workspaces w).masters.length ≤ s.config.master_count

/-- What `layout_toplevel_at(workspace, x, y)` is relied on for: the toplevel
it returns is a tiled toplevel of that workspace. -/
def layout_toplevel_at_tiled (L : layout_h) : Prop :=
  ∀ s w x y u, L.layout_toplevel_at s w x y = some u → tiled s w u

/-- One event on a tiled toplevel: the map of a toplevel that is tiled and not
yet linked, an unmap, the start of a move grab, or the insertion of an
unlinked toplevel at a point of the active workspace. -/
inductive tiled_step (L : layout_h) : mwc_server → mwc_server → Prop
  | map (s : mwc_server) (t : Nat) (hf : (s.toplevels t).floating = false)
      (hn : not_tiled s t) : tiled_step L s (toplevel_handle_map L s t)
  | unmap (s : mwc_server) (t : Nat) (r : mwc_server)
      (h : toplevel_handle_unmap L s t = some r) : tiled_step L s r
  | start_move (s : mwc_server) (t : Nat) : tiled_step L s (toplevel_start_move L s t)
  | insert (s : mwc_server) (t x y : Nat) (hn : not_tiled s t) :
      tiled_step L s (toplevel_tiled_insert_into_layout L s t x y)

/-- Any sequence of tiled events. -/
inductive tiled_run (L : layout_h) : mwc_server → mwc_server → Prop
  | start (s : mwc_server) : tiled_run L s s
  | step (s a b : mwc_server) (h : tiled_run L s a) (e : tiled_step L a b) : tiled_run L s b

/-- Relation between the state before and after statements that link no new
toplevel into a master or slave list and lengthen no master list. -/
def no_growth (s r : mwc_server) : Prop :=
  r.config = s.config
  ∧ (∀ w u, tiled r w u → tiled s w u)
  ∧ ∀ w, (r.workspaces w).masters.length ≤ (s.workspaces w).masters.length

/-- Toplevel 1 of `demo_server` after its initial commit, with a resize
request in flight: the server asked for 800x600 with serial 2, the client has
acknowledged serial 1 only. -/
def stale_server : mwc_server :=
  set_toplevel demo_server 1
    { initialized := true, mapped := true, floating := true, dirty := true
      configure_serial := 2, acked_serial := 1
      pending := ⟨0, 0, 800, 600⟩, current := ⟨0, 0, 400, 300⟩ }

/-- The state `stale_server` during an interactive resize of toplevel 1
(`toplevel_resize` has set `resizing`). -/
def stale_resizing_server : mwc_server :=
  modify_toplevel stale_server 1 (fun tl => { tl with resizing := true })

/-- The floating toplevel 1 of the scenario of the spec: mapped at
(100,100,400,300), linked into the floating list of workspace 0, on the
1920x1080 output of `demo_server`. -/
def floating_server : mwc_server :=
  floating_insert_first
    (set_toplevel demo_server 1
      { mapped := true, floating := true
        pending := ⟨100, 100, 400, 300⟩, current := ⟨100, 100, 400, 300⟩ })
    0 1

/-- A tiled toplevel 1, master of workspace 0 with toplevel 2 as slave, whose
current box has the size of the output but is not at the output's origin. -/
def tiled_offset_server : mwc_server :=
  slaves_insert_last
    (masters_insert_last
      (set_toplevel
        (set_toplevel demo_server 1
          { mapped := true, pending := ⟨0, 0, 960, 1080⟩, current := ⟨300, 200, 1920, 1080⟩ })
        2 { mapped := true, pending := ⟨960, 0, 960, 1080⟩, current := ⟨960, 0, 960, 1080⟩ })
      0 1)
    0 2

/-- The map event of a surface: wlroots marks the surface mapped and calls
`toplevel_handle_map`. -/
def map_event (L : layout_h) (s : mwc_server) (t : Nat) : mwc_server :=
  toplevel_handle_map L (surface_set_mapped s t true) t

/-- The unmap event of a surface: wlroots marks the surface unmapped and calls
`toplevel_handle_unmap`. -/
def unmap_event (L : layout_h) (s : mwc_server) (t : Nat) : Option mwc_server :=
  toplevel_handle_unmap L (surface_set_mapped s t false) t

/-- The state of `demo_server` after the tiled toplevels 1, 2 and 3 have been
mapped in this order: 1 is the master, 2 and 3 are the slaves, 3 has focus. -/
def three_tiled_server : mwc_server :=
  map_event demo_layout (map_event demo_layout (map_event demo_layout demo_server 1) 2) 3

/-- The state `floating_server` after a resize grab on its floating toplevel 1
has started at the bottom right corner. -/
def resize_grab_server : mwc_server :=
  toplevel_start_resize floating_server 1 (WLR_EDGE_BOTTOM ||| WLR_EDGE_RIGHT)

/-- Toplevel 1 is mapped, made fullscreen, unmapped and mapped again; then
toplevel 2 is mapped and made fullscreen. -/
def fullscreen_remap_run : Option mwc_server :=
  (unmap_event demo_layout
      (toplevel_set_fullscreen (map_event demo_layout demo_server 1) 1) 1).map
    (fun s =>
      toplevel_set_fullscreen (map_event demo_layout (map_event demo_layout s 1) 2) 2)

/-- The lists of a workspace are well formed: no toplevel is linked twice,
and the toplevels in the master and slave lists are not floating. -/
def workspace_wf (s : mwc_server) (w : Nat) : Prop :=
  ((s.workspaces w).floating_toplevels ++ (s.workspaces w).masters
      ++ (s.workspaces w).slaves).Nodup
  ∧ ∀ u ∈ (s.workspaces w).masters ++ (s.workspaces w).slaves,
      (s.toplevels u).floating = false

instance (s : mwc_server) (w : Nat) : Decidable (workspace_wf s w) :=
  inferInstanceAs (Decidable (_ ∧ _))

/-- The conditions under which `focus_toplevel` returns at once: a session
lock, an exclusive client, a grab, another fullscreen toplevel on the
workspace of the toplevel, or the toplevel having focus already. -/
def focus_blocked (s : mwc_server) (t : Nat) : Prop :=
  s.lock = true ∨ s.exclusive = true ∨ s.grabbed_toplevel ≠ none
  ∨ ((s.workspaces (s.toplevels t).workspace).fullscreen_toplevel ≠ none
      ∧ (s.workspaces (s.toplevels t).workspace).fullscreen_toplevel ≠ some t)
  ∨ s.focused_toplevel = some t

instance (s : mwc_server) (t : Nat) : Decidable (focus_blocked s t) :=
  inferInstanceAs (Decidable (_ ∨ _ ∨ _ ∨ _ ∨ _))

/-- The state `toplevel_handle_unmap` works on once it has dealt with
`server.prev_focused` and the fullscreen toplevel: the lists, the focus and
the grab are those of the state the event arrived in. -/
def unmap_prepared (s : mwc_server) (t : Nat) : mwc_server :=
  unmap_clear_fullscreen (if s.prev_focused = some t then clear_prev_focused s else s)
    (s.toplevels t).workspace t

/-- The state of `toplevel_tiled_insert_into_layout` right after the new
toplevel has been linked in next to the toplevel `under_cursor` found under
the point, before the length of the master list is checked. -/
def insert_linked (s : mwc_server) (t x y under_cursor : Nat) : mwc_server :=
  insert_link (assign_workspace s t s.active_workspace) s.active_workspace t x y under_cursor

/-- The pointer moves: `server.cursor->x` and `server.cursor->y` get new
values. -/
def cursor_at (s : mwc_server) (x y : Rat) : mwc_server :=
  { s with cursor_x := x, cursor_y := y }

/-- A server like `demo_server` with `min_toplevel_size = 50` and a mapped
floating toplevel 1 at (0,0,200,200), linked into the floating list of
workspace 0. -/
def resize_base_server : mwc_server :=
  floating_insert_first
    (set_toplevel
      { outputs := fun _ =>
          { usable_area := ⟨0, 0, 1920, 1080⟩, layout_box := ⟨0, 0, 1920, 1080⟩ }
        config := { master_count := 1, min_toplevel_size := 50 } }
      1 { mapped := true, floating := true
          pending := ⟨0, 0, 200, 200⟩, current := ⟨0, 0, 200, 200⟩ })
    0 1

/-- The scenario of the spec: a resize grab on toplevel 1 of
`resize_base_server` with the top and left edges active, the cursor moved by
(+50, +30) since the grab started. -/
def resize_top_left_server : mwc_server :=
  cursor_at (toplevel_start_resize resize_base_server 1 (WLR_EDGE_TOP ||| WLR_EDGE_LEFT)) 50 30

/-- A resize grab on toplevel 1 of `resize_base_server` with the right edge
active, started with the cursor at x = 32.2 and the cursor now at x = 161.2;
the two coordinates are the doubles nearest to these decimal numbers. Their
exact difference is below 129, the difference of the doubles is 129. -/
def resize_right_fraction_server : mwc_server :=
  cursor_at
    (toplevel_start_resize
      (cursor_at resize_base_server (2265873562520781 / 70368744177664) 0) 1 WLR_EDGE_RIGHT)
    (2835860390359859 / 17592186044416) 0

/-- A resize grab on toplevel 1 of `resize_base_server` with the top edge
active, the cursor moved down by 10.5. -/
def resize_half_pixel_server : mwc_server :=
  cursor_at (toplevel_start_resize resize_base_server 1 WLR_EDGE_TOP) 0 (21 / 2)

/-- A move grab on toplevel 1 of `resize_base_server`, the cursor moved by
(+40, -25) since the grab started. -/
def move_scenario_server : mwc_server :=
  cursor_at (toplevel_start_move demo_layout resize_base_server 1) 40 (-25)

/-- The state `floating_server` after toplevel 1 was made fullscreen and the
client has committed the fullscreen size: the acknowledged serial is the
requested one and `toplevel_handle_commit` has run. -/
def fullscreen_committed_server : mwc_server :=
  toplevel_handle_commit demo_layout
    (modify_toplevel (toplevel_set_fullscreen floating_server 1) 1
      (fun tl => { tl with initialized := true, acked_serial := tl.configure_serial }))
    1

/-- The state of `demo_server` after the tiled toplevels 1 and 2 and then the
floating toplevel 3 have been mapped: 1 is the master, 2 the slave, 3 is in
the floating list and has focus. -/
def mixed_server : mwc_server :=
  map_event demo_layout
    (assign_floating (map_event demo_layout (map_event demo_layout demo_server 1) 2) 3 true) 3

/-- The state `mixed_server` after the master 1 has been given focus. -/
def mixed_master_focused_server : mwc_server :=
  focus_toplevel mixed_server 1

/-- The state of `demo_server` after `toplevel_handle_map` has run for the
tiled toplevels 1 and 2: 1 is the master, 2 the slave. -/
def two_tiled_server : mwc_server :=
  toplevel_handle_map demo_layout (toplevel_handle_map demo_layout demo_server 1) 2

/-- The state `two_tiled_server` after toplevel 7 has been inserted at the
point (10, 10), which is over the master 1. -/
def tiled_insert_server : mwc_server :=
  toplevel_tiled_insert_into_layout demo_layout two_tiled_server 7 10 10

/-- The state `tiled_insert_server` after a move grab on toplevel 7 has
started. -/
def tiled_insert_moved_server : mwc_server :=
  toplevel_start_move demo_layout tiled_insert_server 7

/-! ## Opacity rules -/

/-- The assignments `toplevel->inactive_opacity = inactive;
toplevel->active_opacity = active;`. -/
def assign_opacity (s : mwc_server) (t : Nat) (active inactive : Rat) : mwc_server :=
  modify_toplevel s t (fun tl =>
    { tl with active_opacity := active, inactive_opacity := inactive })

/-- The loop of `toplevel_recheck_opacity_rules` over the opacity rules: the
pair `(active_value, inactive_value)` of the rule at which the loop breaks,
`none` when it runs to the end with `set == false`. -/
def opacity_rule_of (tl : mwc_toplevel) : List window_rule_opacity → Option (Rat × Rat)
  | [] => none
  | r :: rest =>
    if toplevel_matches_window_rule tl r.condition then
      some (r.active_value, r.inactive_value)
    else opacity_rule_of tl rest

/-- C function `toplevel_recheck_opacity_rules` (toplevel.c 485-504). -/
def toplevel_recheck_opacity_rules (s : mwc_server) (t : Nat) : mwc_server :=
  match opacity_rule_of (s.toplevels t) s.config.rules_opacity with
  | some v => assign_opacity s t v.1 v.2
  | none => assign_opacity s t s.config.active_opacity s.config.inactive_opacity

/-! ## Creation and destruction -/

/-- The listeners `server_handle_new_toplevel` hands to `wl_signal_add`, in
the order of the source (toplevel.c 57-87). -/
def new_toplevel_listeners : List toplevel_listener :=
  [toplevel_listener.map, toplevel_listener.unmap, toplevel_listener.commit,
   toplevel_listener.destroy, toplevel_listener.request_move,
   toplevel_listener.request_resize, toplevel_listener.request_maximize,
   toplevel_listener.request_fullscreen, toplevel_listener.set_app_id,
   toplevel_listener.set_title]

/-- C function `server_handle_new_toplevel` (toplevel.c 34-88): the record the
handle denotes is fresh (`calloc`), with the opacities of the configuration,
the active workspace and the ten listeners registered. -/
def server_handle_new_toplevel (s : mwc_server) (t : Nat) : mwc_server :=
  set_toplevel s t
    { workspace := s.active_workspace
      active_opacity := s.config.active_opacity
      inactive_opacity := s.config.inactive_opacity
      listeners := new_toplevel_listeners }

/-- Library call `wl_list_remove(&toplevel->l.link)` for a listener `l` of
the toplevel. -/
def listener_remove (s : mwc_server) (t : Nat) (l : toplevel_listener) : mwc_server :=
  modify_toplevel s t (fun tl => { tl with listeners := tl.listeners.erase l })

/-- C function `toplevel_handle_destroy` (toplevel.c 358-374): the eight
calls of `wl_list_remove` in the order of the source. The call
`wlr_foreign_toplevel_handle_v1_destroy` acts on the foreign handle alone and
`free(toplevel)` ends the life of the record; the links that are in the
listener list of a signal at that moment stay there. -/
def toplevel_handle_destroy (s : mwc_server) (t : Nat) : mwc_server :=
  listener_remove
    (listener_remove
      (listener_remove
        (listener_remove
          (listener_remove
            (listener_remove
              (listener_remove
                (listener_remove s t toplevel_listener.map)
                t toplevel_listener.unmap)
              t toplevel_listener.commit)
            t toplevel_listener.destroy)
          t toplevel_listener.request_move)
        t toplevel_listener.request_resize)
      t toplevel_listener.request_maximize)
    t toplevel_listener.request_fullscreen

/-! ## Closest floating toplevel -/

/-- Values of `enum mwc_direction`. -/
inductive mwc_direction where
  | MWC_UP
  | MWC_DOWN
  | MWC_LEFT
  | MWC_RIGHT
deriving DecidableEq, Repr

/-- Constant `UINT32_MAX` of stdint.h. -/
def UINT32_MAX : Int := 4294967295

/-- The value `abs((int)a - b)` as it is stored in a `uint32_t`. -/
def abs_difference (a b : Int) : Int := wrap_u32 |wrap_i32 (a - b)|

/-- One round of a loop of `toplevel_find_closest_floating_on_workspace`:
`skip` is the test in front of `continue`, `d` the distance computed for the
toplevel of the round, and the pair is `(min, min_val)`. -/
def closest_round (skip : Nat → Bool) (d : Nat → Int) (acc : Option Nat × Int) (u : Nat) :
    Option Nat × Int :=
  if skip u then acc
  else if d u < acc.2 then (some u, d u)
  else acc

/-- A loop `wl_list_for_each(t, &workspace->floating_toplevels, link)` of
`toplevel_find_closest_floating_on_workspace`, started with `min = NULL` and
`min_val = UINT32_MAX`; the result is `min`. -/
def closest_loop (skip : Nat → Bool) (d : Nat → Int) (l : List Nat) : Option Nat :=
  (l.foldl (closest_round skip d) (none, UINT32_MAX)).1

/-- C function `toplevel_find_closest_floating_on_workspace`
(toplevel.c 909-964). The result is `none` when `assert(toplevel->floating)`
fails, and `some min` otherwise. -/
def toplevel_find_closest_floating_on_workspace (L : layout_h) (s : mwc_server) (t : Nat)
    (direction : mwc_direction) : Option (Option Nat) :=
  if !(s.toplevels t).floating then none
  else
    match direction with
    | mwc_direction.MWC_UP =>
      some (closest_loop
        (fun u => u == t || decide (L.Y (s.toplevels u) > L.Y (s.toplevels t)))
        (fun u => abs_difference (L.Y (s.toplevels t)) (L.Y (s.toplevels u)))
        (s.workspaces (s.toplevels t).workspace).floating_toplevels)
    | mwc_direction.MWC_DOWN =>
      some (closest_loop
        (fun u => u == t || decide (L.Y (s.toplevels u) < L.Y (s.toplevels t)))
        (fun u => abs_difference (L.Y (s.toplevels t)) (L.Y (s.toplevels u)))
        (s.workspaces (s.toplevels t).workspace).floating_toplevels)
    | mwc_direction.MWC_LEFT =>
      some (closest_loop
        (fun u => u == t || decide (L.X (s.toplevels u) > L.X (s.toplevels t)))
        (fun u => abs_difference (L.X (s.toplevels t)) (L.X (s.toplevels u)))
        (s.workspaces (s.toplevels t).workspace).floating_toplevels)
    | mwc_direction.MWC_RIGHT =>
      some (closest_loop
        (fun u => u == t || decide (L.X (s.toplevels u) < L.X (s.toplevels t)))
        (fun u => abs_difference (L.X (s.toplevels t)) (L.X (s.toplevels u)))
        (s.workspaces (s.toplevels t).workspace).floating_toplevels)

/-- The side of `t` a direction asks for, in the words of the contract: a
coordinate not above that of `t` for up and left, not below it for down and
right. -/
def on_requested_side (L : layout_h) (s : mwc_server) (t : Nat) (direction : mwc_direction)
    (u : Nat) : Prop :=
  match direction with
  | mwc_direction.MWC_UP => L.Y (s.toplevels u) ≤ L.Y (s.toplevels t)
  | mwc_direction.MWC_DOWN => L.Y (s.toplevels t) ≤ L.Y (s.toplevels u)
  | mwc_direction.MWC_LEFT => L.X (s.toplevels u) ≤ L.X (s.toplevels t)
  | mwc_direction.MWC_RIGHT => L.X (s.toplevels t) ≤ L.X (s.toplevels u)

/-- The absolute coordinate distance of the contract: along `y` for up and
down, along `x` for left and right. -/
def coordinate_distance (L : layout_h) (s : mwc_server) (t : Nat) (direction : mwc_direction)
    (u : Nat) : Int :=
  match direction with
  | mwc_direction.MWC_UP => |L.Y (s.toplevels t) - L.Y (s.toplevels u)|
  | mwc_direction.MWC_DOWN => |L.Y (s.toplevels t) - L.Y (s.toplevels u)|
  | mwc_direction.MWC_LEFT => |L.X (s.toplevels t) - L.X (s.toplevels u)|
  | mwc_direction.MWC_RIGHT => |L.X (s.toplevels t) - L.X (s.toplevels u)|

/-! ## More concrete inputs -/

/-- A session lock is taken: `server.lock` is set. -/
def session_lock (s : mwc_server) : mwc_server :=
  { s with lock := true }

/-- The state `three_tiled_server` (masters [1], slaves [2, 3], focus on 3)
under a session lock. -/
def locked_three_tiled_server : mwc_server :=
  session_lock three_tiled_server

/-- The state `three_tiled_server` after a move grab on the slave 2 has
started (masters [1], slaves [3], focus on 3) and a session lock has been
taken. -/
def locked_move_server : mwc_server :=
  session_lock (toplevel_start_move demo_layout three_tiled_server 2)

/-- The state of `demo_server` after the tiled toplevel 1 has been mapped: it
is the master, has focus and is marked activated. -/
def one_tiled_server : mwc_server :=
  map_event demo_layout demo_server 1

/-- Size rule for the app-id "term": half the usable width, 300 high. -/
def size_rule_term : window_rule_size :=
  { condition := { has_app_id_regex := true, app_id_regex := fun a => a == "term" }
    relative_width := true, width := 50, relative_height := false, height := 300 }

/-- Size rule for the title "dialog": 400 wide, 100 percent of the usable
height. -/
def size_rule_dialog : window_rule_size :=
  { condition := { has_title_regex := true, title_regex := fun a => a == "dialog" }
    relative_width := false, width := 400, relative_height := true, height := 100 }

/-- Size rule without patterns: 100 percent of the usable width, 50 percent
of the usable height. -/
def size_rule_any : window_rule_size :=
  { condition := {}
    relative_width := true, width := 100, relative_height := true, height := 50 }

/-- Opacity rule for the app-id "term". -/
def opacity_rule_term : window_rule_opacity :=
  { condition := { has_app_id_regex := true, app_id_regex := fun a => a == "term" }
    active_value := 9 / 10, inactive_value := 7 / 10 }

/-- Opacity rule for every toplevel that has an app-id. -/
def opacity_rule_app : window_rule_opacity :=
  { condition := { has_app_id_regex := true, app_id_regex := fun _ => true }
    active_value := 1, inactive_value := 1 / 2 }

/-- A server like `demo_server` with a usable area of 1920x1050, the size
rules `size_rule_term`, `size_rule_dialog`, `size_rule_any` and the opacity
rules `opacity_rule_term`, `opacity_rule_app`, in this order. Toplevel 4 has
the app-id "term", toplevel 5 the title "dialog", the others have neither. -/
def size_rules_server : mwc_server :=
  set_toplevel
    (set_toplevel
      { outputs := fun _ =>
          { usable_area := ⟨0, 30, 1920, 1050⟩, layout_box := ⟨0, 0, 1920, 1080⟩ }
        config :=
          { master_count := 1
            rules_size := [size_rule_term, size_rule_dialog, size_rule_any]
            rules_opacity := [opacity_rule_term, opacity_rule_app] } }
      4 { app_id := some "term", floating := true })
    5 { title := some "dialog", floating := true }

/-- A server with the floating toplevels 1, 2, 3 and 4 in the floating list
of workspace 0, in this order, at the positions (100,100), (40,100), (160,90)
and (40,300). -/
def closest_demo_server : mwc_server :=
  floating_insert_first
    (floating_insert_first
      (floating_insert_first
        (floating_insert_first
          (set_toplevel
            (set_toplevel
              (set_toplevel
                (set_toplevel demo_server 1
                  { floating := true, mapped := true, scene_x := 100, scene_y := 100 })
                2 { floating := true, mapped := true, scene_x := 40, scene_y := 100 })
              3 { floating := true, mapped := true, scene_x := 160, scene_y := 90 })
            4 { floating := true, mapped := true, scene_x := 40, scene_y := 300 })
          0 4)
        0 3)
      0 2)
    0 1

/-- The master and slave list of one workspace are in order for
`master_count = mc`: no toplevel is linked twice, there are at most `mc`
masters, and exactly `mc` of them when there is a slave. -/
def slots_ok (mc : Nat) (M S : List Nat) : Prop :=
  (M ++ S).Nodup ∧ M.length ≤ mc ∧ (S ≠ [] → M.length = mc)

/-- The invariant of the tiled lists: the lists of every workspace are in
order, a linked toplevel belongs to the workspace it is linked in, and every
toplevel is a tiled one. -/
def slots_invariant (s : mwc_server) : Prop :=
  (∀ w, slots_ok s.config.master_count (s.workspaces w).masters (s.workspaces w).slaves)
  ∧ (∀ w u, tiled s w u → (s.toplevels u).workspace = w)
  ∧ ∀ u, (s.toplevels u).floating = false

/-- Relation between the state before and after statements that leave the
configuration, the master and slave lists, and the `floating` and `workspace`
fields of every toplevel as they are. -/
def same_tiling (s r : mwc_server) : Prop :=
  r.config = s.config
  ∧ (∀ v, (r.workspaces v).masters = (s.workspaces v).masters
      ∧ (r.workspaces v).slaves = (s.workspaces v).slaves)
  ∧ ∀ u, (r.toplevels u).floating = (s.toplevels u).floating
      ∧ (r.toplevels u).workspace = (s.toplevels u).workspace

/-- The client of toplevel `t` acknowledges the last configure and commits its
surface: the xdg surface is initialized, the acknowledged serial is the
requested one, and wlroots calls `toplevel_handle_commit`. -/
def commit_event (L : layout_h) (s : mwc_server) (t : Nat) : mwc_server :=
  toplevel_handle_commit L
    (modify_toplevel s t
      (fun tl => { tl with initialized := true, acked_serial := tl.configure_serial })) t

/-- The state `three_tiled_server` after the clients of toplevels 1 and 2
have committed the sizes the layout asked of them: the current boxes are
(0,0,960,1080) for the master 1, (960,0,960,540) for the slave 2 and
(960,540,960,540) for the slave 3. -/
def three_tiled_settled_server : mwc_server :=
  commit_event demo_layout (commit_event demo_layout three_tiled_server 1) 2

/-! ## Frame lemmas: what a single statement leaves alone -/

@[simp] theorem wlr_xdg_toplevel_set_activated_server (s : mwc_server) (t : Nat) (b : Bool) :
    (wlr_xdg_toplevel_set_activated s t b).workspaces = s.workspaces
    ∧ (wlr_xdg_toplevel_set_activated s t b).outputs = s.outputs
    ∧ (wlr_xdg_toplevel_set_activated s t b).config = s.config
    ∧ (wlr_xdg_toplevel_set_activated s t b).active_workspace = s.active_workspace
    ∧ (wlr_xdg_toplevel_set_activated s t b).focused_toplevel = s.focused_toplevel
    ∧ (wlr_xdg_toplevel_set_activated s t b).prev_focused = s.prev_focused
    ∧ (wlr_xdg_toplevel_set_activated s t b).grabbed_toplevel = s.grabbed_toplevel
    ∧ (wlr_xdg_toplevel_set_activated s t b).cursor_mode = s.cursor_mode
    ∧ (wlr_xdg_toplevel_set_activated s t b).cursor_x = s.cursor_x
    ∧ (wlr_xdg_toplevel_set_activated s t b).cursor_y = s.cursor_y
    ∧ (wlr_xdg_toplevel_set_activated s t b).grab_x = s.grab_x
    ∧ (wlr_xdg_toplevel_set_activated s t b).grab_y = s.grab_y
    ∧ (wlr_xdg_toplevel_set_activated s t b).grabbed_toplevel_initial_box = s.grabbed_toplevel_initial_box
    ∧ (wlr_xdg_toplevel_set_activated s t b).resize_edges = s.resize_edges
    ∧ (wlr_xdg_toplevel_set_activated s t b).client_driven_move_resize = s.client_driven_move_resize
    ∧ (wlr_xdg_toplevel_set_activated s t b).lock = s.lock
    ∧ (wlr_xdg_toplevel_set_activated s t b).exclusive = s.exclusive
    ∧ (wlr_xdg_toplevel_set_activated s t b).has_keyboard = s.has_keyboard
    ∧ (wlr_xdg_toplevel_set_activated s t b).keyboard_focus = s.keyboard_focus
    ∧ (wlr_xdg_toplevel_set_activated s t b).ipc_active_toplevel_events = s.ipc_active_toplevel_events
    ∧ (wlr_xdg_toplevel_set_activated s t b).display_serial = s.display_serial := by
  refine ⟨rfl, rfl, rfl, rfl, rfl, rfl, rfl, rfl, rfl, rfl, rfl, rfl, rfl, rfl, rfl, rfl, rfl, rfl, rfl, rfl, rfl⟩

theorem wlr_xdg_toplevel_set_activated_other (s : mwc_server) (t : Nat) (b : Bool) (u : Nat) (h : u ≠ t) :
    (wlr_xdg_toplevel_set_activated s t b).toplevels u = s.toplevels u := by
  simp [wlr_xdg_toplevel_set_activated, modify_toplevel, set_toplevel, h]

@[simp] theorem wlr_xdg_toplevel_set_activated_fields (s : mwc_server) (t : Nat) (b : Bool) (u : Nat) :
    ((wlr_xdg_toplevel_set_activated s t b).toplevels u).workspace = (s.toplevels u).workspace
    ∧ ((wlr_xdg_toplevel_set_activated s t b).toplevels u).floating = (s.toplevels u).floating
    ∧ ((wlr_xdg_toplevel_set_activated s t b).toplevels u).fullscreen = (s.toplevels u).fullscreen
    ∧ ((wlr_xdg_toplevel_set_activated s t b).toplevels u).resizing = (s.toplevels u).resizing
    ∧ ((wlr_xdg_toplevel_set_activated s t b).toplevels u).dirty = (s.toplevels u).dirty
    ∧ ((wlr_xdg_toplevel_set_activated s t b).toplevels u).pending = (s.toplevels u).pending
    ∧ ((wlr_xdg_toplevel_set_activated s t b).toplevels u).current = (s.toplevels u).current
    ∧ ((wlr_xdg_toplevel_set_activated s t b).toplevels u).prev_geometry = (s.toplevels u).prev_geometry
    ∧ ((wlr_xdg_toplevel_set_activated s t b).toplevels u).configure_serial = (s.toplevels u).configure_serial
    ∧ ((wlr_xdg_toplevel_set_activated s t b).toplevels u).animation = (s.toplevels u).animation
    ∧ ((wlr_xdg_toplevel_set_activated s t b).toplevels u).active_opacity = (s.toplevels u).active_opacity
    ∧ ((wlr_xdg_toplevel_set_activated s t b).toplevels u).inactive_opacity = (s.toplevels u).inactive_opacity
    ∧ ((wlr_xdg_toplevel_set_activated s t b).toplevels u).mapped = (s.toplevels u).mapped
    ∧ ((wlr_xdg_toplevel_set_activated s t b).toplevels u).initialized = (s.toplevels u).initialized
    ∧ ((wlr_xdg_toplevel_set_activated s t b).toplevels u).initial_commit = (s.toplevels u).initial_commit
    ∧ ((wlr_xdg_toplevel_set_activated s t b).toplevels u).acked_serial = (s.toplevels u).acked_serial
    ∧ ((wlr_xdg_toplevel_set_activated s t b).toplevels u).geometry = (s.toplevels u).geometry
    ∧ ((wlr_xdg_toplevel_set_activated s t b).toplevels u).app_id = (s.toplevels u).app_id
    ∧ ((wlr_xdg_toplevel_set_activated s t b).toplevels u).title = (s.toplevels u).title
    ∧ ((wlr_xdg_toplevel_set_activated s t b).toplevels u).min_width = (s.toplevels u).min_width
    ∧ ((wlr_xdg_toplevel_set_activated s t b).toplevels u).min_height = (s.toplevels u).min_height
    ∧ ((wlr_xdg_toplevel_set_activated s t b).toplevels u).max_width = (s.toplevels u).max_width
    ∧ ((wlr_xdg_toplevel_set_activated s t b).toplevels u).max_height = (s.toplevels u).max_height
    ∧ ((wlr_xdg_toplevel_set_activated s t b).toplevels u).has_parent = (s.toplevels u).has_parent
    ∧ ((wlr_xdg_toplevel_set_activated s t b).toplevels u).requested_fullscreen = (s.toplevels u).requested_fullscreen
    ∧ ((wlr_xdg_toplevel_set_activated s t b).toplevels u).xdg_size = (s.toplevels u).xdg_size
    ∧ ((wlr_xdg_toplevel_set_activated s t b).toplevels u).xdg_maximized = (s.toplevels u).xdg_maximized
    ∧ ((wlr_xdg_toplevel_set_activated s t b).toplevels u).xdg_tiled = (s.toplevels u).xdg_tiled
    ∧ ((wlr_xdg_toplevel_set_activated s t b).toplevels u).xdg_fullscreen = (s.toplevels u).xdg_fullscreen
    ∧ ((wlr_xdg_toplevel_set_activated s t b).toplevels u).foreign_activated = (s.toplevels u).foreign_activated
    ∧ ((wlr_xdg_toplevel_set_activated s t b).toplevels u).foreign_fullscreen = (s.toplevels u).foreign_fullscreen
    ∧ ((wlr_xdg_toplevel_set_activated s t b).toplevels u).scene_parent = (s.toplevels u).scene_parent
    ∧ ((wlr_xdg_toplevel_set_activated s t b).toplevels u).scene_enabled = (s.toplevels u).scene_enabled
    ∧ ((wlr_xdg_toplevel_set_activated s t b).toplevels u).scene_x = (s.toplevels u).scene_x
    ∧ ((wlr_xdg_toplevel_set_activated s t b).toplevels u).scene_y = (s.toplevels u).scene_y := by
  unfold wlr_xdg_toplevel_set_activated modify_toplevel set_toplevel
  by_cases h : u = t <;> simp [h]

@[simp] theorem wlr_foreign_toplevel_handle_v1_set_activated_server (s : mwc_server) (t : Nat) (b : Bool) :
    (wlr_foreign_toplevel_handle_v1_set_activated s t b).workspaces = s.workspaces
    ∧ (wlr_foreign_toplevel_handle_v1_set_activated s t b).outputs = s.outputs
    ∧ (wlr_foreign_toplevel_handle_v1_set_activated s t b).config = s.config
    ∧ (wlr_foreign_toplevel_handle_v1_set_activated s t b).active_workspace = s.active_workspace
    ∧ (wlr_foreign_toplevel_handle_v1_set_activated s t b).focused_toplevel = s.focused_toplevel
    ∧ (wlr_foreign_toplevel_handle_v1_set_activated s t b).prev_focused = s.prev_focused
    ∧ (wlr_foreign_toplevel_handle_v1_set_activated s t b).grabbed_toplevel = s.grabbed_toplevel
    ∧ (wlr_foreign_toplevel_handle_v1_set_activated s t b).cursor_mode = s.cursor_mode
    ∧ (wlr_foreign_toplevel_handle_v1_set_activated s t b).cursor_x = s.cursor_x
    ∧ (wlr_foreign_toplevel_handle_v1_set_activated s t b).cursor_y = s.cursor_y
    ∧ (wlr_foreign_toplevel_handle_v1_set_activated s t b).grab_x = s.grab_x
    ∧ (wlr_foreign_toplevel_handle_v1_set_activated s t b).grab_y = s.grab_y
    ∧ (wlr_foreign_toplevel_handle_v1_set_activated s t b).grabbed_toplevel_initial_box = s.grabbed_toplevel_initial_box
    ∧ (wlr_foreign_toplevel_handle_v1_set_activated s t b).resize_edges = s.resize_edges
    ∧ (wlr_foreign_toplevel_handle_v1_set_activated s t b).client_driven_move_resize = s.client_driven_move_resize
    ∧ (wlr_foreign_toplevel_handle_v1_set_activated s t b).lock = s.lock
    ∧ (wlr_foreign_toplevel_handle_v1_set_activated s t b).exclusive = s.exclusive
    ∧ (wlr_foreign_toplevel_handle_v1_set_activated s t b).has_keyboard = s.has_keyboard
    ∧ (wlr_foreign_toplevel_handle_v1_set_activated s t b).keyboard_focus = s.keyboard_focus
    ∧ (wlr_foreign_toplevel_handle_v1_set_activated s t b).ipc_active_toplevel_events = s.ipc_active_toplevel_events
    ∧ (wlr_foreign_toplevel_handle_v1_set_activated s t b).display_serial = s.display_serial := by
  refine ⟨rfl, rfl, rfl, rfl, rfl, rfl, rfl, rfl, rfl, rfl, rfl, rfl, rfl, rfl, rfl, rfl, rfl, rfl, rfl, rfl, rfl⟩

theorem wlr_foreign_toplevel_handle_v1_set_activated_other (s : mwc_server) (t : Nat) (b : Bool) (u : Nat) (h : u ≠ t) :
    (wlr_foreign_toplevel_handle_v1_set_activated s t b).toplevels u = s.toplevels u := by
  simp [wlr_foreign_toplevel_handle_v1_set_activated, modify_toplevel, set_toplevel, h]

@[simp] theorem wlr_foreign_toplevel_handle_v1_set_activated_fields (s : mwc_server) (t : Nat) (b : Bool) (u : Nat) :
    ((wlr_foreign_toplevel_handle_v1_set_activated s t b).toplevels u).workspace = (s.toplevels u).workspace
    ∧ ((wlr_foreign_toplevel_handle_v1_set_activated s t b).toplevels u).floating = (s.toplevels u).floating
    ∧ ((wlr_foreign_toplevel_handle_v1_set_activated s t b).toplevels u).fullscreen = (s.toplevels u).fullscreen
    ∧ ((wlr_foreign_toplevel_handle_v1_set_activated s t b).toplevels u).resizing = (s.toplevels u).resizing
    ∧ ((wlr_foreign_toplevel_handle_v1_set_activated s t b).toplevels u).dirty = (s.toplevels u).dirty
    ∧ ((wlr_foreign_toplevel_handle_v1_set_activated s t b).toplevels u).pending = (s.toplevels u).pending
    ∧ ((wlr_foreign_toplevel_handle_v1_set_activated s t b).toplevels u).current = (s.toplevels u).current
    ∧ ((wlr_foreign_toplevel_handle_v1_set_activated s t b).toplevels u).prev_geometry = (s.toplevels u).prev_geometry
    ∧ ((wlr_foreign_toplevel_handle_v1_set_activated s t b).toplevels u).configure_serial = (s.toplevels u).configure_serial
    ∧ ((wlr_foreign_toplevel_handle_v1_set_activated s t b).toplevels u).animation = (s.toplevels u).animation
    ∧ ((wlr_foreign_toplevel_handle_v1_set_activated s t b).toplevels u).active_opacity = (s.toplevels u).active_opacity
    ∧ ((wlr_foreign_toplevel_handle_v1_set_activated s t b).toplevels u).inactive_opacity = (s.toplevels u).inactive_opacity
    ∧ ((wlr_foreign_toplevel_handle_v1_set_activated s t b).toplevels u).mapped = (s.toplevels u).mapped
    ∧ ((wlr_foreign_toplevel_handle_v1_set_activated s t b).toplevels u).initialized = (s.toplevels u).initialized
    ∧ ((wlr_foreign_toplevel_handle_v1_set_activated s t b).toplevels u).initial_commit = (s.toplevels u).initial_commit
    ∧ ((wlr_foreign_toplevel_handle_v1_set_activated s t b).toplevels u).acked_serial = (s.toplevels u).acked_serial
    ∧ ((wlr_foreign_toplevel_handle_v1_set_activated s t b).toplevels u).geometry = (s.toplevels u).geometry
    ∧ ((wlr_foreign_toplevel_handle_v1_set_activated s t b).toplevels u).app_id = (s.toplevels u).app_id
    ∧ ((wlr_foreign_toplevel_handle_v1_set_activated s t b).toplevels u).title = (s.toplevels u).title
    ∧ ((wlr_foreign_toplevel_handle_v1_set_activated s t b).toplevels u).min_width = (s.toplevels u).min_width
    ∧ ((wlr_foreign_toplevel_handle_v1_set_activated s t b).toplevels u).min_height = (s.toplevels u).min_height
    ∧ ((wlr_foreign_toplevel_handle_v1_set_activated s t b).toplevels u).max_width = (s.toplevels u).max_width
    ∧ ((wlr_foreign_toplevel_handle_v1_set_activated s t b).toplevels u).max_height = (s.toplevels u).max_height
    ∧ ((wlr_foreign_toplevel_handle_v1_set_activated s t b).toplevels u).has_parent = (s.toplevels u).has_parent
    ∧ ((wlr_foreign_toplevel_handle_v1_set_activated s t b).toplevels u).requested_fullscreen = (s.toplevels u).requested_fullscreen
    ∧ ((wlr_foreign_toplevel_handle_v1_set_activated s t b).toplevels u).xdg_size = (s.toplevels u).xdg_size
    ∧ ((wlr_foreign_toplevel_handle_v1_set_activated s t b).toplevels u).xdg_maximized = (s.toplevels u).xdg_maximized
    ∧ ((wlr_foreign_toplevel_handle_v1_set_activated s t b).toplevels u).xdg_tiled = (s.toplevels u).xdg_tiled
    ∧ ((wlr_foreign_toplevel_handle_v1_set_activated s t b).toplevels u).xdg_fullscreen = (s.toplevels u).xdg_fullscreen
    ∧ ((wlr_foreign_toplevel_handle_v1_set_activated s t b).toplevels u).xdg_activated = (s.toplevels u).xdg_activated
    ∧ ((wlr_foreign_toplevel_handle_v1_set_activated s t b).toplevels u).foreign_fullscreen = (s.toplevels u).foreign_fullscreen
    ∧ ((wlr_foreign_toplevel_handle_v1_set_activated s t b).toplevels u).scene_parent = (s.toplevels u).scene_parent
    ∧ ((wlr_foreign_toplevel_handle_v1_set_activated s t b).toplevels u).scene_enabled = (s.toplevels u).scene_enabled
    ∧ ((wlr_foreign_toplevel_handle_v1_set_activated s t b).toplevels u).scene_x = (s.toplevels u).scene_x
    ∧ ((wlr_foreign_toplevel_handle_v1_set_activated s t b).toplevels u).scene_y = (s.toplevels u).scene_y := by
  unfold wlr_foreign_toplevel_handle_v1_set_activated modify_toplevel set_toplevel
  by_cases h : u = t <;> simp [h]

@[simp] theorem wlr_xdg_toplevel_set_fullscreen_server (s : mwc_server) (t : Nat) (b : Bool) :
    (wlr_xdg_toplevel_set_fullscreen s t b).workspaces = s.workspaces
    ∧ (wlr_xdg_toplevel_set_fullscreen s t b).outputs = s.outputs
    ∧ (wlr_xdg_toplevel_set_fullscreen s t b).config = s.config
    ∧ (wlr_xdg_toplevel_set_fullscreen s t b).active_workspace = s.active_workspace
    ∧ (wlr_xdg_toplevel_set_fullscreen s t b).focused_toplevel = s.focused_toplevel
    ∧ (wlr_xdg_toplevel_set_fullscreen s t b).prev_focused = s.prev_focused
    ∧ (wlr_xdg_toplevel_set_fullscreen s t b).grabbed_toplevel = s.grabbed_toplevel
    ∧ (wlr_xdg_toplevel_set_fullscreen s t b).cursor_mode = s.cursor_mode
    ∧ (wlr_xdg_toplevel_set_fullscreen s t b).cursor_x = s.cursor_x
    ∧ (wlr_xdg_toplevel_set_fullscreen s t b).cursor_y = s.cursor_y
    ∧ (wlr_xdg_toplevel_set_fullscreen s t b).grab_x = s.grab_x
    ∧ (wlr_xdg_toplevel_set_fullscreen s t b).grab_y = s.grab_y
    ∧ (wlr_xdg_toplevel_set_fullscreen s t b).grabbed_toplevel_initial_box = s.grabbed_toplevel_initial_box
    ∧ (wlr_xdg_toplevel_set_fullscreen s t b).resize_edges = s.resize_edges
    ∧ (wlr_xdg_toplevel_set_fullscreen s t b).client_driven_move_resize = s.client_driven_move_resize
    ∧ (wlr_xdg_toplevel_set_fullscreen s t b).lock = s.lock
    ∧ (wlr_xdg_toplevel_set_fullscreen s t b).exclusive = s.exclusive
    ∧ (wlr_xdg_toplevel_set_fullscreen s t b).has_keyboard = s.has_keyboard
    ∧ (wlr_xdg_toplevel_set_fullscreen s t b).keyboard_focus = s.keyboard_focus
    ∧ (wlr_xdg_toplevel_set_fullscreen s t b).ipc_active_toplevel_events = s.ipc_active_toplevel_events
    ∧ (wlr_xdg_toplevel_set_fullscreen s t b).display_serial = s.display_serial := by
  refine ⟨rfl, rfl, rfl, rfl, rfl, rfl, rfl, rfl, rfl, rfl, rfl, rfl, rfl, rfl, rfl, rfl, rfl, rfl, rfl, rfl, rfl⟩

theorem wlr_xdg_toplevel_set_fullscreen_other (s : mwc_server) (t : Nat) (b : Bool) (u : Nat) (h : u ≠ t) :
    (wlr_xdg_toplevel_set_fullscreen s t b).toplevels u = s.toplevels u := by
  simp [wlr_xdg_toplevel_set_fullscreen, modify_toplevel, set_toplevel, h]

@[simp] theorem wlr_xdg_toplevel_set_fullscreen_fields (s : mwc_server) (t : Nat) (b : Bool) (u : Nat) :
    ((wlr_xdg_toplevel_set_fullscreen s t b).toplevels u).workspace = (s.toplevels u).workspace
    ∧ ((wlr_xdg_toplevel_set_fullscreen s t b).toplevels u).floating = (s.toplevels u).floating
    ∧ ((wlr_xdg_toplevel_set_fullscreen s t b).toplevels u).fullscreen = (s.toplevels u).fullscreen
    ∧ ((wlr_xdg_toplevel_set_fullscreen s t b).toplevels u).resizing = (s.toplevels u).resizing
    ∧ ((wlr_xdg_toplevel_set_fullscreen s t b).toplevels u).dirty = (s.toplevels u).dirty
    ∧ ((wlr_xdg_toplevel_set_fullscreen s t b).toplevels u).pending = (s.toplevels u).pending
    ∧ ((wlr_xdg_toplevel_set_fullscreen s t b).toplevels u).current = (s.toplevels u).current
    ∧ ((wlr_xdg_toplevel_set_fullscreen s t b).toplevels u).prev_geometry = (s.toplevels u).prev_geometry
    ∧ ((wlr_xdg_toplevel_set_fullscreen s t b).toplevels u).configure_serial = (s.toplevels u).configure_serial
    ∧ ((wlr_xdg_toplevel_set_fullscreen s t b).toplevels u).animation = (s.toplevels u).animation
    ∧ ((wlr_xdg_toplevel_set_fullscreen s t b).toplevels u).active_opacity = (s.toplevels u).active_opacity
    ∧ ((wlr_xdg_toplevel_set_fullscreen s t b).toplevels u).inactive_opacity = (s.toplevels u).inactive_opacity
    ∧ ((wlr_xdg_toplevel_set_fullscreen s t b).toplevels u).mapped = (s.toplevels u).mapped
    ∧ ((wlr_xdg_toplevel_set_fullscreen s t b).toplevels u).initialized = (s.toplevels u).initialized
    ∧ ((wlr_xdg_toplevel_set_fullscreen s t b).toplevels u).initial_commit = (s.toplevels u).initial_commit
    ∧ ((wlr_xdg_toplevel_set_fullscreen s t b).toplevels u).acked_serial = (s.toplevels u).acked_serial
    ∧ ((wlr_xdg_toplevel_set_fullscreen s t b).toplevels u).geometry = (s.toplevels u).geometry
    ∧ ((wlr_xdg_toplevel_set_fullscreen s t b).toplevels u).app_id = (s.toplevels u).app_id
    ∧ ((wlr_xdg_toplevel_set_fullscreen s t b).toplevels u).title = (s.toplevels u).title
    ∧ ((wlr_xdg_toplevel_set_fullscreen s t b).toplevels u).min_width = (s.toplevels u).min_width
    ∧ ((wlr_xdg_toplevel_set_fullscreen s t b).toplevels u).min_height = (s.toplevels u).min_height
    ∧ ((wlr_xdg_toplevel_set_fullscreen s t b).toplevels u).max_width = (s.toplevels u).max_width
    ∧ ((wlr_xdg_toplevel_set_fullscreen s t b).toplevels u).max_height = (s.toplevels u).max_height
    ∧ ((wlr_xdg_toplevel_set_fullscreen s t b).toplevels u).has_parent = (s.toplevels u).has_parent
    ∧ ((wlr_xdg_toplevel_set_fullscreen s t b).toplevels u).requested_fullscreen = (s.toplevels u).requested_fullscreen
    ∧ ((wlr_xdg_toplevel_set_fullscreen s t b).toplevels u).xdg_size = (s.toplevels u).xdg_size
    ∧ ((wlr_xdg_toplevel_set_fullscreen s t b).toplevels u).xdg_maximized = (s.toplevels u).xdg_maximized
    ∧ ((wlr_xdg_toplevel_set_fullscreen s t b).toplevels u).xdg_tiled = (s.toplevels u).xdg_tiled
    ∧ ((wlr_xdg_toplevel_set_fullscreen s t b).toplevels u).xdg_activated = (s.toplevels u).xdg_activated
    ∧ ((wlr_xdg_toplevel_set_fullscreen s t b).toplevels u).foreign_activated = (s.toplevels u).foreign_activated
    ∧ ((wlr_xdg_toplevel_set_fullscreen s t b).toplevels u).foreign_fullscreen = (s.toplevels u).foreign_fullscreen
    ∧ ((wlr_xdg_toplevel_set_fullscreen s t b).toplevels u).scene_parent = (s.toplevels u).scene_parent
    ∧ ((wlr_xdg_toplevel_set_fullscreen s t b).toplevels u).scene_enabled = (s.toplevels u).scene_enabled
    ∧ ((wlr_xdg_toplevel_set_fullscreen s t b).toplevels u).scene_x = (s.toplevels u).scene_x
    ∧ ((wlr_xdg_toplevel_set_fullscreen s t b).toplevels u).scene_y = (s.toplevels u).scene_y := by
  unfold wlr_xdg_toplevel_set_fullscreen modify_toplevel set_toplevel
  by_cases h : u = t <;> simp [h]

@[simp] theorem wlr_foreign_toplevel_handle_v1_set_fullscreen_server (s : mwc_server) (t : Nat) (b : Bool) :
    (wlr_foreign_toplevel_handle_v1_set_fullscreen s t b).workspaces = s.workspaces
    ∧ (wlr_foreign_toplevel_handle_v1_set_fullscreen s t b).outputs = s.outputs
    ∧ (wlr_foreign_toplevel_handle_v1_set_fullscreen s t b).config = s.config
    ∧ (wlr_foreign_toplevel_handle_v1_set_fullscreen s t b).active_workspace = s.active_workspace
    ∧ (wlr_foreign_toplevel_handle_v1_set_fullscreen s t b).focused_toplevel = s.focused_toplevel
    ∧ (wlr_foreign_toplevel_handle_v1_set_fullscreen s t b).prev_focused = s.prev_focused
    ∧ (wlr_foreign_toplevel_handle_v1_set_fullscreen s t b).grabbed_toplevel = s.grabbed_toplevel
    ∧ (wlr_foreign_toplevel_handle_v1_set_fullscreen s t b).cursor_mode = s.cursor_mode
    ∧ (wlr_foreign_toplevel_handle_v1_set_fullscreen s t b).cursor_x = s.cursor_x
    ∧ (wlr_foreign_toplevel_handle_v1_set_fullscreen s t b).cursor_y = s.cursor_y
    ∧ (wlr_foreign_toplevel_handle_v1_set_fullscreen s t b).grab_x = s.grab_x
    ∧ (wlr_foreign_toplevel_handle_v1_set_fullscreen s t b).grab_y = s.grab_y
    ∧ (wlr_foreign_toplevel_handle_v1_set_fullscreen s t b).grabbed_toplevel_initial_box = s.grabbed_toplevel_initial_box
    ∧ (wlr_foreign_toplevel_handle_v1_set_fullscreen s t b).resize_edges = s.resize_edges
    ∧ (wlr_foreign_toplevel_handle_v1_set_fullscreen s t b).client_driven_move_resize = s.client_driven_move_resize
    ∧ (wlr_foreign_toplevel_handle_v1_set_fullscreen s t b).lock = s.lock
    ∧ (wlr_foreign_toplevel_handle_v1_set_fullscreen s t b).exclusive = s.exclusive
    ∧ (wlr_foreign_toplevel_handle_v1_set_fullscreen s t b).has_keyboard = s.has_keyboard
    ∧ (wlr_foreign_toplevel_handle_v1_set_fullscreen s t b).keyboard_focus = s.keyboard_focus
    ∧ (wlr_foreign_toplevel_handle_v1_set_fullscreen s t b).ipc_active_toplevel_events = s.ipc_active_toplevel_events
    ∧ (wlr_foreign_toplevel_handle_v1_set_fullscreen s t b).display_serial = s.display_serial := by
  refine ⟨rfl, rfl, rfl, rfl, rfl, rfl, rfl, rfl, rfl, rfl, rfl, rfl, rfl, rfl, rfl, rfl, rfl, rfl, rfl, rfl, rfl⟩

theorem wlr_foreign_toplevel_handle_v1_set_fullscreen_other (s : mwc_server) (t : Nat) (b : Bool) (u : Nat) (h : u ≠ t) :
    (wlr_foreign_toplevel_handle_v1_set_fullscreen s t b).toplevels u = s.toplevels u := by
  simp [wlr_foreign_toplevel_handle_v1_set_fullscreen, modify_toplevel, set_toplevel, h]

@[simp] theorem wlr_foreign_toplevel_handle_v1_set_fullscreen_fields (s : mwc_server) (t : Nat) (b : Bool) (u : Nat) :
    ((wlr_foreign_toplevel_handle_v1_set_fullscreen s t b).toplevels u).workspace = (s.toplevels u).workspace
    ∧ ((wlr_foreign_toplevel_handle_v1_set_fullscreen s t b).toplevels u).floating = (s.toplevels u).floating
    ∧ ((wlr_foreign_toplevel_handle_v1_set_fullscreen s t b).toplevels u).fullscreen = (s.toplevels u).fullscreen
    ∧ ((wlr_foreign_toplevel_handle_v1_set_fullscreen s t b).toplevels u).resizing = (s.toplevels u).resizing
    ∧ ((wlr_foreign_toplevel_handle_v1_set_fullscreen s t b).toplevels u).dirty = (s.toplevels u).dirty
    ∧ ((wlr_foreign_toplevel_handle_v1_set_fullscreen s t b).toplevels u).pending = (s.toplevels u).pending
    ∧ ((wlr_foreign_toplevel_handle_v1_set_fullscreen s t b).toplevels u).current = (s.toplevels u).current
    ∧ ((wlr_foreign_toplevel_handle_v1_set_fullscreen s t b).toplevels u).prev_geometry = (s.toplevels u).prev_geometry
    ∧ ((wlr_foreign_toplevel_handle_v1_set_fullscreen s t b).toplevels u).configure_serial = (s.toplevels u).configure_serial
    ∧ ((wlr_foreign_toplevel_handle_v1_set_fullscreen s t b).toplevels u).animation = (s.toplevels u).animation
    ∧ ((wlr_foreign_toplevel_handle_v1_set_fullscreen s t b).toplevels u).active_opacity = (s.toplevels u).active_opacity
    ∧ ((wlr_foreign_toplevel_handle_v1_set_fullscreen s t b).toplevels u).inactive_opacity = (s.toplevels u).inactive_opacity
    ∧ ((wlr_foreign_toplevel_handle_v1_set_fullscreen s t b).toplevels u).mapped = (s.toplevels u).mapped
    ∧ ((wlr_foreign_toplevel_handle_v1_set_fullscreen s t b).toplevels u).initialized = (s.toplevels u).initialized
    ∧ ((wlr_foreign_toplevel_handle_v1_set_fullscreen s t b).toplevels u).initial_commit = (s.toplevels u).initial_commit
    ∧ ((wlr_foreign_toplevel_handle_v1_set_fullscreen s t b).toplevels u).acked_serial = (s.toplevels u).acked_serial
    ∧ ((wlr_foreign_toplevel_handle_v1_set_fullscreen s t b).toplevels u).geometry = (s.toplevels u).geometry
    ∧ ((wlr_foreign_toplevel_handle_v1_set_fullscreen s t b).toplevels u).app_id = (s.toplevels u).app_id
    ∧ ((wlr_foreign_toplevel_handle_v1_set_fullscreen s t b).toplevels u).title = (s.toplevels u).title
    ∧ ((wlr_foreign_toplevel_handle_v1_set_fullscreen s t b).toplevels u).min_width = (s.toplevels u).min_width
    ∧ ((wlr_foreign_toplevel_handle_v1_set_fullscreen s t b).toplevels u).min_height = (s.toplevels u).min_height
    ∧ ((wlr_foreign_toplevel_handle_v1_set_fullscreen s t b).toplevels u).max_width = (s.toplevels u).max_width
    ∧ ((wlr_foreign_toplevel_handle_v1_set_fullscreen s t b).toplevels u).max_height = (s.toplevels u).max_height
    ∧ ((wlr_foreign_toplevel_handle_v1_set_fullscreen s t b).toplevels u).has_parent = (s.toplevels u).has_parent
    ∧ ((wlr_foreign_toplevel_handle_v1_set_fullscreen s t b).toplevels u).requested_fullscreen = (s.toplevels u).requested_fullscreen
    ∧ ((wlr_foreign_toplevel_handle_v1_set_fullscreen s t b).toplevels u).xdg_size = (s.toplevels u).xdg_size
    ∧ ((wlr_foreign_toplevel_handle_v1_set_fullscreen s t b).toplevels u).xdg_maximized = (s.toplevels u).xdg_maximized
    ∧ ((wlr_foreign_toplevel_handle_v1_set_fullscreen s t b).toplevels u).xdg_tiled = (s.toplevels u).xdg_tiled
    ∧ ((wlr_foreign_toplevel_handle_v1_set_fullscreen s t b).toplevels u).xdg_fullscreen = (s.toplevels u).xdg_fullscreen
    ∧ ((wlr_foreign_toplevel_handle_v1_set_fullscreen s t b).toplevels u).xdg_activated = (s.toplevels u).xdg_activated
    ∧ ((wlr_foreign_toplevel_handle_v1_set_fullscreen s t b).toplevels u).foreign_activated = (s.toplevels u).foreign_activated
    ∧ ((wlr_foreign_toplevel_handle_v1_set_fullscreen s t b).toplevels u).scene_parent = (s.toplevels u).scene_parent
    ∧ ((wlr_foreign_toplevel_handle_v1_set_fullscreen s t b).toplevels u).scene_enabled = (s.toplevels u).scene_enabled
    ∧ ((wlr_foreign_toplevel_handle_v1_set_fullscreen s t b).toplevels u).scene_x = (s.toplevels u).scene_x
    ∧ ((wlr_foreign_toplevel_handle_v1_set_fullscreen s t b).toplevels u).scene_y = (s.toplevels u).scene_y := by
  unfold wlr_foreign_toplevel_handle_v1_set_fullscreen modify_toplevel set_toplevel
  by_cases h : u = t <;> simp [h]

@[simp] theorem wlr_scene_xdg_surface_create_server (s : mwc_server) (t : Nat) (tree : scene_tree) :
    (wlr_scene_xdg_surface_create s t tree).workspaces = s.workspaces
    ∧ (wlr_scene_xdg_surface_create s t tree).outputs = s.outputs
    ∧ (wlr_scene_xdg_surface_create s t tree).config = s.config
    ∧ (wlr_scene_xdg_surface_create s t tree).active_workspace = s.active_workspace
    ∧ (wlr_scene_xdg_surface_create s t tree).focused_toplevel = s.focused_toplevel
    ∧ (wlr_scene_xdg_surface_create s t tree).prev_focused = s.prev_focused
    ∧ (wlr_scene_xdg_surface_create s t tree).grabbed_toplevel = s.grabbed_toplevel
    ∧ (wlr_scene_xdg_surface_create s t tree).cursor_mode = s.cursor_mode
    ∧ (wlr_scene_xdg_surface_create s t tree).cursor_x = s.cursor_x
    ∧ (wlr_scene_xdg_surface_create s t tree).cursor_y = s.cursor_y
    ∧ (wlr_scene_xdg_surface_create s t tree).grab_x = s.grab_x
    ∧ (wlr_scene_xdg_surface_create s t tree).grab_y = s.grab_y
    ∧ (wlr_scene_xdg_surface_create s t tree).grabbed_toplevel_initial_box = s.grabbed_toplevel_initial_box
    ∧ (wlr_scene_xdg_surface_create s t tree).resize_edges = s.resize_edges
    ∧ (wlr_scene_xdg_surface_create s t tree).client_driven_move_resize = s.client_driven_move_resize
    ∧ (wlr_scene_xdg_surface_create s t tree).lock = s.lock
    ∧ (wlr_scene_xdg_surface_create s t tree).exclusive = s.exclusive
    ∧ (wlr_scene_xdg_surface_create s t tree).has_keyboard = s.has_keyboard
    ∧ (wlr_scene_xdg_surface_create s t tree).keyboard_focus = s.keyboard_focus
    ∧ (wlr_scene_xdg_surface_create s t tree).ipc_active_toplevel_events = s.ipc_active_toplevel_events
    ∧ (wlr_scene_xdg_surface_create s t tree).display_serial = s.display_serial := by
  refine ⟨rfl, rfl, rfl, rfl, rfl, rfl, rfl, rfl, rfl, rfl, rfl, rfl, rfl, rfl, rfl, rfl, rfl, rfl, rfl, rfl, rfl⟩

theorem wlr_scene_xdg_surface_create_other (s : mwc_server) (t : Nat) (tree : scene_tree) (u : Nat) (h : u ≠ t) :
    (wlr_scene_xdg_surface_create s t tree).toplevels u = s.toplevels u := by
  simp [wlr_scene_xdg_surface_create, modify_toplevel, set_toplevel, h]

@[simp] theorem wlr_scene_xdg_surface_create_fields (s : mwc_server) (t : Nat) (tree : scene_tree) (u : Nat) :
    ((wlr_scene_xdg_surface_create s t tree).toplevels u).workspace = (s.toplevels u).workspace
    ∧ ((wlr_scene_xdg_surface_create s t tree).toplevels u).floating = (s.toplevels u).floating
    ∧ ((wlr_scene_xdg_surface_create s t tree).toplevels u).fullscreen = (s.toplevels u).fullscreen
    ∧ ((wlr_scene_xdg_surface_create s t tree).toplevels u).resizing = (s.toplevels u).resizing
    ∧ ((wlr_scene_xdg_surface_create s t tree).toplevels u).dirty = (s.toplevels u).dirty
    ∧ ((wlr_scene_xdg_surface_create s t tree).toplevels u).pending = (s.toplevels u).pending
    ∧ ((wlr_scene_xdg_surface_create s t tree).toplevels u).current = (s.toplevels u).current
    ∧ ((wlr_scene_xdg_surface_create s t tree).toplevels u).prev_geometry = (s.toplevels u).prev_geometry
    ∧ ((wlr_scene_xdg_surface_create s t tree).toplevels u).configure_serial = (s.toplevels u).configure_serial
    ∧ ((wlr_scene_xdg_surface_create s t tree).toplevels u).animation = (s.toplevels u).animation
    ∧ ((wlr_scene_xdg_surface_create s t tree).toplevels u).active_opacity = (s.toplevels u).active_opacity
    ∧ ((wlr_scene_xdg_surface_create s t tree).toplevels u).inactive_opacity = (s.toplevels u).inactive_opacity
    ∧ ((wlr_scene_xdg_surface_create s t tree).toplevels u).mapped = (s.toplevels u).mapped
    ∧ ((wlr_scene_xdg_surface_create s t tree).toplevels u).initialized = (s.toplevels u).initialized
    ∧ ((wlr_scene_xdg_surface_create s t tree).toplevels u).initial_commit = (s.toplevels u).initial_commit
    ∧ ((wlr_scene_xdg_surface_create s t tree).toplevels u).acked_serial = (s.toplevels u).acked_serial
    ∧ ((wlr_scene_xdg_surface_create s t tree).toplevels u).geometry = (s.toplevels u).geometry
    ∧ ((wlr_scene_xdg_surface_create s t tree).toplevels u).app_id = (s.toplevels u).app_id
    ∧ ((wlr_scene_xdg_surface_create s t tree).toplevels u).title = (s.toplevels u).title
    ∧ ((wlr_scene_xdg_surface_create s t tree).toplevels u).min_width = (s.toplevels u).min_width
    ∧ ((wlr_scene_xdg_surface_create s t tree).toplevels u).min_height = (s.toplevels u).min_height
    ∧ ((wlr_scene_xdg_surface_create s t tree).toplevels u).max_width = (s.toplevels u).max_width
    ∧ ((wlr_scene_xdg_surface_create s t tree).toplevels u).max_height = (s.toplevels u).max_height
    ∧ ((wlr_scene_xdg_surface_create s t tree).toplevels u).has_parent = (s.toplevels u).has_parent
    ∧ ((wlr_scene_xdg_surface_create s t tree).toplevels u).requested_fullscreen = (s.toplevels u).requested_fullscreen
    ∧ ((wlr_scene_xdg_surface_create s t tree).toplevels u).xdg_size = (s.toplevels u).xdg_size
    ∧ ((wlr_scene_xdg_surface_create s t tree).toplevels u).xdg_maximized = (s.toplevels u).xdg_maximized
    ∧ ((wlr_scene_xdg_surface_create s t tree).toplevels u).xdg_tiled = (s.toplevels u).xdg_tiled
    ∧ ((wlr_scene_xdg_surface_create s t tree).toplevels u).xdg_fullscreen = (s.toplevels u).xdg_fullscreen
    ∧ ((wlr_scene_xdg_surface_create s t tree).toplevels u).xdg_activated = (s.toplevels u).xdg_activated
    ∧ ((wlr_scene_xdg_surface_create s t tree).toplevels u).foreign_activated = (s.toplevels u).foreign_activated
    ∧ ((wlr_scene_xdg_surface_create s t tree).toplevels u).foreign_fullscreen = (s.toplevels u).foreign_fullscreen
    ∧ ((wlr_scene_xdg_surface_create s t tree).toplevels u).scene_x = (s.toplevels u).scene_x
    ∧ ((wlr_scene_xdg_surface_create s t tree).toplevels u).scene_y = (s.toplevels u).scene_y := by
  unfold wlr_scene_xdg_surface_create modify_toplevel set_toplevel
  by_cases h : u = t <;> simp [h]

@[simp] theorem wlr_scene_node_reparent_server (s : mwc_server) (t : Nat) (tree : scene_tree) :
    (wlr_scene_node_reparent s t tree).workspaces = s.workspaces
    ∧ (wlr_scene_node_reparent s t tree).outputs = s.outputs
    ∧ (wlr_scene_node_reparent s t tree).config = s.config
    ∧ (wlr_scene_node_reparent s t tree).active_workspace = s.active_workspace
    ∧ (wlr_scene_node_reparent s t tree).focused_toplevel = s.focused_toplevel
    ∧ (wlr_scene_node_reparent s t tree).prev_focused = s.prev_focused
    ∧ (wlr_scene_node_reparent s t tree).grabbed_toplevel = s.grabbed_toplevel
    ∧ (wlr_scene_node_reparent s t tree).cursor_mode = s.cursor_mode
    ∧ (wlr_scene_node_reparent s t tree).cursor_x = s.cursor_x
    ∧ (wlr_scene_node_reparent s t tree).cursor_y = s.cursor_y
    ∧ (wlr_scene_node_reparent s t tree).grab_x = s.grab_x
    ∧ (wlr_scene_node_reparent s t tree).grab_y = s.grab_y
    ∧ (wlr_scene_node_reparent s t tree).grabbed_toplevel_initial_box = s.grabbed_toplevel_initial_box
    ∧ (wlr_scene_node_reparent s t tree).resize_edges = s.resize_edges
    ∧ (wlr_scene_node_reparent s t tree).client_driven_move_resize = s.client_driven_move_resize
    ∧ (wlr_scene_node_reparent s t tree).lock = s.lock
    ∧ (wlr_scene_node_reparent s t tree).exclusive = s.exclusive
    ∧ (wlr_scene_node_reparent s t tree).has_keyboard = s.has_keyboard
    ∧ (wlr_scene_node_reparent s t tree).keyboard_focus = s.keyboard_focus
    ∧ (wlr_scene_node_reparent s t tree).ipc_active_toplevel_events = s.ipc_active_toplevel_events
    ∧ (wlr_scene_node_reparent s t tree).display_serial = s.display_serial := by
  refine ⟨rfl, rfl, rfl, rfl, rfl, rfl, rfl, rfl, rfl, rfl, rfl, rfl, rfl, rfl, rfl, rfl, rfl, rfl, rfl, rfl, rfl⟩

theorem wlr_scene_node_reparent_other (s : mwc_server) (t : Nat) (tree : scene_tree) (u : Nat) (h : u ≠ t) :
    (wlr_scene_node_reparent s t tree).toplevels u = s.toplevels u := by
  simp [wlr_scene_node_reparent, modify_toplevel, set_toplevel, h]

@[simp] theorem wlr_scene_node_reparent_fields (s : mwc_server) (t : Nat) (tree : scene_tree) (u : Nat) :
    ((wlr_scene_node_reparent s t tree).toplevels u).workspace = (s.toplevels u).workspace
    ∧ ((wlr_scene_node_reparent s t tree).toplevels u).floating = (s.toplevels u).floating
    ∧ ((wlr_scene_node_reparent s t tree).toplevels u).fullscreen = (s.toplevels u).fullscreen
    ∧ ((wlr_scene_node_reparent s t tree).toplevels u).resizing = (s.toplevels u).resizing
    ∧ ((wlr_scene_node_reparent s t tree).toplevels u).dirty = (s.toplevels u).dirty
    ∧ ((wlr_scene_node_reparent s t tree).toplevels u).pending = (s.toplevels u).pending
    ∧ ((wlr_scene_node_reparent s t tree).toplevels u).current = (s.toplevels u).current
    ∧ ((wlr_scene_node_reparent s t tree).toplevels u).prev_geometry = (s.toplevels u).prev_geometry
    ∧ ((wlr_scene_node_reparent s t tree).toplevels u).configure_serial = (s.toplevels u).configure_serial
    ∧ ((wlr_scene_node_reparent s t tree).toplevels u).animation = (s.toplevels u).animation
    ∧ ((wlr_scene_node_reparent s t tree).toplevels u).active_opacity = (s.toplevels u).active_opacity
    ∧ ((wlr_scene_node_reparent s t tree).toplevels u).inactive_opacity = (s.toplevels u).inactive_opacity
    ∧ ((wlr_scene_node_reparent s t tree).toplevels u).mapped = (s.toplevels u).mapped
    ∧ ((wlr_scene_node_reparent s t tree).toplevels u).initialized = (s.toplevels u).initialized
    ∧ ((wlr_scene_node_reparent s t tree).toplevels u).initial_commit = (s.toplevels u).initial_commit
    ∧ ((wlr_scene_node_reparent s t tree).toplevels u).acked_serial = (s.toplevels u).acked_serial
    ∧ ((wlr_scene_node_reparent s t tree).toplevels u).geometry = (s.toplevels u).geometry
    ∧ ((wlr_scene_node_reparent s t tree).toplevels u).app_id = (s.toplevels u).app_id
    ∧ ((wlr_scene_node_reparent s t tree).toplevels u).title = (s.toplevels u).title
    ∧ ((wlr_scene_node_reparent s t tree).toplevels u).min_width = (s.toplevels u).min_width
    ∧ ((wlr_scene_node_reparent s t tree).toplevels u).min_height = (s.toplevels u).min_height
    ∧ ((wlr_scene_node_reparent s t tree).toplevels u).max_width = (s.toplevels u).max_width
    ∧ ((wlr_scene_node_reparent s t tree).toplevels u).max_height = (s.toplevels u).max_height
    ∧ ((wlr_scene_node_reparent s t tree).toplevels u).has_parent = (s.toplevels u).has_parent
    ∧ ((wlr_scene_node_reparent s t tree).toplevels u).requested_fullscreen = (s.toplevels u).requested_fullscreen
    ∧ ((wlr_scene_node_reparent s t tree).toplevels u).xdg_size = (s.toplevels u).xdg_size
    ∧ ((wlr_scene_node_reparent s t tree).toplevels u).xdg_maximized = (s.toplevels u).xdg_maximized
    ∧ ((wlr_scene_node_reparent s t tree).toplevels u).xdg_tiled = (s.toplevels u).xdg_tiled
    ∧ ((wlr_scene_node_reparent s t tree).toplevels u).xdg_fullscreen = (s.toplevels u).xdg_fullscreen
    ∧ ((wlr_scene_node_reparent s t tree).toplevels u).xdg_activated = (s.toplevels u).xdg_activated
    ∧ ((wlr_scene_node_reparent s t tree).toplevels u).foreign_activated = (s.toplevels u).foreign_activated
    ∧ ((wlr_scene_node_reparent s t tree).toplevels u).foreign_fullscreen = (s.toplevels u).foreign_fullscreen
    ∧ ((wlr_scene_node_reparent s t tree).toplevels u).scene_enabled = (s.toplevels u).scene_enabled
    ∧ ((wlr_scene_node_reparent s t tree).toplevels u).scene_x = (s.toplevels u).scene_x
    ∧ ((wlr_scene_node_reparent s t tree).toplevels u).scene_y = (s.toplevels u).scene_y := by
  unfold wlr_scene_node_reparent modify_toplevel set_toplevel
  by_cases h : u = t <;> simp [h]

@[simp] theorem wlr_scene_node_set_position_server (s : mwc_server) (t : Nat) (x y : Int) :
    (wlr_scene_node_set_position s t x y).workspaces = s.workspaces
    ∧ (wlr_scene_node_set_position s t x y).outputs = s.outputs
    ∧ (wlr_scene_node_set_position s t x y).config = s.config
    ∧ (wlr_scene_node_set_position s t x y).active_workspace = s.active_workspace
    ∧ (wlr_scene_node_set_position s t x y).focused_toplevel = s.focused_toplevel
    ∧ (wlr_scene_node_set_position s t x y).prev_focused = s.prev_focused
    ∧ (wlr_scene_node_set_position s t x y).grabbed_toplevel = s.grabbed_toplevel
    ∧ (wlr_scene_node_set_position s t x y).cursor_mode = s.cursor_mode
    ∧ (wlr_scene_node_set_position s t x y).cursor_x = s.cursor_x
    ∧ (wlr_scene_node_set_position s t x y).cursor_y = s.cursor_y
    ∧ (wlr_scene_node_set_position s t x y).grab_x = s.grab_x
    ∧ (wlr_scene_node_set_position s t x y).grab_y = s.grab_y
    ∧ (wlr_scene_node_set_position s t x y).grabbed_toplevel_initial_box = s.grabbed_toplevel_initial_box
    ∧ (wlr_scene_node_set_position s t x y).resize_edges = s.resize_edges
    ∧ (wlr_scene_node_set_position s t x y).client_driven_move_resize = s.client_driven_move_resize
    ∧ (wlr_scene_node_set_position s t x y).lock = s.lock
    ∧ (wlr_scene_node_set_position s t x y).exclusive = s.exclusive
    ∧ (wlr_scene_node_set_position s t x y).has_keyboard = s.has_keyboard
    ∧ (wlr_scene_node_set_position s t x y).keyboard_focus = s.keyboard_focus
    ∧ (wlr_scene_node_set_position s t x y).ipc_active_toplevel_events = s.ipc_active_toplevel_events
    ∧ (wlr_scene_node_set_position s t x y).display_serial = s.display_serial := by
  refine ⟨rfl, rfl, rfl, rfl, rfl, rfl, rfl, rfl, rfl, rfl, rfl, rfl, rfl, rfl, rfl, rfl, rfl, rfl, rfl, rfl, rfl⟩

theorem wlr_scene_node_set_position_other (s : mwc_server) (t : Nat) (x y : Int) (u : Nat) (h : u ≠ t) :
    (wlr_scene_node_set_position s t x y).toplevels u = s.toplevels u := by
  simp [wlr_scene_node_set_position, modify_toplevel, set_toplevel, h]

@[simp] theorem wlr_scene_node_set_position_fields (s : mwc_server) (t : Nat) (x y : Int) (u : Nat) :
    ((wlr_scene_node_set_position s t x y).toplevels u).workspace = (s.toplevels u).workspace
    ∧ ((wlr_scene_node_set_position s t x y).toplevels u).floating = (s.toplevels u).floating
    ∧ ((wlr_scene_node_set_position s t x y).toplevels u).fullscreen = (s.toplevels u).fullscreen
    ∧ ((wlr_scene_node_set_position s t x y).toplevels u).resizing = (s.toplevels u).resizing
    ∧ ((wlr_scene_node_set_position s t x y).toplevels u).dirty = (s.toplevels u).dirty
    ∧ ((wlr_scene_node_set_position s t x y).toplevels u).pending = (s.toplevels u).pending
    ∧ ((wlr_scene_node_set_position s t x y).toplevels u).current = (s.toplevels u).current
    ∧ ((wlr_scene_node_set_position s t x y).toplevels u).prev_geometry = (s.toplevels u).prev_geometry
    ∧ ((wlr_scene_node_set_position s t x y).toplevels u).configure_serial = (s.toplevels u).configure_serial
    ∧ ((wlr_scene_node_set_position s t x y).toplevels u).animation = (s.toplevels u).animation
    ∧ ((wlr_scene_node_set_position s t x y).toplevels u).active_opacity = (s.toplevels u).active_opacity
    ∧ ((wlr_scene_node_set_position s t x y).toplevels u).inactive_opacity = (s.toplevels u).inactive_opacity
    ∧ ((wlr_scene_node_set_position s t x y).toplevels u).mapped = (s.toplevels u).mapped
    ∧ ((wlr_scene_node_set_position s t x y).toplevels u).initialized = (s.toplevels u).initialized
    ∧ ((wlr_scene_node_set_position s t x y).toplevels u).initial_commit = (s.toplevels u).initial_commit
    ∧ ((wlr_scene_node_set_position s t x y).toplevels u).acked_serial = (s.toplevels u).acked_serial
    ∧ ((wlr_scene_node_set_position s t x y).toplevels u).geometry = (s.toplevels u).geometry
    ∧ ((wlr_scene_node_set_position s t x y).toplevels u).app_id = (s.toplevels u).app_id
    ∧ ((wlr_scene_node_set_position s t x y).toplevels u).title = (s.toplevels u).title
    ∧ ((wlr_scene_node_set_position s t x y).toplevels u).min_width = (s.toplevels u).min_width
    ∧ ((wlr_scene_node_set_position s t x y).toplevels u).min_height = (s.toplevels u).min_height
    ∧ ((wlr_scene_node_set_position s t x y).toplevels u).max_width = (s.toplevels u).max_width
    ∧ ((wlr_scene_node_set_position s t x y).toplevels u).max_height = (s.toplevels u).max_height
    ∧ ((wlr_scene_node_set_position s t x y).toplevels u).has_parent = (s.toplevels u).has_parent
    ∧ ((wlr_scene_node_set_position s t x y).toplevels u).requested_fullscreen = (s.toplevels u).requested_fullscreen
    ∧ ((wlr_scene_node_set_position s t x y).toplevels u).xdg_size = (s.toplevels u).xdg_size
    ∧ ((wlr_scene_node_set_position s t x y).toplevels u).xdg_maximized = (s.toplevels u).xdg_maximized
    ∧ ((wlr_scene_node_set_position s t x y).toplevels u).xdg_tiled = (s.toplevels u).xdg_tiled
    ∧ ((wlr_scene_node_set_position s t x y).toplevels u).xdg_fullscreen = (s.toplevels u).xdg_fullscreen
    ∧ ((wlr_scene_node_set_position s t x y).toplevels u).xdg_activated = (s.toplevels u).xdg_activated
    ∧ ((wlr_scene_node_set_position s t x y).toplevels u).foreign_activated = (s.toplevels u).foreign_activated
    ∧ ((wlr_scene_node_set_position s t x y).toplevels u).foreign_fullscreen = (s.toplevels u).foreign_fullscreen
    ∧ ((wlr_scene_node_set_position s t x y).toplevels u).scene_parent = (s.toplevels u).scene_parent
    ∧ ((wlr_scene_node_set_position s t x y).toplevels u).scene_enabled = (s.toplevels u).scene_enabled := by
  unfold wlr_scene_node_set_position modify_toplevel set_toplevel
  by_cases h : u = t <;> simp [h]

@[simp] theorem wlr_scene_node_set_enabled_server (s : mwc_server) (t : Nat) (b : Bool) :
    (wlr_scene_node_set_enabled s t b).workspaces = s.workspaces
    ∧ (wlr_scene_node_set_enabled s t b).outputs = s.outputs
    ∧ (wlr_scene_node_set_enabled s t b).config = s.config
    ∧ (wlr_scene_node_set_enabled s t b).active_workspace = s.active_workspace
    ∧ (wlr_scene_node_set_enabled s t b).focused_toplevel = s.focused_toplevel
    ∧ (wlr_scene_node_set_enabled s t b).prev_focused = s.prev_focused
    ∧ (wlr_scene_node_set_enabled s t b).grabbed_toplevel = s.grabbed_toplevel
    ∧ (wlr_scene_node_set_enabled s t b).cursor_mode = s.cursor_mode
    ∧ (wlr_scene_node_set_enabled s t b).cursor_x = s.cursor_x
    ∧ (wlr_scene_node_set_enabled s t b).cursor_y = s.cursor_y
    ∧ (wlr_scene_node_set_enabled s t b).grab_x = s.grab_x
    ∧ (wlr_scene_node_set_enabled s t b).grab_y = s.grab_y
    ∧ (wlr_scene_node_set_enabled s t b).grabbed_toplevel_initial_box = s.grabbed_toplevel_initial_box
    ∧ (wlr_scene_node_set_enabled s t b).resize_edges = s.resize_edges
    ∧ (wlr_scene_node_set_enabled s t b).client_driven_move_resize = s.client_driven_move_resize
    ∧ (wlr_scene_node_set_enabled s t b).lock = s.lock
    ∧ (wlr_scene_node_set_enabled s t b).exclusive = s.exclusive
    ∧ (wlr_scene_node_set_enabled s t b).has_keyboard = s.has_keyboard
    ∧ (wlr_scene_node_set_enabled s t b).keyboard_focus = s.keyboard_focus
    ∧ (wlr_scene_node_set_enabled s t b).ipc_active_toplevel_events = s.ipc_active_toplevel_events
    ∧ (wlr_scene_node_set_enabled s t b).display_serial = s.display_serial := by
  refine ⟨rfl, rfl, rfl, rfl, rfl, rfl, rfl, rfl, rfl, rfl, rfl, rfl, rfl, rfl, rfl, rfl, rfl, rfl, rfl, rfl, rfl⟩

theorem wlr_scene_node_set_enabled_other (s : mwc_server) (t : Nat) (b : Bool) (u : Nat) (h : u ≠ t) :
    (wlr_scene_node_set_enabled s t b).toplevels u = s.toplevels u := by
  simp [wlr_scene_node_set_enabled, modify_toplevel, set_toplevel, h]

@[simp] theorem wlr_scene_node_set_enabled_fields (s : mwc_server) (t : Nat) (b : Bool) (u : Nat) :
    ((wlr_scene_node_set_enabled s t b).toplevels u).workspace = (s.toplevels u).workspace
    ∧ ((wlr_scene_node_set_enabled s t b).toplevels u).floating = (s.toplevels u).floating
    ∧ ((wlr_scene_node_set_enabled s t b).toplevels u).fullscreen = (s.toplevels u).fullscreen
    ∧ ((wlr_scene_node_set_enabled s t b).toplevels u).resizing = (s.toplevels u).resizing
    ∧ ((wlr_scene_node_set_enabled s t b).toplevels u).dirty = (s.toplevels u).dirty
    ∧ ((wlr_scene_node_set_enabled s t b).toplevels u).pending = (s.toplevels u).pending
    ∧ ((wlr_scene_node_set_enabled s t b).toplevels u).current = (s.toplevels u).current
    ∧ ((wlr_scene_node_set_enabled s t b).toplevels u).prev_geometry = (s.toplevels u).prev_geometry
    ∧ ((wlr_scene_node_set_enabled s t b).toplevels u).configure_serial = (s.toplevels u).configure_serial
    ∧ ((wlr_scene_node_set_enabled s t b).toplevels u).animation = (s.toplevels u).animation
    ∧ ((wlr_scene_node_set_enabled s t b).toplevels u).active_opacity = (s.toplevels u).active_opacity
    ∧ ((wlr_scene_node_set_enabled s t b).toplevels u).inactive_opacity = (s.toplevels u).inactive_opacity
    ∧ ((wlr_scene_node_set_enabled s t b).toplevels u).mapped = (s.toplevels u).mapped
    ∧ ((wlr_scene_node_set_enabled s t b).toplevels u).initialized = (s.toplevels u).initialized
    ∧ ((wlr_scene_node_set_enabled s t b).toplevels u).initial_commit = (s.toplevels u).initial_commit
    ∧ ((wlr_scene_node_set_enabled s t b).toplevels u).acked_serial = (s.toplevels u).acked_serial
    ∧ ((wlr_scene_node_set_enabled s t b).toplevels u).geometry = (s.toplevels u).geometry
    ∧ ((wlr_scene_node_set_enabled s t b).toplevels u).app_id = (s.toplevels u).app_id
    ∧ ((wlr_scene_node_set_enabled s t b).toplevels u).title = (s.toplevels u).title
    ∧ ((wlr_scene_node_set_enabled s t b).toplevels u).min_width = (s.toplevels u).min_width
    ∧ ((wlr_scene_node_set_enabled s t b).toplevels u).min_height = (s.toplevels u).min_height
    ∧ ((wlr_scene_node_set_enabled s t b).toplevels u).max_width = (s.toplevels u).max_width
    ∧ ((wlr_scene_node_set_enabled s t b).toplevels u).max_height = (s.toplevels u).max_height
    ∧ ((wlr_scene_node_set_enabled s t b).toplevels u).has_parent = (s.toplevels u).has_parent
    ∧ ((wlr_scene_node_set_enabled s t b).toplevels u).requested_fullscreen = (s.toplevels u).requested_fullscreen
    ∧ ((wlr_scene_node_set_enabled s t b).toplevels u).xdg_size = (s.toplevels u).xdg_size
    ∧ ((wlr_scene_node_set_enabled s t b).toplevels u).xdg_maximized = (s.toplevels u).xdg_maximized
    ∧ ((wlr_scene_node_set_enabled s t b).toplevels u).xdg_tiled = (s.toplevels u).xdg_tiled
    ∧ ((wlr_scene_node_set_enabled s t b).toplevels u).xdg_fullscreen = (s.toplevels u).xdg_fullscreen
    ∧ ((wlr_scene_node_set_enabled s t b).toplevels u).xdg_activated = (s.toplevels u).xdg_activated
    ∧ ((wlr_scene_node_set_enabled s t b).toplevels u).foreign_activated = (s.toplevels u).foreign_activated
    ∧ ((wlr_scene_node_set_enabled s t b).toplevels u).foreign_fullscreen = (s.toplevels u).foreign_fullscreen
    ∧ ((wlr_scene_node_set_enabled s t b).toplevels u).scene_parent = (s.toplevels u).scene_parent
    ∧ ((wlr_scene_node_set_enabled s t b).toplevels u).scene_x = (s.toplevels u).scene_x
    ∧ ((wlr_scene_node_set_enabled s t b).toplevels u).scene_y = (s.toplevels u).scene_y := by
  unfold wlr_scene_node_set_enabled modify_toplevel set_toplevel
  by_cases h : u = t <;> simp [h]

@[simp] theorem assign_floating_server (s : mwc_server) (t : Nat) (b : Bool) :
    (assign_floating s t b).workspaces = s.workspaces
    ∧ (assign_floating s t b).outputs = s.outputs ∧ (assign_floating s t b).config = s.config
    ∧ (assign_floating s t b).active_workspace = s.active_workspace
    ∧ (assign_floating s t b).focused_toplevel = s.focused_toplevel
    ∧ (assign_floating s t b).prev_focused = s.prev_focused
    ∧ (assign_floating s t b).grabbed_toplevel = s.grabbed_toplevel
    ∧ (assign_floating s t b).cursor_mode = s.cursor_mode
    ∧ (assign_floating s t b).cursor_x = s.cursor_x ∧ (assign_floating s t b).cursor_y = s.cursor_y
    ∧ (assign_floating s t b).grab_x = s.grab_x ∧ (assign_floating s t b).grab_y = s.grab_y
    ∧ (assign_floating s t b).grabbed_toplevel_initial_box = s.grabbed_toplevel_initial_box
    ∧ (assign_floating s t b).resize_edges = s.resize_edges
    ∧ (assign_floating s t b).client_driven_move_resize = s.client_driven_move_resize
    ∧ (assign_floating s t b).lock = s.lock ∧ (assign_floating s t b).exclusive = s.exclusive
    ∧ (assign_floating s t b).has_keyboard = s.has_keyboard
    ∧ (assign_floating s t b).keyboard_focus = s.keyboard_focus
    ∧ (assign_floating s t b).ipc_active_toplevel_events = s.ipc_active_toplevel_events
    ∧ (assign_floating s t b).display_serial = s.display_serial := by
  refine ⟨rfl, rfl, rfl, rfl, rfl, rfl, rfl, rfl, rfl, rfl, rfl, rfl, rfl, rfl, rfl, rfl, rfl, rfl, rfl, rfl, rfl⟩

theorem assign_floating_other (s : mwc_server) (t : Nat) (b : Bool) (u : Nat) (h : u ≠ t) :
    (assign_floating s t b).toplevels u = s.toplevels u := by
  simp [assign_floating, modify_toplevel, set_toplevel, h]

@[simp] theorem assign_floating_fields (s : mwc_server) (t : Nat) (b : Bool) (u : Nat) :
    ((assign_floating s t b).toplevels u).workspace = (s.toplevels u).workspace
    ∧ ((assign_floating s t b).toplevels u).fullscreen = (s.toplevels u).fullscreen
    ∧ ((assign_floating s t b).toplevels u).resizing = (s.toplevels u).resizing
    ∧ ((assign_floating s t b).toplevels u).dirty = (s.toplevels u).dirty
    ∧ ((assign_floating s t b).toplevels u).pending = (s.toplevels u).pending
    ∧ ((assign_floating s t b).toplevels u).current = (s.toplevels u).current
    ∧ ((assign_floating s t b).toplevels u).prev_geometry = (s.toplevels u).prev_geometry
    ∧ ((assign_floating s t b).toplevels u).configure_serial = (s.toplevels u).configure_serial
    ∧ ((assign_floating s t b).toplevels u).animation = (s.toplevels u).animation
    ∧ ((assign_floating s t b).toplevels u).active_opacity = (s.toplevels u).active_opacity
    ∧ ((assign_floating s t b).toplevels u).inactive_opacity = (s.toplevels u).inactive_opacity
    ∧ ((assign_floating s t b).toplevels u).mapped = (s.toplevels u).mapped
    ∧ ((assign_floating s t b).toplevels u).initialized = (s.toplevels u).initialized
    ∧ ((assign_floating s t b).toplevels u).initial_commit = (s.toplevels u).initial_commit
    ∧ ((assign_floating s t b).toplevels u).acked_serial = (s.toplevels u).acked_serial
    ∧ ((assign_floating s t b).toplevels u).geometry = (s.toplevels u).geometry
    ∧ ((assign_floating s t b).toplevels u).app_id = (s.toplevels u).app_id
    ∧ ((assign_floating s t b).toplevels u).title = (s.toplevels u).title
    ∧ ((assign_floating s t b).toplevels u).min_width = (s.toplevels u).min_width
    ∧ ((assign_floating s t b).toplevels u).min_height = (s.toplevels u).min_height
    ∧ ((assign_floating s t b).toplevels u).max_width = (s.toplevels u).max_width
    ∧ ((assign_floating s t b).toplevels u).max_height = (s.toplevels u).max_height
    ∧ ((assign_floating s t b).toplevels u).has_parent = (s.toplevels u).has_parent
    ∧ ((assign_floating s t b).toplevels u).requested_fullscreen = (s.toplevels u).requested_fullscreen
    ∧ ((assign_floating s t b).toplevels u).xdg_size = (s.toplevels u).xdg_size
    ∧ ((assign_floating s t b).toplevels u).xdg_maximized = (s.toplevels u).xdg_maximized
    ∧ ((assign_floating s t b).toplevels u).xdg_tiled = (s.toplevels u).xdg_tiled
    ∧ ((assign_floating s t b).toplevels u).xdg_fullscreen = (s.toplevels u).xdg_fullscreen
    ∧ ((assign_floating s t b).toplevels u).xdg_activated = (s.toplevels u).xdg_activated
    ∧ ((assign_floating s t b).toplevels u).foreign_activated = (s.toplevels u).foreign_activated
    ∧ ((assign_floating s t b).toplevels u).foreign_fullscreen = (s.toplevels u).foreign_fullscreen
    ∧ ((assign_floating s t b).toplevels u).scene_parent = (s.toplevels u).scene_parent
    ∧ ((assign_floating s t b).toplevels u).scene_enabled = (s.toplevels u).scene_enabled
    ∧ ((assign_floating s t b).toplevels u).scene_x = (s.toplevels u).scene_x
    ∧ ((assign_floating s t b).toplevels u).scene_y = (s.toplevels u).scene_y := by
  unfold assign_floating modify_toplevel set_toplevel
  by_cases h : u = t <;> simp [h]

@[simp] theorem assign_fullscreen_server (s : mwc_server) (t : Nat) (b : Bool) :
    (assign_fullscreen s t b).workspaces = s.workspaces
    ∧ (assign_fullscreen s t b).outputs = s.outputs ∧ (assign_fullscreen s t b).config = s.config
    ∧ (assign_fullscreen s t b).active_workspace = s.active_workspace
    ∧ (assign_fullscreen s t b).focused_toplevel = s.focused_toplevel
    ∧ (assign_fullscreen s t b).prev_focused = s.prev_focused
    ∧ (assign_fullscreen s t b).grabbed_toplevel = s.grabbed_toplevel
    ∧ (assign_fullscreen s t b).cursor_mode = s.cursor_mode
    ∧ (assign_fullscreen s t b).cursor_x = s.cursor_x
    ∧ (assign_fullscreen s t b).cursor_y = s.cursor_y ∧ (assign_fullscreen s t b).grab_x = s.grab_x
    ∧ (assign_fullscreen s t b).grab_y = s.grab_y
    ∧ (assign_fullscreen s t b).grabbed_toplevel_initial_box = s.grabbed_toplevel_initial_box
    ∧ (assign_fullscreen s t b).resize_edges = s.resize_edges
    ∧ (assign_fullscreen s t b).client_driven_move_resize = s.client_driven_move_resize
    ∧ (assign_fullscreen s t b).lock = s.lock ∧ (assign_fullscreen s t b).exclusive = s.exclusive
    ∧ (assign_fullscreen s t b).has_keyboard = s.has_keyboard
    ∧ (assign_fullscreen s t b).keyboard_focus = s.keyboard_focus
    ∧ (assign_fullscreen s t b).ipc_active_toplevel_events = s.ipc_active_toplevel_events
    ∧ (assign_fullscreen s t b).display_serial = s.display_serial := by
  refine ⟨rfl, rfl, rfl, rfl, rfl, rfl, rfl, rfl, rfl, rfl, rfl, rfl, rfl, rfl, rfl, rfl, rfl, rfl, rfl, rfl, rfl⟩

theorem assign_fullscreen_other (s : mwc_server) (t : Nat) (b : Bool) (u : Nat) (h : u ≠ t) :
    (assign_fullscreen s t b).toplevels u = s.toplevels u := by
  simp [assign_fullscreen, modify_toplevel, set_toplevel, h]

@[simp] theorem assign_fullscreen_fields (s : mwc_server) (t : Nat) (b : Bool) (u : Nat) :
    ((assign_fullscreen s t b).toplevels u).workspace = (s.toplevels u).workspace
    ∧ ((assign_fullscreen s t b).toplevels u).floating = (s.toplevels u).floating
    ∧ ((assign_fullscreen s t b).toplevels u).resizing = (s.toplevels u).resizing
    ∧ ((assign_fullscreen s t b).toplevels u).dirty = (s.toplevels u).dirty
    ∧ ((assign_fullscreen s t b).toplevels u).pending = (s.toplevels u).pending
    ∧ ((assign_fullscreen s t b).toplevels u).current = (s.toplevels u).current
    ∧ ((assign_fullscreen s t b).toplevels u).prev_geometry = (s.toplevels u).prev_geometry
    ∧ ((assign_fullscreen s t b).toplevels u).configure_serial = (s.toplevels u).configure_serial
    ∧ ((assign_fullscreen s t b).toplevels u).animation = (s.toplevels u).animation
    ∧ ((assign_fullscreen s t b).toplevels u).active_opacity = (s.toplevels u).active_opacity
    ∧ ((assign_fullscreen s t b).toplevels u).inactive_opacity = (s.toplevels u).inactive_opacity
    ∧ ((assign_fullscreen s t b).toplevels u).mapped = (s.toplevels u).mapped
    ∧ ((assign_fullscreen s t b).toplevels u).initialized = (s.toplevels u).initialized
    ∧ ((assign_fullscreen s t b).toplevels u).initial_commit = (s.toplevels u).initial_commit
    ∧ ((assign_fullscreen s t b).toplevels u).acked_serial = (s.toplevels u).acked_serial
    ∧ ((assign_fullscreen s t b).toplevels u).geometry = (s.toplevels u).geometry
    ∧ ((assign_fullscreen s t b).toplevels u).app_id = (s.toplevels u).app_id
    ∧ ((assign_fullscreen s t b).toplevels u).title = (s.toplevels u).title
    ∧ ((assign_fullscreen s t b).toplevels u).min_width = (s.toplevels u).min_width
    ∧ ((assign_fullscreen s t b).toplevels u).min_height = (s.toplevels u).min_height
    ∧ ((assign_fullscreen s t b).toplevels u).max_width = (s.toplevels u).max_width
    ∧ ((assign_fullscreen s t b).toplevels u).max_height = (s.toplevels u).max_height
    ∧ ((assign_fullscreen s t b).toplevels u).has_parent = (s.toplevels u).has_parent
    ∧ ((assign_fullscreen s t b).toplevels u).requested_fullscreen = (s.toplevels u).requested_fullscreen
    ∧ ((assign_fullscreen s t b).toplevels u).xdg_size = (s.toplevels u).xdg_size
    ∧ ((assign_fullscreen s t b).toplevels u).xdg_maximized = (s.toplevels u).xdg_maximized
    ∧ ((assign_fullscreen s t b).toplevels u).xdg_tiled = (s.toplevels u).xdg_tiled
    ∧ ((assign_fullscreen s t b).toplevels u).xdg_fullscreen = (s.toplevels u).xdg_fullscreen
    ∧ ((assign_fullscreen s t b).toplevels u).xdg_activated = (s.toplevels u).xdg_activated
    ∧ ((assign_fullscreen s t b).toplevels u).foreign_activated = (s.toplevels u).foreign_activated
    ∧ ((assign_fullscreen s t b).toplevels u).foreign_fullscreen = (s.toplevels u).foreign_fullscreen
    ∧ ((assign_fullscreen s t b).toplevels u).scene_parent = (s.toplevels u).scene_parent
    ∧ ((assign_fullscreen s t b).toplevels u).scene_enabled = (s.toplevels u).scene_enabled
    ∧ ((assign_fullscreen s t b).toplevels u).scene_x = (s.toplevels u).scene_x
    ∧ ((assign_fullscreen s t b).toplevels u).scene_y = (s.toplevels u).scene_y := by
  unfold assign_fullscreen modify_toplevel set_toplevel
  by_cases h : u = t <;> simp [h]

@[simp] theorem assign_workspace_server (s : mwc_server) (t : Nat) (w : Nat) :
    (assign_workspace s t w).workspaces = s.workspaces
    ∧ (assign_workspace s t w).outputs = s.outputs ∧ (assign_workspace s t w).config = s.config
    ∧ (assign_workspace s t w).active_workspace = s.active_workspace
    ∧ (assign_workspace s t w).focused_toplevel = s.focused_toplevel
    ∧ (assign_workspace s t w).prev_focused = s.prev_focused
    ∧ (assign_workspace s t w).grabbed_toplevel = s.grabbed_toplevel
    ∧ (assign_workspace s t w).cursor_mode = s.cursor_mode
    ∧ (assign_workspace s t w).cursor_x = s.cursor_x
    ∧ (assign_workspace s t w).cursor_y = s.cursor_y ∧ (assign_workspace s t w).grab_x = s.grab_x
    ∧ (assign_workspace s t w).grab_y = s.grab_y
    ∧ (assign_workspace s t w).grabbed_toplevel_initial_box = s.grabbed_toplevel_initial_box
    ∧ (assign_workspace s t w).resize_edges = s.resize_edges
    ∧ (assign_workspace s t w).client_driven_move_resize = s.client_driven_move_resize
    ∧ (assign_workspace s t w).lock = s.lock ∧ (assign_workspace s t w).exclusive = s.exclusive
    ∧ (assign_workspace s t w).has_keyboard = s.has_keyboard
    ∧ (assign_workspace s t w).keyboard_focus = s.keyboard_focus
    ∧ (assign_workspace s t w).ipc_active_toplevel_events = s.ipc_active_toplevel_events
    ∧ (assign_workspace s t w).display_serial = s.display_serial := by
  refine ⟨rfl, rfl, rfl, rfl, rfl, rfl, rfl, rfl, rfl, rfl, rfl, rfl, rfl, rfl, rfl, rfl, rfl, rfl, rfl, rfl, rfl⟩

theorem assign_workspace_other (s : mwc_server) (t : Nat) (w : Nat) (u : Nat) (h : u ≠ t) :
    (assign_workspace s t w).toplevels u = s.toplevels u := by
  simp [assign_workspace, modify_toplevel, set_toplevel, h]

@[simp] theorem assign_workspace_fields (s : mwc_server) (t : Nat) (w : Nat) (u : Nat) :
    ((assign_workspace s t w).toplevels u).floating = (s.toplevels u).floating
    ∧ ((assign_workspace s t w).toplevels u).fullscreen = (s.toplevels u).fullscreen
    ∧ ((assign_workspace s t w).toplevels u).resizing = (s.toplevels u).resizing
    ∧ ((assign_workspace s t w).toplevels u).dirty = (s.toplevels u).dirty
    ∧ ((assign_workspace s t w).toplevels u).pending = (s.toplevels u).pending
    ∧ ((assign_workspace s t w).toplevels u).current = (s.toplevels u).current
    ∧ ((assign_workspace s t w).toplevels u).prev_geometry = (s.toplevels u).prev_geometry
    ∧ ((assign_workspace s t w).toplevels u).configure_serial = (s.toplevels u).configure_serial
    ∧ ((assign_workspace s t w).toplevels u).animation = (s.toplevels u).animation
    ∧ ((assign_workspace s t w).toplevels u).active_opacity = (s.toplevels u).active_opacity
    ∧ ((assign_workspace s t w).toplevels u).inactive_opacity = (s.toplevels u).inactive_opacity
    ∧ ((assign_workspace s t w).toplevels u).mapped = (s.toplevels u).mapped
    ∧ ((assign_workspace s t w).toplevels u).initialized = (s.toplevels u).initialized
    ∧ ((assign_workspace s t w).toplevels u).initial_commit = (s.toplevels u).initial_commit
    ∧ ((assign_workspace s t w).toplevels u).acked_serial = (s.toplevels u).acked_serial
    ∧ ((assign_workspace s t w).toplevels u).geometry = (s.toplevels u).geometry
    ∧ ((assign_workspace s t w).toplevels u).app_id = (s.toplevels u).app_id
    ∧ ((assign_workspace s t w).toplevels u).title = (s.toplevels u).title
    ∧ ((assign_workspace s t w).toplevels u).min_width = (s.toplevels u).min_width
    ∧ ((assign_workspace s t w).toplevels u).min_height = (s.toplevels u).min_height
    ∧ ((assign_workspace s t w).toplevels u).max_width = (s.toplevels u).max_width
    ∧ ((assign_workspace s t w).toplevels u).max_height = (s.toplevels u).max_height
    ∧ ((assign_workspace s t w).toplevels u).has_parent = (s.toplevels u).has_parent
    ∧ ((assign_workspace s t w).toplevels u).requested_fullscreen = (s.toplevels u).requested_fullscreen
    ∧ ((assign_workspace s t w).toplevels u).xdg_size = (s.toplevels u).xdg_size
    ∧ ((assign_workspace s t w).toplevels u).xdg_maximized = (s.toplevels u).xdg_maximized
    ∧ ((assign_workspace s t w).toplevels u).xdg_tiled = (s.toplevels u).xdg_tiled
    ∧ ((assign_workspace s t w).toplevels u).xdg_fullscreen = (s.toplevels u).xdg_fullscreen
    ∧ ((assign_workspace s t w).toplevels u).xdg_activated = (s.toplevels u).xdg_activated
    ∧ ((assign_workspace s t w).toplevels u).foreign_activated = (s.toplevels u).foreign_activated
    ∧ ((assign_workspace s t w).toplevels u).foreign_fullscreen = (s.toplevels u).foreign_fullscreen
    ∧ ((assign_workspace s t w).toplevels u).scene_parent = (s.toplevels u).scene_parent
    ∧ ((assign_workspace s t w).toplevels u).scene_enabled = (s.toplevels u).scene_enabled
    ∧ ((assign_workspace s t w).toplevels u).scene_x = (s.toplevels u).scene_x
    ∧ ((assign_workspace s t w).toplevels u).scene_y = (s.toplevels u).scene_y := by
  unfold assign_workspace modify_toplevel set_toplevel
  by_cases h : u = t <;> simp [h]

@[simp] theorem assign_resizing_server (s : mwc_server) (t : Nat) (b : Bool) :
    (assign_resizing s t b).workspaces = s.workspaces
    ∧ (assign_resizing s t b).outputs = s.outputs ∧ (assign_resizing s t b).config = s.config
    ∧ (assign_resizing s t b).active_workspace = s.active_workspace
    ∧ (assign_resizing s t b).focused_toplevel = s.focused_toplevel
    ∧ (assign_resizing s t b).prev_focused = s.prev_focused
    ∧ (assign_resizing s t b).grabbed_toplevel = s.grabbed_toplevel
    ∧ (assign_resizing s t b).cursor_mode = s.cursor_mode
    ∧ (assign_resizing s t b).cursor_x = s.cursor_x ∧ (assign_resizing s t b).cursor_y = s.cursor_y
    ∧ (assign_resizing s t b).grab_x = s.grab_x ∧ (assign_resizing s t b).grab_y = s.grab_y
    ∧ (assign_resizing s t b).grabbed_toplevel_initial_box = s.grabbed_toplevel_initial_box
    ∧ (assign_resizing s t b).resize_edges = s.resize_edges
    ∧ (assign_resizing s t b).client_driven_move_resize = s.client_driven_move_resize
    ∧ (assign_resizing s t b).lock = s.lock ∧ (assign_resizing s t b).exclusive = s.exclusive
    ∧ (assign_resizing s t b).has_keyboard = s.has_keyboard
    ∧ (assign_resizing s t b).keyboard_focus = s.keyboard_focus
    ∧ (assign_resizing s t b).ipc_active_toplevel_events = s.ipc_active_toplevel_events
    ∧ (assign_resizing s t b).display_serial = s.display_serial := by
  refine ⟨rfl, rfl, rfl, rfl, rfl, rfl, rfl, rfl, rfl, rfl, rfl, rfl, rfl, rfl, rfl, rfl, rfl, rfl, rfl, rfl, rfl⟩

theorem assign_resizing_other (s : mwc_server) (t : Nat) (b : Bool) (u : Nat) (h : u ≠ t) :
    (assign_resizing s t b).toplevels u = s.toplevels u := by
  simp [assign_resizing, modify_toplevel, set_toplevel, h]

@[simp] theorem assign_resizing_fields (s : mwc_server) (t : Nat) (b : Bool) (u : Nat) :
    ((assign_resizing s t b).toplevels u).workspace = (s.toplevels u).workspace
    ∧ ((assign_resizing s t b).toplevels u).floating = (s.toplevels u).floating
    ∧ ((assign_resizing s t b).toplevels u).fullscreen = (s.toplevels u).fullscreen
    ∧ ((assign_resizing s t b).toplevels u).dirty = (s.toplevels u).dirty
    ∧ ((assign_resizing s t b).toplevels u).pending = (s.toplevels u).pending
    ∧ ((assign_resizing s t b).toplevels u).current = (s.toplevels u).current
    ∧ ((assign_resizing s t b).toplevels u).prev_geometry = (s.toplevels u).prev_geometry
    ∧ ((assign_resizing s t b).toplevels u).configure_serial = (s.toplevels u).configure_serial
    ∧ ((assign_resizing s t b).toplevels u).animation = (s.toplevels u).animation
    ∧ ((assign_resizing s t b).toplevels u).active_opacity = (s.toplevels u).active_opacity
    ∧ ((assign_resizing s t b).toplevels u).inactive_opacity = (s.toplevels u).inactive_opacity
    ∧ ((assign_resizing s t b).toplevels u).mapped = (s.toplevels u).mapped
    ∧ ((assign_resizing s t b).toplevels u).initialized = (s.toplevels u).initialized
    ∧ ((assign_resizing s t b).toplevels u).initial_commit = (s.toplevels u).initial_commit
    ∧ ((assign_resizing s t b).toplevels u).acked_serial = (s.toplevels u).acked_serial
    ∧ ((assign_resizing s t b).toplevels u).geometry = (s.toplevels u).geometry
    ∧ ((assign_resizing s t b).toplevels u).app_id = (s.toplevels u).app_id
    ∧ ((assign_resizing s t b).toplevels u).title = (s.toplevels u).title
    ∧ ((assign_resizing s t b).toplevels u).min_width = (s.toplevels u).min_width
    ∧ ((assign_resizing s t b).toplevels u).min_height = (s.toplevels u).min_height
    ∧ ((assign_resizing s t b).toplevels u).max_width = (s.toplevels u).max_width
    ∧ ((assign_resizing s t b).toplevels u).max_height = (s.toplevels u).max_height
    ∧ ((assign_resizing s t b).toplevels u).has_parent = (s.toplevels u).has_parent
    ∧ ((assign_resizing s t b).toplevels u).requested_fullscreen = (s.toplevels u).requested_fullscreen
    ∧ ((assign_resizing s t b).toplevels u).xdg_size = (s.toplevels u).xdg_size
    ∧ ((assign_resizing s t b).toplevels u).xdg_maximized = (s.toplevels u).xdg_maximized
    ∧ ((assign_resizing s t b).toplevels u).xdg_tiled = (s.toplevels u).xdg_tiled
    ∧ ((assign_resizing s t b).toplevels u).xdg_fullscreen = (s.toplevels u).xdg_fullscreen
    ∧ ((assign_resizing s t b).toplevels u).xdg_activated = (s.toplevels u).xdg_activated
    ∧ ((assign_resizing s t b).toplevels u).foreign_activated = (s.toplevels u).foreign_activated
    ∧ ((assign_resizing s t b).toplevels u).foreign_fullscreen = (s.toplevels u).foreign_fullscreen
    ∧ ((assign_resizing s t b).toplevels u).scene_parent = (s.toplevels u).scene_parent
    ∧ ((assign_resizing s t b).toplevels u).scene_enabled = (s.toplevels u).scene_enabled
    ∧ ((assign_resizing s t b).toplevels u).scene_x = (s.toplevels u).scene_x
    ∧ ((assign_resizing s t b).toplevels u).scene_y = (s.toplevels u).scene_y := by
  unfold assign_resizing modify_toplevel set_toplevel
  by_cases h : u = t <;> simp [h]

@[simp] theorem save_prev_geometry_server (s : mwc_server) (t : Nat) :
    (save_prev_geometry s t).workspaces = s.workspaces
    ∧ (save_prev_geometry s t).outputs = s.outputs ∧ (save_prev_geometry s t).config = s.config
    ∧ (save_prev_geometry s t).active_workspace = s.active_workspace
    ∧ (save_prev_geometry s t).focused_toplevel = s.focused_toplevel
    ∧ (save_prev_geometry s t).prev_focused = s.prev_focused
    ∧ (save_prev_geometry s t).grabbed_toplevel = s.grabbed_toplevel
    ∧ (save_prev_geometry s t).cursor_mode = s.cursor_mode
    ∧ (save_prev_geometry s t).cursor_x = s.cursor_x
    ∧ (save_prev_geometry s t).cursor_y = s.cursor_y ∧ (save_prev_geometry s t).grab_x = s.grab_x
    ∧ (save_prev_geometry s t).grab_y = s.grab_y
    ∧ (save_prev_geometry s t).grabbed_toplevel_initial_box = s.grabbed_toplevel_initial_box
    ∧ (save_prev_geometry s t).resize_edges = s.resize_edges
    ∧ (save_prev_geometry s t).client_driven_move_resize = s.client_driven_move_resize
    ∧ (save_prev_geometry s t).lock = s.lock ∧ (save_prev_geometry s t).exclusive = s.exclusive
    ∧ (save_prev_geometry s t).has_keyboard = s.has_keyboard
    ∧ (save_prev_geometry s t).keyboard_focus = s.keyboard_focus
    ∧ (save_prev_geometry s t).ipc_active_toplevel_events = s.ipc_active_toplevel_events
    ∧ (save_prev_geometry s t).display_serial = s.display_serial := by
  refine ⟨rfl, rfl, rfl, rfl, rfl, rfl, rfl, rfl, rfl, rfl, rfl, rfl, rfl, rfl, rfl, rfl, rfl, rfl, rfl, rfl, rfl⟩

theorem save_prev_geometry_other (s : mwc_server) (t : Nat) (u : Nat) (h : u ≠ t) :
    (save_prev_geometry s t).toplevels u = s.toplevels u := by
  simp [save_prev_geometry, modify_toplevel, set_toplevel, h]

@[simp] theorem save_prev_geometry_fields (s : mwc_server) (t : Nat) (u : Nat) :
    ((save_prev_geometry s t).toplevels u).workspace = (s.toplevels u).workspace
    ∧ ((save_prev_geometry s t).toplevels u).floating = (s.toplevels u).floating
    ∧ ((save_prev_geometry s t).toplevels u).fullscreen = (s.toplevels u).fullscreen
    ∧ ((save_prev_geometry s t).toplevels u).resizing = (s.toplevels u).resizing
    ∧ ((save_prev_geometry s t).toplevels u).dirty = (s.toplevels u).dirty
    ∧ ((save_prev_geometry s t).toplevels u).pending = (s.toplevels u).pending
    ∧ ((save_prev_geometry s t).toplevels u).current = (s.toplevels u).current
    ∧ ((save_prev_geometry s t).toplevels u).configure_serial = (s.toplevels u).configure_serial
    ∧ ((save_prev_geometry s t).toplevels u).animation = (s.toplevels u).animation
    ∧ ((save_prev_geometry s t).toplevels u).active_opacity = (s.toplevels u).active_opacity
    ∧ ((save_prev_geometry s t).toplevels u).inactive_opacity = (s.toplevels u).inactive_opacity
    ∧ ((save_prev_geometry s t).toplevels u).mapped = (s.toplevels u).mapped
    ∧ ((save_prev_geometry s t).toplevels u).initialized = (s.toplevels u).initialized
    ∧ ((save_prev_geometry s t).toplevels u).initial_commit = (s.toplevels u).initial_commit
    ∧ ((save_prev_geometry s t).toplevels u).acked_serial = (s.toplevels u).acked_serial
    ∧ ((save_prev_geometry s t).toplevels u).geometry = (s.toplevels u).geometry
    ∧ ((save_prev_geometry s t).toplevels u).app_id = (s.toplevels u).app_id
    ∧ ((save_prev_geometry s t).toplevels u).title = (s.toplevels u).title
    ∧ ((save_prev_geometry s t).toplevels u).min_width = (s.toplevels u).min_width
    ∧ ((save_prev_geometry s t).toplevels u).min_height = (s.toplevels u).min_height
    ∧ ((save_prev_geometry s t).toplevels u).max_width = (s.toplevels u).max_width
    ∧ ((save_prev_geometry s t).toplevels u).max_height = (s.toplevels u).max_height
    ∧ ((save_prev_geometry s t).toplevels u).has_parent = (s.toplevels u).has_parent
    ∧ ((save_prev_geometry s t).toplevels u).requested_fullscreen = (s.toplevels u).requested_fullscreen
    ∧ ((save_prev_geometry s t).toplevels u).xdg_size = (s.toplevels u).xdg_size
    ∧ ((save_prev_geometry s t).toplevels u).xdg_maximized = (s.toplevels u).xdg_maximized
    ∧ ((save_prev_geometry s t).toplevels u).xdg_tiled = (s.toplevels u).xdg_tiled
    ∧ ((save_prev_geometry s t).toplevels u).xdg_fullscreen = (s.toplevels u).xdg_fullscreen
    ∧ ((save_prev_geometry s t).toplevels u).xdg_activated = (s.toplevels u).xdg_activated
    ∧ ((save_prev_geometry s t).toplevels u).foreign_activated = (s.toplevels u).foreign_activated
    ∧ ((save_prev_geometry s t).toplevels u).foreign_fullscreen = (s.toplevels u).foreign_fullscreen
    ∧ ((save_prev_geometry s t).toplevels u).scene_parent = (s.toplevels u).scene_parent
    ∧ ((save_prev_geometry s t).toplevels u).scene_enabled = (s.toplevels u).scene_enabled
    ∧ ((save_prev_geometry s t).toplevels u).scene_x = (s.toplevels u).scene_x
    ∧ ((save_prev_geometry s t).toplevels u).scene_y = (s.toplevels u).scene_y := by
  unfold save_prev_geometry modify_toplevel set_toplevel
  by_cases h : u = t <;> simp [h]

@[simp] theorem surface_set_mapped_server (s : mwc_server) (t : Nat) (b : Bool) :
    (surface_set_mapped s t b).workspaces = s.workspaces
    ∧ (surface_set_mapped s t b).outputs = s.outputs ∧ (surface_set_mapped s t b).config = s.config
    ∧ (surface_set_mapped s t b).active_workspace = s.active_workspace
    ∧ (surface_set_mapped s t b).focused_toplevel = s.focused_toplevel
    ∧ (surface_set_mapped s t b).prev_focused = s.prev_focused
    ∧ (surface_set_mapped s t b).grabbed_toplevel = s.grabbed_toplevel
    ∧ (surface_set_mapped s t b).cursor_mode = s.cursor_mode
    ∧ (surface_set_mapped s t b).cursor_x = s.cursor_x
    ∧ (surface_set_mapped s t b).cursor_y = s.cursor_y
    ∧ (surface_set_mapped s t b).grab_x = s.grab_x ∧ (surface_set_mapped s t b).grab_y = s.grab_y
    ∧ (surface_set_mapped s t b).grabbed_toplevel_initial_box = s.grabbed_toplevel_initial_box
    ∧ (surface_set_mapped s t b).resize_edges = s.resize_edges
    ∧ (surface_set_mapped s t b).client_driven_move_resize = s.client_driven_move_resize
    ∧ (surface_set_mapped s t b).lock = s.lock ∧ (surface_set_mapped s t b).exclusive = s.exclusive
    ∧ (surface_set_mapped s t b).has_keyboard = s.has_keyboard
    ∧ (surface_set_mapped s t b).keyboard_focus = s.keyboard_focus
    ∧ (surface_set_mapped s t b).ipc_active_toplevel_events = s.ipc_active_toplevel_events
    ∧ (surface_set_mapped s t b).display_serial = s.display_serial := by
  refine ⟨rfl, rfl, rfl, rfl, rfl, rfl, rfl, rfl, rfl, rfl, rfl, rfl, rfl, rfl, rfl, rfl, rfl, rfl, rfl, rfl, rfl⟩

theorem surface_set_mapped_other (s : mwc_server) (t : Nat) (b : Bool) (u : Nat) (h : u ≠ t) :
    (surface_set_mapped s t b).toplevels u = s.toplevels u := by
  simp [surface_set_mapped, modify_toplevel, set_toplevel, h]

@[simp] theorem surface_set_mapped_fields (s : mwc_server) (t : Nat) (b : Bool) (u : Nat) :
    ((surface_set_mapped s t b).toplevels u).workspace = (s.toplevels u).workspace
    ∧ ((surface_set_mapped s t b).toplevels u).floating = (s.toplevels u).floating
    ∧ ((surface_set_mapped s t b).toplevels u).fullscreen = (s.toplevels u).fullscreen
    ∧ ((surface_set_mapped s t b).toplevels u).resizing = (s.toplevels u).resizing
    ∧ ((surface_set_mapped s t b).toplevels u).dirty = (s.toplevels u).dirty
    ∧ ((surface_set_mapped s t b).toplevels u).pending = (s.toplevels u).pending
    ∧ ((surface_set_mapped s t b).toplevels u).current = (s.toplevels u).current
    ∧ ((surface_set_mapped s t b).toplevels u).prev_geometry = (s.toplevels u).prev_geometry
    ∧ ((surface_set_mapped s t b).toplevels u).configure_serial = (s.toplevels u).configure_serial
    ∧ ((surface_set_mapped s t b).toplevels u).animation = (s.toplevels u).animation
    ∧ ((surface_set_mapped s t b).toplevels u).active_opacity = (s.toplevels u).active_opacity
    ∧ ((surface_set_mapped s t b).toplevels u).inactive_opacity = (s.toplevels u).inactive_opacity
    ∧ ((surface_set_mapped s t b).toplevels u).initialized = (s.toplevels u).initialized
    ∧ ((surface_set_mapped s t b).toplevels u).initial_commit = (s.toplevels u).initial_commit
    ∧ ((surface_set_mapped s t b).toplevels u).acked_serial = (s.toplevels u).acked_serial
    ∧ ((surface_set_mapped s t b).toplevels u).geometry = (s.toplevels u).geometry
    ∧ ((surface_set_mapped s t b).toplevels u).app_id = (s.toplevels u).app_id
    ∧ ((surface_set_mapped s t b).toplevels u).title = (s.toplevels u).title
    ∧ ((surface_set_mapped s t b).toplevels u).min_width = (s.toplevels u).min_width
    ∧ ((surface_set_mapped s t b).toplevels u).min_height = (s.toplevels u).min_height
    ∧ ((surface_set_mapped s t b).toplevels u).max_width = (s.toplevels u).max_width
    ∧ ((surface_set_mapped s t b).toplevels u).max_height = (s.toplevels u).max_height
    ∧ ((surface_set_mapped s t b).toplevels u).has_parent = (s.toplevels u).has_parent
    ∧ ((surface_set_mapped s t b).toplevels u).requested_fullscreen = (s.toplevels u).requested_fullscreen
    ∧ ((surface_set_mapped s t b).toplevels u).xdg_size = (s.toplevels u).xdg_size
    ∧ ((surface_set_mapped s t b).toplevels u).xdg_maximized = (s.toplevels u).xdg_maximized
    ∧ ((surface_set_mapped s t b).toplevels u).xdg_tiled = (s.toplevels u).xdg_tiled
    ∧ ((surface_set_mapped s t b).toplevels u).xdg_fullscreen = (s.toplevels u).xdg_fullscreen
    ∧ ((surface_set_mapped s t b).toplevels u).xdg_activated = (s.toplevels u).xdg_activated
    ∧ ((surface_set_mapped s t b).toplevels u).foreign_activated = (s.toplevels u).foreign_activated
    ∧ ((surface_set_mapped s t b).toplevels u).foreign_fullscreen = (s.toplevels u).foreign_fullscreen
    ∧ ((surface_set_mapped s t b).toplevels u).scene_parent = (s.toplevels u).scene_parent
    ∧ ((surface_set_mapped s t b).toplevels u).scene_enabled = (s.toplevels u).scene_enabled
    ∧ ((surface_set_mapped s t b).toplevels u).scene_x = (s.toplevels u).scene_x
    ∧ ((surface_set_mapped s t b).toplevels u).scene_y = (s.toplevels u).scene_y := by
  unfold surface_set_mapped modify_toplevel set_toplevel
  by_cases h : u = t <;> simp [h]

@[simp] theorem initial_configure_server (s : mwc_server) (t : Nat) (size : Nat × Nat) :
    (initial_configure s t size).workspaces = s.workspaces
    ∧ (initial_configure s t size).outputs = s.outputs
    ∧ (initial_configure s t size).config = s.config
    ∧ (initial_configure s t size).active_workspace = s.active_workspace
    ∧ (initial_configure s t size).focused_toplevel = s.focused_toplevel
    ∧ (initial_configure s t size).prev_focused = s.prev_focused
    ∧ (initial_configure s t size).grabbed_toplevel = s.grabbed_toplevel
    ∧ (initial_configure s t size).cursor_mode = s.cursor_mode
    ∧ (initial_configure s t size).cursor_x = s.cursor_x
    ∧ (initial_configure s t size).cursor_y = s.cursor_y
    ∧ (initial_configure s t size).grab_x = s.grab_x
    ∧ (initial_configure s t size).grab_y = s.grab_y
    ∧ (initial_configure s t size).grabbed_toplevel_initial_box = s.grabbed_toplevel_initial_box
    ∧ (initial_configure s t size).resize_edges = s.resize_edges
    ∧ (initial_configure s t size).client_driven_move_resize = s.client_driven_move_resize
    ∧ (initial_configure s t size).lock = s.lock
    ∧ (initial_configure s t size).exclusive = s.exclusive
    ∧ (initial_configure s t size).has_keyboard = s.has_keyboard
    ∧ (initial_configure s t size).keyboard_focus = s.keyboard_focus
    ∧ (initial_configure s t size).ipc_active_toplevel_events = s.ipc_active_toplevel_events
    ∧ (initial_configure s t size).display_serial = s.display_serial := by
  refine ⟨rfl, rfl, rfl, rfl, rfl, rfl, rfl, rfl, rfl, rfl, rfl, rfl, rfl, rfl, rfl, rfl, rfl, rfl, rfl, rfl, rfl⟩

theorem initial_configure_other (s : mwc_server) (t : Nat) (size : Nat × Nat) (u : Nat) (h : u ≠ t) :
    (initial_configure s t size).toplevels u = s.toplevels u := by
  simp [initial_configure, modify_toplevel, set_toplevel, h]

@[simp] theorem initial_configure_fields (s : mwc_server) (t : Nat) (size : Nat × Nat) (u : Nat) :
    ((initial_configure s t size).toplevels u).workspace = (s.toplevels u).workspace
    ∧ ((initial_configure s t size).toplevels u).floating = (s.toplevels u).floating
    ∧ ((initial_configure s t size).toplevels u).fullscreen = (s.toplevels u).fullscreen
    ∧ ((initial_configure s t size).toplevels u).resizing = (s.toplevels u).resizing
    ∧ ((initial_configure s t size).toplevels u).dirty = (s.toplevels u).dirty
    ∧ ((initial_configure s t size).toplevels u).pending = (s.toplevels u).pending
    ∧ ((initial_configure s t size).toplevels u).current = (s.toplevels u).current
    ∧ ((initial_configure s t size).toplevels u).prev_geometry = (s.toplevels u).prev_geometry
    ∧ ((initial_configure s t size).toplevels u).configure_serial = (s.toplevels u).configure_serial
    ∧ ((initial_configure s t size).toplevels u).animation = (s.toplevels u).animation
    ∧ ((initial_configure s t size).toplevels u).active_opacity = (s.toplevels u).active_opacity
    ∧ ((initial_configure s t size).toplevels u).inactive_opacity = (s.toplevels u).inactive_opacity
    ∧ ((initial_configure s t size).toplevels u).mapped = (s.toplevels u).mapped
    ∧ ((initial_configure s t size).toplevels u).initialized = (s.toplevels u).initialized
    ∧ ((initial_configure s t size).toplevels u).initial_commit = (s.toplevels u).initial_commit
    ∧ ((initial_configure s t size).toplevels u).acked_serial = (s.toplevels u).acked_serial
    ∧ ((initial_configure s t size).toplevels u).geometry = (s.toplevels u).geometry
    ∧ ((initial_configure s t size).toplevels u).app_id = (s.toplevels u).app_id
    ∧ ((initial_configure s t size).toplevels u).title = (s.toplevels u).title
    ∧ ((initial_configure s t size).toplevels u).min_width = (s.toplevels u).min_width
    ∧ ((initial_configure s t size).toplevels u).min_height = (s.toplevels u).min_height
    ∧ ((initial_configure s t size).toplevels u).max_width = (s.toplevels u).max_width
    ∧ ((initial_configure s t size).toplevels u).max_height = (s.toplevels u).max_height
    ∧ ((initial_configure s t size).toplevels u).has_parent = (s.toplevels u).has_parent
    ∧ ((initial_configure s t size).toplevels u).requested_fullscreen = (s.toplevels u).requested_fullscreen
    ∧ ((initial_configure s t size).toplevels u).xdg_fullscreen = (s.toplevels u).xdg_fullscreen
    ∧ ((initial_configure s t size).toplevels u).xdg_activated = (s.toplevels u).xdg_activated
    ∧ ((initial_configure s t size).toplevels u).foreign_activated = (s.toplevels u).foreign_activated
    ∧ ((initial_configure s t size).toplevels u).foreign_fullscreen = (s.toplevels u).foreign_fullscreen
    ∧ ((initial_configure s t size).toplevels u).scene_parent = (s.toplevels u).scene_parent
    ∧ ((initial_configure s t size).toplevels u).scene_enabled = (s.toplevels u).scene_enabled
    ∧ ((initial_configure s t size).toplevels u).scene_x = (s.toplevels u).scene_x
    ∧ ((initial_configure s t size).toplevels u).scene_y = (s.toplevels u).scene_y := by
  unfold initial_configure modify_toplevel set_toplevel
  by_cases h : u = t <;> simp [h]

@[simp] theorem assign_focused_toplevel_server (s : mwc_server) (v : Option Nat) :
    (assign_focused_toplevel s v).toplevels = s.toplevels
    ∧ (assign_focused_toplevel s v).workspaces = s.workspaces
    ∧ (assign_focused_toplevel s v).outputs = s.outputs
    ∧ (assign_focused_toplevel s v).config = s.config
    ∧ (assign_focused_toplevel s v).active_workspace = s.active_workspace
    ∧ (assign_focused_toplevel s v).prev_focused = s.prev_focused
    ∧ (assign_focused_toplevel s v).grabbed_toplevel = s.grabbed_toplevel
    ∧ (assign_focused_toplevel s v).cursor_mode = s.cursor_mode
    ∧ (assign_focused_toplevel s v).cursor_x = s.cursor_x
    ∧ (assign_focused_toplevel s v).cursor_y = s.cursor_y
    ∧ (assign_focused_toplevel s v).grab_x = s.grab_x
    ∧ (assign_focused_toplevel s v).grab_y = s.grab_y
    ∧ (assign_focused_toplevel s v).grabbed_toplevel_initial_box = s.grabbed_toplevel_initial_box
    ∧ (assign_focused_toplevel s v).resize_edges = s.resize_edges
    ∧ (assign_focused_toplevel s v).client_driven_move_resize = s.client_driven_move_resize
    ∧ (assign_focused_toplevel s v).lock = s.lock
    ∧ (assign_focused_toplevel s v).exclusive = s.exclusive
    ∧ (assign_focused_toplevel s v).has_keyboard = s.has_keyboard
    ∧ (assign_focused_toplevel s v).keyboard_focus = s.keyboard_focus
    ∧ (assign_focused_toplevel s v).ipc_active_toplevel_events = s.ipc_active_toplevel_events
    ∧ (assign_focused_toplevel s v).display_serial = s.display_serial := by
  refine ⟨rfl, rfl, rfl, rfl, rfl, rfl, rfl, rfl, rfl, rfl, rfl, rfl, rfl, rfl, rfl, rfl, rfl, rfl, rfl, rfl, rfl⟩

@[simp] theorem clear_prev_focused_server (s : mwc_server) :
    (clear_prev_focused s).toplevels = s.toplevels
    ∧ (clear_prev_focused s).workspaces = s.workspaces ∧ (clear_prev_focused s).outputs = s.outputs
    ∧ (clear_prev_focused s).config = s.config
    ∧ (clear_prev_focused s).active_workspace = s.active_workspace
    ∧ (clear_prev_focused s).focused_toplevel = s.focused_toplevel
    ∧ (clear_prev_focused s).grabbed_toplevel = s.grabbed_toplevel
    ∧ (clear_prev_focused s).cursor_mode = s.cursor_mode
    ∧ (clear_prev_focused s).cursor_x = s.cursor_x ∧ (clear_prev_focused s).cursor_y = s.cursor_y
    ∧ (clear_prev_focused s).grab_x = s.grab_x ∧ (clear_prev_focused s).grab_y = s.grab_y
    ∧ (clear_prev_focused s).grabbed_toplevel_initial_box = s.grabbed_toplevel_initial_box
    ∧ (clear_prev_focused s).resize_edges = s.resize_edges
    ∧ (clear_prev_focused s).client_driven_move_resize = s.client_driven_move_resize
    ∧ (clear_prev_focused s).lock = s.lock ∧ (clear_prev_focused s).exclusive = s.exclusive
    ∧ (clear_prev_focused s).has_keyboard = s.has_keyboard
    ∧ (clear_prev_focused s).keyboard_focus = s.keyboard_focus
    ∧ (clear_prev_focused s).ipc_active_toplevel_events = s.ipc_active_toplevel_events
    ∧ (clear_prev_focused s).display_serial = s.display_serial := by
  refine ⟨rfl, rfl, rfl, rfl, rfl, rfl, rfl, rfl, rfl, rfl, rfl, rfl, rfl, rfl, rfl, rfl, rfl, rfl, rfl, rfl, rfl⟩

@[simp] theorem ipc_broadcast_message_server (s : mwc_server) :
    (ipc_broadcast_message s).toplevels = s.toplevels
    ∧ (ipc_broadcast_message s).workspaces = s.workspaces
    ∧ (ipc_broadcast_message s).outputs = s.outputs ∧ (ipc_broadcast_message s).config = s.config
    ∧ (ipc_broadcast_message s).active_workspace = s.active_workspace
    ∧ (ipc_broadcast_message s).focused_toplevel = s.focused_toplevel
    ∧ (ipc_broadcast_message s).prev_focused = s.prev_focused
    ∧ (ipc_broadcast_message s).grabbed_toplevel = s.grabbed_toplevel
    ∧ (ipc_broadcast_message s).cursor_mode = s.cursor_mode
    ∧ (ipc_broadcast_message s).cursor_x = s.cursor_x
    ∧ (ipc_broadcast_message s).cursor_y = s.cursor_y ∧ (ipc_broadcast_message s).grab_x = s.grab_x
    ∧ (ipc_broadcast_message s).grab_y = s.grab_y
    ∧ (ipc_broadcast_message s).grabbed_toplevel_initial_box = s.grabbed_toplevel_initial_box
    ∧ (ipc_broadcast_message s).resize_edges = s.resize_edges
    ∧ (ipc_broadcast_message s).client_driven_move_resize = s.client_driven_move_resize
    ∧ (ipc_broadcast_message s).lock = s.lock ∧ (ipc_broadcast_message s).exclusive = s.exclusive
    ∧ (ipc_broadcast_message s).has_keyboard = s.has_keyboard
    ∧ (ipc_broadcast_message s).keyboard_focus = s.keyboard_focus
    ∧ (ipc_broadcast_message s).display_serial = s.display_serial := by
  refine ⟨rfl, rfl, rfl, rfl, rfl, rfl, rfl, rfl, rfl, rfl, rfl, rfl, rfl, rfl, rfl, rfl, rfl, rfl, rfl, rfl, rfl⟩

@[simp] theorem wlr_seat_keyboard_notify_enter_server (s : mwc_server) (t : Nat) :
    (wlr_seat_keyboard_notify_enter s t).toplevels = s.toplevels
    ∧ (wlr_seat_keyboard_notify_enter s t).workspaces = s.workspaces
    ∧ (wlr_seat_keyboard_notify_enter s t).outputs = s.outputs
    ∧ (wlr_seat_keyboard_notify_enter s t).config = s.config
    ∧ (wlr_seat_keyboard_notify_enter s t).active_workspace = s.active_workspace
    ∧ (wlr_seat_keyboard_notify_enter s t).focused_toplevel = s.focused_toplevel
    ∧ (wlr_seat_keyboard_notify_enter s t).prev_focused = s.prev_focused
    ∧ (wlr_seat_keyboard_notify_enter s t).grabbed_toplevel = s.grabbed_toplevel
    ∧ (wlr_seat_keyboard_notify_enter s t).cursor_mode = s.cursor_mode
    ∧ (wlr_seat_keyboard_notify_enter s t).cursor_x = s.cursor_x
    ∧ (wlr_seat_keyboard_notify_enter s t).cursor_y = s.cursor_y
    ∧ (wlr_seat_keyboard_notify_enter s t).grab_x = s.grab_x
    ∧ (wlr_seat_keyboard_notify_enter s t).grab_y = s.grab_y
    ∧ (wlr_seat_keyboard_notify_enter s t).grabbed_toplevel_initial_box = s.grabbed_toplevel_initial_box
    ∧ (wlr_seat_keyboard_notify_enter s t).resize_edges = s.resize_edges
    ∧ (wlr_seat_keyboard_notify_enter s t).client_driven_move_resize = s.client_driven_move_resize
    ∧ (wlr_seat_keyboard_notify_enter s t).lock = s.lock
    ∧ (wlr_seat_keyboard_notify_enter s t).exclusive = s.exclusive
    ∧ (wlr_seat_keyboard_notify_enter s t).has_keyboard = s.has_keyboard
    ∧ (wlr_seat_keyboard_notify_enter s t).ipc_active_toplevel_events = s.ipc_active_toplevel_events
    ∧ (wlr_seat_keyboard_notify_enter s t).display_serial = s.display_serial := by
  refine ⟨rfl, rfl, rfl, rfl, rfl, rfl, rfl, rfl, rfl, rfl, rfl, rfl, rfl, rfl, rfl, rfl, rfl, rfl, rfl, rfl, rfl⟩

@[simp] theorem grab_begin_server (s : mwc_server) (t : Nat) (mode : mwc_cursor_mode) (box : wlr_box) :
    (grab_begin s t mode box).toplevels = s.toplevels
    ∧ (grab_begin s t mode box).workspaces = s.workspaces
    ∧ (grab_begin s t mode box).outputs = s.outputs ∧ (grab_begin s t mode box).config = s.config
    ∧ (grab_begin s t mode box).active_workspace = s.active_workspace
    ∧ (grab_begin s t mode box).focused_toplevel = s.focused_toplevel
    ∧ (grab_begin s t mode box).prev_focused = s.prev_focused
    ∧ (grab_begin s t mode box).cursor_x = s.cursor_x
    ∧ (grab_begin s t mode box).cursor_y = s.cursor_y
    ∧ (grab_begin s t mode box).resize_edges = s.resize_edges
    ∧ (grab_begin s t mode box).client_driven_move_resize = s.client_driven_move_resize
    ∧ (grab_begin s t mode box).lock = s.lock ∧ (grab_begin s t mode box).exclusive = s.exclusive
    ∧ (grab_begin s t mode box).has_keyboard = s.has_keyboard
    ∧ (grab_begin s t mode box).keyboard_focus = s.keyboard_focus
    ∧ (grab_begin s t mode box).ipc_active_toplevel_events = s.ipc_active_toplevel_events
    ∧ (grab_begin s t mode box).display_serial = s.display_serial := by
  refine ⟨rfl, rfl, rfl, rfl, rfl, rfl, rfl, rfl, rfl, rfl, rfl, rfl, rfl, rfl, rfl, rfl, rfl⟩

@[simp] theorem assign_resize_edges_server (s : mwc_server) (edges : Nat) :
    (assign_resize_edges s edges).toplevels = s.toplevels
    ∧ (assign_resize_edges s edges).workspaces = s.workspaces
    ∧ (assign_resize_edges s edges).outputs = s.outputs
    ∧ (assign_resize_edges s edges).config = s.config
    ∧ (assign_resize_edges s edges).active_workspace = s.active_workspace
    ∧ (assign_resize_edges s edges).focused_toplevel = s.focused_toplevel
    ∧ (assign_resize_edges s edges).prev_focused = s.prev_focused
    ∧ (assign_resize_edges s edges).grabbed_toplevel = s.grabbed_toplevel
    ∧ (assign_resize_edges s edges).cursor_mode = s.cursor_mode
    ∧ (assign_resize_edges s edges).cursor_x = s.cursor_x
    ∧ (assign_resize_edges s edges).cursor_y = s.cursor_y
    ∧ (assign_resize_edges s edges).grab_x = s.grab_x
    ∧ (assign_resize_edges s edges).grab_y = s.grab_y
    ∧ (assign_resize_edges s edges).grabbed_toplevel_initial_box = s.grabbed_toplevel_initial_box
    ∧ (assign_resize_edges s edges).client_driven_move_resize = s.client_driven_move_resize
    ∧ (assign_resize_edges s edges).lock = s.lock
    ∧ (assign_resize_edges s edges).exclusive = s.exclusive
    ∧ (assign_resize_edges s edges).has_keyboard = s.has_keyboard
    ∧ (assign_resize_edges s edges).keyboard_focus = s.keyboard_focus
    ∧ (assign_resize_edges s edges).ipc_active_toplevel_events = s.ipc_active_toplevel_events
    ∧ (assign_resize_edges s edges).display_serial = s.display_serial := by
  refine ⟨rfl, rfl, rfl, rfl, rfl, rfl, rfl, rfl, rfl, rfl, rfl, rfl, rfl, rfl, rfl, rfl, rfl, rfl, rfl, rfl, rfl⟩

@[simp] theorem server_reset_cursor_mode_server (s : mwc_server) :
    (server_reset_cursor_mode s).toplevels = s.toplevels
    ∧ (server_reset_cursor_mode s).workspaces = s.workspaces
    ∧ (server_reset_cursor_mode s).outputs = s.outputs
    ∧ (server_reset_cursor_mode s).config = s.config
    ∧ (server_reset_cursor_mode s).active_workspace = s.active_workspace
    ∧ (server_reset_cursor_mode s).focused_toplevel = s.focused_toplevel
    ∧ (server_reset_cursor_mode s).prev_focused = s.prev_focused
    ∧ (server_reset_cursor_mode s).cursor_x = s.cursor_x
    ∧ (server_reset_cursor_mode s).cursor_y = s.cursor_y
    ∧ (server_reset_cursor_mode s).grab_x = s.grab_x
    ∧ (server_reset_cursor_mode s).grab_y = s.grab_y
    ∧ (server_reset_cursor_mode s).grabbed_toplevel_initial_box = s.grabbed_toplevel_initial_box
    ∧ (server_reset_cursor_mode s).resize_edges = s.resize_edges
    ∧ (server_reset_cursor_mode s).client_driven_move_resize = s.client_driven_move_resize
    ∧ (server_reset_cursor_mode s).lock = s.lock
    ∧ (server_reset_cursor_mode s).exclusive = s.exclusive
    ∧ (server_reset_cursor_mode s).has_keyboard = s.has_keyboard
    ∧ (server_reset_cursor_mode s).keyboard_focus = s.keyboard_focus
    ∧ (server_reset_cursor_mode s).ipc_active_toplevel_events = s.ipc_active_toplevel_events
    ∧ (server_reset_cursor_mode s).display_serial = s.display_serial := by
  refine ⟨rfl, rfl, rfl, rfl, rfl, rfl, rfl, rfl, rfl, rfl, rfl, rfl, rfl, rfl, rfl, rfl, rfl, rfl, rfl, rfl⟩

@[simp] theorem next_display_serial_server (s : mwc_server) :
    (next_display_serial s).toplevels = s.toplevels
    ∧ (next_display_serial s).workspaces = s.workspaces
    ∧ (next_display_serial s).outputs = s.outputs ∧ (next_display_serial s).config = s.config
    ∧ (next_display_serial s).active_workspace = s.active_workspace
    ∧ (next_display_serial s).focused_toplevel = s.focused_toplevel
    ∧ (next_display_serial s).prev_focused = s.prev_focused
    ∧ (next_display_serial s).grabbed_toplevel = s.grabbed_toplevel
    ∧ (next_display_serial s).cursor_mode = s.cursor_mode
    ∧ (next_display_serial s).cursor_x = s.cursor_x ∧ (next_display_serial s).cursor_y = s.cursor_y
    ∧ (next_display_serial s).grab_x = s.grab_x ∧ (next_display_serial s).grab_y = s.grab_y
    ∧ (next_display_serial s).grabbed_toplevel_initial_box = s.grabbed_toplevel_initial_box
    ∧ (next_display_serial s).resize_edges = s.resize_edges
    ∧ (next_display_serial s).client_driven_move_resize = s.client_driven_move_resize
    ∧ (next_display_serial s).lock = s.lock ∧ (next_display_serial s).exclusive = s.exclusive
    ∧ (next_display_serial s).has_keyboard = s.has_keyboard
    ∧ (next_display_serial s).keyboard_focus = s.keyboard_focus
    ∧ (next_display_serial s).ipc_active_toplevel_events = s.ipc_active_toplevel_events := by
  refine ⟨rfl, rfl, rfl, rfl, rfl, rfl, rfl, rfl, rfl, rfl, rfl, rfl, rfl, rfl, rfl, rfl, rfl, rfl, rfl, rfl, rfl⟩

@[simp] theorem wl_list_remove_server (s : mwc_server) (t : Nat) :
    (wl_list_remove s t).toplevels = s.toplevels ∧ (wl_list_remove s t).outputs = s.outputs
    ∧ (wl_list_remove s t).config = s.config
    ∧ (wl_list_remove s t).active_workspace = s.active_workspace
    ∧ (wl_list_remove s t).focused_toplevel = s.focused_toplevel
    ∧ (wl_list_remove s t).prev_focused = s.prev_focused
    ∧ (wl_list_remove s t).grabbed_toplevel = s.grabbed_toplevel
    ∧ (wl_list_remove s t).cursor_mode = s.cursor_mode ∧ (wl_list_remove s t).cursor_x = s.cursor_x
    ∧ (wl_list_remove s t).cursor_y = s.cursor_y ∧ (wl_list_remove s t).grab_x = s.grab_x
    ∧ (wl_list_remove s t).grab_y = s.grab_y
    ∧ (wl_list_remove s t).grabbed_toplevel_initial_box = s.grabbed_toplevel_initial_box
    ∧ (wl_list_remove s t).resize_edges = s.resize_edges
    ∧ (wl_list_remove s t).client_driven_move_resize = s.client_driven_move_resize
    ∧ (wl_list_remove s t).lock = s.lock ∧ (wl_list_remove s t).exclusive = s.exclusive
    ∧ (wl_list_remove s t).has_keyboard = s.has_keyboard
    ∧ (wl_list_remove s t).keyboard_focus = s.keyboard_focus
    ∧ (wl_list_remove s t).ipc_active_toplevel_events = s.ipc_active_toplevel_events
    ∧ (wl_list_remove s t).display_serial = s.display_serial := by
  refine ⟨rfl, rfl, rfl, rfl, rfl, rfl, rfl, rfl, rfl, rfl, rfl, rfl, rfl, rfl, rfl, rfl, rfl, rfl, rfl, rfl, rfl⟩

@[simp] theorem wl_list_insert_before_server (s : mwc_server) (u t : Nat) :
    (wl_list_insert_before s u t).toplevels = s.toplevels
    ∧ (wl_list_insert_before s u t).outputs = s.outputs
    ∧ (wl_list_insert_before s u t).config = s.config
    ∧ (wl_list_insert_before s u t).active_workspace = s.active_workspace
    ∧ (wl_list_insert_before s u t).focused_toplevel = s.focused_toplevel
    ∧ (wl_list_insert_before s u t).prev_focused = s.prev_focused
    ∧ (wl_list_insert_before s u t).grabbed_toplevel = s.grabbed_toplevel
    ∧ (wl_list_insert_before s u t).cursor_mode = s.cursor_mode
    ∧ (wl_list_insert_before s u t).cursor_x = s.cursor_x
    ∧ (wl_list_insert_before s u t).cursor_y = s.cursor_y
    ∧ (wl_list_insert_before s u t).grab_x = s.grab_x
    ∧ (wl_list_insert_before s u t).grab_y = s.grab_y
    ∧ (wl_list_insert_before s u t).grabbed_toplevel_initial_box = s.grabbed_toplevel_initial_box
    ∧ (wl_list_insert_before s u t).resize_edges = s.resize_edges
    ∧ (wl_list_insert_before s u t).client_driven_move_resize = s.client_driven_move_resize
    ∧ (wl_list_insert_before s u t).lock = s.lock
    ∧ (wl_list_insert_before s u t).exclusive = s.exclusive
    ∧ (wl_list_insert_before s u t).has_keyboard = s.has_keyboard
    ∧ (wl_list_insert_before s u t).keyboard_focus = s.keyboard_focus
    ∧ (wl_list_insert_before s u t).ipc_active_toplevel_events = s.ipc_active_toplevel_events
    ∧ (wl_list_insert_before s u t).display_serial = s.display_serial := by
  refine ⟨rfl, rfl, rfl, rfl, rfl, rfl, rfl, rfl, rfl, rfl, rfl, rfl, rfl, rfl, rfl, rfl, rfl, rfl, rfl, rfl, rfl⟩

@[simp] theorem wl_list_insert_after_server (s : mwc_server) (u t : Nat) :
    (wl_list_insert_after s u t).toplevels = s.toplevels
    ∧ (wl_list_insert_after s u t).outputs = s.outputs
    ∧ (wl_list_insert_after s u t).config = s.config
    ∧ (wl_list_insert_after s u t).active_workspace = s.active_workspace
    ∧ (wl_list_insert_after s u t).focused_toplevel = s.focused_toplevel
    ∧ (wl_list_insert_after s u t).prev_focused = s.prev_focused
    ∧ (wl_list_insert_after s u t).grabbed_toplevel = s.grabbed_toplevel
    ∧ (wl_list_insert_after s u t).cursor_mode = s.cursor_mode
    ∧ (wl_list_insert_after s u t).cursor_x = s.cursor_x
    ∧ (wl_list_insert_after s u t).cursor_y = s.cursor_y
    ∧ (wl_list_insert_after s u t).grab_x = s.grab_x
    ∧ (wl_list_insert_after s u t).grab_y = s.grab_y
    ∧ (wl_list_insert_after s u t).grabbed_toplevel_initial_box = s.grabbed_toplevel_initial_box
    ∧ (wl_list_insert_after s u t).resize_edges = s.resize_edges
    ∧ (wl_list_insert_after s u t).client_driven_move_resize = s.client_driven_move_resize
    ∧ (wl_list_insert_after s u t).lock = s.lock
    ∧ (wl_list_insert_after s u t).exclusive = s.exclusive
    ∧ (wl_list_insert_after s u t).has_keyboard = s.has_keyboard
    ∧ (wl_list_insert_after s u t).keyboard_focus = s.keyboard_focus
    ∧ (wl_list_insert_after s u t).ipc_active_toplevel_events = s.ipc_active_toplevel_events
    ∧ (wl_list_insert_after s u t).display_serial = s.display_serial := by
  refine ⟨rfl, rfl, rfl, rfl, rfl, rfl, rfl, rfl, rfl, rfl, rfl, rfl, rfl, rfl, rfl, rfl, rfl, rfl, rfl, rfl, rfl⟩

@[simp] theorem masters_insert_last_server (s : mwc_server) (w t : Nat) :
    (masters_insert_last s w t).toplevels = s.toplevels
    ∧ (masters_insert_last s w t).outputs = s.outputs
    ∧ (masters_insert_last s w t).config = s.config
    ∧ (masters_insert_last s w t).active_workspace = s.active_workspace
    ∧ (masters_insert_last s w t).focused_toplevel = s.focused_toplevel
    ∧ (masters_insert_last s w t).prev_focused = s.prev_focused
    ∧ (masters_insert_last s w t).grabbed_toplevel = s.grabbed_toplevel
    ∧ (masters_insert_last s w t).cursor_mode = s.cursor_mode
    ∧ (masters_insert_last s w t).cursor_x = s.cursor_x
    ∧ (masters_insert_last s w t).cursor_y = s.cursor_y
    ∧ (masters_insert_last s w t).grab_x = s.grab_x ∧ (masters_insert_last s w t).grab_y = s.grab_y
    ∧ (masters_insert_last s w t).grabbed_toplevel_initial_box = s.grabbed_toplevel_initial_box
    ∧ (masters_insert_last s w t).resize_edges = s.resize_edges
    ∧ (masters_insert_last s w t).client_driven_move_resize = s.client_driven_move_resize
    ∧ (masters_insert_last s w t).lock = s.lock
    ∧ (masters_insert_last s w t).exclusive = s.exclusive
    ∧ (masters_insert_last s w t).has_keyboard = s.has_keyboard
    ∧ (masters_insert_last s w t).keyboard_focus = s.keyboard_focus
    ∧ (masters_insert_last s w t).ipc_active_toplevel_events = s.ipc_active_toplevel_events
    ∧ (masters_insert_last s w t).display_serial = s.display_serial := by
  refine ⟨rfl, rfl, rfl, rfl, rfl, rfl, rfl, rfl, rfl, rfl, rfl, rfl, rfl, rfl, rfl, rfl, rfl, rfl, rfl, rfl, rfl⟩

@[simp] theorem slaves_insert_last_server (s : mwc_server) (w t : Nat) :
    (slaves_insert_last s w t).toplevels = s.toplevels
    ∧ (slaves_insert_last s w t).outputs = s.outputs ∧ (slaves_insert_last s w t).config = s.config
    ∧ (slaves_insert_last s w t).active_workspace = s.active_workspace
    ∧ (slaves_insert_last s w t).focused_toplevel = s.focused_toplevel
    ∧ (slaves_insert_last s w t).prev_focused = s.prev_focused
    ∧ (slaves_insert_last s w t).grabbed_toplevel = s.grabbed_toplevel
    ∧ (slaves_insert_last s w t).cursor_mode = s.cursor_mode
    ∧ (slaves_insert_last s w t).cursor_x = s.cursor_x
    ∧ (slaves_insert_last s w t).cursor_y = s.cursor_y
    ∧ (slaves_insert_last s w t).grab_x = s.grab_x ∧ (slaves_insert_last s w t).grab_y = s.grab_y
    ∧ (slaves_insert_last s w t).grabbed_toplevel_initial_box = s.grabbed_toplevel_initial_box
    ∧ (slaves_insert_last s w t).resize_edges = s.resize_edges
    ∧ (slaves_insert_last s w t).client_driven_move_resize = s.client_driven_move_resize
    ∧ (slaves_insert_last s w t).lock = s.lock ∧ (slaves_insert_last s w t).exclusive = s.exclusive
    ∧ (slaves_insert_last s w t).has_keyboard = s.has_keyboard
    ∧ (slaves_insert_last s w t).keyboard_focus = s.keyboard_focus
    ∧ (slaves_insert_last s w t).ipc_active_toplevel_events = s.ipc_active_toplevel_events
    ∧ (slaves_insert_last s w t).display_serial = s.display_serial := by
  refine ⟨rfl, rfl, rfl, rfl, rfl, rfl, rfl, rfl, rfl, rfl, rfl, rfl, rfl, rfl, rfl, rfl, rfl, rfl, rfl, rfl, rfl⟩

@[simp] theorem floating_insert_first_server (s : mwc_server) (w t : Nat) :
    (floating_insert_first s w t).toplevels = s.toplevels
    ∧ (floating_insert_first s w t).outputs = s.outputs
    ∧ (floating_insert_first s w t).config = s.config
    ∧ (floating_insert_first s w t).active_workspace = s.active_workspace
    ∧ (floating_insert_first s w t).focused_toplevel = s.focused_toplevel
    ∧ (floating_insert_first s w t).prev_focused = s.prev_focused
    ∧ (floating_insert_first s w t).grabbed_toplevel = s.grabbed_toplevel
    ∧ (floating_insert_first s w t).cursor_mode = s.cursor_mode
    ∧ (floating_insert_first s w t).cursor_x = s.cursor_x
    ∧ (floating_insert_first s w t).cursor_y = s.cursor_y
    ∧ (floating_insert_first s w t).grab_x = s.grab_x
    ∧ (floating_insert_first s w t).grab_y = s.grab_y
    ∧ (floating_insert_first s w t).grabbed_toplevel_initial_box = s.grabbed_toplevel_initial_box
    ∧ (floating_insert_first s w t).resize_edges = s.resize_edges
    ∧ (floating_insert_first s w t).client_driven_move_resize = s.client_driven_move_resize
    ∧ (floating_insert_first s w t).lock = s.lock
    ∧ (floating_insert_first s w t).exclusive = s.exclusive
    ∧ (floating_insert_first s w t).has_keyboard = s.has_keyboard
    ∧ (floating_insert_first s w t).keyboard_focus = s.keyboard_focus
    ∧ (floating_insert_first s w t).ipc_active_toplevel_events = s.ipc_active_toplevel_events
    ∧ (floating_insert_first s w t).display_serial = s.display_serial := by
  refine ⟨rfl, rfl, rfl, rfl, rfl, rfl, rfl, rfl, rfl, rfl, rfl, rfl, rfl, rfl, rfl, rfl, rfl, rfl, rfl, rfl, rfl⟩

@[simp] theorem assign_fullscreen_toplevel_server (s : mwc_server) (w : Nat) (v : Option Nat) :
    (assign_fullscreen_toplevel s w v).toplevels = s.toplevels
    ∧ (assign_fullscreen_toplevel s w v).outputs = s.outputs
    ∧ (assign_fullscreen_toplevel s w v).config = s.config
    ∧ (assign_fullscreen_toplevel s w v).active_workspace = s.active_workspace
    ∧ (assign_fullscreen_toplevel s w v).focused_toplevel = s.focused_toplevel
    ∧ (assign_fullscreen_toplevel s w v).prev_focused = s.prev_focused
    ∧ (assign_fullscreen_toplevel s w v).grabbed_toplevel = s.grabbed_toplevel
    ∧ (assign_fullscreen_toplevel s w v).cursor_mode = s.cursor_mode
    ∧ (assign_fullscreen_toplevel s w v).cursor_x = s.cursor_x
    ∧ (assign_fullscreen_toplevel s w v).cursor_y = s.cursor_y
    ∧ (assign_fullscreen_toplevel s w v).grab_x = s.grab_x
    ∧ (assign_fullscreen_toplevel s w v).grab_y = s.grab_y
    ∧ (assign_fullscreen_toplevel s w v).grabbed_toplevel_initial_box = s.grabbed_toplevel_initial_box
    ∧ (assign_fullscreen_toplevel s w v).resize_edges = s.resize_edges
    ∧ (assign_fullscreen_toplevel s w v).client_driven_move_resize = s.client_driven_move_resize
    ∧ (assign_fullscreen_toplevel s w v).lock = s.lock
    ∧ (assign_fullscreen_toplevel s w v).exclusive = s.exclusive
    ∧ (assign_fullscreen_toplevel s w v).has_keyboard = s.has_keyboard
    ∧ (assign_fullscreen_toplevel s w v).keyboard_focus = s.keyboard_focus
    ∧ (assign_fullscreen_toplevel s w v).ipc_active_toplevel_events = s.ipc_active_toplevel_events
    ∧ (assign_fullscreen_toplevel s w v).display_serial = s.display_serial := by
  refine ⟨rfl, rfl, rfl, rfl, rfl, rfl, rfl, rfl, rfl, rfl, rfl, rfl, rfl, rfl, rfl, rfl, rfl, rfl, rfl, rfl, rfl⟩

@[simp] theorem layers_under_fullscreen_set_enabled_server (s : mwc_server) (o : Nat) (b : Bool) :
    (layers_under_fullscreen_set_enabled s o b).toplevels = s.toplevels
    ∧ (layers_under_fullscreen_set_enabled s o b).workspaces = s.workspaces
    ∧ (layers_under_fullscreen_set_enabled s o b).config = s.config
    ∧ (layers_under_fullscreen_set_enabled s o b).active_workspace = s.active_workspace
    ∧ (layers_under_fullscreen_set_enabled s o b).focused_toplevel = s.focused_toplevel
    ∧ (layers_under_fullscreen_set_enabled s o b).prev_focused = s.prev_focused
    ∧ (layers_under_fullscreen_set_enabled s o b).grabbed_toplevel = s.grabbed_toplevel
    ∧ (layers_under_fullscreen_set_enabled s o b).cursor_mode = s.cursor_mode
    ∧ (layers_under_fullscreen_set_enabled s o b).cursor_x = s.cursor_x
    ∧ (layers_under_fullscreen_set_enabled s o b).cursor_y = s.cursor_y
    ∧ (layers_under_fullscreen_set_enabled s o b).grab_x = s.grab_x
    ∧ (layers_under_fullscreen_set_enabled s o b).grab_y = s.grab_y
    ∧ (layers_under_fullscreen_set_enabled s o b).grabbed_toplevel_initial_box = s.grabbed_toplevel_initial_box
    ∧ (layers_under_fullscreen_set_enabled s o b).resize_edges = s.resize_edges
    ∧ (layers_under_fullscreen_set_enabled s o b).client_driven_move_resize = s.client_driven_move_resize
    ∧ (layers_under_fullscreen_set_enabled s o b).lock = s.lock
    ∧ (layers_under_fullscreen_set_enabled s o b).exclusive = s.exclusive
    ∧ (layers_under_fullscreen_set_enabled s o b).has_keyboard = s.has_keyboard
    ∧ (layers_under_fullscreen_set_enabled s o b).keyboard_focus = s.keyboard_focus
    ∧ (layers_under_fullscreen_set_enabled s o b).ipc_active_toplevel_events = s.ipc_active_toplevel_events
    ∧ (layers_under_fullscreen_set_enabled s o b).display_serial = s.display_serial := by
  refine ⟨rfl, rfl, rfl, rfl, rfl, rfl, rfl, rfl, rfl, rfl, rfl, rfl, rfl, rfl, rfl, rfl, rfl, rfl, rfl, rfl, rfl⟩

@[simp] theorem scene_set_enabled_others_server (s : mwc_server) (w t : Nat) (b : Bool) :
    (scene_set_enabled_others s w t b).workspaces = s.workspaces
    ∧ (scene_set_enabled_others s w t b).outputs = s.outputs
    ∧ (scene_set_enabled_others s w t b).config = s.config
    ∧ (scene_set_enabled_others s w t b).active_workspace = s.active_workspace
    ∧ (scene_set_enabled_others s w t b).focused_toplevel = s.focused_toplevel
    ∧ (scene_set_enabled_others s w t b).prev_focused = s.prev_focused
    ∧ (scene_set_enabled_others s w t b).grabbed_toplevel = s.grabbed_toplevel
    ∧ (scene_set_enabled_others s w t b).cursor_mode = s.cursor_mode
    ∧ (scene_set_enabled_others s w t b).cursor_x = s.cursor_x
    ∧ (scene_set_enabled_others s w t b).cursor_y = s.cursor_y
    ∧ (scene_set_enabled_others s w t b).grab_x = s.grab_x
    ∧ (scene_set_enabled_others s w t b).grab_y = s.grab_y
    ∧ (scene_set_enabled_others s w t b).grabbed_toplevel_initial_box = s.grabbed_toplevel_initial_box
    ∧ (scene_set_enabled_others s w t b).resize_edges = s.resize_edges
    ∧ (scene_set_enabled_others s w t b).client_driven_move_resize = s.client_driven_move_resize
    ∧ (scene_set_enabled_others s w t b).lock = s.lock
    ∧ (scene_set_enabled_others s w t b).exclusive = s.exclusive
    ∧ (scene_set_enabled_others s w t b).has_keyboard = s.has_keyboard
    ∧ (scene_set_enabled_others s w t b).keyboard_focus = s.keyboard_focus
    ∧ (scene_set_enabled_others s w t b).ipc_active_toplevel_events = s.ipc_active_toplevel_events
    ∧ (scene_set_enabled_others s w t b).display_serial = s.display_serial := by
  refine ⟨rfl, rfl, rfl, rfl, rfl, rfl, rfl, rfl, rfl, rfl, rfl, rfl, rfl, rfl, rfl, rfl, rfl, rfl, rfl, rfl, rfl⟩

@[simp] theorem set_toplevel_server (s : mwc_server) (t : Nat) (v : mwc_toplevel) :
    (set_toplevel s t v).workspaces = s.workspaces ∧ (set_toplevel s t v).outputs = s.outputs
    ∧ (set_toplevel s t v).config = s.config
    ∧ (set_toplevel s t v).active_workspace = s.active_workspace
    ∧ (set_toplevel s t v).focused_toplevel = s.focused_toplevel
    ∧ (set_toplevel s t v).prev_focused = s.prev_focused
    ∧ (set_toplevel s t v).grabbed_toplevel = s.grabbed_toplevel
    ∧ (set_toplevel s t v).cursor_mode = s.cursor_mode ∧ (set_toplevel s t v).cursor_x = s.cursor_x
    ∧ (set_toplevel s t v).cursor_y = s.cursor_y ∧ (set_toplevel s t v).grab_x = s.grab_x
    ∧ (set_toplevel s t v).grab_y = s.grab_y
    ∧ (set_toplevel s t v).grabbed_toplevel_initial_box = s.grabbed_toplevel_initial_box
    ∧ (set_toplevel s t v).resize_edges = s.resize_edges
    ∧ (set_toplevel s t v).client_driven_move_resize = s.client_driven_move_resize
    ∧ (set_toplevel s t v).lock = s.lock ∧ (set_toplevel s t v).exclusive = s.exclusive
    ∧ (set_toplevel s t v).has_keyboard = s.has_keyboard
    ∧ (set_toplevel s t v).keyboard_focus = s.keyboard_focus
    ∧ (set_toplevel s t v).ipc_active_toplevel_events = s.ipc_active_toplevel_events
    ∧ (set_toplevel s t v).display_serial = s.display_serial := by
  refine ⟨rfl, rfl, rfl, rfl, rfl, rfl, rfl, rfl, rfl, rfl, rfl, rfl, rfl, rfl, rfl, rfl, rfl, rfl, rfl, rfl, rfl⟩

@[simp] theorem modify_toplevel_server (s : mwc_server) (t : Nat) (f : mwc_toplevel → mwc_toplevel) :
    (modify_toplevel s t f).workspaces = s.workspaces
    ∧ (modify_toplevel s t f).outputs = s.outputs ∧ (modify_toplevel s t f).config = s.config
    ∧ (modify_toplevel s t f).active_workspace = s.active_workspace
    ∧ (modify_toplevel s t f).focused_toplevel = s.focused_toplevel
    ∧ (modify_toplevel s t f).prev_focused = s.prev_focused
    ∧ (modify_toplevel s t f).grabbed_toplevel = s.grabbed_toplevel
    ∧ (modify_toplevel s t f).cursor_mode = s.cursor_mode
    ∧ (modify_toplevel s t f).cursor_x = s.cursor_x ∧ (modify_toplevel s t f).cursor_y = s.cursor_y
    ∧ (modify_toplevel s t f).grab_x = s.grab_x ∧ (modify_toplevel s t f).grab_y = s.grab_y
    ∧ (modify_toplevel s t f).grabbed_toplevel_initial_box = s.grabbed_toplevel_initial_box
    ∧ (modify_toplevel s t f).resize_edges = s.resize_edges
    ∧ (modify_toplevel s t f).client_driven_move_resize = s.client_driven_move_resize
    ∧ (modify_toplevel s t f).lock = s.lock ∧ (modify_toplevel s t f).exclusive = s.exclusive
    ∧ (modify_toplevel s t f).has_keyboard = s.has_keyboard
    ∧ (modify_toplevel s t f).keyboard_focus = s.keyboard_focus
    ∧ (modify_toplevel s t f).ipc_active_toplevel_events = s.ipc_active_toplevel_events
    ∧ (modify_toplevel s t f).display_serial = s.display_serial := by
  refine ⟨rfl, rfl, rfl, rfl, rfl, rfl, rfl, rfl, rfl, rfl, rfl, rfl, rfl, rfl, rfl, rfl, rfl, rfl, rfl, rfl, rfl⟩

@[simp] theorem toplevel_commit_server (s : mwc_server) (t : Nat) :
    (toplevel_commit s t).workspaces = s.workspaces ∧ (toplevel_commit s t).outputs = s.outputs
    ∧ (toplevel_commit s t).config = s.config
    ∧ (toplevel_commit s t).active_workspace = s.active_workspace
    ∧ (toplevel_commit s t).focused_toplevel = s.focused_toplevel
    ∧ (toplevel_commit s t).prev_focused = s.prev_focused
    ∧ (toplevel_commit s t).grabbed_toplevel = s.grabbed_toplevel
    ∧ (toplevel_commit s t).cursor_mode = s.cursor_mode
    ∧ (toplevel_commit s t).cursor_x = s.cursor_x ∧ (toplevel_commit s t).cursor_y = s.cursor_y
    ∧ (toplevel_commit s t).grab_x = s.grab_x ∧ (toplevel_commit s t).grab_y = s.grab_y
    ∧ (toplevel_commit s t).grabbed_toplevel_initial_box = s.grabbed_toplevel_initial_box
    ∧ (toplevel_commit s t).resize_edges = s.resize_edges
    ∧ (toplevel_commit s t).client_driven_move_resize = s.client_driven_move_resize
    ∧ (toplevel_commit s t).lock = s.lock ∧ (toplevel_commit s t).exclusive = s.exclusive
    ∧ (toplevel_commit s t).has_keyboard = s.has_keyboard
    ∧ (toplevel_commit s t).keyboard_focus = s.keyboard_focus
    ∧ (toplevel_commit s t).ipc_active_toplevel_events = s.ipc_active_toplevel_events
    ∧ (toplevel_commit s t).display_serial = s.display_serial := by
  refine ⟨rfl, rfl, rfl, rfl, rfl, rfl, rfl, rfl, rfl, rfl, rfl, rfl, rfl, rfl, rfl, rfl, rfl, rfl, rfl, rfl, rfl⟩

@[simp] theorem assign_focused_toplevel_value (s : mwc_server) (v : Option Nat) :
    (assign_focused_toplevel s v).focused_toplevel = v := rfl

@[simp] theorem clear_prev_focused_value (s : mwc_server) :
    (clear_prev_focused s).prev_focused = none := rfl

@[simp] theorem ipc_broadcast_message_value (s : mwc_server) :
    (ipc_broadcast_message s).ipc_active_toplevel_events = s.ipc_active_toplevel_events + 1 := rfl

@[simp] theorem wlr_seat_keyboard_notify_enter_value (s : mwc_server) (t : Nat) :
    (wlr_seat_keyboard_notify_enter s t).keyboard_focus = some t := rfl

@[simp] theorem grab_begin_value (s : mwc_server) (t : Nat) (mode : mwc_cursor_mode) (box : wlr_box) :
    (grab_begin s t mode box).grabbed_toplevel = some t
    ∧ (grab_begin s t mode box).cursor_mode = mode
    ∧ (grab_begin s t mode box).grab_x = s.cursor_x
    ∧ (grab_begin s t mode box).grab_y = s.cursor_y
    ∧ (grab_begin s t mode box).grabbed_toplevel_initial_box = box := by
  refine ⟨rfl, rfl, rfl, rfl, rfl⟩

@[simp] theorem assign_resize_edges_value (s : mwc_server) (edges : Nat) :
    (assign_resize_edges s edges).resize_edges = edges := rfl

@[simp] theorem server_reset_cursor_mode_value (s : mwc_server) :
    (server_reset_cursor_mode s).grabbed_toplevel = none
    ∧ (server_reset_cursor_mode s).cursor_mode = mwc_cursor_mode.MWC_CURSOR_PASSTHROUGH := by
  refine ⟨rfl, rfl⟩

@[simp] theorem next_display_serial_value (s : mwc_server) :
    (next_display_serial s).display_serial = s.display_serial + 1 := rfl

@[simp] theorem wlr_xdg_toplevel_set_activated_value (s : mwc_server) (t : Nat) (b : Bool) :
    ((wlr_xdg_toplevel_set_activated s t b).toplevels t).xdg_activated = b := by
  simp [wlr_xdg_toplevel_set_activated, modify_toplevel, set_toplevel]

@[simp] theorem wlr_foreign_toplevel_handle_v1_set_activated_value (s : mwc_server) (t : Nat) (b : Bool) :
    ((wlr_foreign_toplevel_handle_v1_set_activated s t b).toplevels t).foreign_activated = b := by
  simp [wlr_foreign_toplevel_handle_v1_set_activated, modify_toplevel, set_toplevel]

@[simp] theorem wlr_xdg_toplevel_set_fullscreen_value (s : mwc_server) (t : Nat) (b : Bool) :
    ((wlr_xdg_toplevel_set_fullscreen s t b).toplevels t).xdg_fullscreen = b := by
  simp [wlr_xdg_toplevel_set_fullscreen, modify_toplevel, set_toplevel]

@[simp] theorem wlr_foreign_toplevel_handle_v1_set_fullscreen_value (s : mwc_server) (t : Nat) (b : Bool) :
    ((wlr_foreign_toplevel_handle_v1_set_fullscreen s t b).toplevels t).foreign_fullscreen = b := by
  simp [wlr_foreign_toplevel_handle_v1_set_fullscreen, modify_toplevel, set_toplevel]

@[simp] theorem wlr_scene_xdg_surface_create_value (s : mwc_server) (t : Nat) (tree : scene_tree) :
    ((wlr_scene_xdg_surface_create s t tree).toplevels t).scene_parent = some tree
    ∧ ((wlr_scene_xdg_surface_create s t tree).toplevels t).scene_enabled = true := by
  simp [wlr_scene_xdg_surface_create, modify_toplevel, set_toplevel]

@[simp] theorem wlr_scene_node_reparent_value (s : mwc_server) (t : Nat) (tree : scene_tree) :
    ((wlr_scene_node_reparent s t tree).toplevels t).scene_parent = some tree := by
  simp [wlr_scene_node_reparent, modify_toplevel, set_toplevel]

@[simp] theorem wlr_scene_node_set_position_value (s : mwc_server) (t : Nat) (x y : Int) :
    ((wlr_scene_node_set_position s t x y).toplevels t).scene_x = x
    ∧ ((wlr_scene_node_set_position s t x y).toplevels t).scene_y = y := by
  simp [wlr_scene_node_set_position, modify_toplevel, set_toplevel]

@[simp] theorem wlr_scene_node_set_enabled_value (s : mwc_server) (t : Nat) (b : Bool) :
    ((wlr_scene_node_set_enabled s t b).toplevels t).scene_enabled = b := by
  simp [wlr_scene_node_set_enabled, modify_toplevel, set_toplevel]

@[simp] theorem assign_floating_value (s : mwc_server) (t : Nat) (b : Bool) :
    ((assign_floating s t b).toplevels t).floating = b := by
  simp [assign_floating, modify_toplevel, set_toplevel]

@[simp] theorem assign_fullscreen_value (s : mwc_server) (t : Nat) (b : Bool) :
    ((assign_fullscreen s t b).toplevels t).fullscreen = b := by
  simp [assign_fullscreen, modify_toplevel, set_toplevel]

@[simp] theorem assign_workspace_value (s : mwc_server) (t : Nat) (w : Nat) :
    ((assign_workspace s t w).toplevels t).workspace = w := by
  simp [assign_workspace, modify_toplevel, set_toplevel]

@[simp] theorem assign_resizing_value (s : mwc_server) (t : Nat) (b : Bool) :
    ((assign_resizing s t b).toplevels t).resizing = b := by
  simp [assign_resizing, modify_toplevel, set_toplevel]

@[simp] theorem save_prev_geometry_value (s : mwc_server) (t : Nat) :
    ((save_prev_geometry s t).toplevels t).prev_geometry = (s.toplevels t).current := by
  simp [save_prev_geometry, modify_toplevel, set_toplevel]

@[simp] theorem surface_set_mapped_value (s : mwc_server) (t : Nat) (b : Bool) :
    ((surface_set_mapped s t b).toplevels t).mapped = b := by
  simp [surface_set_mapped, modify_toplevel, set_toplevel]

@[simp] theorem initial_configure_value (s : mwc_server) (t : Nat) (size : Nat × Nat) :
    ((initial_configure s t size).toplevels t).xdg_size = size
    ∧ ((initial_configure s t size).toplevels t).xdg_maximized = true
    ∧ ((initial_configure s t size).toplevels t).xdg_tiled = WLR_EDGE_TOP &&& WLR_EDGE_RIGHT &&& WLR_EDGE_BOTTOM &&& WLR_EDGE_LEFT := by
  simp [initial_configure, modify_toplevel, set_toplevel]

@[simp] theorem scene_set_enabled_others_fields (s : mwc_server) (w t : Nat) (b : Bool) (u : Nat) :
    ((scene_set_enabled_others s w t b).toplevels u).workspace = (s.toplevels u).workspace
    ∧ ((scene_set_enabled_others s w t b).toplevels u).floating = (s.toplevels u).floating
    ∧ ((scene_set_enabled_others s w t b).toplevels u).fullscreen = (s.toplevels u).fullscreen
    ∧ ((scene_set_enabled_others s w t b).toplevels u).resizing = (s.toplevels u).resizing
    ∧ ((scene_set_enabled_others s w t b).toplevels u).dirty = (s.toplevels u).dirty
    ∧ ((scene_set_enabled_others s w t b).toplevels u).pending = (s.toplevels u).pending
    ∧ ((scene_set_enabled_others s w t b).toplevels u).current = (s.toplevels u).current
    ∧ ((scene_set_enabled_others s w t b).toplevels u).prev_geometry = (s.toplevels u).prev_geometry
    ∧ ((scene_set_enabled_others s w t b).toplevels u).configure_serial = (s.toplevels u).configure_serial
    ∧ ((scene_set_enabled_others s w t b).toplevels u).animation = (s.toplevels u).animation
    ∧ ((scene_set_enabled_others s w t b).toplevels u).active_opacity = (s.toplevels u).active_opacity
    ∧ ((scene_set_enabled_others s w t b).toplevels u).inactive_opacity = (s.toplevels u).inactive_opacity
    ∧ ((scene_set_enabled_others s w t b).toplevels u).mapped = (s.toplevels u).mapped
    ∧ ((scene_set_enabled_others s w t b).toplevels u).initialized = (s.toplevels u).initialized
    ∧ ((scene_set_enabled_others s w t b).toplevels u).initial_commit = (s.toplevels u).initial_commit
    ∧ ((scene_set_enabled_others s w t b).toplevels u).acked_serial = (s.toplevels u).acked_serial
    ∧ ((scene_set_enabled_others s w t b).toplevels u).geometry = (s.toplevels u).geometry
    ∧ ((scene_set_enabled_others s w t b).toplevels u).app_id = (s.toplevels u).app_id
    ∧ ((scene_set_enabled_others s w t b).toplevels u).title = (s.toplevels u).title
    ∧ ((scene_set_enabled_others s w t b).toplevels u).min_width = (s.toplevels u).min_width
    ∧ ((scene_set_enabled_others s w t b).toplevels u).min_height = (s.toplevels u).min_height
    ∧ ((scene_set_enabled_others s w t b).toplevels u).max_width = (s.toplevels u).max_width
    ∧ ((scene_set_enabled_others s w t b).toplevels u).max_height = (s.toplevels u).max_height
    ∧ ((scene_set_enabled_others s w t b).toplevels u).has_parent = (s.toplevels u).has_parent
    ∧ ((scene_set_enabled_others s w t b).toplevels u).requested_fullscreen = (s.toplevels u).requested_fullscreen
    ∧ ((scene_set_enabled_others s w t b).toplevels u).xdg_size = (s.toplevels u).xdg_size
    ∧ ((scene_set_enabled_others s w t b).toplevels u).xdg_maximized = (s.toplevels u).xdg_maximized
    ∧ ((scene_set_enabled_others s w t b).toplevels u).xdg_tiled = (s.toplevels u).xdg_tiled
    ∧ ((scene_set_enabled_others s w t b).toplevels u).xdg_fullscreen = (s.toplevels u).xdg_fullscreen
    ∧ ((scene_set_enabled_others s w t b).toplevels u).xdg_activated = (s.toplevels u).xdg_activated
    ∧ ((scene_set_enabled_others s w t b).toplevels u).foreign_activated = (s.toplevels u).foreign_activated
    ∧ ((scene_set_enabled_others s w t b).toplevels u).foreign_fullscreen = (s.toplevels u).foreign_fullscreen
    ∧ ((scene_set_enabled_others s w t b).toplevels u).scene_parent = (s.toplevels u).scene_parent
    ∧ ((scene_set_enabled_others s w t b).toplevels u).scene_x = (s.toplevels u).scene_x
    ∧ ((scene_set_enabled_others s w t b).toplevels u).scene_y = (s.toplevels u).scene_y := by
  unfold scene_set_enabled_others
  dsimp only
  split <;> simp

@[simp] theorem pending_request_fields (s : mwc_server) (t : Nat) (x y w h : Int) :
    (pending_request s t x y w h).pending = ⟨wrap_i32 x, wrap_i32 y, wrap_i32 w, wrap_i32 h⟩
    ∧ (pending_request s t x y w h).workspace = (s.toplevels t).workspace
    ∧ (pending_request s t x y w h).floating = (s.toplevels t).floating
    ∧ (pending_request s t x y w h).fullscreen = (s.toplevels t).fullscreen
    ∧ (pending_request s t x y w h).resizing = (s.toplevels t).resizing
    ∧ (pending_request s t x y w h).dirty = (s.toplevels t).dirty
    ∧ (pending_request s t x y w h).current = (s.toplevels t).current
    ∧ (pending_request s t x y w h).prev_geometry = (s.toplevels t).prev_geometry
    ∧ (pending_request s t x y w h).configure_serial = (s.toplevels t).configure_serial
    ∧ (pending_request s t x y w h).active_opacity = (s.toplevels t).active_opacity
    ∧ (pending_request s t x y w h).inactive_opacity = (s.toplevels t).inactive_opacity
    ∧ (pending_request s t x y w h).mapped = (s.toplevels t).mapped
    ∧ (pending_request s t x y w h).initialized = (s.toplevels t).initialized
    ∧ (pending_request s t x y w h).initial_commit = (s.toplevels t).initial_commit
    ∧ (pending_request s t x y w h).acked_serial = (s.toplevels t).acked_serial
    ∧ (pending_request s t x y w h).geometry = (s.toplevels t).geometry
    ∧ (pending_request s t x y w h).app_id = (s.toplevels t).app_id
    ∧ (pending_request s t x y w h).title = (s.toplevels t).title
    ∧ (pending_request s t x y w h).min_width = (s.toplevels t).min_width
    ∧ (pending_request s t x y w h).min_height = (s.toplevels t).min_height
    ∧ (pending_request s t x y w h).max_width = (s.toplevels t).max_width
    ∧ (pending_request s t x y w h).max_height = (s.toplevels t).max_height
    ∧ (pending_request s t x y w h).has_parent = (s.toplevels t).has_parent
    ∧ (pending_request s t x y w h).requested_fullscreen = (s.toplevels t).requested_fullscreen
    ∧ (pending_request s t x y w h).xdg_size = (s.toplevels t).xdg_size
    ∧ (pending_request s t x y w h).xdg_maximized = (s.toplevels t).xdg_maximized
    ∧ (pending_request s t x y w h).xdg_tiled = (s.toplevels t).xdg_tiled
    ∧ (pending_request s t x y w h).xdg_fullscreen = (s.toplevels t).xdg_fullscreen
    ∧ (pending_request s t x y w h).xdg_activated = (s.toplevels t).xdg_activated
    ∧ (pending_request s t x y w h).foreign_activated = (s.toplevels t).foreign_activated
    ∧ (pending_request s t x y w h).foreign_fullscreen = (s.toplevels t).foreign_fullscreen
    ∧ (pending_request s t x y w h).scene_parent = (s.toplevels t).scene_parent
    ∧ (pending_request s t x y w h).scene_enabled = (s.toplevels t).scene_enabled
    ∧ (pending_request s t x y w h).scene_x = (s.toplevels t).scene_x
    ∧ (pending_request s t x y w h).scene_y = (s.toplevels t).scene_y := by
  unfold pending_request
  dsimp only
  split <;> simp

@[simp] theorem committed_fields (frames : Nat) (tl : mwc_toplevel) :
    (committed frames tl).current = tl.pending ∧ (committed frames tl).dirty = false
    ∧ (committed frames tl).workspace = tl.workspace ∧ (committed frames tl).floating = tl.floating
    ∧ (committed frames tl).fullscreen = tl.fullscreen
    ∧ (committed frames tl).resizing = tl.resizing ∧ (committed frames tl).pending = tl.pending
    ∧ (committed frames tl).prev_geometry = tl.prev_geometry
    ∧ (committed frames tl).configure_serial = tl.configure_serial
    ∧ (committed frames tl).active_opacity = tl.active_opacity
    ∧ (committed frames tl).inactive_opacity = tl.inactive_opacity
    ∧ (committed frames tl).mapped = tl.mapped ∧ (committed frames tl).initialized = tl.initialized
    ∧ (committed frames tl).initial_commit = tl.initial_commit
    ∧ (committed frames tl).acked_serial = tl.acked_serial
    ∧ (committed frames tl).geometry = tl.geometry ∧ (committed frames tl).app_id = tl.app_id
    ∧ (committed frames tl).title = tl.title ∧ (committed frames tl).min_width = tl.min_width
    ∧ (committed frames tl).min_height = tl.min_height
    ∧ (committed frames tl).max_width = tl.max_width
    ∧ (committed frames tl).max_height = tl.max_height
    ∧ (committed frames tl).has_parent = tl.has_parent
    ∧ (committed frames tl).requested_fullscreen = tl.requested_fullscreen
    ∧ (committed frames tl).xdg_size = tl.xdg_size
    ∧ (committed frames tl).xdg_maximized = tl.xdg_maximized
    ∧ (committed frames tl).xdg_tiled = tl.xdg_tiled
    ∧ (committed frames tl).xdg_fullscreen = tl.xdg_fullscreen
    ∧ (committed frames tl).xdg_activated = tl.xdg_activated
    ∧ (committed frames tl).foreign_activated = tl.foreign_activated
    ∧ (committed frames tl).foreign_fullscreen = tl.foreign_fullscreen
    ∧ (committed frames tl).scene_parent = tl.scene_parent
    ∧ (committed frames tl).scene_enabled = tl.scene_enabled
    ∧ (committed frames tl).scene_x = tl.scene_x ∧ (committed frames tl).scene_y = tl.scene_y := by
  unfold committed
  split <;> simp

@[simp] theorem size_requested_fields (tl : mwc_toplevel) (serial : Nat) (w h : Int) :
    (size_requested tl serial w h).configure_serial = serial
    ∧ (size_requested tl serial w h).dirty = true
    ∧ (size_requested tl serial w h).workspace = tl.workspace
    ∧ (size_requested tl serial w h).floating = tl.floating
    ∧ (size_requested tl serial w h).fullscreen = tl.fullscreen
    ∧ (size_requested tl serial w h).resizing = tl.resizing
    ∧ (size_requested tl serial w h).pending = tl.pending
    ∧ (size_requested tl serial w h).current = tl.current
    ∧ (size_requested tl serial w h).prev_geometry = tl.prev_geometry
    ∧ (size_requested tl serial w h).animation = tl.animation
    ∧ (size_requested tl serial w h).active_opacity = tl.active_opacity
    ∧ (size_requested tl serial w h).inactive_opacity = tl.inactive_opacity
    ∧ (size_requested tl serial w h).mapped = tl.mapped
    ∧ (size_requested tl serial w h).initialized = tl.initialized
    ∧ (size_requested tl serial w h).initial_commit = tl.initial_commit
    ∧ (size_requested tl serial w h).acked_serial = tl.acked_serial
    ∧ (size_requested tl serial w h).geometry = tl.geometry
    ∧ (size_requested tl serial w h).app_id = tl.app_id
    ∧ (size_requested tl serial w h).title = tl.title
    ∧ (size_requested tl serial w h).min_width = tl.min_width
    ∧ (size_requested tl serial w h).min_height = tl.min_height
    ∧ (size_requested tl serial w h).max_width = tl.max_width
    ∧ (size_requested tl serial w h).max_height = tl.max_height
    ∧ (size_requested tl serial w h).has_parent = tl.has_parent
    ∧ (size_requested tl serial w h).requested_fullscreen = tl.requested_fullscreen
    ∧ (size_requested tl serial w h).xdg_maximized = tl.xdg_maximized
    ∧ (size_requested tl serial w h).xdg_tiled = tl.xdg_tiled
    ∧ (size_requested tl serial w h).xdg_fullscreen = tl.xdg_fullscreen
    ∧ (size_requested tl serial w h).xdg_activated = tl.xdg_activated
    ∧ (size_requested tl serial w h).foreign_activated = tl.foreign_activated
    ∧ (size_requested tl serial w h).foreign_fullscreen = tl.foreign_fullscreen
    ∧ (size_requested tl serial w h).scene_parent = tl.scene_parent
    ∧ (size_requested tl serial w h).scene_enabled = tl.scene_enabled
    ∧ (size_requested tl serial w h).scene_x = tl.scene_x
    ∧ (size_requested tl serial w h).scene_y = tl.scene_y := by
  simp [size_requested]

/-! ## Frame lemmas: the lists of a workspace -/

@[simp] theorem set_toplevel_same (s : mwc_server) (t : Nat) (v : mwc_toplevel) :
    (set_toplevel s t v).toplevels t = v := by simp [set_toplevel]

theorem set_toplevel_other (s : mwc_server) (t u : Nat) (v : mwc_toplevel) (h : u ≠ t) :
    (set_toplevel s t v).toplevels u = s.toplevels u := by simp [set_toplevel, h]

@[simp] theorem modify_toplevel_same (s : mwc_server) (t : Nat)
    (f : mwc_toplevel → mwc_toplevel) :
    (modify_toplevel s t f).toplevels t = f (s.toplevels t) := by simp [modify_toplevel]

theorem modify_toplevel_other (s : mwc_server) (t u : Nat)
    (f : mwc_toplevel → mwc_toplevel) (h : u ≠ t) :
    (modify_toplevel s t f).toplevels u = s.toplevels u := by
  simp [modify_toplevel, set_toplevel, h]

@[simp] theorem wl_list_remove_lists (s : mwc_server) (t w : Nat) :
    ((wl_list_remove s t).workspaces w).masters = (s.workspaces w).masters.erase t
    ∧ ((wl_list_remove s t).workspaces w).slaves = (s.workspaces w).slaves.erase t
    ∧ ((wl_list_remove s t).workspaces w).floating_toplevels
        = (s.workspaces w).floating_toplevels.erase t
    ∧ ((wl_list_remove s t).workspaces w).fullscreen_toplevel
        = (s.workspaces w).fullscreen_toplevel
    ∧ ((wl_list_remove s t).workspaces w).output = (s.workspaces w).output :=
  ⟨rfl, rfl, rfl, rfl, rfl⟩

@[simp] theorem wl_list_insert_before_lists (s : mwc_server) (u t w : Nat) :
    ((wl_list_insert_before s u t).workspaces w).masters
        = list_insert_before u t (s.workspaces w).masters
    ∧ ((wl_list_insert_before s u t).workspaces w).slaves
        = list_insert_before u t (s.workspaces w).slaves
    ∧ ((wl_list_insert_before s u t).workspaces w).floating_toplevels
        = list_insert_before u t (s.workspaces w).floating_toplevels
    ∧ ((wl_list_insert_before s u t).workspaces w).fullscreen_toplevel
        = (s.workspaces w).fullscreen_toplevel
    ∧ ((wl_list_insert_before s u t).workspaces w).output = (s.workspaces w).output :=
  ⟨rfl, rfl, rfl, rfl, rfl⟩

@[simp] theorem wl_list_insert_after_lists (s : mwc_server) (u t w : Nat) :
    ((wl_list_insert_after s u t).workspaces w).masters
        = list_insert_after u t (s.workspaces w).masters
    ∧ ((wl_list_insert_after s u t).workspaces w).slaves
        = list_insert_after u t (s.workspaces w).slaves
    ∧ ((wl_list_insert_after s u t).workspaces w).floating_toplevels
        = list_insert_after u t (s.workspaces w).floating_toplevels
    ∧ ((wl_list_insert_after s u t).workspaces w).fullscreen_toplevel
        = (s.workspaces w).fullscreen_toplevel
    ∧ ((wl_list_insert_after s u t).workspaces w).output = (s.workspaces w).output :=
  ⟨rfl, rfl, rfl, rfl, rfl⟩

theorem masters_insert_last_masters (s : mwc_server) (w t v : Nat) :
    ((masters_insert_last s w t).workspaces v).masters
      = if v = w then (s.workspaces w).masters ++ [t] else (s.workspaces v).masters := by
  unfold masters_insert_last set_workspace
  by_cases h : v = w <;> simp [h]

@[simp] theorem masters_insert_last_lists (s : mwc_server) (w t v : Nat) :
    ((masters_insert_last s w t).workspaces v).slaves = (s.workspaces v).slaves
    ∧ ((masters_insert_last s w t).workspaces v).floating_toplevels
        = (s.workspaces v).floating_toplevels
    ∧ ((masters_insert_last s w t).workspaces v).fullscreen_toplevel
        = (s.workspaces v).fullscreen_toplevel
    ∧ ((masters_insert_last s w t).workspaces v).output = (s.workspaces v).output := by
  unfold masters_insert_last set_workspace
  by_cases h : v = w <;> simp [h]

theorem slaves_insert_last_slaves (s : mwc_server) (w t v : Nat) :
    ((slaves_insert_last s w t).workspaces v).slaves
      = if v = w then (s.workspaces w).slaves ++ [t] else (s.workspaces v).slaves := by
  unfold slaves_insert_last set_workspace
  by_cases h : v = w <;> simp [h]

@[simp] theorem slaves_insert_last_lists (s : mwc_server) (w t v : Nat) :
    ((slaves_insert_last s w t).workspaces v).masters = (s.workspaces v).masters
    ∧ ((slaves_insert_last s w t).workspaces v).floating_toplevels
        = (s.workspaces v).floating_toplevels
    ∧ ((slaves_insert_last s w t).workspaces v).fullscreen_toplevel
        = (s.workspaces v).fullscreen_toplevel
    ∧ ((slaves_insert_last s w t).workspaces v).output = (s.workspaces v).output := by
  unfold slaves_insert_last set_workspace
  by_cases h : v = w <;> simp [h]

theorem floating_insert_first_floating (s : mwc_server) (w t v : Nat) :
    ((floating_insert_first s w t).workspaces v).floating_toplevels
      = if v = w then t :: (s.workspaces w).floating_toplevels
        else (s.workspaces v).floating_toplevels := by
  unfold floating_insert_first set_workspace
  by_cases h : v = w <;> simp [h]

@[simp] theorem floating_insert_first_lists (s : mwc_server) (w t v : Nat) :
    ((floating_insert_first s w t).workspaces v).masters = (s.workspaces v).masters
    ∧ ((floating_insert_first s w t).workspaces v).slaves = (s.workspaces v).slaves
    ∧ ((floating_insert_first s w t).workspaces v).fullscreen_toplevel
        = (s.workspaces v).fullscreen_toplevel
    ∧ ((floating_insert_first s w t).workspaces v).output = (s.workspaces v).output := by
  unfold floating_insert_first set_workspace
  by_cases h : v = w <;> simp [h]

theorem assign_fullscreen_toplevel_fullscreen (s : mwc_server) (w : Nat) (o : Option Nat)
    (v : Nat) :
    ((assign_fullscreen_toplevel s w o).workspaces v).fullscreen_toplevel
      = if v = w then o else (s.workspaces v).fullscreen_toplevel := by
  unfold assign_fullscreen_toplevel set_workspace
  by_cases h : v = w <;> simp [h]

@[simp] theorem assign_fullscreen_toplevel_lists (s : mwc_server) (w : Nat) (o : Option Nat)
    (v : Nat) :
    ((assign_fullscreen_toplevel s w o).workspaces v).masters = (s.workspaces v).masters
    ∧ ((assign_fullscreen_toplevel s w o).workspaces v).slaves = (s.workspaces v).slaves
    ∧ ((assign_fullscreen_toplevel s w o).workspaces v).floating_toplevels
        = (s.workspaces v).floating_toplevels
    ∧ ((assign_fullscreen_toplevel s w o).workspaces v).output = (s.workspaces v).output := by
  unfold assign_fullscreen_toplevel set_workspace
  by_cases h : v = w <;> simp [h]

/-! ## Frame lemmas: geometry requests and the layout -/

theorem toplevel_commit_other (s : mwc_server) (t u : Nat) (h : u ≠ t) :
    (toplevel_commit s t).toplevels u = s.toplevels u := by
  simp [toplevel_commit, modify_toplevel_other, h]

@[simp] theorem toplevel_commit_same (s : mwc_server) (t : Nat) :
    (toplevel_commit s t).toplevels t
      = committed (s.config.animation_duration
          / (s.outputs (s.workspaces (s.toplevels t).workspace).output).frame_duration_ms)
        (s.toplevels t) := by
  simp [toplevel_commit]

@[simp] theorem set_pending_server (s : mwc_server) (t : Nat) (x y w h : Int) :
    (toplevel_set_pending_state s t x y w h).workspaces = s.workspaces
    ∧ (toplevel_set_pending_state s t x y w h).outputs = s.outputs
    ∧ (toplevel_set_pending_state s t x y w h).config = s.config
    ∧ (toplevel_set_pending_state s t x y w h).active_workspace = s.active_workspace
    ∧ (toplevel_set_pending_state s t x y w h).focused_toplevel = s.focused_toplevel
    ∧ (toplevel_set_pending_state s t x y w h).prev_focused = s.prev_focused
    ∧ (toplevel_set_pending_state s t x y w h).grabbed_toplevel = s.grabbed_toplevel
    ∧ (toplevel_set_pending_state s t x y w h).cursor_mode = s.cursor_mode
    ∧ (toplevel_set_pending_state s t x y w h).lock = s.lock
    ∧ (toplevel_set_pending_state s t x y w h).exclusive = s.exclusive := by
  unfold toplevel_set_pending_state
  split <;> exact ⟨rfl, rfl, rfl, rfl, rfl, rfl, rfl, rfl, rfl, rfl⟩

theorem set_pending_other (s : mwc_server) (t u : Nat) (x y w h : Int) (hu : u ≠ t) :
    (toplevel_set_pending_state s t x y w h).toplevels u = s.toplevels u := by
  unfold toplevel_set_pending_state
  split
  · rw [toplevel_commit_other _ _ _ hu, set_toplevel_other _ _ _ _ hu]
  · rw [set_toplevel_other _ _ _ _ hu]; rfl

@[simp] theorem layout_place_server (box : Nat → wlr_box) (l : List Nat) (i : Nat)
    (s : mwc_server) :
    (layout_place box l i s).workspaces = s.workspaces
    ∧ (layout_place box l i s).outputs = s.outputs
    ∧ (layout_place box l i s).config = s.config
    ∧ (layout_place box l i s).active_workspace = s.active_workspace
    ∧ (layout_place box l i s).focused_toplevel = s.focused_toplevel
    ∧ (layout_place box l i s).prev_focused = s.prev_focused
    ∧ (layout_place box l i s).grabbed_toplevel = s.grabbed_toplevel
    ∧ (layout_place box l i s).cursor_mode = s.cursor_mode
    ∧ (layout_place box l i s).lock = s.lock
    ∧ (layout_place box l i s).exclusive = s.exclusive := by
  induction l generalizing i s with
  | nil => exact ⟨rfl, rfl, rfl, rfl, rfl, rfl, rfl, rfl, rfl, rfl⟩
  | cons a l ih => simp [layout_place, ih]

theorem layout_place_other (box : Nat → wlr_box) (l : List Nat) (i : Nat)
    (s : mwc_server) (u : Nat) (hu : u ∉ l) :
    (layout_place box l i s).toplevels u = s.toplevels u := by
  induction l generalizing i s with
  | nil => rfl
  | cons a l ih =>
    simp only [List.mem_cons, not_or] at hu
    simp only [layout_place]
    rw [ih _ _ hu.2, set_pending_other _ _ _ _ _ _ _ hu.1]

@[simp] theorem layout_server (L : layout_h) (s : mwc_server) (w : Nat) :
    (layout_set_pending_state L s w).workspaces = s.workspaces
    ∧ (layout_set_pending_state L s w).outputs = s.outputs
    ∧ (layout_set_pending_state L s w).config = s.config
    ∧ (layout_set_pending_state L s w).active_workspace = s.active_workspace
    ∧ (layout_set_pending_state L s w).focused_toplevel = s.focused_toplevel
    ∧ (layout_set_pending_state L s w).prev_focused = s.prev_focused
    ∧ (layout_set_pending_state L s w).grabbed_toplevel = s.grabbed_toplevel
    ∧ (layout_set_pending_state L s w).cursor_mode = s.cursor_mode
    ∧ (layout_set_pending_state L s w).lock = s.lock
    ∧ (layout_set_pending_state L s w).exclusive = s.exclusive := by
  simp [layout_set_pending_state]

theorem layout_other (L : layout_h) (s : mwc_server) (w u : Nat)
    (hm : u ∉ (s.workspaces w).masters) (hs : u ∉ (s.workspaces w).slaves) :
    (layout_set_pending_state L s w).toplevels u = s.toplevels u := by
  unfold layout_set_pending_state
  rw [layout_place_other _ _ _ _ _ hs, layout_place_other _ _ _ _ _ hm]

/-! ## Frame lemmas: focus -/

theorem focus_apply_floating_flag (s : mwc_server) (t u : Nat) :
    ((focus_apply s t).toplevels u).floating = (s.toplevels u).floating
    ∧ ((focus_apply s t).toplevels u).workspace = (s.toplevels u).workspace := by
  unfold focus_apply
  cases hp : s.focused_toplevel <;> by_cases hf : (s.toplevels t).floating
    <;> by_cases hk : s.has_keyboard <;> simp [hf, hk]

theorem focus_apply_server (s : mwc_server) (t : Nat) :
    (focus_apply s t).config = s.config
    ∧ (focus_apply s t).outputs = s.outputs
    ∧ (focus_apply s t).active_workspace = s.active_workspace
    ∧ (focus_apply s t).grabbed_toplevel = s.grabbed_toplevel
    ∧ (focus_apply s t).prev_focused = s.prev_focused
    ∧ (focus_apply s t).cursor_mode = s.cursor_mode
    ∧ (focus_apply s t).lock = s.lock
    ∧ (focus_apply s t).exclusive = s.exclusive
    ∧ (focus_apply s t).focused_toplevel = some t := by
  unfold focus_apply
  cases hp : s.focused_toplevel <;> by_cases hf : (s.toplevels t).floating
    <;> by_cases hk : s.has_keyboard <;> simp [hf, hk]

theorem focus_apply_lists (s : mwc_server) (t w : Nat) :
    ((focus_apply s t).workspaces w).masters
        = (if (s.toplevels t).floating then (s.workspaces w).masters.erase t
           else (s.workspaces w).masters)
    ∧ ((focus_apply s t).workspaces w).slaves
        = (if (s.toplevels t).floating then (s.workspaces w).slaves.erase t
           else (s.workspaces w).slaves)
    ∧ ((focus_apply s t).workspaces w).floating_toplevels
        = (if (s.toplevels t).floating then
            (if w = (s.toplevels t).workspace then
              t :: (s.workspaces w).floating_toplevels.erase t
             else (s.workspaces w).floating_toplevels.erase t)
           else (s.workspaces w).floating_toplevels)
    ∧ ((focus_apply s t).workspaces w).fullscreen_toplevel
        = (s.workspaces w).fullscreen_toplevel
    ∧ ((focus_apply s t).workspaces w).output = (s.workspaces w).output := by
  unfold focus_apply
  cases hp : s.focused_toplevel <;> by_cases hf : (s.toplevels t).floating
    <;> by_cases hk : s.has_keyboard
    <;> simp [hf, hk, floating_insert_first_floating]
    <;> (split_ifs with hw <;> first | rfl | (subst hw; rfl))

/-- The guards of `focus_toplevel` either return at once or let the
statements after them run. -/
theorem focus_toplevel_cases (s : mwc_server) (t : Nat) :
    focus_toplevel s t = s ∨ focus_toplevel s t = focus_apply s t := by
  unfold focus_toplevel
  split_ifs <;> simp

@[simp] theorem focus_server (s : mwc_server) (t : Nat) :
    (focus_toplevel s t).config = s.config
    ∧ (focus_toplevel s t).outputs = s.outputs
    ∧ (focus_toplevel s t).active_workspace = s.active_workspace
    ∧ (focus_toplevel s t).grabbed_toplevel = s.grabbed_toplevel
    ∧ (focus_toplevel s t).prev_focused = s.prev_focused
    ∧ (focus_toplevel s t).cursor_mode = s.cursor_mode
    ∧ (focus_toplevel s t).lock = s.lock
    ∧ (focus_toplevel s t).exclusive = s.exclusive := by
  unfold focus_toplevel
  split_ifs <;> simp [focus_apply_server]

@[simp] theorem focus_floating_flag (s : mwc_server) (t u : Nat) :
    ((focus_toplevel s t).toplevels u).floating = (s.toplevels u).floating
    ∧ ((focus_toplevel s t).toplevels u).workspace = (s.toplevels u).workspace := by
  unfold focus_toplevel
  split_ifs <;> simp [focus_apply_floating_flag]

@[simp] theorem focus_fullscreen_toplevel (s : mwc_server) (t w : Nat) :
    ((focus_toplevel s t).workspaces w).fullscreen_toplevel
        = (s.workspaces w).fullscreen_toplevel
    ∧ ((focus_toplevel s t).workspaces w).output = (s.workspaces w).output := by
  unfold focus_toplevel
  split_ifs <;> simp [focus_apply_lists]

/-- What `focus_toplevel` does to the lists: nothing, or (for a floating
toplevel) it takes the toplevel out of every list and puts it first in the
floating list of its workspace. -/
theorem focus_lists (s : mwc_server) (t : Nat) :
    (∀ w, ((focus_toplevel s t).workspaces w).masters = (s.workspaces w).masters
        ∧ ((focus_toplevel s t).workspaces w).slaves = (s.workspaces w).slaves
        ∧ ((focus_toplevel s t).workspaces w).floating_toplevels
            = (s.workspaces w).floating_toplevels)
    ∨ ((s.toplevels t).floating = true
        ∧ ∀ w, ((focus_toplevel s t).workspaces w).masters = (s.workspaces w).masters.erase t
          ∧ ((focus_toplevel s t).workspaces w).slaves = (s.workspaces w).slaves.erase t
          ∧ ((focus_toplevel s t).workspaces w).floating_toplevels
              = (if w = (s.toplevels t).workspace then
                  t :: (s.workspaces w).floating_toplevels.erase t
                else (s.workspaces w).floating_toplevels.erase t)) := by
  rcases focus_toplevel_cases s t with h | h
  · left; intro w; rw [h]; exact ⟨rfl, rfl, rfl⟩
  · rw [h]
    by_cases hf : (s.toplevels t).floating = true
    · right
      refine ⟨hf, fun w => ?_⟩
      simp [focus_apply_lists, hf]
    · left
      intro w
      simp [focus_apply_lists, hf]

theorem focus_link_lists (s : mwc_server) (o : Option Nat) :
    (∀ w, ((focus_link s o).workspaces w).masters = (s.workspaces w).masters
        ∧ ((focus_link s o).workspaces w).slaves = (s.workspaces w).slaves
        ∧ ((focus_link s o).workspaces w).floating_toplevels
            = (s.workspaces w).floating_toplevels)
    ∨ (∃ t, o = some t ∧ (s.toplevels t).floating = true
        ∧ ∀ w, ((focus_link s o).workspaces w).masters = (s.workspaces w).masters.erase t
          ∧ ((focus_link s o).workspaces w).slaves = (s.workspaces w).slaves.erase t
          ∧ ((focus_link s o).workspaces w).floating_toplevels
              = (if w = (s.toplevels t).workspace then
                  t :: (s.workspaces w).floating_toplevels.erase t
                else (s.workspaces w).floating_toplevels.erase t)) := by
  cases o with
  | none => left; intro w; exact ⟨rfl, rfl, rfl⟩
  | some t =>
    rcases focus_lists s t with h | h
    · left; exact h
    · right; exact ⟨t, rfl, h⟩

@[simp] theorem clear_focused_server (s : mwc_server) :
    (clear_focused_toplevel s).config = s.config
    ∧ (clear_focused_toplevel s).workspaces = s.workspaces
    ∧ (clear_focused_toplevel s).toplevels = s.toplevels
    ∧ (clear_focused_toplevel s).outputs = s.outputs
    ∧ (clear_focused_toplevel s).active_workspace = s.active_workspace
    ∧ (clear_focused_toplevel s).grabbed_toplevel = s.grabbed_toplevel
    ∧ (clear_focused_toplevel s).prev_focused = s.prev_focused
    ∧ (clear_focused_toplevel s).cursor_mode = s.cursor_mode
    ∧ (clear_focused_toplevel s).lock = s.lock
    ∧ (clear_focused_toplevel s).exclusive = s.exclusive
    ∧ (clear_focused_toplevel s).focused_toplevel = none :=
  ⟨rfl, rfl, rfl, rfl, rfl, rfl, rfl, rfl, rfl, rfl, rfl⟩

theorem focus_or_clear_lists (s : mwc_server) (o : Option Nat) :
    (∀ w, ((focus_or_clear s o).workspaces w).masters = (s.workspaces w).masters
        ∧ ((focus_or_clear s o).workspaces w).slaves = (s.workspaces w).slaves
        ∧ ((focus_or_clear s o).workspaces w).floating_toplevels
            = (s.workspaces w).floating_toplevels)
    ∨ (∃ t, o = some t ∧ (s.toplevels t).floating = true
        ∧ ∀ w, ((focus_or_clear s o).workspaces w).masters = (s.workspaces w).masters.erase t
          ∧ ((focus_or_clear s o).workspaces w).slaves = (s.workspaces w).slaves.erase t
          ∧ ((focus_or_clear s o).workspaces w).floating_toplevels
              = (if w = (s.toplevels t).workspace then
                  t :: (s.workspaces w).floating_toplevels.erase t
                else (s.workspaces w).floating_toplevels.erase t)) := by
  cases o with
  | none => left; intro w; exact ⟨rfl, rfl, rfl⟩
  | some t =>
    rcases focus_lists s t with h | h
    · left; exact h
    · right; exact ⟨t, rfl, h⟩

@[simp] theorem focus_link_server (s : mwc_server) (o : Option Nat) :
    (focus_link s o).config = s.config
    ∧ (focus_link s o).outputs = s.outputs
    ∧ (focus_link s o).active_workspace = s.active_workspace
    ∧ (focus_link s o).grabbed_toplevel = s.grabbed_toplevel := by
  cases o <;> simp [focus_link]

@[simp] theorem focus_or_clear_server (s : mwc_server) (o : Option Nat) :
    (focus_or_clear s o).config = s.config
    ∧ (focus_or_clear s o).outputs = s.outputs
    ∧ (focus_or_clear s o).active_workspace = s.active_workspace
    ∧ (focus_or_clear s o).grabbed_toplevel = s.grabbed_toplevel := by
  cases o <;> simp [focus_or_clear]

@[simp] theorem focus_link_floating_flag (s : mwc_server) (o : Option Nat) (u : Nat) :
    ((focus_link s o).toplevels u).floating = (s.toplevels u).floating
    ∧ ((focus_link s o).toplevels u).workspace = (s.toplevels u).workspace := by
  cases o <;> simp [focus_link]

@[simp] theorem focus_or_clear_floating_flag (s : mwc_server) (o : Option Nat) (u : Nat) :
    ((focus_or_clear s o).toplevels u).floating = (s.toplevels u).floating
    ∧ ((focus_or_clear s o).toplevels u).workspace = (s.toplevels u).workspace := by
  cases o <;> simp [focus_or_clear]

/-! ## List facts -/

theorem mem_list_insert_before (u t x : Nat) (l : List Nat) :
    x ∈ list_insert_before u t l ↔ x ∈ l ∨ (x = t ∧ u ∈ l) := by
  induction l with
  | nil => simp [list_insert_before]
  | cons a l ih =>
    unfold list_insert_before
    by_cases h : a = u
    · subst h; simp; tauto
    · simp only [h, if_false, List.mem_cons, ih]
      constructor
      · rintro (h1 | h1 | ⟨h1, h2⟩)
        · exact Or.inl (Or.inl h1)
        · exact Or.inl (Or.inr h1)
        · exact Or.inr ⟨h1, Or.inr h2⟩
      · rintro ((h1 | h1) | ⟨h1, h2 | h2⟩)
        · exact Or.inl h1
        · exact Or.inr (Or.inl h1)
        · exact absurd h2.symm h
        · exact Or.inr (Or.inr ⟨h1, h2⟩)

theorem mem_list_insert_after (u t x : Nat) (l : List Nat) :
    x ∈ list_insert_after u t l ↔ x ∈ l ∨ (x = t ∧ u ∈ l) := by
  induction l with
  | nil => simp [list_insert_after]
  | cons a l ih =>
    unfold list_insert_after
    by_cases h : a = u
    · subst h; simp; tauto
    · simp only [h, if_false, List.mem_cons, ih]
      constructor
      · rintro (h1 | h1 | ⟨h1, h2⟩)
        · exact Or.inl (Or.inl h1)
        · exact Or.inl (Or.inr h1)
        · exact Or.inr ⟨h1, Or.inr h2⟩
      · rintro ((h1 | h1) | ⟨h1, h2 | h2⟩)
        · exact Or.inl h1
        · exact Or.inr (Or.inl h1)
        · exact absurd h2.symm h
        · exact Or.inr (Or.inr ⟨h1, h2⟩)

theorem length_list_insert_before (u t : Nat) (l : List Nat) :
    (list_insert_before u t l).length = if u ∈ l then l.length + 1 else l.length := by
  induction l with
  | nil => simp [list_insert_before]
  | cons a l ih =>
    unfold list_insert_before
    by_cases h : a = u
    · subst h; simp
    · have h2 : ¬ u = a := fun e => h e.symm
      simp only [h, if_false, List.length_cons, ih, List.mem_cons, h2, false_or]
      split_ifs <;> rfl

theorem length_list_insert_after (u t : Nat) (l : List Nat) :
    (list_insert_after u t l).length = if u ∈ l then l.length + 1 else l.length := by
  induction l with
  | nil => simp [list_insert_after]
  | cons a l ih =>
    unfold list_insert_after
    by_cases h : a = u
    · subst h; simp
    · have h2 : ¬ u = a := fun e => h e.symm
      simp only [h, if_false, List.length_cons, ih, List.mem_cons, h2, false_or]
      split_ifs <;> rfl

theorem list_last_mem (l : List Nat) (x : Nat) (h : list_last l = some x) : x ∈ l := by
  unfold list_last at h
  exact List.mem_of_getLast?_eq_some h

theorem list_last_none (l : List Nat) (h : list_last l = none) : l = [] := by
  unfold list_last at h
  exact List.getLast?_eq_none_iff.mp h

theorem length_erase_append_le (l : List Nat) (x : Nat) :
    (l.erase x ++ [x]).length ≤ l.length + 1 := by
  simp only [List.length_append, List.length_singleton]
  exact Nat.add_le_add_right (List.length_erase_le x l) 1

/-! ## Statements that link nothing into a tiled list -/

theorem no_growth_refl (s : mwc_server) : no_growth s s :=
  ⟨rfl, fun _ _ h => h, fun _ => le_rfl⟩

theorem no_growth_trans (a b c : mwc_server) (h1 : no_growth a b) (h2 : no_growth b c) :
    no_growth a c :=
  ⟨h2.1.trans h1.1, fun w u h => h1.2.1 w u (h2.2.1 w u h),
    fun w => (h2.2.2 w).trans (h1.2.2 w)⟩

theorem no_growth_of_eq (s r : mwc_server) (hc : r.config = s.config)
    (hm : ∀ w, (r.workspaces w).masters = (s.workspaces w).masters)
    (hs : ∀ w, (r.workspaces w).slaves = (s.workspaces w).slaves) : no_growth s r := by
  refine ⟨hc, fun w u h => ?_, fun w => by rw [hm w]⟩
  unfold tiled at h ⊢
  rw [hm w, hs w] at h
  exact h

theorem no_growth_of_erase (s r : mwc_server) (t : Nat) (hc : r.config = s.config)
    (hm : ∀ w, (r.workspaces w).masters = (s.workspaces w).masters.erase t)
    (hs : ∀ w, (r.workspaces w).slaves = (s.workspaces w).slaves.erase t) :
    no_growth s r := by
  refine ⟨hc, fun w u h => ?_, fun w => by rw [hm w]; exact List.length_erase_le t _⟩
  unfold tiled at h ⊢
  rw [hm w, hs w] at h
  exact h.imp List.mem_of_mem_erase List.mem_of_mem_erase

theorem no_growth_remove (s : mwc_server) (t : Nat) : no_growth s (wl_list_remove s t) :=
  no_growth_of_erase s _ t rfl (fun _ => rfl) (fun _ => rfl)

theorem no_growth_focus (s : mwc_server) (t : Nat) : no_growth s (focus_toplevel s t) := by
  rcases focus_lists s t with h | ⟨_, h⟩
  · exact no_growth_of_eq s _ (focus_server s t).1 (fun w => (h w).1) (fun w => (h w).2.1)
  · exact no_growth_of_erase s _ t (focus_server s t).1 (fun w => (h w).1) (fun w => (h w).2.1)

theorem no_growth_focus_link (s : mwc_server) (o : Option Nat) :
    no_growth s (focus_link s o) := by
  cases o with
  | none => exact no_growth_refl s
  | some t => exact no_growth_focus s t

theorem no_growth_focus_or_clear (s : mwc_server) (o : Option Nat) :
    no_growth s (focus_or_clear s o) := by
  cases o with
  | none => exact no_growth_of_eq s _ rfl (fun _ => rfl) (fun _ => rfl)
  | some t => exact no_growth_focus s t

theorem no_growth_layout (L : layout_h) (s : mwc_server) (w : Nat) :
    no_growth s (layout_set_pending_state L s w) :=
  no_growth_of_eq s _ (by simp) (fun v => by simp) (fun v => by simp)

theorem masters_bounded_of_no_growth (s r : mwc_server) (h : no_growth s r)
    (hb : masters_bounded s) : masters_bounded r := by
  intro w
  rw [h.1]
  exact (h.2.2 w).trans (hb w)

theorem links_disjoint_of_no_growth (s r : mwc_server) (h : no_growth s r)
    (hd : links_disjoint s) : links_disjoint r :=
  fun w v u h1 h2 => hd w v u (h.2.1 w u h1) (h.2.1 v u h2)

/-! ## The list effect of each event -/

theorem links_disjoint_add (s r : mwc_server) (t w0 : Nat) (hd : links_disjoint s)
    (hn : not_tiled s t)
    (h : ∀ v u, tiled r v u → tiled s v u ∨ (u = t ∧ v = w0)) : links_disjoint r := by
  intro w v u h1 h2
  rcases h w u h1 with a | ⟨e1, e2⟩
  · rcases h v u h2 with b | ⟨e3, _⟩
    · exact hd w v u a b
    · subst e3; exact absurd a (hn w)
  · rcases h v u h2 with b | ⟨_, e4⟩
    · subst e1; exact absurd b (hn v)
    · rw [e2, e4]

@[simp] theorem unmap_clear_fullscreen_server (s : mwc_server) (w t : Nat) :
    (unmap_clear_fullscreen s w t).config = s.config
    ∧ (unmap_clear_fullscreen s w t).focused_toplevel = s.focused_toplevel
    ∧ (unmap_clear_fullscreen s w t).grabbed_toplevel = s.grabbed_toplevel
    ∧ (unmap_clear_fullscreen s w t).active_workspace = s.active_workspace
    ∧ (unmap_clear_fullscreen s w t).lock = s.lock
    ∧ (unmap_clear_fullscreen s w t).exclusive = s.exclusive := by
  unfold unmap_clear_fullscreen
  split <;> simp

@[simp] theorem unmap_clear_fullscreen_lists (s : mwc_server) (w t v : Nat) :
    ((unmap_clear_fullscreen s w t).workspaces v).masters = (s.workspaces v).masters
    ∧ ((unmap_clear_fullscreen s w t).workspaces v).slaves = (s.workspaces v).slaves
    ∧ ((unmap_clear_fullscreen s w t).workspaces v).floating_toplevels
        = (s.workspaces v).floating_toplevels := by
  unfold unmap_clear_fullscreen
  split <;> simp

@[simp] theorem unmap_clear_fullscreen_fields (s : mwc_server) (w t u : Nat) :
    ((unmap_clear_fullscreen s w t).toplevels u).floating = (s.toplevels u).floating
    ∧ ((unmap_clear_fullscreen s w t).toplevels u).workspace = (s.toplevels u).workspace
    ∧ ((unmap_clear_fullscreen s w t).toplevels u).fullscreen = (s.toplevels u).fullscreen
    ∧ ((unmap_clear_fullscreen s w t).toplevels u).mapped = (s.toplevels u).mapped := by
  unfold unmap_clear_fullscreen
  split <;> simp

theorem no_growth_unmap_clear_fullscreen (s : mwc_server) (w t : Nat) :
    no_growth s (unmap_clear_fullscreen s w t) :=
  no_growth_of_eq s _ (by simp) (fun v => by simp) (fun v => by simp)

theorem no_growth_unmap_grabbed (s : mwc_server) (w t : Nat) :
    no_growth s (unmap_grabbed s w t) := by
  have h0 : no_growth s (server_reset_cursor_mode s) :=
    no_growth_of_eq s _ rfl (fun _ => rfl) (fun _ => rfl)
  unfold unmap_grabbed
  dsimp only
  split_ifs
  · exact no_growth_trans _ _ _ h0 (no_growth_focus_link _ _)
  · exact no_growth_trans _ _ _ h0 (no_growth_focus_link _ _)
  · exact no_growth_trans _ _ _ h0 (no_growth_of_eq _ _ rfl (fun _ => rfl) (fun _ => rfl))

theorem no_growth_unmap_floating (s : mwc_server) (w t : Nat) :
    no_growth s (unmap_floating s w t) := by
  unfold unmap_floating
  split_ifs
  · exact no_growth_trans _ _ _ (no_growth_focus_or_clear _ _) (no_growth_remove _ _)
  · exact no_growth_remove _ _

theorem no_growth_unmap_slave (s r : mwc_server) (w t : Nat)
    (h : unmap_slave s w t = some r) : no_growth s r := by
  unfold unmap_slave at h
  split_ifs at h
  · split at h
    · cases h
      exact no_growth_trans _ _ _ (no_growth_focus _ _) (no_growth_remove _ _)
    · cases h
  · cases h
    exact no_growth_remove _ _

/-- The promotion of the last slave: every toplevel stays on its workspace,
master lists of other workspaces do not grow, the one of `w` grows by at most
one entry and keeps the entries it had. -/
theorem unmap_promote_effect (s : mwc_server) (w : Nat) :
    (unmap_promote s w).config = s.config
    ∧ (unmap_promote s w).toplevels = s.toplevels
    ∧ (unmap_promote s w).focused_toplevel = s.focused_toplevel
    ∧ (∀ v u, tiled (unmap_promote s w) v u → tiled s v u)
    ∧ (∀ v, v ≠ w → ((unmap_promote s w).workspaces v).masters.length
          ≤ (s.workspaces v).masters.length)
    ∧ ((unmap_promote s w).workspaces w).masters.length ≤ (s.workspaces w).masters.length + 1
    ∧ (∀ t, t ∈ (s.workspaces w).masters → t ∈ ((unmap_promote s w).workspaces w).masters) := by
  unfold unmap_promote
  cases hl : list_last (s.workspaces w).slaves with
  | none =>
    exact ⟨rfl, rfl, rfl, fun _ _ h => h, fun _ _ => le_rfl, Nat.le_succ _, fun _ h => h⟩
  | some sl =>
    have hsl : sl ∈ (s.workspaces w).slaves := list_last_mem _ _ hl
    refine ⟨rfl, rfl, rfl, ?_, ?_, ?_, ?_⟩
    · intro v u h
      unfold tiled at h ⊢
      simp only [masters_insert_last_masters, masters_insert_last_lists,
        wl_list_remove_lists] at h
      by_cases hv : v = w
      · subst hv
        simp only [if_true, List.mem_append, List.mem_singleton] at h
        rcases h with (h | h) | h
        · exact Or.inl (List.mem_of_mem_erase h)
        · subst h; exact Or.inr hsl
        · exact Or.inr (List.mem_of_mem_erase h)
      · simp only [hv, if_false] at h
        exact h.imp List.mem_of_mem_erase List.mem_of_mem_erase
    · intro v hv
      simp only [masters_insert_last_masters, hv, if_false, wl_list_remove_lists]
      exact List.length_erase_le _ _
    · simp only [masters_insert_last_masters, if_true, wl_list_remove_lists]
      exact length_erase_append_le _ _
    · intro t ht
      simp only [masters_insert_last_masters, if_true, wl_list_remove_lists,
        List.mem_append, List.mem_singleton]
      by_cases e : t = sl
      · exact Or.inr e
      · exact Or.inl ((List.mem_erase_of_ne e).mpr ht)

theorem focus_or_clear_keeps_master (s : mwc_server) (o : Option Nat) (w t : Nat)
    (hf : (s.toplevels t).floating = false) (ht : t ∈ (s.workspaces w).masters) :
    t ∈ ((focus_or_clear s o).workspaces w).masters := by
  rcases focus_or_clear_lists s o with h | ⟨u, _, hu, h⟩
  · rw [(h w).1]; exact ht
  · rw [(h w).1]
    have e : t ≠ u := by
      intro e; subst e; rw [hf] at hu; cases hu
    exact (List.mem_erase_of_ne e).mpr ht

theorem no_growth_unmap_master (s : mwc_server) (w t : Nat)
    (hf : (s.toplevels t).floating = false) (ht : t ∈ (s.workspaces w).masters) :
    no_growth s (unmap_master s w t) := by
  obtain ⟨pc, pt, _, psub, pother, pw, pmem⟩ := unmap_promote_effect s w
  -- the state before the final wl_list_remove
  have key : ∀ m : mwc_server, no_growth (unmap_promote s w) m →
      t ∈ (m.workspaces w).masters → no_growth s (wl_list_remove m t) := by
    intro m hm hmem
    refine ⟨hm.1.trans pc, fun v u h => psub v u (hm.2.1 v u ((no_growth_remove m t).2.1 v u h)),
      fun v => ?_⟩
    by_cases hv : v = w
    · subst hv
      simp only [wl_list_remove_lists]
      rw [List.length_erase_of_mem hmem]
      have h1 := hm.2.2 v
      omega
    · exact ((no_growth_remove m t).2.2 v).trans ((hm.2.2 v).trans (pother v hv))
  unfold unmap_master
  dsimp only
  split_ifs
  · apply key _ (no_growth_focus_or_clear _ _)
    apply focus_or_clear_keeps_master
    · rw [pt]; exact hf
    · exact pmem t ht
  · exact key _ (no_growth_refl _) (pmem t ht)

theorem no_growth_unmap_not_grabbed (L : layout_h) (s r : mwc_server) (t : Nat)
    (h : unmap_not_grabbed L s (s.toplevels t).workspace t = some r) : no_growth s r := by
  unfold unmap_not_grabbed at h
  dsimp only at h
  have h0 := no_growth_unmap_clear_fullscreen s (s.toplevels t).workspace t
  split_ifs at h with hfl hm
  · cases h
    exact no_growth_trans _ _ _ h0 (no_growth_unmap_floating _ _ _)
  · cases h
    refine no_growth_trans _ _ _ h0 (no_growth_trans _ _ _ ?_ (no_growth_layout _ _ _))
    apply no_growth_unmap_master
    · simpa using hfl
    · unfold toplevel_is_master at hm
      simpa using hm
  · cases hs : unmap_slave (unmap_clear_fullscreen s (s.toplevels t).workspace t)
        (s.toplevels t).workspace t with
    | none => rw [hs] at h; cases h
    | some m =>
      rw [hs] at h
      cases h
      exact no_growth_trans _ _ _ h0
        (no_growth_trans _ _ _ (no_growth_unmap_slave _ _ _ _ hs) (no_growth_layout _ _ _))

/-- The statement that clears `server.prev_focused` when it is the unmapped
toplevel changes no other field. -/
theorem unmap_prev_focused_cases (s : mwc_server) (t : Nat) :
    (if s.prev_focused = some t then clear_prev_focused s else s) = s
    ∨ (if s.prev_focused = some t then clear_prev_focused s else s) = clear_prev_focused s := by
  split_ifs
  · exact Or.inr rfl
  · exact Or.inl rfl

theorem no_growth_unmap (L : layout_h) (s r : mwc_server) (t : Nat)
    (h : toplevel_handle_unmap L s t = some r) : no_growth s r := by
  unfold toplevel_handle_unmap at h
  dsimp only at h
  have hc : no_growth s (clear_prev_focused s) :=
    no_growth_of_eq s _ rfl (fun _ => rfl) (fun _ => rfl)
  rcases unmap_prev_focused_cases s t with e | e <;> rw [e] at h
  · split_ifs at h
    · cases h; exact no_growth_unmap_grabbed _ _ _
    · exact no_growth_unmap_not_grabbed L _ r t h
  · split_ifs at h
    · cases h; exact no_growth_trans _ _ _ hc (no_growth_unmap_grabbed _ _ _)
    · exact no_growth_trans _ _ _ hc (no_growth_unmap_not_grabbed L _ r t h)

theorem no_growth_move_lift (L : layout_h) (s : mwc_server) (t : Nat) :
    no_growth s (move_lift L s t) := by
  unfold move_lift
  dsimp only
  split_ifs with hfl hm
  · exact no_growth_remove _ _
  · -- a master leaves and the last slave takes the free slot
    refine no_growth_trans _ _ _ ?_ (no_growth_layout _ _ _)
    have ht : t ∈ (s.workspaces (s.toplevels t).workspace).masters := by
      simp only [Bool.and_eq_true] at hm
      have h1 := hm.1
      unfold toplevel_is_master at h1
      simpa using h1
    obtain ⟨pc, _, _, psub, pother, pw, _⟩ :=
      unmap_promote_effect (wl_list_remove s t) (s.toplevels t).workspace
    have hr := no_growth_remove s t
    refine ⟨pc.trans hr.1, fun v u h => hr.2.1 v u (psub v u h), fun v => ?_⟩
    by_cases hv : v = (s.toplevels t).workspace
    · subst hv
      have h2 : ((wl_list_remove s t).workspaces (s.toplevels t).workspace).masters.length
          = (s.workspaces (s.toplevels t).workspace).masters.length - 1 := by
        simp only [wl_list_remove_lists]
        exact List.length_erase_of_mem ht
      have h3 : 0 < (s.workspaces (s.toplevels t).workspace).masters.length :=
        List.length_pos_of_mem ht
      have h4 := pw
      unfold unmap_promote at h4
      omega
    · exact (pother v hv).trans (hr.2.2 v)
  · exact no_growth_trans _ _ _ (no_growth_remove _ _) (no_growth_layout _ _ _)

theorem no_growth_start_move (L : layout_h) (s : mwc_server) (t : Nat) :
    no_growth s (toplevel_start_move L s t) := by
  unfold toplevel_start_move
  split_ifs
  · exact no_growth_refl s
  · exact no_growth_trans _ _ _
      (no_growth_of_eq s _ rfl (fun _ => rfl) (fun _ => rfl)) (no_growth_move_lift _ _ _)

/-- Linking a toplevel at the end of the masters when there is room, at the
end of the slaves otherwise, keeps the bound and adds that toplevel only. -/
theorem append_effect (s : mwc_server) (w t : Nat) (hb : masters_bounded s) :
    let r := if (s.workspaces w).masters.length < s.config.master_count then
        masters_insert_last s w t else slaves_insert_last s w t
    r.config = s.config ∧ masters_bounded r
      ∧ ∀ v u, tiled r v u → tiled s v u ∨ (u = t ∧ v = w) := by
  intro r
  by_cases hlt : (s.workspaces w).masters.length < s.config.master_count
  · have hr : r = masters_insert_last s w t := if_pos hlt
    rw [hr]
    refine ⟨rfl, fun v => ?_, fun v u h => ?_⟩
    · rw [masters_insert_last_masters]
      split_ifs
      · simp only [List.length_append, List.length_singleton]; exact hlt
      · exact hb v
    · unfold tiled at h ⊢
      rw [masters_insert_last_masters, (masters_insert_last_lists s w t v).1] at h
      split_ifs at h with hv
      · subst hv
        simp only [List.mem_append, List.mem_singleton] at h
        rcases h with (h | h) | h
        · exact Or.inl (Or.inl h)
        · exact Or.inr ⟨h, rfl⟩
        · exact Or.inl (Or.inr h)
      · exact Or.inl h
  · have hr : r = slaves_insert_last s w t := if_neg hlt
    rw [hr]
    refine ⟨rfl, fun v => ?_, fun v u h => ?_⟩
    · rw [(slaves_insert_last_lists s w t v).1]
      exact hb v
    · unfold tiled at h ⊢
      rw [slaves_insert_last_slaves, (slaves_insert_last_lists s w t v).1] at h
      split_ifs at h with hv
      · subst hv
        simp only [List.mem_append, List.mem_singleton] at h
        rcases h with h | h | h
        · exact Or.inl (Or.inl h)
        · exact Or.inl (Or.inr h)
        · exact Or.inr ⟨h, rfl⟩
      · exact Or.inl h

theorem map_link_effect (L : layout_h) (s : mwc_server) (t : Nat)
    (hf : (s.toplevels t).floating = false) (hb : masters_bounded s) :
    (map_link L s t).config = s.config ∧ masters_bounded (map_link L s t)
      ∧ ∀ v u, tiled (map_link L s t) v u →
          tiled s v u ∨ (u = t ∧ v = (s.toplevels t).workspace) := by
  obtain ⟨ac, ab, at_⟩ := append_effect s (s.toplevels t).workspace t hb
  unfold map_link
  rw [hf]
  simp only [Bool.false_eq_true, if_false]
  refine ⟨by simpa using ac, ?_, ?_⟩
  · intro v
    have := ab v
    simpa using this
  · intro v u h
    apply at_ v u
    unfold tiled at h ⊢
    simpa using h

theorem no_growth_map_rest (s : mwc_server) (t : Nat) :
    no_growth s (map_finish (focus_toplevel (map_place_node s t) t) t) := by
  have h1 : no_growth s (map_place_node s t) := by
    unfold map_place_node
    dsimp only
    split_ifs
    · exact no_growth_of_eq s _ (by simp) (fun v => by simp) (fun v => by simp)
    · exact no_growth_of_eq s _ (by simp) (fun v => by simp) (fun v => by simp)
  have h3 : ∀ m : mwc_server, no_growth m (map_finish m t) := fun m =>
    no_growth_of_eq m _ (by simp [map_finish]) (fun v => by simp [map_finish])
      (fun v => by simp [map_finish])
  exact no_growth_trans _ _ _ h1 (no_growth_trans _ _ _ (no_growth_focus _ _) (h3 _))

theorem insert_demote_effect (s : mwc_server) (w : Nat)
    (hw : (s.workspaces w).masters.length ≤ s.config.master_count + 1) :
    (insert_demote s w).config = s.config
    ∧ (∀ v u, tiled (insert_demote s w) v u → tiled s v u)
    ∧ (∀ v, ((insert_demote s w).workspaces v).masters.length
          ≤ (s.workspaces v).masters.length)
    ∧ ((insert_demote s w).workspaces w).masters.length ≤ s.config.master_count := by
  unfold insert_demote
  split_ifs with hgt
  · cases hl : list_last (s.workspaces w).masters with
    | none =>
      have := list_last_none _ hl
      rw [this] at hgt
      simp at hgt
    | some last =>
      have hmem : last ∈ (s.workspaces w).masters := list_last_mem _ _ hl
      refine ⟨rfl, fun v u h => ?_, fun v => ?_, ?_⟩
      · unfold tiled at h ⊢
        simp only [slaves_insert_last_slaves, slaves_insert_last_lists,
          wl_list_remove_lists] at h
        by_cases hv : v = w
        · subst hv
          simp only [if_true, List.mem_append, List.mem_singleton] at h
          rcases h with h | h | h
          · exact Or.inl (List.mem_of_mem_erase h)
          · exact Or.inr (List.mem_of_mem_erase h)
          · subst h; exact Or.inl hmem
        · simp only [hv, if_false] at h
          exact h.imp List.mem_of_mem_erase List.mem_of_mem_erase
      · simp only [slaves_insert_last_lists, wl_list_remove_lists]
        exact List.length_erase_le _ _
      · simp only [slaves_insert_last_lists, wl_list_remove_lists]
        rw [List.length_erase_of_mem hmem]
        omega
  · exact ⟨rfl, fun _ _ h => h, fun _ => le_rfl, Nat.le_of_not_gt hgt⟩

theorem insert_at_effect (s : mwc_server) (w t x y : Nat) (o : Option Nat)
    (ho : ∀ u, o = some u → tiled s w u)
    (hb : masters_bounded s) (hd : links_disjoint s) :
    (insert_at s w t x y o).config = s.config ∧ masters_bounded (insert_at s w t x y o)
      ∧ ∀ v u, tiled (insert_at s w t x y o) v u → tiled s v u ∨ (u = t ∧ v = w) := by
  cases o with
  | none => exact append_effect s w t hb
  | some uc =>
    have huc : tiled s w uc := ho uc rfl
    -- the state after the link is put in, before or after the toplevel found
    have mid : ∀ m : mwc_server, m.config = s.config →
        (∀ v, (m.workspaces v).masters.length
            = if uc ∈ (s.workspaces v).masters then (s.workspaces v).masters.length + 1
              else (s.workspaces v).masters.length) →
        (∀ v u, tiled m v u ↔ (tiled s v u ∨ (u = t ∧ tiled s v uc))) →
        (insert_demote m w).config = s.config ∧ masters_bounded (insert_demote m w)
          ∧ ∀ v u, tiled (insert_demote m w) v u → tiled s v u ∨ (u = t ∧ v = w) := by
      intro m mc ml mt
      have hlen : ∀ v, (m.workspaces v).masters.length ≤ (s.workspaces v).masters.length + 1 := by
        intro v; rw [ml v]; split_ifs <;> omega
      have hw1 : (m.workspaces w).masters.length ≤ m.config.master_count + 1 := by
        rw [mc]; exact (hlen w).trans (Nat.add_le_add_right (hb w) 1)
      obtain ⟨dc, dsub, dlen, dw⟩ := insert_demote_effect m w hw1
      refine ⟨dc.trans mc, fun v => ?_, fun v u h => ?_⟩
      · rw [dc, mc]
        by_cases hv : v = w
        · subst hv; rw [mc] at dw; exact dw
        · have hnot : uc ∉ (s.workspaces v).masters := fun hin =>
            hv (hd v w uc (Or.inl hin) huc)
          have := ml v
          rw [if_neg hnot] at this
          exact (dlen v).trans (this ▸ hb v)
      · rcases (mt v u).mp (dsub v u h) with a | ⟨e, b⟩
        · exact Or.inl a
        · exact Or.inr ⟨e, hd v w uc b huc⟩
    simp only [insert_at, insert_link]
    split_ifs
    · refine mid (wl_list_insert_before s uc t) rfl ?_ ?_
      · intro v; simp only [wl_list_insert_before_lists]; exact length_list_insert_before _ _ _
      · intro v u
        unfold tiled
        simp only [wl_list_insert_before_lists, mem_list_insert_before]
        tauto
    · refine mid (wl_list_insert_after s uc t) rfl ?_ ?_
      · intro v; simp only [wl_list_insert_after_lists]; exact length_list_insert_after _ _ _
      · intro v u
        unfold tiled
        simp only [wl_list_insert_after_lists, mem_list_insert_after]
        tauto

/-- The two list invariants hold along every run of tiled events that starts
with all lists empty. -/
theorem tiled_run_invariant (L : layout_h) (hL : layout_toplevel_at_tiled L)
    (s0 s : mwc_server) (h0 : workspaces_empty s0) (hr : tiled_run L s0 s) :
    s.config = s0.config ∧ masters_bounded s ∧ links_disjoint s := by
  induction hr with
  | start =>
    refine ⟨rfl, fun w => ?_, fun w v u h => ?_⟩
    · rw [(h0 w).2.1]; exact Nat.zero_le _
    · unfold tiled at h; rw [(h0 w).2.1, (h0 w).2.2] at h; simp at h
  | step a b _ e ih =>
    obtain ⟨ic, ib, id⟩ := ih
    cases e with
    | map t hf hn =>
      obtain ⟨mc, mb, mt⟩ := map_link_effect L a t hf ib
      have hd2 := links_disjoint_add a _ t _ id hn mt
      have hg := no_growth_map_rest (map_link L a t) t
      exact ⟨(hg.1.trans mc).trans ic, masters_bounded_of_no_growth _ _ hg mb,
        links_disjoint_of_no_growth _ _ hg hd2⟩
    | unmap t r h =>
      have hg := no_growth_unmap L a b t h
      exact ⟨hg.1.trans ic, masters_bounded_of_no_growth _ _ hg ib,
        links_disjoint_of_no_growth _ _ hg id⟩
    | start_move t =>
      have hg := no_growth_start_move L a t
      exact ⟨hg.1.trans ic, masters_bounded_of_no_growth _ _ hg ib,
        links_disjoint_of_no_growth _ _ hg id⟩
    | insert t x y hn =>
      have hg : no_growth a (assign_workspace a t a.active_workspace) :=
        no_growth_of_eq a _ rfl (fun _ => rfl) (fun _ => rfl)
      have hg2 : no_growth (assign_workspace a t a.active_workspace) a :=
        no_growth_of_eq _ a rfl (fun _ => rfl) (fun _ => rfl)
      have hn2 : not_tiled (assign_workspace a t a.active_workspace) t := fun w h => hn w h
      obtain ⟨xc, xb, xt⟩ := insert_at_effect (assign_workspace a t a.active_workspace)
        a.active_workspace t x y
        (L.layout_toplevel_at (assign_workspace a t a.active_workspace) a.active_workspace x y)
        (fun u hu => hL _ _ _ _ u hu)
        (masters_bounded_of_no_growth _ _ hg ib) (links_disjoint_of_no_growth _ _ hg id)
      have hd2 := links_disjoint_add _ _ t _ (links_disjoint_of_no_growth _ _ hg id) hn2 xt
      exact ⟨(xc.trans hg.1).trans ic, xb, hd2⟩

/-! ## Geometry requests at the toplevel itself -/

theorem wrap_i32_of_in_i32 (v : Int) (h : in_i32 v) : wrap_i32 v = v := by
  unfold in_i32 at h
  unfold wrap_i32
  omega

theorem wrap_box_of_in_range (b : wlr_box) (h : b.in_range) :
    (⟨wrap_i32 b.x, wrap_i32 b.y, wrap_i32 b.width, wrap_i32 b.height⟩ : wlr_box) = b := by
  obtain ⟨h1, h2, h3, h4⟩ := h
  rw [wrap_i32_of_in_i32 _ h1, wrap_i32_of_in_i32 _ h2, wrap_i32_of_in_i32 _ h3,
    wrap_i32_of_in_i32 _ h4]

/-- The pending box after `toplevel_set_pending_state` is the requested one,
and the fields the function never writes keep their values. -/
@[simp] theorem set_pending_fields (s : mwc_server) (t : Nat) (x y w h : Int) (u : Nat) :
    ((toplevel_set_pending_state s t x y w h).toplevels u).floating = (s.toplevels u).floating
    ∧ ((toplevel_set_pending_state s t x y w h).toplevels u).workspace
        = (s.toplevels u).workspace
    ∧ ((toplevel_set_pending_state s t x y w h).toplevels u).fullscreen
        = (s.toplevels u).fullscreen
    ∧ ((toplevel_set_pending_state s t x y w h).toplevels u).mapped = (s.toplevels u).mapped
    ∧ ((toplevel_set_pending_state s t x y w h).toplevels u).resizing
        = (s.toplevels u).resizing
    ∧ ((toplevel_set_pending_state s t x y w h).toplevels u).prev_geometry
        = (s.toplevels u).prev_geometry
    ∧ ((toplevel_set_pending_state s t x y w h).toplevels u).xdg_activated
        = (s.toplevels u).xdg_activated
    ∧ ((toplevel_set_pending_state s t x y w h).toplevels u).foreign_activated
        = (s.toplevels u).foreign_activated := by
  by_cases hu : u = t
  · subst hu
    unfold toplevel_set_pending_state
    split <;> simp
  · rw [set_pending_other _ _ _ _ _ _ _ hu]
    exact ⟨rfl, rfl, rfl, rfl, rfl, rfl, rfl, rfl⟩

theorem set_pending_pending (s : mwc_server) (t : Nat) (x y w h : Int) :
    ((toplevel_set_pending_state s t x y w h).toplevels t).pending
      = ⟨wrap_i32 x, wrap_i32 y, wrap_i32 w, wrap_i32 h⟩ := by
  unfold toplevel_set_pending_state
  split <;> simp

/-- The `current` box after `toplevel_set_pending_state`: the requested box
when the size does not change (the request is committed at once), the old
box otherwise (the client is asked and `current` waits for its commit). -/
theorem set_pending_current (s : mwc_server) (t : Nat) (x y w h : Int) :
    ((toplevel_set_pending_state s t x y w h).toplevels t).current
      = if (s.toplevels t).current.width = wrap_i32 w
            ∧ (s.toplevels t).current.height = wrap_i32 h then
          ⟨wrap_i32 x, wrap_i32 y, wrap_i32 w, wrap_i32 h⟩
        else (s.toplevels t).current := by
  unfold toplevel_set_pending_state
  simp only [pending_request_fields]
  split <;> simp

theorem layout_place_fields (box : Nat → wlr_box) (l : List Nat) (i : Nat)
    (s : mwc_server) (u : Nat) :
    ((layout_place box l i s).toplevels u).floating = (s.toplevels u).floating
    ∧ ((layout_place box l i s).toplevels u).workspace = (s.toplevels u).workspace
    ∧ ((layout_place box l i s).toplevels u).fullscreen = (s.toplevels u).fullscreen
    ∧ ((layout_place box l i s).toplevels u).mapped = (s.toplevels u).mapped
    ∧ ((layout_place box l i s).toplevels u).xdg_activated = (s.toplevels u).xdg_activated
    ∧ ((layout_place box l i s).toplevels u).foreign_activated
        = (s.toplevels u).foreign_activated := by
  induction l generalizing i s with
  | nil => exact ⟨rfl, rfl, rfl, rfl, rfl, rfl⟩
  | cons a l ih => simp [layout_place, ih]

@[simp] theorem layout_fields (L : layout_h) (s : mwc_server) (w u : Nat) :
    ((layout_set_pending_state L s w).toplevels u).floating = (s.toplevels u).floating
    ∧ ((layout_set_pending_state L s w).toplevels u).workspace = (s.toplevels u).workspace
    ∧ ((layout_set_pending_state L s w).toplevels u).fullscreen = (s.toplevels u).fullscreen
    ∧ ((layout_set_pending_state L s w).toplevels u).mapped = (s.toplevels u).mapped
    ∧ ((layout_set_pending_state L s w).toplevels u).xdg_activated
        = (s.toplevels u).xdg_activated
    ∧ ((layout_set_pending_state L s w).toplevels u).foreign_activated
        = (s.toplevels u).foreign_activated := by
  simp [layout_set_pending_state, layout_place_fields]

/-! ## The claims -/

theorem demo_layout_at_tiled : layout_toplevel_at_tiled demo_layout := by
  intro s w x y u h
  have hm := List.mem_of_find?_eq_some h
  exact List.mem_append.mp hm

theorem not_tiled_after_map (L : layout_h) (s : mwc_server) (t u : Nat)
    (hf : (s.toplevels t).floating = false) (hb : masters_bounded s) (hn : not_tiled s u)
    (hne : u ≠ t) : not_tiled (toplevel_handle_map L s t) u := by
  intro w h
  have h1 := (no_growth_map_rest (map_link L s t) t).2.1 w u h
  rcases (map_link_effect L s t hf hb).2.2 w u h1 with h2 | ⟨h2, _⟩
  · exact hn w h2
  · exact hne h2

/-- C1 (master-count bound): with `master_count >= 1`, in every state
reached from a server whose workspaces are all empty by any sequence of tiled
`toplevel_handle_map`, `toplevel_handle_unmap`, `toplevel_start_move` and
`toplevel_tiled_insert_into_layout` events, the master list of every workspace
has at most `master_count` entries. A toplevel is mapped or inserted only
while it is linked into no tiled list, and `layout_toplevel_at` returns tiled
toplevels of the workspace it is asked about. -/
theorem master_count_bound (L : layout_h) (hL : layout_toplevel_at_tiled L)
    (s0 s : mwc_server) (_hmc : 1 ≤ s0.config.master_count) (h0 : workspaces_empty s0)
    (hr : tiled_run L s0 s) (w : Nat) :
    (s.workspaces w).masters.length ≤ s0.config.master_count := by
  obtain ⟨hc, hb, _⟩ := tiled_run_invariant L hL s0 s h0 hr
  rw [← hc]
  exact hb w

theorem master_count_bound_witness :
    demo_server.config.master_count = 1
    ∧ (two_tiled_server.workspaces 0).masters = [1]
    ∧ (two_tiled_server.workspaces 0).slaves = [2]
    ∧ (tiled_insert_server.workspaces 0).masters = [7]
    ∧ (tiled_insert_server.workspaces 0).slaves = [2, 1]
    ∧ (tiled_insert_moved_server.workspaces 0).masters = [1]
    ∧ (tiled_insert_moved_server.workspaces 0).slaves = [2]
    ∧ toplevel_handle_unmap demo_layout tiled_insert_moved_server 7
        = some (unmap_grabbed tiled_insert_moved_server 0 7)
    ∧ ((unmap_grabbed tiled_insert_moved_server 0 7).workspaces 0).masters = [1]
    ∧ ((unmap_grabbed tiled_insert_moved_server 0 7).workspaces 0).masters.length
        ≤ demo_server.config.master_count :=
  ⟨by decide, by decide, by decide, by decide, by decide, by decide, by decide, rfl, by decide,
   master_count_bound demo_layout demo_layout_at_tiled demo_server _ (by decide)
    (fun _ => ⟨rfl, rfl, rfl⟩)
    (tiled_run.step _ _ _
      (tiled_run.step _ _ _
        (tiled_run.step _ _ _
          (tiled_run.step _ _ _
            (tiled_run.step _ _ _ (tiled_run.start demo_server)
              (tiled_step.map demo_server 1 rfl
                (fun w h => by simp [tiled, demo_server] at h)))
            (tiled_step.map _ 2 (by decide)
              (not_tiled_after_map demo_layout demo_server 1 2 rfl (fun _ => Nat.zero_le _)
                (fun w h => by simp [tiled, demo_server] at h) (by decide))))
          (tiled_step.insert two_tiled_server 7 10 10
            (not_tiled_after_map demo_layout _ 2 7 (by decide)
              (tiled_run_invariant demo_layout demo_layout_at_tiled demo_server _
                (fun _ => ⟨rfl, rfl, rfl⟩)
                (tiled_run.step _ _ _ (tiled_run.start demo_server)
                  (tiled_step.map demo_server 1 rfl
                    (fun w h => by simp [tiled, demo_server] at h)))).2.1
              (not_tiled_after_map demo_layout demo_server 1 7 rfl (fun _ => Nat.zero_le _)
                (fun w h => by simp [tiled, demo_server] at h) (by decide))
              (by decide))))
        (tiled_step.start_move tiled_insert_server 7))
      (tiled_step.unmap tiled_insert_moved_server 7 _ rfl))
    0⟩

/-- C2 (staleness law), as amended: for every toplevel that is not being
resized (whatever `dirty`, `floating` and `fullscreen` are),
`toplevel_handle_commit` on an initialized, non-initial commit whose
acknowledged serial is below `configure_serial` leaves `current` unchanged. -/
theorem stale_commit_ignored (L : layout_h) (s : mwc_server) (t : Nat)
    (hi : (s.toplevels t).initialized = true) (hn : (s.toplevels t).initial_commit = false)
    (hr : (s.toplevels t).resizing = false)
    (hs : (s.toplevels t).acked_serial < (s.toplevels t).configure_serial) :
    ((toplevel_handle_commit L s t).toplevels t).current = (s.toplevels t).current := by
  unfold toplevel_handle_commit
  simp [hi, hn, hr, hs]

theorem stale_commit_ignored_witness :
    (stale_server.toplevels 1).acked_serial < (stale_server.toplevels 1).configure_serial
    ∧ ((toplevel_handle_commit demo_layout stale_server 1).toplevels 1).current
        = ⟨0, 0, 400, 300⟩ :=
  ⟨by decide, stale_commit_ignored demo_layout stale_server 1 rfl rfl rfl (by decide)⟩

/-- C2 as stated fails while the toplevel is being resized: the commit is
initialized, not the initial one and acknowledges serial 1 < 2, and `current`
still changes from (0,0,400,300) to the pending (0,0,800,600). -/
theorem stale_commit_applied_while_resizing :
    (stale_resizing_server.toplevels 1).initialized = true
    ∧ (stale_resizing_server.toplevels 1).initial_commit = false
    ∧ (stale_resizing_server.toplevels 1).acked_serial
        < (stale_resizing_server.toplevels 1).configure_serial
    ∧ (stale_resizing_server.toplevels 1).current = ⟨0, 0, 400, 300⟩
    ∧ ((toplevel_handle_commit demo_layout stale_resizing_server 1).toplevels 1).current
        = ⟨0, 0, 800, 600⟩ := by
  decide

/-! ## Fullscreen -/

theorem set_fullscreen_apply_server (s : mwc_server) (t : Nat) :
    (set_fullscreen_apply s t).config = s.config
    ∧ (set_fullscreen_apply s t).grabbed_toplevel = s.grabbed_toplevel
    ∧ (set_fullscreen_apply s t).focused_toplevel = s.focused_toplevel
    ∧ (set_fullscreen_apply s t).active_workspace = s.active_workspace := by
  simp [set_fullscreen_apply]

theorem set_fullscreen_apply_lists (s : mwc_server) (t v : Nat) :
    ((set_fullscreen_apply s t).workspaces v).masters = (s.workspaces v).masters
    ∧ ((set_fullscreen_apply s t).workspaces v).slaves = (s.workspaces v).slaves
    ∧ ((set_fullscreen_apply s t).workspaces v).floating_toplevels
        = (s.workspaces v).floating_toplevels
    ∧ ((set_fullscreen_apply s t).workspaces v).output = (s.workspaces v).output
    ∧ ((set_fullscreen_apply s t).workspaces v).fullscreen_toplevel
        = if v = (s.toplevels t).workspace then some t
          else (s.workspaces v).fullscreen_toplevel := by
  simp [set_fullscreen_apply, assign_fullscreen_toplevel_fullscreen]

theorem set_fullscreen_apply_fields (s : mwc_server) (t u : Nat) :
    ((set_fullscreen_apply s t).toplevels u).floating = (s.toplevels u).floating
    ∧ ((set_fullscreen_apply s t).toplevels u).workspace = (s.toplevels u).workspace
    ∧ ((set_fullscreen_apply s t).toplevels u).mapped = (s.toplevels u).mapped := by
  simp [set_fullscreen_apply]

/-- The geometry of the toplevel after the statements of
`toplevel_set_fullscreen`: `prev_geometry` holds the old `current`, `pending`
is the box of the output, the flag is set, and `current` has moved to the box
of the output only if that did not change its size. -/
theorem set_fullscreen_apply_geometry (s : mwc_server) (t : Nat) :
    ((set_fullscreen_apply s t).toplevels t).prev_geometry = (s.toplevels t).current
    ∧ ((set_fullscreen_apply s t).toplevels t).fullscreen = true
    ∧ ((set_fullscreen_apply s t).toplevels t).pending
        = ⟨wrap_i32 (s.outputs (s.workspaces (s.toplevels t).workspace).output).layout_box.x,
           wrap_i32 (s.outputs (s.workspaces (s.toplevels t).workspace).output).layout_box.y,
           wrap_i32 (s.outputs (s.workspaces (s.toplevels t).workspace).output).layout_box.width,
           wrap_i32 (s.outputs (s.workspaces (s.toplevels t).workspace).output).layout_box.height⟩
    ∧ ((set_fullscreen_apply s t).toplevels t).current
        = if (s.toplevels t).current.width
              = wrap_i32 (s.outputs (s.workspaces (s.toplevels t).workspace).output).layout_box.width
            ∧ (s.toplevels t).current.height
              = wrap_i32
                (s.outputs (s.workspaces (s.toplevels t).workspace).output).layout_box.height then
            ⟨wrap_i32 (s.outputs (s.workspaces (s.toplevels t).workspace).output).layout_box.x,
             wrap_i32 (s.outputs (s.workspaces (s.toplevels t).workspace).output).layout_box.y,
             wrap_i32 (s.outputs (s.workspaces (s.toplevels t).workspace).output).layout_box.width,
             wrap_i32
              (s.outputs (s.workspaces (s.toplevels t).workspace).output).layout_box.height⟩
          else (s.toplevels t).current := by
  simp [set_fullscreen_apply, set_pending_pending, set_pending_current]

theorem unset_fullscreen_restore_server (s : mwc_server) (t : Nat) :
    (unset_fullscreen_restore s t).workspaces = s.workspaces
    ∧ (unset_fullscreen_restore s t).outputs = s.outputs
    ∧ (unset_fullscreen_restore s t).config = s.config
    ∧ (unset_fullscreen_restore s t).grabbed_toplevel = s.grabbed_toplevel
    ∧ (unset_fullscreen_restore s t).focused_toplevel = s.focused_toplevel := by
  unfold unset_fullscreen_restore
  split <;> simp

/-- For a floating toplevel the statements of `toplevel_unset_fullscreen`
bring `current` back to `prev_geometry` as soon as the two have the same
size. -/
theorem unset_fullscreen_apply_current (L : layout_h) (s : mwc_server) (t : Nat)
    (hfl : (s.toplevels t).floating = true)
    (hnt : ¬ tiled s (s.toplevels t).workspace t)
    (hr : (s.toplevels t).prev_geometry.in_range)
    (hw : (s.toplevels t).current.width = (s.toplevels t).prev_geometry.width)
    (hh : (s.toplevels t).current.height = (s.toplevels t).prev_geometry.height) :
    ((unset_fullscreen_apply L s t).toplevels t).current = (s.toplevels t).prev_geometry := by
  unfold tiled at hnt
  simp only [not_or] at hnt
  unfold unset_fullscreen_apply
  simp only [wlr_foreign_toplevel_handle_v1_set_fullscreen_fields]
  rw [layout_other _ _ _ _ (by simpa [unset_fullscreen_restore_server] using hnt.1)
    (by simpa [unset_fullscreen_restore_server] using hnt.2)]
  simp only [layers_under_fullscreen_set_enabled_server, scene_set_enabled_others_fields]
  unfold unset_fullscreen_restore
  simp only [wlr_xdg_toplevel_set_fullscreen_fields, assign_fullscreen_fields,
    assign_fullscreen_toplevel_server, hfl, if_true, wlr_scene_node_reparent_fields]
  rw [set_pending_current]
  simp only [wlr_xdg_toplevel_set_fullscreen_fields, assign_fullscreen_fields,
    assign_fullscreen_toplevel_server]
  obtain ⟨h1, h2, h3, h4⟩ := hr
  rw [wrap_i32_of_in_i32 _ h1, wrap_i32_of_in_i32 _ h2, wrap_i32_of_in_i32 _ h3,
    wrap_i32_of_in_i32 _ h4, if_pos ⟨hw, hh⟩]

/-- C3 (fullscreen round trip), as amended: for every mapped, non-grabbed
floating toplevel on a workspace with no fullscreen toplevel,
`toplevel_set_fullscreen` requests the full box of the output and
`toplevel_unset_fullscreen` right after it leaves `current` at the value it
had before the two calls. The toplevel is floating, so it is linked into no
master or slave list, and the two boxes hold C `int`s. -/
theorem fullscreen_round_trip_floating (L : layout_h) (s : mwc_server) (t : Nat)
    (hm : (s.toplevels t).mapped = true) (hg : s.grabbed_toplevel ≠ some t)
    (hfs : (s.workspaces (s.toplevels t).workspace).fullscreen_toplevel = none)
    (hfl : (s.toplevels t).floating = true)
    (hnt : ¬ tiled s (s.toplevels t).workspace t)
    (hr : (s.toplevels t).current.in_range)
    (ho : (s.outputs (s.workspaces (s.toplevels t).workspace).output).layout_box.in_range) :
    ((toplevel_set_fullscreen s t).toplevels t).pending
        = (s.outputs (s.workspaces (s.toplevels t).workspace).output).layout_box
    ∧ ((toplevel_unset_fullscreen L (toplevel_set_fullscreen s t) t).toplevels t).current
        = (s.toplevels t).current := by
  have e1 : toplevel_set_fullscreen s t = set_fullscreen_apply s t := by
    unfold toplevel_set_fullscreen
    simp [hm, hfs, hg]
  obtain ⟨gp, _, gpend, gcur⟩ := set_fullscreen_apply_geometry s t
  obtain ⟨ffl, fws, _⟩ := set_fullscreen_apply_fields s t t
  have hfs2 : ((set_fullscreen_apply s t).workspaces
      ((set_fullscreen_apply s t).toplevels t).workspace).fullscreen_toplevel = some t := by
    rw [fws, (set_fullscreen_apply_lists s t _).2.2.2.2, if_pos rfl]
  have e2 : toplevel_unset_fullscreen L (set_fullscreen_apply s t) t
      = unset_fullscreen_apply L (set_fullscreen_apply s t) t := by
    unfold toplevel_unset_fullscreen
    simp [hfs2]
  rw [e1, e2]
  refine ⟨?_, ?_⟩
  · rw [gpend]; exact wrap_box_of_in_range _ ho
  · rw [unset_fullscreen_apply_current L _ t (by rw [ffl]; exact hfl) ?_ (by rw [gp]; exact hr)
      ?_ ?_]
    · exact gp
    · rw [fws]
      unfold tiled
      rw [(set_fullscreen_apply_lists s t _).1, (set_fullscreen_apply_lists s t _).2.1]
      exact hnt
    · rw [gcur, gp]; split_ifs with hc
      · exact hc.1.symm
      · rfl
    · rw [gcur, gp]; split_ifs with hc
      · exact hc.2.symm
      · rfl

theorem fullscreen_round_trip_floating_witness :
    (floating_server.toplevels 1).current = ⟨100, 100, 400, 300⟩
    ∧ (floating_server.outputs (floating_server.workspaces 0).output).layout_box
        = ⟨0, 0, 1920, 1080⟩
    ∧ ((toplevel_set_fullscreen floating_server 1).toplevels 1).pending = ⟨0, 0, 1920, 1080⟩
    ∧ ((toplevel_unset_fullscreen demo_layout (toplevel_set_fullscreen floating_server 1)
          1).toplevels 1).current = ⟨100, 100, 400, 300⟩ :=
  ⟨by decide, by decide,
    (fullscreen_round_trip_floating demo_layout floating_server 1 (by decide) (by decide)
      (by decide) (by decide) (by decide) (by decide) (by decide)).1,
    (fullscreen_round_trip_floating demo_layout floating_server 1 (by decide) (by decide)
      (by decide) (by decide) (by decide) (by decide) (by decide)).2⟩

/-- C3 as stated fails for a tiled toplevel: toplevel 1 is mapped, tiled, not
grabbed, its workspace has no fullscreen toplevel and its `current` is
(300,200,1920,1080); after `toplevel_set_fullscreen` and
`toplevel_unset_fullscreen` its `current` is (0,0,1920,1080). -/
theorem fullscreen_round_trip_tiled_fails :
    (tiled_offset_server.toplevels 1).mapped = true
    ∧ (tiled_offset_server.toplevels 1).floating = false
    ∧ tiled_offset_server.grabbed_toplevel = none
    ∧ (tiled_offset_server.workspaces 0).masters = [1]
    ∧ (tiled_offset_server.workspaces 0).fullscreen_toplevel = none
    ∧ (tiled_offset_server.toplevels 1).current = ⟨300, 200, 1920, 1080⟩
    ∧ ((toplevel_unset_fullscreen demo_layout (toplevel_set_fullscreen tiled_offset_server 1)
          1).toplevels 1).current = ⟨0, 0, 1920, 1080⟩ := by
  decide

/-! ## Unmap of a toplevel that is not grabbed -/

theorem list_last_append_singleton (l : List Nat) (x : Nat) : list_last (l ++ [x]) = some x := by
  unfold list_last
  simp

theorem list_next_mem (l : List Nat) (t u : Nat) (h : list_next l t = some u) : u ∈ l := by
  induction l with
  | nil => simp [list_next] at h
  | cons a l ih =>
    cases l with
    | nil => simp [list_next] at h
    | cons b l =>
      unfold list_next at h
      split_ifs at h
      · cases h; simp
      · exact List.mem_cons_of_mem _ (ih h)

theorem list_prev_mem (l : List Nat) (t u : Nat) (h : list_prev l t = some u) : u ∈ l := by
  induction l with
  | nil => simp [list_prev] at h
  | cons a l ih =>
    cases l with
    | nil => simp [list_prev] at h
    | cons b l =>
      unfold list_prev at h
      split_ifs at h
      · cases h; simp
      · exact List.mem_cons_of_mem _ (ih h)

theorem list_first_mem (l : List Nat) (u : Nat) (h : list_first l = some u) : u ∈ l := by
  unfold list_first at h
  exact List.mem_of_mem_head? h

theorem focus_next_of_mem (own : List Nat) (fallback : Option Nat) (t u : Nat)
    (h : focus_next_of own fallback t = some u) : u ∈ own ∨ fallback = some u := by
  unfold focus_next_of at h
  split at h
  · rename_i v hv
    cases h
    exact Or.inl (list_next_mem _ _ _ hv)
  · split at h
    · rename_i v hv
      cases h
      exact Or.inl (list_prev_mem _ _ _ hv)
    · exact Or.inr h

theorem unmap_prepared_frame (s : mwc_server) (t : Nat) :
    (unmap_prepared s t).focused_toplevel = s.focused_toplevel
    ∧ (unmap_prepared s t).grabbed_toplevel = s.grabbed_toplevel
    ∧ (unmap_prepared s t).config = s.config
    ∧ (unmap_prepared s t).lock = s.lock
    ∧ (unmap_prepared s t).exclusive = s.exclusive
    ∧ (∀ v, ((unmap_prepared s t).workspaces v).masters = (s.workspaces v).masters
        ∧ ((unmap_prepared s t).workspaces v).slaves = (s.workspaces v).slaves
        ∧ ((unmap_prepared s t).workspaces v).floating_toplevels
            = (s.workspaces v).floating_toplevels)
    ∧ ∀ u, ((unmap_prepared s t).toplevels u).floating = (s.toplevels u).floating
        ∧ ((unmap_prepared s t).toplevels u).workspace = (s.toplevels u).workspace := by
  unfold unmap_prepared
  rcases unmap_prev_focused_cases s t with e | e <;> rw [e] <;> simp

/-- For a toplevel that is not grabbed, `toplevel_handle_unmap` is the part
of it after the grab test, run on the prepared state. -/
theorem unmap_of_not_grabbed (L : layout_h) (s : mwc_server) (t : Nat)
    (hg : s.grabbed_toplevel ≠ some t) :
    toplevel_handle_unmap L s t
      = if ((unmap_prepared s t).toplevels t).floating then
          some (unmap_floating (unmap_prepared s t) (s.toplevels t).workspace t)
        else if toplevel_is_master (unmap_prepared s t) t then
          some (layout_set_pending_state L
            (unmap_master (unmap_prepared s t) (s.toplevels t).workspace t)
            (s.toplevels t).workspace)
        else
          (unmap_slave (unmap_prepared s t) (s.toplevels t).workspace t).map
            (fun r => layout_set_pending_state L r (s.toplevels t).workspace) := by
  unfold toplevel_handle_unmap unmap_not_grabbed unmap_prepared
  rcases unmap_prev_focused_cases s t with e | e <;> rw [e] <;> simp [hg]

theorem unmap_floating_focus (s : mwc_server) (w t : Nat) (hf : s.focused_toplevel ≠ some t) :
    (unmap_floating s w t).focused_toplevel = s.focused_toplevel := by
  unfold unmap_floating
  rw [if_neg hf]
  rfl

theorem unmap_master_focus (s : mwc_server) (w t : Nat) (hf : s.focused_toplevel ≠ some t) :
    (unmap_master s w t).focused_toplevel = s.focused_toplevel := by
  have hp : (unmap_promote s w).focused_toplevel = s.focused_toplevel :=
    (unmap_promote_effect s w).2.2.1
  unfold unmap_master
  dsimp only
  rw [hp, if_neg hf]
  exact hp

theorem unmap_slave_focus (s : mwc_server) (w t : Nat) (hf : s.focused_toplevel ≠ some t) :
    unmap_slave s w t = some (wl_list_remove s t) := by
  unfold unmap_slave
  rw [if_neg hf]

/-- The call `focus_toplevel(u)` right after `server_reset_cursor_mode`: no
toplevel is grabbed afterwards; the focus stays where it was when the call
returns at the session lock, the exclusive client or another fullscreen
toplevel on the workspace of `u`, and is on `u` otherwise. -/
theorem focus_after_reset (s : mwc_server) (u : Nat) :
    (focus_toplevel (server_reset_cursor_mode s) u).grabbed_toplevel = none
    ∧ ((s.lock = true ∨ s.exclusive = true
          ∨ ((s.workspaces (s.toplevels u).workspace).fullscreen_toplevel ≠ none
            ∧ (s.workspaces (s.toplevels u).workspace).fullscreen_toplevel ≠ some u)) →
        (focus_toplevel (server_reset_cursor_mode s) u).focused_toplevel = s.focused_toplevel)
    ∧ (¬ (s.lock = true ∨ s.exclusive = true
          ∨ ((s.workspaces (s.toplevels u).workspace).fullscreen_toplevel ≠ none
            ∧ (s.workspaces (s.toplevels u).workspace).fullscreen_toplevel ≠ some u)) →
        (focus_toplevel (server_reset_cursor_mode s) u).focused_toplevel = some u) := by
  have hg : (server_reset_cursor_mode s).grabbed_toplevel = none := rfl
  have hl : (server_reset_cursor_mode s).lock = s.lock := rfl
  have he : (server_reset_cursor_mode s).exclusive = s.exclusive := rfl
  have hw : (server_reset_cursor_mode s).workspaces = s.workspaces := rfl
  have ht : (server_reset_cursor_mode s).toplevels = s.toplevels := rfl
  have hf : (server_reset_cursor_mode s).focused_toplevel = s.focused_toplevel := rfl
  have ha := focus_apply_server (server_reset_cursor_mode s) u
  unfold focus_toplevel
  rw [hl, he, hg, hw, ht, hf]
  refine ⟨?_, ?_, ?_⟩
  · split_ifs <;> first | rfl | exact ha.2.2.2.1.trans hg
  · intro h
    split_ifs with h1 h2 h3 h4 h5 <;> first | rfl | skip
    rcases h with h | h | h
    · exact absurd h h1
    · exact absurd h h2
    · exact absurd h h4
  · intro h
    simp only [not_or] at h
    obtain ⟨h1, h2, h4⟩ := h
    rw [if_neg h1, if_neg h2, if_neg (by simp), if_neg h4]
    split_ifs with h5
    · exact hf.trans h5
    · exact ha.2.2.2.2.2.2.2.2

/-- C6 (frame of the focus pointer), as amended. For every state and every
toplevel `t` that is neither the grabbed toplevel nor
`server.focused_toplevel`, `toplevel_handle_unmap` returns and leaves
`server.focused_toplevel` unchanged. When `t` is the grabbed toplevel,
`toplevel_handle_unmap` returns with no toplevel grabbed, after a call of
`focus_toplevel` for the first floating toplevel of the workspace of `t` if
`t` is floating and that list is not empty, and for the first master
otherwise: `server.focused_toplevel` is unchanged when that call returns at
the session lock, the exclusive client or another fullscreen toplevel of the
workspace, and is that toplevel otherwise; with no such toplevel
`server.focused_toplevel` is cleared. -/
theorem unmap_keeps_focus (L : layout_h) (s : mwc_server) (t : Nat) :
    (s.grabbed_toplevel ≠ some t → s.focused_toplevel ≠ some t →
      ∃ r, toplevel_handle_unmap L s t = some r ∧ r.focused_toplevel = s.focused_toplevel)
    ∧ (s.grabbed_toplevel = some t →
      ∃ r, toplevel_handle_unmap L s t = some r ∧ r.grabbed_toplevel = none
        ∧ (∀ u,
            ((s.toplevels t).floating = true
                ∧ list_first (s.workspaces (s.toplevels t).workspace).floating_toplevels
                    = some u)
              ∨ (((s.toplevels t).floating = false
                    ∨ (s.workspaces (s.toplevels t).workspace).floating_toplevels = [])
                ∧ list_first (s.workspaces (s.toplevels t).workspace).masters = some u) →
            ((s.lock = true ∨ s.exclusive = true
                ∨ ((s.workspaces (s.toplevels u).workspace).fullscreen_toplevel ≠ none
                  ∧ (s.workspaces (s.toplevels u).workspace).fullscreen_toplevel ≠ some u)) →
              r.focused_toplevel = s.focused_toplevel)
            ∧ (¬ (s.lock = true ∨ s.exclusive = true
                ∨ ((s.workspaces (s.toplevels u).workspace).fullscreen_toplevel ≠ none
                  ∧ (s.workspaces (s.toplevels u).workspace).fullscreen_toplevel ≠ some u)) →
              r.focused_toplevel = some u))
        ∧ (((s.toplevels t).floating = false
              ∨ (s.workspaces (s.toplevels t).workspace).floating_toplevels = []) →
            (s.workspaces (s.toplevels t).workspace).masters = [] →
            r.focused_toplevel = none)) := by
  constructor
  · intro hg hf
    obtain ⟨pf, _⟩ := unmap_prepared_frame s t
    have hf2 : (unmap_prepared s t).focused_toplevel ≠ some t := by rw [pf]; exact hf
    rw [unmap_of_not_grabbed L s t hg]
    split_ifs
    · exact ⟨_, rfl, by rw [unmap_floating_focus _ _ _ hf2, pf]⟩
    · exact ⟨_, rfl, by rw [(layout_server _ _ _).2.2.2.2.1, unmap_master_focus _ _ _ hf2, pf]⟩
    · rw [unmap_slave_focus _ _ _ hf2]
      exact ⟨_, rfl, by rw [(layout_server _ _ _).2.2.2.2.1]; exact pf⟩
  · intro hg
    have key : ∀ p : mwc_server, p.toplevels = s.toplevels → p.workspaces = s.workspaces →
        p.lock = s.lock → p.exclusive = s.exclusive →
        p.focused_toplevel = s.focused_toplevel →
        (unmap_grabbed p (s.toplevels t).workspace t).grabbed_toplevel = none
        ∧ (∀ u,
            ((s.toplevels t).floating = true
                ∧ list_first (s.workspaces (s.toplevels t).workspace).floating_toplevels
                    = some u)
              ∨ (((s.toplevels t).floating = false
                    ∨ (s.workspaces (s.toplevels t).workspace).floating_toplevels = [])
                ∧ list_first (s.workspaces (s.toplevels t).workspace).masters = some u) →
            ((s.lock = true ∨ s.exclusive = true
                ∨ ((s.workspaces (s.toplevels u).workspace).fullscreen_toplevel ≠ none
                  ∧ (s.workspaces (s.toplevels u).workspace).fullscreen_toplevel ≠ some u)) →
              (unmap_grabbed p (s.toplevels t).workspace t).focused_toplevel
                = s.focused_toplevel)
            ∧ (¬ (s.lock = true ∨ s.exclusive = true
                ∨ ((s.workspaces (s.toplevels u).workspace).fullscreen_toplevel ≠ none
                  ∧ (s.workspaces (s.toplevels u).workspace).fullscreen_toplevel ≠ some u)) →
              (unmap_grabbed p (s.toplevels t).workspace t).focused_toplevel = some u))
        ∧ (((s.toplevels t).floating = false
              ∨ (s.workspaces (s.toplevels t).workspace).floating_toplevels = []) →
            (s.workspaces (s.toplevels t).workspace).masters = [] →
            (unmap_grabbed p (s.toplevels t).workspace t).focused_toplevel = none) := by
      intro p ht hw hl he hf
      have rt : (server_reset_cursor_mode p).toplevels = s.toplevels := ht
      have rw_ : (server_reset_cursor_mode p).workspaces = s.workspaces := hw
      have far := fun u => focus_after_reset p u
      rw [ht, hw, hl, he, hf] at far
      have first_of : ∀ l : List Nat, l ≠ [] → ∃ u0, list_first l = some u0 := by
        intro l hl
        cases l with
        | nil => exact absurd rfl hl
        | cons a l => exact ⟨a, rfl⟩
      have first_ne : ∀ (l : List Nat) (u : Nat), list_first l = some u → l ≠ [] := by
        intro l u hu e
        rw [e] at hu
        cases hu
      by_cases c1 : (s.toplevels t).floating = true
          ∧ (s.workspaces (s.toplevels t).workspace).floating_toplevels ≠ []
      · obtain ⟨u0, hu0⟩ := first_of _ c1.2
        have e : unmap_grabbed p (s.toplevels t).workspace t
            = focus_toplevel (server_reset_cursor_mode p) u0 := by
          unfold unmap_grabbed
          dsimp only
          rw [rt, rw_, hu0]
          simp [c1.1, c1.2, focus_link]
        rw [e]
        refine ⟨(far u0).1, ?_, ?_⟩
        · intro u hu
          have hu1 : u = u0 := by
            rcases hu with ⟨_, h⟩ | ⟨h, _⟩
            · rw [hu0] at h
              exact (Option.some.inj h).symm
            · rcases h with h | h
              · rw [c1.1] at h
                cases h
              · exact absurd h c1.2
          rw [hu1]
          exact (far u0).2
        · intro h
          rcases h with h | h
          · rw [c1.1] at h
            cases h
          · exact absurd h c1.2
      · by_cases c2 : (s.workspaces (s.toplevels t).workspace).masters ≠ []
        · obtain ⟨u0, hu0⟩ := first_of _ c2
          have e : unmap_grabbed p (s.toplevels t).workspace t
              = focus_toplevel (server_reset_cursor_mode p) u0 := by
            unfold unmap_grabbed
            dsimp only
            rw [rt, rw_, hu0]
            have c1b : ((s.toplevels t).floating
                && !(s.workspaces (s.toplevels t).workspace).floating_toplevels.isEmpty)
                = false := by
              rw [Bool.eq_false_iff]
              intro h
              simp only [Bool.and_eq_true, Bool.not_eq_true_eq_eq_false,
                List.isEmpty_eq_false] at h
              exact c1 h
            rw [c1b]
            simp [c2, focus_link]
          rw [e]
          refine ⟨(far u0).1, ?_, ?_⟩
          · intro u hu
            have hu1 : u = u0 := by
              rcases hu with ⟨h1, h⟩ | ⟨_, h⟩
              · exact absurd ⟨h1, first_ne _ _ h⟩ c1
              · rw [hu0] at h
                exact (Option.some.inj h).symm
            rw [hu1]
            exact (far u0).2
          · intro _ h
            exact absurd h c2
        · have e : unmap_grabbed p (s.toplevels t).workspace t
              = clear_focused_toplevel (server_reset_cursor_mode p) := by
            unfold unmap_grabbed
            dsimp only
            rw [rt, rw_]
            have c1b : ((s.toplevels t).floating
                && !(s.workspaces (s.toplevels t).workspace).floating_toplevels.isEmpty)
                = false := by
              rw [Bool.eq_false_iff]
              intro h
              simp only [Bool.and_eq_true, Bool.not_eq_true_eq_eq_false,
                List.isEmpty_eq_false] at h
              exact c1 h
            rw [c1b]
            simp [not_not.1 c2]
          rw [e]
          refine ⟨rfl, ?_, fun _ _ => rfl⟩
          intro u hu
          exfalso
          rcases hu with ⟨h1, h⟩ | ⟨_, h⟩
          · exact c1 ⟨h1, first_ne _ _ h⟩
          · exact c2 (first_ne _ _ h)
    unfold toplevel_handle_unmap
    dsimp only
    rcases unmap_prev_focused_cases s t with e | e <;> rw [e]
    · rw [if_pos hg]
      exact ⟨_, rfl, key s rfl rfl rfl rfl rfl⟩
    · rw [if_pos (by exact hg)]
      exact ⟨_, rfl, key (clear_prev_focused s) rfl rfl rfl rfl rfl⟩

theorem unmap_keeps_focus_witness :
    three_tiled_server.focused_toplevel = some 3
    ∧ (∃ r, toplevel_handle_unmap demo_layout three_tiled_server 2 = some r
        ∧ r.focused_toplevel = some 3)
    ∧ locked_move_server.grabbed_toplevel = some 2
    ∧ locked_move_server.lock = true
    ∧ locked_move_server.focused_toplevel = some 3
    ∧ (locked_move_server.workspaces 0).masters = [1]
    ∧ ∃ r, toplevel_handle_unmap demo_layout locked_move_server 2 = some r
        ∧ r.grabbed_toplevel = none ∧ r.focused_toplevel = some 3 :=
  ⟨by decide,
    (unmap_keeps_focus demo_layout three_tiled_server 2).1 (by decide) (by decide),
    by decide, by decide, by decide, by decide,
    by
      obtain ⟨r, hr, hg, hu, _⟩ :=
        (unmap_keeps_focus demo_layout locked_move_server 2).2 (by decide)
      exact ⟨r, hr, hg, ((hu 1 (Or.inr ⟨Or.inl (by decide), by decide⟩)).1
        (Or.inl (by decide))).trans (by decide)⟩⟩

/-- C6 as stated fails for a grabbed toplevel: toplevel 2 is mapped and is not
the focused toplevel (3 is), a move grab on it is in progress, and after
`toplevel_handle_unmap` the focused toplevel is 1. -/
theorem unmap_of_grabbed_moves_focus :
    (three_tiled_server.toplevels 2).mapped = true
    ∧ (toplevel_start_move demo_layout three_tiled_server 2).grabbed_toplevel = some 2
    ∧ (toplevel_start_move demo_layout three_tiled_server 2).focused_toplevel = some 3
    ∧ (toplevel_handle_unmap demo_layout
          (toplevel_start_move demo_layout three_tiled_server 2) 2).map
        (fun r => r.focused_toplevel) = some (some 1) := by
  decide

/-- C7 (contract of `focus_toplevel`): the call leaves the whole state
unchanged when a session lock is held, an exclusive client is set, a grab is
in progress, the workspace of the toplevel has another fullscreen toplevel, or
the toplevel is focused already; in every other case the toplevel is
`server.focused_toplevel` afterwards. -/
theorem focus_toplevel_contract (s : mwc_server) (t : Nat) :
    (focus_blocked s t → focus_toplevel s t = s)
    ∧ (¬ focus_blocked s t → (focus_toplevel s t).focused_toplevel = some t) := by
  unfold focus_blocked focus_toplevel
  constructor
  · intro h
    split_ifs with h1 h2 h3 h4 h5 <;> first | rfl | skip
    rcases h with h | h | h | h | h
    · exact absurd h h1
    · exact absurd h h2
    · exact absurd h h3
    · exact absurd h h4
    · exact absurd h h5
  · intro h
    simp only [not_or] at h
    obtain ⟨h1, h2, h3, h4, h5⟩ := h
    rw [if_neg h1, if_neg h2, if_neg h3, if_neg h4, if_neg h5]
    exact (focus_apply_server s t).2.2.2.2.2.2.2.2

/-- C4 (fullscreen exclusivity) fails on the code: after toplevel 1 is mapped,
made fullscreen, unmapped and mapped again, and toplevel 2 is mapped and made
fullscreen, both toplevels of workspace 0 carry the fullscreen flag, and
toplevel 1 carries it without being the workspace's `fullscreen_toplevel`. -/
theorem fullscreen_flag_survives_unmap :
    fullscreen_remap_run.map (fun s =>
        ((s.workspaces 0).masters, (s.workspaces 0).slaves,
          (s.workspaces 0).fullscreen_toplevel)) = some ([1], [2], some 2)
    ∧ fullscreen_remap_run.map (fun s =>
        ((s.toplevels 1).workspace, (s.toplevels 1).fullscreen)) = some (0, true)
    ∧ fullscreen_remap_run.map (fun s =>
        ((s.toplevels 2).workspace, (s.toplevels 2).fullscreen)) = some (0, true) := by
  decide

/-- C5 (list membership) fails on the code for a resize grab: the floating
toplevel 1 is linked once into the floating list, a resize grab on it starts,
and after `toplevel_handle_unmap` it is still linked into the floating list
although the grab is over. -/
theorem unmap_during_resize_keeps_link :
    (floating_server.workspaces 0).floating_toplevels = [1]
    ∧ resize_grab_server.grabbed_toplevel = some 1
    ∧ resize_grab_server.cursor_mode = mwc_cursor_mode.MWC_CURSOR_RESIZE
    ∧ (unmap_event demo_layout resize_grab_server 1).map (fun s =>
        (s.grabbed_toplevel, (s.workspaces 0).floating_toplevels,
          (s.workspaces 0).masters, (s.workspaces 0).slaves))
        = some (none, [1], [], []) := by
  decide

/-! ## The lists after a master is unmapped -/

/-- The lists of workspace `w` after the master branch of
`toplevel_handle_unmap`, when the slave list ends in `sl`: the master list
loses `m` and gains `sl` at its end, the slave list loses `sl`. The last
hypothesis says that the toplevel that gets focus, if it is floating, is
linked into neither list. -/
theorem unmap_master_lists (s : mwc_server) (w m sl : Nat) (init : List Nat)
    (hm : m ∈ (s.workspaces w).masters)
    (hsl : (s.workspaces w).slaves = init ++ [sl])
    (h1 : sl ∉ (s.workspaces w).masters) (h2 : sl ∉ init) (h3 : m ∉ init)
    (hfocus : ∀ u, focus_next_of ((s.workspaces w).masters ++ [sl])
        (list_first ((s.workspaces w).floating_toplevels.erase sl)) m = some u →
        (s.toplevels u).floating = true →
        u ∉ (s.workspaces w).masters ∧ u ∉ init ∧ u ≠ sl) :
    ((unmap_master s w m).workspaces w).masters = (s.workspaces w).masters.erase m ++ [sl]
    ∧ ((unmap_master s w m).workspaces w).slaves = init := by
  -- the promotion
  have hp : unmap_promote s w = masters_insert_last (wl_list_remove s sl) w sl := by
    unfold unmap_promote
    rw [hsl, list_last_append_singleton]
  have pm : ((unmap_promote s w).workspaces w).masters = (s.workspaces w).masters ++ [sl] := by
    rw [hp, masters_insert_last_masters, if_pos rfl, (wl_list_remove_lists s sl w).1,
      List.erase_of_not_mem h1]
  have ps : ((unmap_promote s w).workspaces w).slaves = init := by
    rw [hp, (masters_insert_last_lists _ w sl w).1, (wl_list_remove_lists s sl w).2.1, hsl,
      List.erase_append_right _ h2]
    simp
  have pf : ((unmap_promote s w).workspaces w).floating_toplevels
      = (s.workspaces w).floating_toplevels.erase sl := by
    rw [hp, (masters_insert_last_lists _ w sl w).2.1, (wl_list_remove_lists s sl w).2.2.1]
  have pt : (unmap_promote s w).toplevels = s.toplevels := (unmap_promote_effect s w).2.1
  -- the final wl_list_remove on a state with the promoted lists
  have fin : ∀ r : mwc_server, (r.workspaces w).masters = (s.workspaces w).masters ++ [sl] →
      (r.workspaces w).slaves = init →
      ((wl_list_remove r m).workspaces w).masters = (s.workspaces w).masters.erase m ++ [sl]
      ∧ ((wl_list_remove r m).workspaces w).slaves = init := by
    intro r rm rs
    rw [(wl_list_remove_lists r m w).1, (wl_list_remove_lists r m w).2.1, rm, rs,
      List.erase_append_left _ hm, List.erase_of_not_mem h3]
    exact ⟨rfl, rfl⟩
  unfold unmap_master
  dsimp only
  split_ifs
  · rcases focus_or_clear_lists (unmap_promote s w)
        (focus_next_of ((unmap_promote s w).workspaces w).masters
          (list_first ((unmap_promote s w).workspaces w).floating_toplevels) m)
      with h | ⟨u, hu, hfl, h⟩
    · exact fin _ ((h w).1.trans pm) ((h w).2.1.trans ps)
    · rw [pm, pf] at hu
      rw [pt] at hfl
      obtain ⟨n1, n2, n3⟩ := hfocus u hu hfl
      apply fin
      · rw [(h w).1, pm]
        exact List.erase_of_not_mem (by simp [n1, n3])
      · rw [(h w).2.1, ps]
        exact List.erase_of_not_mem n2
  · exact fin _ pm ps

/-- The result of `toplevel_handle_unmap` for a tiled master that is not
grabbed. -/
theorem unmap_of_master (L : layout_h) (s : mwc_server) (m : Nat)
    (hg : s.grabbed_toplevel ≠ some m) (hfm : (s.toplevels m).floating = false)
    (hm : m ∈ (s.workspaces (s.toplevels m).workspace).masters) :
    toplevel_handle_unmap L s m
      = some (layout_set_pending_state L
          (unmap_master (unmap_prepared s m) (s.toplevels m).workspace m)
          (s.toplevels m).workspace) := by
  obtain ⟨_, _, _, _, _, pl, pt⟩ := unmap_prepared_frame s m
  rw [unmap_of_not_grabbed L s m hg, (pt m).1, hfm]
  have : toplevel_is_master (unmap_prepared s m) m = true := by
    unfold toplevel_is_master
    rw [(pt m).2, (pl _).1]
    simpa using hm
  simp [this]

/-- C8 (promotion on removal), as amended: when a non-grabbed tiled master
`m` is unmapped while the slave list is `s1..sn` (n >= 1) and the lists of its
workspace are well formed, the master list afterwards is the old one without
`m` and with the last slave `sn` appended at its end, and the slave list is
`s1..s(n-1)` in unchanged order. -/
theorem unmap_master_promotes_last_slave (L : layout_h) (s : mwc_server) (m sn : Nat)
    (init : List Nat)
    (hg : s.grabbed_toplevel ≠ some m)
    (hwf : workspace_wf s (s.toplevels m).workspace)
    (hm : m ∈ (s.workspaces (s.toplevels m).workspace).masters)
    (hsl : (s.workspaces (s.toplevels m).workspace).slaves = init ++ [sn]) :
    ∃ r, toplevel_handle_unmap L s m = some r
      ∧ (r.workspaces (s.toplevels m).workspace).masters
          = (s.workspaces (s.toplevels m).workspace).masters.erase m ++ [sn]
      ∧ (r.workspaces (s.toplevels m).workspace).slaves = init := by
  obtain ⟨hnd, hfl⟩ := hwf
  rw [hsl] at hnd hfl
  have hfm : (s.toplevels m).floating = false := hfl m (by simp [hm])
  obtain ⟨_, _, _, _, _, pl, pt⟩ := unmap_prepared_frame s m
  -- what the absence of double links gives
  have nd := hnd
  rw [List.append_assoc, List.nodup_append] at nd
  obtain ⟨_, nms, nfd⟩ := nd
  rw [List.nodup_append] at nms
  obtain ⟨_, nsl, nmd⟩ := nms
  have h1 : sn ∉ (s.workspaces (s.toplevels m).workspace).masters := fun h =>
    nmd h (by simp)
  have h2 : sn ∉ init := by
    intro h
    have := (List.nodup_append.mp nsl).2.2
    exact this h (by simp)
  have h3 : m ∉ init := fun h => nmd hm (by simp [h])
  refine ⟨_, unmap_of_master L s m hg hfm hm, ?_⟩
  rw [(layout_server _ _ _).1]
  have key := unmap_master_lists (unmap_prepared s m) (s.toplevels m).workspace m sn init
    (by rw [(pl _).1]; exact hm) (by rw [(pl _).2.1]; exact hsl)
    (by rw [(pl _).1]; exact h1) h2 h3 ?_
  · rw [(pl _).1] at key
    exact key
  · intro u hu hflu
    rw [(pl _).1, (pl _).2.2] at hu
    rw [(pt u).1] at hflu
    rcases focus_next_of_mem _ _ _ _ hu with hin | hfb
    · have : (s.toplevels u).floating = false := by
        apply hfl u
        simp only [List.mem_append, List.mem_singleton] at hin ⊢
        rcases hin with hin | hin
        · exact Or.inl hin
        · exact Or.inr (Or.inr hin)
      rw [this] at hflu
      cases hflu
    · have hmem : u ∈ (s.workspaces (s.toplevels m).workspace).floating_toplevels :=
        List.mem_of_mem_erase (list_first_mem _ _ hfb)
      rw [(pl _).1]
      refine ⟨fun h => nfd hmem (by simp [h]), fun h => nfd hmem (by simp [h]), ?_⟩
      intro e
      subst e
      exact nfd hmem (by simp)

theorem unmap_master_promotes_last_slave_witness :
    (three_tiled_server.workspaces 0).masters = [1]
    ∧ (three_tiled_server.workspaces 0).slaves = [2, 3]
    ∧ ∃ r, toplevel_handle_unmap demo_layout three_tiled_server 1 = some r
        ∧ (r.workspaces 0).masters = [3] ∧ (r.workspaces 0).slaves = [2] :=
  ⟨by decide, by decide,
    unmap_master_promotes_last_slave demo_layout three_tiled_server 1 3 [2]
      (by decide) (by decide) (by decide) (by decide)⟩

/-- C8 as stated fails on the code: with master list [1] and slave list
[2, 3], unmapping the master 1 gives masters [3] and slaves [2], while the
claim has the first slave promoted (masters [2], slaves [3]). -/
theorem unmap_master_promotes_not_first_slave :
    (three_tiled_server.workspaces 0).masters = [1]
    ∧ (three_tiled_server.workspaces 0).slaves = [2, 3]
    ∧ three_tiled_server.grabbed_toplevel = none
    ∧ (toplevel_handle_unmap demo_layout three_tiled_server 1).map
        (fun r => ((r.workspaces 0).masters, (r.workspaces 0).slaves)) = some ([3], [2]) := by
  decide

/-- C10 (list-promotion law): in a workspace whose master list is exactly
`[A]` and whose slave list is exactly `[B]`, with `A` and `B` two different
tiled (not floating) toplevels, unmapping `A` while it is not grabbed returns
with the master list `[B]` and an empty slave list. -/
theorem unmap_sole_master_promotes_sole_slave (L : layout_h) (s : mwc_server) (A B : Nat)
    (hg : s.grabbed_toplevel ≠ some A)
    (hm : (s.workspaces (s.toplevels A).workspace).masters = [A])
    (hs : (s.workspaces (s.toplevels A).workspace).slaves = [B])
    (hne : A ≠ B)
    (hfa : (s.toplevels A).floating = false) (hfb : (s.toplevels B).floating = false) :
    ∃ r, toplevel_handle_unmap L s A = some r
      ∧ (r.workspaces (s.toplevels A).workspace).masters = [B]
      ∧ (r.workspaces (s.toplevels A).workspace).slaves = [] := by
  obtain ⟨_, _, _, _, _, pl, pt⟩ := unmap_prepared_frame s A
  refine ⟨_, unmap_of_master L s A hg hfa (by rw [hm]; simp), ?_⟩
  rw [(layout_server _ _ _).1]
  have key := unmap_master_lists (unmap_prepared s A) (s.toplevels A).workspace A B []
    (by rw [(pl _).1, hm]; simp)
    (by rw [(pl _).2.1, hs]; rfl) (by rw [(pl _).1, hm]; simpa using hne.symm)
    (by simp) (by simp)
    (by
      intro u hu hflu
      rw [(pl _).1, hm] at hu
      have : u = B := by
        simpa [focus_next_of, list_next] using hu.symm
      subst this
      rw [(pt u).1, hfb] at hflu
      cases hflu)
  rw [(pl _).1, hm] at key
  simpa using key

theorem unmap_sole_master_promotes_sole_slave_witness :
    ((map_event demo_layout (map_event demo_layout demo_server 1) 2).workspaces 0).masters = [1]
    ∧ ((map_event demo_layout (map_event demo_layout demo_server 1) 2).workspaces 0).slaves = [2]
    ∧ ∃ r, toplevel_handle_unmap demo_layout
          (map_event demo_layout (map_event demo_layout demo_server 1) 2) 1 = some r
        ∧ (r.workspaces 0).masters = [2] ∧ (r.workspaces 0).slaves = [] :=
  ⟨by decide, by decide,
    unmap_sole_master_promotes_sole_slave demo_layout
      (map_event demo_layout (map_event demo_layout demo_server 1) 2) 1 2
      (by decide) (by decide) (by decide) (by decide) (by decide) (by decide)⟩

/-! ## Demotion on insertion -/

theorem insert_link_config (s : mwc_server) (w t x y u : Nat) :
    (insert_link s w t x y u).config = s.config := by
  unfold insert_link
  split <;> rfl

/-- C9 (demotion on insertion), as amended: when
`toplevel_tiled_insert_into_layout` links the new toplevel in next to the
toplevel under the point so that the master list `M ++ [last]` exceeds
`master_count`, the last master `last` is removed from the master list and
becomes the last element of the slave list, after the existing slaves in
unchanged order. -/
theorem insert_demotes_last_master_to_slave_end (L : layout_h) (s : mwc_server)
    (t x y under_cursor last : Nat) (M : List Nat)
    (ho : L.layout_toplevel_at (assign_workspace s t s.active_workspace)
        s.active_workspace x y = some under_cursor)
    (hM : ((insert_linked s t x y under_cursor).workspaces s.active_workspace).masters
        = M ++ [last])
    (hgt : s.config.master_count < (M ++ [last]).length)
    (hnm : last ∉ M)
    (hns : last ∉ ((insert_linked s t x y under_cursor).workspaces s.active_workspace).slaves) :
    ((toplevel_tiled_insert_into_layout L s t x y).workspaces s.active_workspace).masters = M
    ∧ ((toplevel_tiled_insert_into_layout L s t x y).workspaces s.active_workspace).slaves
        = ((insert_linked s t x y under_cursor).workspaces s.active_workspace).slaves
          ++ [last] := by
  unfold toplevel_tiled_insert_into_layout
  rw [ho]
  simp only [insert_at]
  unfold insert_linked at hM hns ⊢
  unfold insert_demote
  have hc : (insert_link (assign_workspace s t s.active_workspace) s.active_workspace t x y
      under_cursor).config.master_count = s.config.master_count := by
    rw [insert_link_config]; rfl
  rw [hc, hM, if_pos hgt, list_last_append_singleton]
  simp only [slaves_insert_last_slaves, slaves_insert_last_lists, wl_list_remove_lists,
    if_true, hM]
  rw [List.erase_append_right _ hnm, List.erase_of_not_mem hns]
  simp

theorem insert_demotes_last_master_to_slave_end_witness :
    (three_tiled_server.workspaces 0).masters = [1]
    ∧ (three_tiled_server.workspaces 0).slaves = [2, 3]
    ∧ ((toplevel_tiled_insert_into_layout demo_layout three_tiled_server 7 10 10).workspaces
          three_tiled_server.active_workspace).masters = [7]
    ∧ ((toplevel_tiled_insert_into_layout demo_layout three_tiled_server 7 10 10).workspaces
          three_tiled_server.active_workspace).slaves
        = ((insert_linked three_tiled_server 7 10 10 1).workspaces
            three_tiled_server.active_workspace).slaves ++ [1] :=
  ⟨by decide, by decide,
    (insert_demotes_last_master_to_slave_end demo_layout three_tiled_server 7 10 10 1 1 [7]
      (by decide) (by decide) (by decide) (by decide) (by decide)).1,
    (insert_demotes_last_master_to_slave_end demo_layout three_tiled_server 7 10 10 1 1 [7]
      (by decide) (by decide) (by decide) (by decide) (by decide)).2⟩

/-- C9 as stated fails on the code: with `master_count = 1`, masters [1] and
slaves [2, 3], inserting toplevel 7 at the point (10, 10) over the master
makes 7 the master and puts the demoted master 1 at the end of the slave
list, [2, 3, 1], not at its front. -/
theorem insert_demotes_not_to_slave_front :
    three_tiled_server.config.master_count = 1
    ∧ (three_tiled_server.workspaces 0).masters = [1]
    ∧ (three_tiled_server.workspaces 0).slaves = [2, 3]
    ∧ ((insert_linked three_tiled_server 7 10 10 1).workspaces 0).masters = [7, 1]
    ∧ ((toplevel_tiled_insert_into_layout demo_layout three_tiled_server 7 10 10).workspaces
          0).masters = [7]
    ∧ ((toplevel_tiled_insert_into_layout demo_layout three_tiled_server 7 10 10).workspaces
          0).slaves = [2, 3, 1] := by
  decide

/-! ## Grabs, moves and resizes -/

/-- C13 (grab exclusivity): in every state in which `server.grabbed_toplevel`
is set, `toplevel_start_move` and `toplevel_start_resize` return the state
they were given, so the grabbed toplevel, the cursor mode, the grab origin,
the initial box, the resize edges and all lists are unchanged. -/
theorem start_grab_rejected_while_grabbed (L : layout_h) (s : mwc_server) (t edges : Nat)
    (hg : s.grabbed_toplevel ≠ none) :
    toplevel_start_move L s t = s ∧ toplevel_start_resize s t edges = s := by
  unfold toplevel_start_move toplevel_start_resize
  rw [if_pos hg, if_pos hg]
  exact ⟨rfl, rfl⟩

theorem start_grab_rejected_while_grabbed_witness :
    resize_grab_server.grabbed_toplevel = some 1
    ∧ toplevel_start_move demo_layout resize_grab_server 2 = resize_grab_server
    ∧ toplevel_start_resize resize_grab_server 2 WLR_EDGE_TOP = resize_grab_server :=
  ⟨by decide,
    start_grab_rejected_while_grabbed demo_layout resize_grab_server 2 WLR_EDGE_TOP
      (by decide)⟩

theorem c_int_of_double_intCast (a : Int) : c_int_of_double (a : Rat) = a := by
  unfold c_int_of_double
  simp

theorem c_double_shift_le (fuel m : Nat) : c_double_shift fuel m ≤ fuel := by
  induction fuel with
  | zero => exact le_rfl
  | succ k ih =>
    unfold c_double_shift
    split_ifs
    · exact le_rfl
    · exact Nat.le_succ_of_le ih

theorem round_half_even_of_dvd (n d : Nat) (hd : 0 < d) (h : d ∣ n) :
    round_half_even n d = n / d := by
  unfold round_half_even
  rw [Nat.mod_eq_zero_of_dvd h, if_pos (by simpa using hd)]

/-- An integer is a value of binary64 up to 2^53 and is kept beyond: the
rounding leaves it as it is. -/
theorem c_double_round_intCast (a : Int) : c_double_round (a : Rat) = a := by
  unfold c_double_round
  by_cases h : 2 ^ 53 * (a : Rat).den ≤ (a : Rat).num.natAbs
  · rw [if_pos h]
  · rw [if_neg h, Rat.intCast_num, Rat.intCast_den, one_mul, Nat.div_one]
    have hle := c_double_shift_le 1074 (a.natAbs * 2 ^ 1074)
    generalize c_double_shift 1074 (a.natAbs * 2 ^ 1074) = k at hle ⊢
    have hdvd : 2 ^ k ∣ a.natAbs * 2 ^ 1074 :=
      Dvd.dvd.mul_left (pow_dvd_pow 2 hle) _
    rw [round_half_even_of_dvd _ _ (Nat.pow_pos (by decide)) hdvd, Nat.div_mul_cancel hdvd]
    have hP : (((2 : Nat) ^ 1074 : Nat) : Rat) ≠ 0 :=
      Nat.cast_ne_zero.2 (pow_ne_zero _ (by decide))
    generalize (2 : Nat) ^ 1074 = P at hP ⊢
    rw [Rat.mkRat_eq_div, Nat.cast_mul, ← mul_assoc, Int.sign_mul_natAbs, Int.cast_mul,
      Int.cast_natCast]
    exact mul_div_cancel_right₀ _ hP

theorem c_double_sub_intCast (a b : Int) :
    c_double_sub (a : Rat) (b : Rat) = ((a - b : Int) : Rat) := by
  unfold c_double_sub
  rw [← Int.cast_sub, c_double_round_intCast]

theorem c_double_add_intCast (a b : Int) :
    c_double_add (a : Rat) (b : Rat) = ((a + b : Int) : Rat) := by
  unfold c_double_add
  rw [← Int.cast_add, c_double_round_intCast]

theorem c_double_to_int_intCast (a : Int) (h : in_i32 a) :
    c_double_to_int (a : Rat) = some a := by
  unfold c_double_to_int
  rw [c_int_of_double_intCast, if_pos h]

theorem round_half_even_ge (n d : Nat) : n / d ≤ round_half_even n d := by
  unfold round_half_even
  split_ifs <;> omega

/-- The rounding moves a value by less than one. -/
theorem c_double_round_abs (x : Rat) : |x| - 1 ≤ |c_double_round x| := by
  unfold c_double_round
  by_cases h : 2 ^ 53 * x.den ≤ x.num.natAbs
  · rw [if_pos h]
    linarith
  · rw [if_neg h]
    by_cases hz : x.num = 0
    · have : x = 0 := Rat.zero_of_num_zero hz
      rw [this]
      have := abs_nonneg (mkRat ((0 : Rat).num.sign
        * ((round_half_even ((0 : Rat).num.natAbs * 2 ^ 1074)
              ((0 : Rat).den
                * 2 ^ c_double_shift 1074 ((0 : Rat).num.natAbs * 2 ^ 1074 / (0 : Rat).den))
            * 2 ^ c_double_shift 1074 ((0 : Rat).num.natAbs * 2 ^ 1074 / (0 : Rat).den)
              : Nat) : Int))
        (2 ^ 1074))
      simp only [abs_zero, zero_sub]
      linarith
    · have hle := c_double_shift_le 1074 (x.num.natAbs * 2 ^ 1074 / x.den)
      generalize c_double_shift 1074 (x.num.natAbs * 2 ^ 1074 / x.den) = k at hle ⊢
      have hkP : (2 : Nat) ^ k ≤ (2 : Nat) ^ 1074 := pow_le_pow_right₀ (by decide) hle
      have hP : 0 < (2 : Nat) ^ 1074 := Nat.pos_of_ne_zero (pow_ne_zero _ (by decide))
      generalize (2 : Nat) ^ 1074 = P at hkP hP ⊢
      have hK : 0 < 2 ^ k := Nat.pow_pos (by decide)
      generalize (2 : Nat) ^ k = K at hkP hK ⊢
      have hR := round_half_even_ge (x.num.natAbs * P) (x.den * K)
      generalize round_half_even (x.num.natAbs * P) (x.den * K) = R at hR ⊢
      have hd : 0 < x.den := x.den_pos
      have hD : 0 < x.den * K := Nat.mul_pos hd hK
      have key : x.num.natAbs * P < (R + 1) * (x.den * K) := by
        have h1 := Nat.lt_succ_self (x.num.natAbs * P / (x.den * K))
        have h2 : x.num.natAbs * P < (x.num.natAbs * P / (x.den * K) + 1) * (x.den * K) := by
          rw [Nat.mul_comm (x.num.natAbs * P / (x.den * K) + 1)]
          exact Nat.lt_mul_div_succ _ hD
        calc x.num.natAbs * P < (x.num.natAbs * P / (x.den * K) + 1) * (x.den * K) := h2
          _ ≤ (R + 1) * (x.den * K) := Nat.mul_le_mul_right _ (by omega)
      have habs : |x| = (x.num.natAbs : Rat) / (x.den : Rat) := by
        conv_lhs => rw [← Rat.num_div_den x]
        rw [abs_div, Nat.abs_cast, Int.cast_natAbs, Int.cast_abs]
      have hv : |mkRat (x.num.sign * ((R * K : Nat) : Int)) P|
          = ((R * K : Nat) : Rat) / (P : Rat) := by
        rw [Rat.mkRat_eq_div, abs_div, Nat.abs_cast, Int.cast_mul, abs_mul]
        have : |((x.num.sign : Int) : Rat)| = 1 := by
          rcases lt_or_gt_of_ne hz with h | h
          · rw [Int.sign_eq_neg_one_of_neg h]; simp
          · rw [Int.sign_eq_one_of_pos h]; simp
        rw [this, one_mul, Int.cast_natCast, Nat.abs_cast]
      rw [habs, hv]
      have hdq : (0 : Rat) < x.den := by exact_mod_cast hd
      have hPq : (0 : Rat) < P := by exact_mod_cast hP
      rw [sub_le_iff_le_add, div_le_iff₀ hdq, add_mul, div_mul_eq_mul_div, ← sub_le_iff_le_add,
        le_div_iff₀ hPq]
      have keyq : ((x.num.natAbs * P : Nat) : Rat) ≤ (((R + 1) * (x.den * K) : Nat) : Rat) :=
        by exact_mod_cast (le_of_lt key)
      have hkq : ((K : Nat) : Rat) ≤ (P : Rat) := by exact_mod_cast hkP
      push_cast at keyq ⊢
      nlinarith [mul_le_mul_of_nonneg_left hkq (le_of_lt hdq)]



theorem abs_ge_iff_num (q : Rat) (B : Nat) :
    (B : Rat) ≤ |q| ↔ B * q.den ≤ q.num.natAbs := by
  have hd : (0 : Rat) < q.den := by exact_mod_cast q.den_pos
  have habs : |q| = (q.num.natAbs : Rat) / (q.den : Rat) := by
    conv_lhs => rw [← Rat.num_div_den q]
    rw [abs_div, Nat.abs_cast, Int.cast_natAbs, Int.cast_abs]
  rw [habs, le_div_iff₀ hd]
  exact_mod_cast Iff.rfl

/-- A `double` of magnitude 2^31 + 1 or more has no conversion to `int`. -/
theorem c_double_to_int_of_large (v : Rat) (h : 2147483649 ≤ |v|) :
    c_double_to_int v = none := by
  have h1 : 2147483649 * v.den ≤ v.num.natAbs :=
    (abs_ge_iff_num v 2147483649).1 (by exact_mod_cast h)
  have h2 : 2147483649 ≤ (c_int_of_double v).natAbs := by
    unfold c_int_of_double
    rw [Int.natAbs_tdiv, Int.natAbs_ofNat]
    exact (Nat.le_div_iff_mul_le v.den_pos).2 h1
  unfold c_double_to_int
  rw [if_neg]
  intro hi
  unfold in_i32 at hi
  omega

/-- The reason why `c_double_round` may keep large values as they are: when
the difference of two doubles has magnitude 2^53 or more, its sum with an
`int` and its difference from an `int` have no conversion to `int`. -/
theorem c_double_to_int_large (i : Int) (a b : Rat) (hi : in_i32 i)
    (h : 2 ^ 53 ≤ |a - b|) :
    c_double_to_int (c_double_add i (c_double_sub a b)) = none
    ∧ c_double_to_int (c_double_sub i (c_double_sub a b)) = none := by
  have hs : c_double_sub a b = a - b := by
    unfold c_double_sub c_double_round
    rw [if_pos ((abs_ge_iff_num (a - b) (2 ^ 53)).1 (by exact_mod_cast h))]
  have hi1 : |(i : Rat)| ≤ 2147483648 := by
    unfold in_i32 at hi
    rw [abs_le]
    constructor
    · exact_mod_cast hi.1
    · exact_mod_cast le_of_lt hi.2
  have h53 : (2 : Rat) ^ 53 = 9007199254740992 := by norm_num
  rw [h53] at h
  rw [hs]
  constructor
  · apply c_double_to_int_of_large
    unfold c_double_add
    have := c_double_round_abs ((i : Rat) + (a - b))
    have t : |a - b| - |(i : Rat)| ≤ |(i : Rat) + (a - b)| := by
      have := abs_sub_abs_le_abs_sub (a - b) (-(i : Rat))
      rw [abs_neg, sub_neg_eq_add, add_comm] at this
      exact this
    linarith
  · apply c_double_to_int_of_large
    unfold c_double_sub
    have := c_double_round_abs ((i : Rat) - (a - b))
    have t : |a - b| - |(i : Rat)| ≤ |(i : Rat) - (a - b)| := by
      have := abs_sub_abs_le_abs_sub (a - b) (i : Rat)
      rw [abs_sub_comm (a - b) (i : Rat)] at this
      exact this
    linarith

/-- With an initial box of C `int`s and a cursor that is 2^53 or more away
from where the grab started, `toplevel_move` has undefined behaviour. -/
theorem toplevel_move_large (s : mwc_server) (hi : in_i32 s.grabbed_toplevel_initial_box.x)
    (h : 2 ^ 53 ≤ |s.cursor_x - s.grab_x|) : toplevel_move s = none := by
  unfold toplevel_move
  cases hg : s.grabbed_toplevel with
  | none => rfl
  | some t =>
    dsimp only
    rw [(c_double_to_int_large _ _ _ hi h).1]

/-- The pending box after `toplevel_move`, for the coordinates `new_x` and
`new_y` that the two conversions give. -/
theorem toplevel_move_pending (s : mwc_server) (t : Nat) (new_x new_y : Int)
    (hg : s.grabbed_toplevel = some t)
    (hx : c_double_to_int
        (c_double_add s.grabbed_toplevel_initial_box.x (c_double_sub s.cursor_x s.grab_x))
      = some new_x)
    (hy : c_double_to_int
        (c_double_add s.grabbed_toplevel_initial_box.y (c_double_sub s.cursor_y s.grab_y))
      = some new_y) :
    ∃ r, toplevel_move s = some r
      ∧ (r.toplevels t).pending
          = ⟨wrap_i32 new_x, wrap_i32 new_y, wrap_i32 (s.toplevels t).current.width,
             wrap_i32 (s.toplevels t).current.height⟩ := by
  unfold toplevel_move
  rw [hg]
  dsimp only
  rw [hx, hy]
  exact ⟨_, rfl, set_pending_pending _ _ _ _ _ _⟩

/-- C17 (move geometry): for a grab that started with the cursor at the
integer position `(gx, gy)` and a cursor now at the integer position
`(cx, cy)`, `toplevel_move` returns with the pending box of the grabbed
toplevel at `(initial.x + (cx - gx), initial.y + (cy - gy))` and with the
width and height of `current`, so a move never changes the size. The new
coordinates and the current size are C `int`s. -/
theorem toplevel_move_geometry (s : mwc_server) (t : Nat) (gx gy cx cy : Int)
    (hg : s.grabbed_toplevel = some t)
    (hgx : s.grab_x = (gx : Rat)) (hgy : s.grab_y = (gy : Rat))
    (hcx : s.cursor_x = (cx : Rat)) (hcy : s.cursor_y = (cy : Rat))
    (hx : in_i32 (s.grabbed_toplevel_initial_box.x + (cx - gx)))
    (hy : in_i32 (s.grabbed_toplevel_initial_box.y + (cy - gy)))
    (hw : in_i32 (s.toplevels t).current.width)
    (hh : in_i32 (s.toplevels t).current.height) :
    ∃ r, toplevel_move s = some r
      ∧ (r.toplevels t).pending
          = ⟨s.grabbed_toplevel_initial_box.x + (cx - gx),
             s.grabbed_toplevel_initial_box.y + (cy - gy),
             (s.toplevels t).current.width, (s.toplevels t).current.height⟩ := by
  have ex : c_double_to_int
      (c_double_add s.grabbed_toplevel_initial_box.x (c_double_sub s.cursor_x s.grab_x))
      = some (s.grabbed_toplevel_initial_box.x + (cx - gx)) := by
    rw [hcx, hgx, c_double_sub_intCast, c_double_add_intCast, c_double_to_int_intCast _ hx]
  have ey : c_double_to_int
      (c_double_add s.grabbed_toplevel_initial_box.y (c_double_sub s.cursor_y s.grab_y))
      = some (s.grabbed_toplevel_initial_box.y + (cy - gy)) := by
    rw [hcy, hgy, c_double_sub_intCast, c_double_add_intCast, c_double_to_int_intCast _ hy]
  obtain ⟨r, hr, hp⟩ := toplevel_move_pending s t _ _ hg ex ey
  refine ⟨r, hr, ?_⟩
  rw [hp, wrap_i32_of_in_i32 _ hx, wrap_i32_of_in_i32 _ hy, wrap_i32_of_in_i32 _ hw,
    wrap_i32_of_in_i32 _ hh]

theorem toplevel_move_geometry_witness :
    ∃ r, toplevel_move move_scenario_server = some r
      ∧ (r.toplevels 1).pending
          = ⟨move_scenario_server.grabbed_toplevel_initial_box.x + (40 - 0),
             move_scenario_server.grabbed_toplevel_initial_box.y + (-25 - 0),
             (move_scenario_server.toplevels 1).current.width,
             (move_scenario_server.toplevels 1).current.height⟩ :=
  toplevel_move_geometry move_scenario_server 1 0 0 40 (-25) (by decide)
    (by simp [move_scenario_server, cursor_at, toplevel_start_move, resize_base_server,
      move_lift, layout_set_pending_state])
    (by simp [move_scenario_server, cursor_at, toplevel_start_move, resize_base_server,
      move_lift, layout_set_pending_state])
    (by simp [move_scenario_server, cursor_at])
    (by simp [move_scenario_server, cursor_at])
    (by decide) (by decide) (by decide) (by decide)

/-! ## The geometry setter, fullscreen and the float decision -/

/-- C19 (the geometry setter), as amended: `toplevel_set_pending_state` sets
`pending` to the requested box (a box of C `int`s); it leaves `current`
unchanged when the requested size differs from the size of `current`, and
when the size is the same it commits at once, so `current` becomes the
requested box too. -/
theorem set_pending_state_writes_pending (s : mwc_server) (t : Nat) (b : wlr_box)
    (hb : b.in_range) :
    ((toplevel_set_pending_state s t b.x b.y b.width b.height).toplevels t).pending = b
    ∧ (¬ ((s.toplevels t).current.width = b.width ∧ (s.toplevels t).current.height = b.height) →
        ((toplevel_set_pending_state s t b.x b.y b.width b.height).toplevels t).current
          = (s.toplevels t).current)
    ∧ (((s.toplevels t).current.width = b.width ∧ (s.toplevels t).current.height = b.height) →
        ((toplevel_set_pending_state s t b.x b.y b.width b.height).toplevels t).current = b) := by
  have hbox := wrap_box_of_in_range b hb
  rw [set_pending_pending, set_pending_current, hbox, wrap_i32_of_in_i32 _ hb.2.2.1,
    wrap_i32_of_in_i32 _ hb.2.2.2]
  exact ⟨rfl, fun h => by rw [if_neg h], fun h => by rw [if_pos h]⟩

theorem set_pending_state_writes_pending_witness :
    ((toplevel_set_pending_state floating_server 1 0 0 1920 1080).toplevels 1).pending
        = ⟨0, 0, 1920, 1080⟩
    ∧ ((toplevel_set_pending_state floating_server 1 0 0 1920 1080).toplevels 1).current
        = ⟨100, 100, 400, 300⟩ :=
  ⟨(set_pending_state_writes_pending floating_server 1 ⟨0, 0, 1920, 1080⟩ (by decide)).1,
    (set_pending_state_writes_pending floating_server 1 ⟨0, 0, 1920, 1080⟩ (by decide)).2.1
      (by decide)⟩

/-- C19 as stated fails when the size does not change: toplevel 1 has
`current` (100,100,400,300), and `toplevel_set_pending_state` with the box
(10,20,400,300) leaves `current` at (10,20,400,300). -/
theorem set_pending_state_moves_current :
    (floating_server.toplevels 1).current = ⟨100, 100, 400, 300⟩
    ∧ ((toplevel_set_pending_state floating_server 1 10 20 400 300).toplevels 1).pending
        = ⟨10, 20, 400, 300⟩
    ∧ ((toplevel_set_pending_state floating_server 1 10 20 400 300).toplevels 1).current
        = ⟨10, 20, 400, 300⟩ := by
  decide

/-- C18 (contract of `toplevel_set_fullscreen`), as amended: the call changes
nothing if the surface of the toplevel is unmapped, if its workspace has a
fullscreen toplevel already (the toplevel itself included), or if the
toplevel is grabbed; otherwise `prev_geometry` is the old `current`, the
`fullscreen` flag is set, the toplevel is the workspace's
`fullscreen_toplevel`, and `pending` is the full box of the output. -/
theorem set_fullscreen_contract (s : mwc_server) (t : Nat)
    (ho : (s.outputs (s.workspaces (s.toplevels t).workspace).output).layout_box.in_range) :
    (((s.toplevels t).mapped = false
        ∨ (s.workspaces (s.toplevels t).workspace).fullscreen_toplevel ≠ none
        ∨ s.grabbed_toplevel = some t) → toplevel_set_fullscreen s t = s)
    ∧ (((s.toplevels t).mapped = true
        ∧ (s.workspaces (s.toplevels t).workspace).fullscreen_toplevel = none
        ∧ s.grabbed_toplevel ≠ some t) →
        ((toplevel_set_fullscreen s t).toplevels t).prev_geometry = (s.toplevels t).current
        ∧ ((toplevel_set_fullscreen s t).toplevels t).fullscreen = true
        ∧ ((toplevel_set_fullscreen s t).workspaces (s.toplevels t).workspace).fullscreen_toplevel
            = some t
        ∧ ((toplevel_set_fullscreen s t).toplevels t).pending
            = (s.outputs (s.workspaces (s.toplevels t).workspace).output).layout_box) := by
  constructor
  · intro h
    unfold toplevel_set_fullscreen
    rcases h with h | h | h
    · simp [h]
    · split_ifs <;> rfl
    · split_ifs <;> rfl
  · rintro ⟨hm, hf, hg⟩
    have e1 : toplevel_set_fullscreen s t = set_fullscreen_apply s t := by
      unfold toplevel_set_fullscreen
      simp [hm, hf, hg]
    obtain ⟨gp, gf, gpend, _⟩ := set_fullscreen_apply_geometry s t
    rw [e1]
    refine ⟨gp, gf, ?_, ?_⟩
    · rw [(set_fullscreen_apply_lists s t _).2.2.2.2, if_pos rfl]
    · rw [gpend]; exact wrap_box_of_in_range _ ho

theorem set_fullscreen_contract_witness :
    ((toplevel_set_fullscreen floating_server 1).toplevels 1).prev_geometry
        = (floating_server.toplevels 1).current
    ∧ ((toplevel_set_fullscreen floating_server 1).toplevels 1).fullscreen = true
    ∧ ((toplevel_set_fullscreen floating_server 1).workspaces
          (floating_server.toplevels 1).workspace).fullscreen_toplevel = some 1
    ∧ ((toplevel_set_fullscreen floating_server 1).toplevels 1).pending
        = (floating_server.outputs
            (floating_server.workspaces (floating_server.toplevels 1).workspace).output).layout_box :=
  (set_fullscreen_contract floating_server 1 (by decide)).2 (by decide)

/-- C18 as stated fails when the toplevel is the fullscreen toplevel of its
workspace already: toplevel 1 is mapped, not grabbed, and no other toplevel is
fullscreen, yet `toplevel_set_fullscreen` changes nothing, and `prev_geometry`
stays (100,100,400,300) while `current` was (0,0,1920,1080). -/
theorem set_fullscreen_again_keeps_prev_geometry :
    (fullscreen_committed_server.toplevels 1).mapped = true
    ∧ fullscreen_committed_server.grabbed_toplevel = none
    ∧ (fullscreen_committed_server.workspaces 0).fullscreen_toplevel = some 1
    ∧ (fullscreen_committed_server.toplevels 1).current = ⟨0, 0, 1920, 1080⟩
    ∧ ((toplevel_set_fullscreen fullscreen_committed_server 1).toplevels 1).prev_geometry
        = ⟨100, 100, 400, 300⟩ := by
  decide

/-- C20 (float decision), as amended: `toplevel_should_float` returns true if
and only if the toplevel has a nonzero `max_height` equal to `min_height`, or
a nonzero `max_width` equal to `min_width`, or a parent, or at least one rule
of the float-rule list matches it. -/
theorem should_float_iff (s : mwc_server) (t : Nat) :
    toplevel_should_float s t = true ↔
      (((s.toplevels t).max_height ≠ 0 ∧ (s.toplevels t).max_height = (s.toplevels t).min_height)
        ∨ ((s.toplevels t).max_width ≠ 0 ∧ (s.toplevels t).max_width = (s.toplevels t).min_width)
        ∨ (s.toplevels t).has_parent = true
        ∨ ∃ r ∈ s.config.rules_floating,
            toplevel_matches_window_rule (s.toplevels t) r.condition = true) := by
  unfold toplevel_should_float
  simp only []
  split_ifs with hb
  · simp only [Bool.or_eq_true, Bool.and_eq_true, bne_iff_ne, ne_eq, beq_iff_eq] at hb
    simp only [true_iff]
    rcases hb with (hb | hb) | hb
    · exact Or.inl hb
    · exact Or.inr (Or.inl hb)
    · exact Or.inr (Or.inr (Or.inl hb))
  · simp only [Bool.or_eq_true, Bool.and_eq_true, bne_iff_ne, ne_eq, beq_iff_eq, not_or] at hb
    obtain ⟨⟨h1, h2⟩, h3⟩ := hb
    rw [List.any_eq_true]
    constructor
    · intro h
      exact Or.inr (Or.inr (Or.inr h))
    · rintro (h | h | h | h)
      · exact absurd h h1
      · exact absurd h h2
      · exact absurd h h3
      · exact h

/-- C20 as stated fails for a toplevel without size limits: toplevel 5 of
`demo_server` has `min_height = max_height = 0` (and the same widths), no
parent and no float rule, and `toplevel_should_float` returns false. -/
theorem should_float_false_without_limits :
    (demo_server.toplevels 5).min_height = (demo_server.toplevels 5).max_height
    ∧ (demo_server.toplevels 5).min_width = (demo_server.toplevels 5).max_width
    ∧ (demo_server.toplevels 5).has_parent = false
    ∧ demo_server.config.rules_floating.length = 0
    ∧ toplevel_should_float demo_server 5 = false := by
  decide

/-! ## Lifting a master for a move grab -/

/-- C14 (lift and promote on a move grab): when no grab is active and
`toplevel_start_move` is called on a tiled master `m` while the slave list is
`s1..sn` (n >= 1) and the lists of the workspace are well formed, `m` leaves
the master list, the last slave `sn` leaves the slave list and is appended to
the end of the master list, and the master list is as long as before. -/
theorem start_move_lifts_and_promotes (L : layout_h) (s : mwc_server) (m sn : Nat)
    (init : List Nat)
    (hg : s.grabbed_toplevel = none)
    (hwf : workspace_wf s (s.toplevels m).workspace)
    (hm : m ∈ (s.workspaces (s.toplevels m).workspace).masters)
    (hsl : (s.workspaces (s.toplevels m).workspace).slaves = init ++ [sn]) :
    ((toplevel_start_move L s m).workspaces (s.toplevels m).workspace).masters
        = (s.workspaces (s.toplevels m).workspace).masters.erase m ++ [sn]
    ∧ ((toplevel_start_move L s m).workspaces (s.toplevels m).workspace).slaves = init
    ∧ ((toplevel_start_move L s m).workspaces (s.toplevels m).workspace).masters.length
        = (s.workspaces (s.toplevels m).workspace).masters.length := by
  obtain ⟨hnd, hfl⟩ := hwf
  rw [hsl] at hnd hfl
  have hfm : (s.toplevels m).floating = false := hfl m (by simp [hm])
  have nd := hnd
  rw [List.append_assoc, List.nodup_append] at nd
  obtain ⟨_, nms, _⟩ := nd
  rw [List.nodup_append] at nms
  obtain ⟨_, nsl, nmd⟩ := nms
  have h1 : sn ∉ (s.workspaces (s.toplevels m).workspace).masters := fun h =>
    nmd h (by simp)
  have h2 : sn ∉ init := fun h => (List.nodup_append.mp nsl).2.2 h (by simp)
  have h3 : m ∉ init ++ [sn] := fun h => nmd hm h
  have hmaster : ∀ b : wlr_box,
      toplevel_is_master (grab_begin s m mwc_cursor_mode.MWC_CURSOR_MOVE b) m = true := by
    intro b
    unfold toplevel_is_master
    simpa using hm
  have hlist : ((toplevel_start_move L s m).workspaces (s.toplevels m).workspace).masters
        = (s.workspaces (s.toplevels m).workspace).masters.erase m ++ [sn]
      ∧ ((toplevel_start_move L s m).workspaces (s.toplevels m).workspace).slaves = init := by
    unfold toplevel_start_move
    rw [if_neg (by rw [hg]; simp)]
    unfold move_lift
    simp only [grab_begin_server, hfm, Bool.false_eq_true, if_false, hmaster,
      wl_list_remove_lists, hsl, List.erase_of_not_mem h3, Bool.true_and,
      list_last_append_singleton, layout_server]
    have hne : (init ++ [sn]).isEmpty = false := by
      cases init <;> rfl
    simp only [hne, Bool.not_false, if_true, masters_insert_last_masters,
      masters_insert_last_lists, wl_list_remove_lists, grab_begin_server, hsl,
      List.erase_of_not_mem h3]
    have h4 : sn ∉ (s.workspaces (s.toplevels m).workspace).masters.erase m := fun h =>
      h1 (List.mem_of_mem_erase h)
    rw [List.erase_of_not_mem h4, List.erase_append_right _ h2]
    simp
  refine ⟨hlist.1, hlist.2, ?_⟩
  rw [hlist.1, List.length_append, List.length_erase_of_mem hm, List.length_singleton]
  have := List.length_pos_of_mem hm
  omega

theorem start_move_lifts_and_promotes_witness :
    ((map_event demo_layout (map_event demo_layout demo_server 1) 2).workspaces 0).masters = [1]
    ∧ ((map_event demo_layout (map_event demo_layout demo_server 1) 2).workspaces 0).slaves = [2]
    ∧ ((toplevel_start_move demo_layout
          (map_event demo_layout (map_event demo_layout demo_server 1) 2) 1).workspaces
            0).masters = [2]
    ∧ ((toplevel_start_move demo_layout
          (map_event demo_layout (map_event demo_layout demo_server 1) 2) 1).workspaces
            0).slaves = []
    ∧ ((toplevel_start_move demo_layout
          (map_event demo_layout (map_event demo_layout demo_server 1) 2) 1).workspaces
            0).masters.length = 1 :=
  ⟨by decide, by decide,
    (start_move_lifts_and_promotes demo_layout
      (map_event demo_layout (map_event demo_layout demo_server 1) 2) 1 2 []
      (by decide) (by decide) (by decide) (by decide)).1,
    (start_move_lifts_and_promotes demo_layout
      (map_event demo_layout (map_event demo_layout demo_server 1) 2) 1 2 []
      (by decide) (by decide) (by decide) (by decide)).2.1,
    (start_move_lifts_and_promotes demo_layout
      (map_event demo_layout (map_event demo_layout demo_server 1) 2) 1 2 []
      (by decide) (by decide) (by decide) (by decide)).2.2⟩
/-! ## Interactive resize -/

/-- The pending box after `toplevel_resize` is the requested box when that is
a box of C `int`s. -/
theorem toplevel_resize_pending (s : mwc_server) (t : Nat) (b : wlr_box)
    (hg : s.grabbed_toplevel = some t) (hq : resize_request s t = some b)
    (hr : b.in_range) :
    ∃ r, toplevel_resize s = some r ∧ (r.toplevels t).pending = b := by
  unfold toplevel_resize
  rw [hg]
  dsimp only
  rw [hq]
  exact ⟨_, rfl, by rw [set_pending_pending]; exact wrap_box_of_in_range _ hr⟩

theorem resize_horizontal_min (edges : Nat) (x w m : Int) (c g : Rat) (p : Int × Int)
    (hp : resize_horizontal edges x w m c g = some p)
    (h : edges &&& WLR_EDGE_LEFT ≠ 0 ∨ edges &&& WLR_EDGE_RIGHT ≠ 0) :
    m ≤ p.2 := by
  unfold resize_horizontal at hp
  split_ifs at hp with h1 h3
  · split at hp
    · split_ifs at hp with h2
      · cases hp; exact le_rfl
      · cases hp; exact le_of_lt (lt_of_not_ge h2)
    · cases hp
  · split at hp
    · split_ifs at hp with h4
      · cases hp; exact le_rfl
      · cases hp; exact le_of_lt (lt_of_not_ge h4)
    · cases hp
  · rcases h with h | h
    · exact absurd h h1
    · exact absurd h h3

theorem resize_vertical_min (edges : Nat) (y hgt m : Int) (c g : Rat) (p : Int × Int)
    (hp : resize_vertical edges y hgt m c g = some p)
    (h : edges &&& WLR_EDGE_TOP ≠ 0 ∨ edges &&& WLR_EDGE_BOTTOM ≠ 0) :
    m ≤ p.2 := by
  unfold resize_vertical at hp
  split_ifs at hp with h1 h3
  · split at hp
    · split_ifs at hp with h2
      · cases hp; exact le_rfl
      · cases hp; exact le_of_lt (lt_of_not_ge h2)
    · cases hp
  · split at hp
    · split_ifs at hp with h4
      · cases hp; exact le_rfl
      · cases hp; exact le_of_lt (lt_of_not_ge h4)
    · cases hp
  · rcases h with h | h
    · exact absurd h h1
    · exact absurd h h3

/-- The two blocks of `toplevel_resize` behind a requested box. -/
theorem resize_request_parts (s : mwc_server) (t : Nat) (b : wlr_box)
    (hq : resize_request s t = some b) :
    resize_vertical s.resize_edges s.grabbed_toplevel_initial_box.y
        s.grabbed_toplevel_initial_box.height (resize_min_height s t) s.cursor_y s.grab_y
      = some (b.y, b.height)
    ∧ resize_horizontal s.resize_edges s.grabbed_toplevel_initial_box.x
        s.grabbed_toplevel_initial_box.width (resize_min_width s t) s.cursor_x s.grab_x
      = some (b.x, b.width) := by
  unfold resize_request at hq
  split at hq
  · rename_i v h hv hh
    cases hq
    exact ⟨hv, hh⟩
  · cases hq

/-- C16 (resize minimum clamp): for every initial box, cursor position and
edge mask for which `toplevel_resize` is defined (each `double` it converts
is in the range of `int`, so that it requests a box `b`) and `b` is a box of
C `int`s, `toplevel_resize` returns with `b` as the pending box, the width
requested is at least `max(client min_width, min_toplevel_size)` whenever
the left or the right edge is active, and the requested height is at least
`max(client min_height, min_toplevel_size)` whenever the top or the bottom
edge is active. -/
theorem resize_respects_minimum (s : mwc_server) (t : Nat) (b : wlr_box)
    (hg : s.grabbed_toplevel = some t) (hq : resize_request s t = some b)
    (hr : b.in_range) :
    ∃ r, toplevel_resize s = some r
      ∧ (r.toplevels t).pending = b
      ∧ ((s.resize_edges &&& WLR_EDGE_LEFT ≠ 0 ∨ s.resize_edges &&& WLR_EDGE_RIGHT ≠ 0) →
          max (s.toplevels t).min_width s.config.min_toplevel_size
            ≤ (r.toplevels t).pending.width)
      ∧ ((s.resize_edges &&& WLR_EDGE_TOP ≠ 0 ∨ s.resize_edges &&& WLR_EDGE_BOTTOM ≠ 0) →
          max (s.toplevels t).min_height s.config.min_toplevel_size
            ≤ (r.toplevels t).pending.height) := by
  obtain ⟨r, hres, hp⟩ := toplevel_resize_pending s t b hg hq hr
  obtain ⟨hv, hh⟩ := resize_request_parts s t b hq
  refine ⟨r, hres, hp, ?_, ?_⟩
  · intro h
    rw [hp]
    exact resize_horizontal_min _ _ _ _ _ _ _ hh h
  · intro h
    rw [hp]
    exact resize_vertical_min _ _ _ _ _ _ _ hv h

theorem resize_respects_minimum_witness :
    (resize_right_fraction_server.toplevels 1).min_width = 0
    ∧ resize_right_fraction_server.config.min_toplevel_size = 50
    ∧ resize_right_fraction_server.grabbed_toplevel_initial_box = ⟨0, 0, 200, 200⟩
    ∧ ∃ r, toplevel_resize resize_right_fraction_server = some r
      ∧ (r.toplevels 1).pending = ⟨0, 0, 329, 200⟩
      ∧ ((resize_right_fraction_server.resize_edges &&& WLR_EDGE_LEFT ≠ 0
            ∨ resize_right_fraction_server.resize_edges &&& WLR_EDGE_RIGHT ≠ 0) →
          max (resize_right_fraction_server.toplevels 1).min_width
              resize_right_fraction_server.config.min_toplevel_size
            ≤ (r.toplevels 1).pending.width)
      ∧ ((resize_right_fraction_server.resize_edges &&& WLR_EDGE_TOP ≠ 0
            ∨ resize_right_fraction_server.resize_edges &&& WLR_EDGE_BOTTOM ≠ 0) →
          max (resize_right_fraction_server.toplevels 1).min_height
              resize_right_fraction_server.config.min_toplevel_size
            ≤ (r.toplevels 1).pending.height) :=
  ⟨by decide, by decide, by decide,
    resize_respects_minimum resize_right_fraction_server 1 ⟨0, 0, 329, 200⟩ (by decide)
      (by decide!) (by decide)⟩

/-- C15 (the un-moved edge stays fixed) fails on the code for a cursor that
has moved by a fraction of a pixel: `new_y` and `new_height` are converted to
`int` one by one. The top edge is active, the initial box is (0,0,200,200),
the grab started with the cursor at y = 0 and the cursor is at y = 10.5 (both
are values of `double`, as are 10.5 and 189.5); the requested box is
(0,10,200,189), whose bottom edge `new_y + new_height` is 199, not
`start_y + start_height` = 200. The scenario of the claim holds: with top
and left active and the cursor moved by (+50,+30) the requested box is
(50,30,150,170). -/
theorem resize_fraction_moves_bottom_edge :
    resize_half_pixel_server.resize_edges &&& WLR_EDGE_TOP ≠ 0
    ∧ resize_half_pixel_server.grabbed_toplevel_initial_box = ⟨0, 0, 200, 200⟩
    ∧ resize_half_pixel_server.grab_y = 0
    ∧ resize_half_pixel_server.cursor_y = 21 / 2
    ∧ (toplevel_resize resize_half_pixel_server).map (fun r => (r.toplevels 1).pending)
        = some ⟨0, 10, 200, 189⟩
    ∧ resize_top_left_server.grabbed_toplevel_initial_box = ⟨0, 0, 200, 200⟩
    ∧ (toplevel_resize resize_top_left_server).map (fun r => (r.toplevels 1).pending)
        = some ⟨50, 30, 150, 170⟩ := by
  decide!

/-! ## Focus successor on unmap -/

theorem list_next_split (pre post : List Nat) (t : Nat) (h : t ∉ pre) :
    list_next (pre ++ t :: post) t = post.head? := by
  induction pre with
  | nil =>
    cases post with
    | nil => rfl
    | cons b l => simp [list_next]
  | cons a pre ih =>
    have ha : a ≠ t := fun e => h (by simp [e])
    have hp : t ∉ pre := fun e => h (List.mem_cons_of_mem _ e)
    cases pre with
    | nil =>
      simp only [List.cons_append, List.nil_append, list_next, if_neg ha]
      exact ih hp
    | cons b pre =>
      simp only [List.cons_append, list_next, if_neg ha]
      exact ih hp

theorem list_prev_none (l : List Nat) (t : Nat) (h : t ∉ l) : list_prev l t = none := by
  induction l with
  | nil => rfl
  | cons a l ih =>
    cases l with
    | nil => rfl
    | cons b l =>
      have hb : b ≠ t := fun e => h (by simp [e])
      simp only [list_prev, if_neg hb]
      exact ih (fun e => h (List.mem_cons_of_mem _ e))

theorem list_prev_split (pre post : List Nat) (t : Nat) (h : t ∉ pre) (hp : t ∉ post) :
    list_prev (pre ++ t :: post) t = pre.getLast? := by
  induction pre with
  | nil =>
    cases post with
    | nil => rfl
    | cons b l =>
      have hb : b ≠ t := fun e => hp (by simp [e])
      simp only [List.nil_append, list_prev, if_neg hb]
      exact list_prev_none _ _ hp
  | cons a pre ih =>
    have hp2 : t ∉ pre := fun e => h (List.mem_cons_of_mem _ e)
    cases pre with
    | nil => simp [list_prev]
    | cons b pre =>
      have hb : b ≠ t := fun e => h (by simp [e])
      simp only [List.cons_append, list_prev, if_neg hb]
      rw [List.getLast?_cons_cons]
      exact ih hp2

/-- The search of `toplevel_handle_unmap` on a list `pre ++ t :: post` without
repetition: the element after `t`, else the element before `t`, else the
fallback. -/
theorem focus_next_of_split (pre post : List Nat) (fallback : Option Nat) (t : Nat)
    (h : t ∉ pre) (hp : t ∉ post) :
    focus_next_of (pre ++ t :: post) fallback t
      = post.head?.or (pre.getLast?.or fallback) := by
  unfold focus_next_of
  rw [list_next_split _ _ _ h, list_prev_split _ _ _ h hp]
  cases post.head? <;> cases pre.getLast? <;> cases fallback <;> rfl

theorem successor_mem (pre post : List Nat) (fallback : Option Nat) (u : Nat)
    (h : post.head?.or (pre.getLast?.or fallback) = some u) :
    u ∈ post ∨ u ∈ pre ∨ fallback = some u := by
  rcases Option.or_eq_some.1 h with h1 | ⟨_, h2⟩
  · exact Or.inl (List.mem_of_mem_head? h1)
  · rcases Option.or_eq_some.1 h2 with h3 | ⟨_, h4⟩
    · exact Or.inr (Or.inl (List.mem_of_mem_getLast? h3))
    · exact Or.inr (Or.inr h4)

theorem unmap_prepared_fullscreen (s : mwc_server) (t : Nat)
    (h : (s.workspaces (s.toplevels t).workspace).fullscreen_toplevel = none
      ∨ (s.workspaces (s.toplevels t).workspace).fullscreen_toplevel = some t) :
    ((unmap_prepared s t).workspaces (s.toplevels t).workspace).fullscreen_toplevel = none := by
  unfold unmap_prepared unmap_clear_fullscreen
  rcases unmap_prev_focused_cases s t with e | e <;> rw [e] <;> rcases h with h | h
    <;> simp [h, clear_prev_focused, assign_fullscreen_toplevel, set_workspace]

/-- The guards of `focus_toplevel` all fail: the toplevel gets focus. -/
theorem focus_toplevel_unblocked (s : mwc_server) (u : Nat)
    (hl : s.lock = false) (he : s.exclusive = false) (hg : s.grabbed_toplevel = none)
    (hfs : (s.workspaces (s.toplevels u).workspace).fullscreen_toplevel = none)
    (hf : s.focused_toplevel ≠ some u) :
    (focus_toplevel s u).focused_toplevel = some u := by
  unfold focus_toplevel
  simp only [hl, he, hg, hfs, hf, ne_eq, not_true_eq_false, false_and, if_false,
    Bool.false_eq_true]
  exact (focus_apply_server s u).2.2.2.2.2.2.2.2

/-- The focus after `focus_or_clear` on the prepared state of an unmap, when
nothing blocks focusing. -/
theorem unmap_focus_or_clear (s : mwc_server) (t w : Nat) (o : Option Nat)
    (hw : (s.toplevels t).workspace = w)
    (hf : s.focused_toplevel = some t) (hg : s.grabbed_toplevel = none)
    (hl : s.lock = false) (he : s.exclusive = false)
    (hfs : (s.workspaces w).fullscreen_toplevel = none
      ∨ (s.workspaces w).fullscreen_toplevel = some t)
    (ho : ∀ u, o = some u → u ≠ t ∧ (s.toplevels u).workspace = w) :
    (focus_or_clear (unmap_prepared s t) o).focused_toplevel = o := by
  obtain ⟨pf, pg, _, pl, pe, _, pfl⟩ := unmap_prepared_frame s t
  cases o with
  | none => rfl
  | some u =>
    obtain ⟨hne, huw⟩ := ho u rfl
    unfold focus_or_clear
    apply focus_toplevel_unblocked
    · rw [pl, hl]
    · rw [pe, he]
    · rw [pg, hg]
    · rw [(pfl u).2, huw, ← hw]
      exact unmap_prepared_fullscreen s t (by rw [hw]; exact hfs)
    · rw [pf, hf]
      intro e
      exact hne (Option.some.inj e).symm

theorem nodup_three (a b c : List Nat) (h : (a ++ b ++ c).Nodup) :
    a.Nodup ∧ b.Nodup ∧ c.Nodup ∧ (∀ x ∈ a, x ∉ b ∧ x ∉ c) ∧ (∀ x ∈ b, x ∉ c) := by
  rw [List.nodup_append, List.nodup_append] at h
  obtain ⟨⟨ha, hb, hab⟩, hc, habc⟩ := h
  refine ⟨ha, hb, hc, fun x hx => ⟨fun hxb => hab hx hxb, fun hxc => ?_⟩, fun x hx hxc => ?_⟩
  · exact habc (List.mem_append_left _ hx) hxc
  · exact habc (List.mem_append_right _ hx) hxc

theorem nodup_split (pre post : List Nat) (t : Nat) (h : (pre ++ t :: post).Nodup) :
    t ∉ pre ∧ t ∉ post := by
  rw [List.nodup_middle, List.nodup_cons] at h
  exact ⟨fun e => h.1 (List.mem_append_left _ e), fun e => h.1 (List.mem_append_right _ e)⟩

/-- C11 (focus successor for the floating and the slave role): the focused
toplevel `t` is not grabbed, there is no session lock, no exclusive client, no
grab and no fullscreen toplevel other than `t` on its workspace, and the
lists of the workspace are well formed. If `t` is floating and the floating
list is `pre ++ t :: post`, then after `toplevel_handle_unmap` the focus is the
first element of `post`, else the last element of `pre`, else the first
master, else none. If `t` is in the slave list `pre ++ t :: post`, the focus is
the first element of `post`, else the last element of `pre`, else the last
master. -/
theorem unmap_focus_successor (L : layout_h) (s : mwc_server) (t w : Nat)
    (hw : (s.toplevels t).workspace = w)
    (hf : s.focused_toplevel = some t) (hg : s.grabbed_toplevel = none)
    (hl : s.lock = false) (he : s.exclusive = false)
    (hfs : (s.workspaces w).fullscreen_toplevel = none
      ∨ (s.workspaces w).fullscreen_toplevel = some t)
    (hwf : workspace_wf s w)
    (hws : ∀ u ∈ (s.workspaces w).floating_toplevels ++ (s.workspaces w).masters
        ++ (s.workspaces w).slaves, (s.toplevels u).workspace = w) :
    (∀ pre post, (s.toplevels t).floating = true →
        (s.workspaces w).floating_toplevels = pre ++ t :: post →
        ∃ r, toplevel_handle_unmap L s t = some r
          ∧ r.focused_toplevel
              = post.head?.or (pre.getLast?.or (s.workspaces w).masters.head?))
    ∧ (∀ pre post u, (s.workspaces w).slaves = pre ++ t :: post →
        post.head?.or (pre.getLast?.or (s.workspaces w).masters.getLast?) = some u →
        ∃ r, toplevel_handle_unmap L s t = some r ∧ r.focused_toplevel = some u) := by
  obtain ⟨pf, pg, _, pl, pe, plists, pfl⟩ := unmap_prepared_frame s t
  obtain ⟨nf, nm, ns, nfm, nms⟩ := nodup_three _ _ _ hwf.1
  have hng : s.grabbed_toplevel ≠ some t := by rw [hg]; exact fun e => Option.noConfusion e
  have hpf : (unmap_prepared s t).focused_toplevel = some t := pf.trans hf
  constructor
  · intro pre post hfl hlist
    obtain ⟨h1, h2⟩ := nodup_split pre post t (hlist ▸ nf)
    have htf : t ∈ (s.workspaces w).floating_toplevels := by rw [hlist]; simp
    rw [unmap_of_not_grabbed L s t hng, if_pos (by rw [(pfl t).1]; exact hfl)]
    refine ⟨_, rfl, ?_⟩
    rw [hw]
    unfold unmap_floating
    rw [if_pos hpf, (wl_list_remove_server _ _).2.2.2.2.1, (plists w).1, (plists w).2.2, hlist,
      focus_next_of_split _ _ _ _ h1 h2]
    apply unmap_focus_or_clear s t w _ hw hf hg hl he hfs
    intro u hu
    unfold list_first at hu
    rcases successor_mem _ _ _ _ hu with h | h | h
    · have hm : u ∈ (s.workspaces w).floating_toplevels := by rw [hlist]; simp [h]
      exact ⟨fun e => h2 (e ▸ h), hws u (by simp [hm])⟩
    · have hm : u ∈ (s.workspaces w).floating_toplevels := by rw [hlist]; simp [h]
      exact ⟨fun e => h1 (e ▸ h), hws u (by simp [hm])⟩
    · have hm : u ∈ (s.workspaces w).masters := List.mem_of_mem_head? h
      exact ⟨fun e => (nfm t htf).1 (e ▸ hm), hws u (by simp [hm])⟩
  · intro pre post u hlist hu
    obtain ⟨h1, h2⟩ := nodup_split pre post t (hlist ▸ ns)
    have hts : t ∈ (s.workspaces w).slaves := by rw [hlist]; simp
    have htm : t ∉ (s.workspaces w).masters := fun e => nms t e hts
    have hnf : (s.toplevels t).floating = false := hwf.2 t (by simp [hts])
    have hnm : toplevel_is_master (unmap_prepared s t) t = false := by
      unfold toplevel_is_master
      rw [(pfl t).2, hw, (plists w).1]
      simpa using htm
    have hut : u ≠ t ∧ (s.toplevels u).workspace = w := by
      rcases successor_mem _ _ _ _ hu with h | h | h
      · have hm : u ∈ (s.workspaces w).slaves := by rw [hlist]; simp [h]
        exact ⟨fun e => h2 (e ▸ h), hws u (by simp [hm])⟩
      · have hm : u ∈ (s.workspaces w).slaves := by rw [hlist]; simp [h]
        exact ⟨fun e => h1 (e ▸ h), hws u (by simp [hm])⟩
      · have hm : u ∈ (s.workspaces w).masters := List.mem_of_mem_getLast? h
        exact ⟨fun e => htm (e ▸ hm), hws u (by simp [hm])⟩
    have hfoc := unmap_focus_or_clear s t w (some u) hw hf hg hl he hfs
      (fun v hv => by cases hv; exact hut)
    rw [unmap_of_not_grabbed L s t hng, if_neg (by rw [(pfl t).1, hnf]; simp),
      if_neg (by rw [hnm]; simp), hw]
    unfold unmap_slave
    rw [if_pos hpf, (plists w).1, (plists w).2.1, hlist, list_last,
      focus_next_of_split _ _ _ _ h1 h2, hu]
    refine ⟨_, rfl, ?_⟩
    rw [(layout_server _ _ _).2.2.2.2.1, (wl_list_remove_server _ _).2.2.2.2.1]
    exact hfoc

theorem unmap_focus_successor_witness :
    (three_tiled_server.workspaces 0).masters = [1]
    ∧ (three_tiled_server.workspaces 0).slaves = [2, 3]
    ∧ three_tiled_server.focused_toplevel = some 3
    ∧ (∃ r, toplevel_handle_unmap demo_layout three_tiled_server 3 = some r
        ∧ r.focused_toplevel = some 2)
    ∧ (mixed_server.workspaces 0).floating_toplevels = [3]
    ∧ (mixed_server.workspaces 0).masters = [1]
    ∧ mixed_server.focused_toplevel = some 3
    ∧ (toplevel_handle_unmap demo_layout mixed_server 3).map (fun r => r.focused_toplevel)
        = some (some 1) :=
  ⟨by decide, by decide, by decide,
    (unmap_focus_successor demo_layout three_tiled_server 3 0 (by decide) (by decide)
      (by decide) (by decide) (by decide) (by decide) (by decide) (by decide)).2
      [2] [] 2 (by decide) (by decide),
    by decide, by decide, by decide, by decide⟩

theorem focus_or_clear_unblocked (p : mwc_server) (o : Option Nat)
    (hl : p.lock = false) (he : p.exclusive = false) (hg : p.grabbed_toplevel = none)
    (ho : ∀ u, o = some u →
      (p.workspaces (p.toplevels u).workspace).fullscreen_toplevel = none
      ∧ p.focused_toplevel ≠ some u) :
    (focus_or_clear p o).focused_toplevel = o := by
  cases o with
  | none => rfl
  | some u => exact focus_toplevel_unblocked p u hl he hg (ho u rfl).1 (ho u rfl).2

theorem unmap_promote_frame (p : mwc_server) (w : Nat) :
    (unmap_promote p w).lock = p.lock
    ∧ (unmap_promote p w).exclusive = p.exclusive
    ∧ (unmap_promote p w).grabbed_toplevel = p.grabbed_toplevel
    ∧ (unmap_promote p w).focused_toplevel = p.focused_toplevel
    ∧ (unmap_promote p w).toplevels = p.toplevels
    ∧ ∀ v, ((unmap_promote p w).workspaces v).fullscreen_toplevel
        = (p.workspaces v).fullscreen_toplevel := by
  unfold unmap_promote
  cases list_last (p.workspaces w).slaves with
  | none => exact ⟨rfl, rfl, rfl, rfl, rfl, fun _ => rfl⟩
  | some sl => simp

/-- The master list and the floating list after the promotion of the last
slave, for lists without repetition. -/
theorem unmap_promote_lists (p : mwc_server) (w : Nat)
    (hnd : ((p.workspaces w).floating_toplevels ++ (p.workspaces w).masters
      ++ (p.workspaces w).slaves).Nodup) :
    ((unmap_promote p w).workspaces w).masters
        = (p.workspaces w).masters ++ (p.workspaces w).slaves.getLast?.toList
    ∧ ((unmap_promote p w).workspaces w).floating_toplevels
        = (p.workspaces w).floating_toplevels := by
  obtain ⟨_, _, _, nfm, nms⟩ := nodup_three _ _ _ hnd
  unfold unmap_promote list_last
  cases hsl : (p.workspaces w).slaves.getLast? with
  | none => simp
  | some sl =>
    have hmem : sl ∈ (p.workspaces w).slaves := List.mem_of_mem_getLast? hsl
    have h1 : sl ∉ (p.workspaces w).masters := fun e => nms sl e hmem
    have h2 : sl ∉ (p.workspaces w).floating_toplevels := fun e => (nfm sl e).2 hmem
    simp only [masters_insert_last_masters, if_true, masters_insert_last_lists,
      wl_list_remove_lists, List.erase_of_not_mem h1, List.erase_of_not_mem h2,
      Option.toList_some, and_self]

/-- C12 (focus successor for the master role), as amended: the focused master
`m` is not grabbed, focusing is not blocked and the lists of its workspace
are well formed. With the master list `pre ++ m :: post`, the focus after
`toplevel_handle_unmap` is the first element of `post` followed by the last
slave (the master list after the promotion of the last slave), else the last
element of `pre`, else the first floating toplevel, else none. -/
theorem unmap_master_focus_successor (L : layout_h) (s : mwc_server) (m w : Nat)
    (pre post : List Nat)
    (hw : (s.toplevels m).workspace = w)
    (hf : s.focused_toplevel = some m) (hg : s.grabbed_toplevel = none)
    (hl : s.lock = false) (he : s.exclusive = false)
    (hfs : (s.workspaces w).fullscreen_toplevel = none
      ∨ (s.workspaces w).fullscreen_toplevel = some m)
    (hwf : workspace_wf s w)
    (hws : ∀ u ∈ (s.workspaces w).floating_toplevels ++ (s.workspaces w).masters
        ++ (s.workspaces w).slaves, (s.toplevels u).workspace = w)
    (hlist : (s.workspaces w).masters = pre ++ m :: post) :
    ∃ r, toplevel_handle_unmap L s m = some r
      ∧ r.focused_toplevel
          = (post ++ (s.workspaces w).slaves.getLast?.toList).head?.or
              (pre.getLast?.or (s.workspaces w).floating_toplevels.head?) := by
  obtain ⟨pf, pg, _, pl, pe, plists, pfl⟩ := unmap_prepared_frame s m
  obtain ⟨nf, nm, ns, nfm, nms⟩ := nodup_three _ _ _ hwf.1
  obtain ⟨ql, qe, qg, qf, qt, qfs⟩ := unmap_promote_frame (unmap_prepared s m) w
  have hng : s.grabbed_toplevel ≠ some m := by rw [hg]; exact fun e => Option.noConfusion e
  have hmm : m ∈ (s.workspaces w).masters := by rw [hlist]; simp
  have hfm : (s.toplevels m).floating = false := hwf.2 m (by simp [hmm])
  obtain ⟨h1, h2⟩ := nodup_split pre post m (hlist ▸ nm)
  have h3 : m ∉ post ++ (s.workspaces w).slaves.getLast?.toList := by
    intro e
    rcases List.mem_append.1 e with e | e
    · exact h2 e
    · exact nms m hmm (List.mem_of_mem_getLast? (by simpa using e))
  have hnd : (((unmap_prepared s m).workspaces w).floating_toplevels
      ++ ((unmap_prepared s m).workspaces w).masters
      ++ ((unmap_prepared s m).workspaces w).slaves).Nodup := by
    rw [(plists w).1, (plists w).2.1, (plists w).2.2]
    exact hwf.1
  obtain ⟨qm, qfl⟩ := unmap_promote_lists (unmap_prepared s m) w hnd
  rw [(plists w).1, (plists w).2.1, hlist, List.append_assoc, List.cons_append] at qm
  rw [(plists w).2.2] at qfl
  have hq : (unmap_promote (unmap_prepared s m) w).focused_toplevel = some m :=
    qf.trans (pf.trans hf)
  refine ⟨_, unmap_of_master L s m hng hfm (by rw [hw]; exact hmm), ?_⟩
  rw [(layout_server _ _ _).2.2.2.2.1, hw]
  unfold unmap_master
  dsimp only
  rw [if_pos hq, (wl_list_remove_server _ _).2.2.2.2.1, qm, qfl, list_first,
    focus_next_of_split _ _ _ _ h1 h3]
  apply focus_or_clear_unblocked
  · rw [ql, pl, hl]
  · rw [qe, pe, he]
  · rw [qg, pg, hg]
  · intro u hu
    have hut : u ≠ m ∧ (s.toplevels u).workspace = w := by
      rcases successor_mem _ _ _ _ hu with h | h | h
      · refine ⟨fun e => h3 (e ▸ h), hws u ?_⟩
        rcases List.mem_append.1 h with h | h
        · simp [hlist, h]
        · have : u ∈ (s.workspaces w).slaves := List.mem_of_mem_getLast? (by simpa using h)
          simp [this]
      · exact ⟨fun e => h1 (e ▸ h), hws u (by simp [hlist, h])⟩
      · have hm : u ∈ (s.workspaces w).floating_toplevels := List.mem_of_mem_head? h
        exact ⟨fun e => (nfm u hm).1 (e ▸ hmm), hws u (by simp [hm])⟩
    constructor
    · rw [qt, (pfl u).2, hut.2, qfs, ← hw]
      exact unmap_prepared_fullscreen s m (by rw [hw]; exact hfs)
    · rw [hq]
      intro e
      exact hut.1 (Option.some.inj e).symm

theorem unmap_master_focus_successor_witness :
    (mixed_master_focused_server.workspaces 0).masters = [1]
    ∧ (mixed_master_focused_server.workspaces 0).slaves = [2]
    ∧ (mixed_master_focused_server.workspaces 0).floating_toplevels = [3]
    ∧ ∃ r, toplevel_handle_unmap demo_layout mixed_master_focused_server 1 = some r
        ∧ r.focused_toplevel = some 2 :=
  ⟨by decide, by decide, by decide,
    Exists.imp (fun _ h => ⟨h.1, h.2.trans (by decide)⟩)
      (unmap_master_focus_successor demo_layout mixed_master_focused_server 1 0 [] []
        (by decide) (by decide) (by decide) (by decide) (by decide) (by decide) (by decide)
        (by decide) (by decide))⟩

/-- C12 as stated fails on the code: with masters [1], slaves [2] and floating
[3], the focused master 1 not grabbed and nothing blocking focus, the focus
after `toplevel_handle_unmap` goes to the promoted slave 2, not to the
floating toplevel 3. -/
theorem unmap_master_focus_goes_to_promoted_slave :
    (mixed_master_focused_server.workspaces 0).masters = [1]
    ∧ (mixed_master_focused_server.workspaces 0).slaves = [2]
    ∧ (mixed_master_focused_server.workspaces 0).floating_toplevels = [3]
    ∧ mixed_master_focused_server.focused_toplevel = some 1
    ∧ mixed_master_focused_server.grabbed_toplevel = none
    ∧ ¬ focus_blocked mixed_master_focused_server 3
    ∧ (toplevel_handle_unmap demo_layout mixed_master_focused_server 1).map
        (fun r => r.focused_toplevel) = some (some 2) := by
  decide

/-! ## Window rules -/

/-- C21 (rule matching): `toplevel_matches_window_rule` returns true if and
only if (the rule has no app-id pattern, or the toplevel has an app-id and the
pattern matches it) and (the rule has no title pattern, or the toplevel has a
title and the pattern matches it). A rule with neither pattern matches every
toplevel, and a rule with a pattern never matches an absent attribute. -/
theorem matches_window_rule_iff (tl : mwc_toplevel) (c : window_rule_regex) :
    (toplevel_matches_window_rule tl c = true ↔
        (c.has_app_id_regex = false ∨ ∃ a, tl.app_id = some a ∧ c.app_id_regex a = true)
        ∧ (c.has_title_regex = false ∨ ∃ a, tl.title = some a ∧ c.title_regex a = true))
    ∧ (c.has_app_id_regex = false → c.has_title_regex = false →
        toplevel_matches_window_rule tl c = true)
    ∧ (c.has_app_id_regex = true → tl.app_id = none →
        toplevel_matches_window_rule tl c = false)
    ∧ (c.has_title_regex = true → tl.title = none →
        toplevel_matches_window_rule tl c = false) := by
  unfold toplevel_matches_window_rule
  refine ⟨?_, ?_, ?_, ?_⟩
  · cases c.has_app_id_regex <;> cases c.has_title_regex <;> cases tl.app_id
      <;> cases tl.title <;> simp
  · intro h1 h2
    simp [h1, h2]
  · intro h1 h2
    simp [h1, h2]
  · intro h1 h2
    simp [h1, h2]

theorem matches_window_rule_iff_witness :
    toplevel_matches_window_rule (size_rules_server.toplevels 4)
        { has_app_id_regex := true, app_id_regex := fun a => a == "term" } = true
    ∧ toplevel_matches_window_rule (size_rules_server.toplevels 5)
        { has_app_id_regex := true, app_id_regex := fun _ => true } = false :=
  ⟨((matches_window_rule_iff (size_rules_server.toplevels 4)
        { has_app_id_regex := true, app_id_regex := fun a => a == "term" }).1).2
      ⟨Or.inr ⟨"term", rfl, by decide⟩, Or.inl rfl⟩,
    (matches_window_rule_iff (size_rules_server.toplevels 5)
        { has_app_id_regex := true, app_id_regex := fun _ => true }).2.2.1 rfl rfl⟩

/-- The match test reads the app-id and the title of the toplevel only. -/
theorem matches_window_rule_congr (tl tl2 : mwc_toplevel) (c : window_rule_regex)
    (ha : tl2.app_id = tl.app_id) (ht : tl2.title = tl.title) :
    toplevel_matches_window_rule tl2 c = toplevel_matches_window_rule tl c := by
  unfold toplevel_matches_window_rule
  rw [ha, ht]

theorem opacity_rule_of_congr (tl tl2 : mwc_toplevel) (rules : List window_rule_opacity)
    (ha : tl2.app_id = tl.app_id) (ht : tl2.title = tl.title) :
    opacity_rule_of tl2 rules = opacity_rule_of tl rules := by
  induction rules with
  | nil => rfl
  | cons r rest ih =>
    unfold opacity_rule_of
    rw [matches_window_rule_congr tl tl2 r.condition ha ht, ih]

/-- The loop of `toplevel_recheck_opacity_rules` stops at the first rule that
matches. -/
theorem opacity_rule_of_find (tl : mwc_toplevel) (rules : List window_rule_opacity) :
    opacity_rule_of tl rules
      = (rules.find? (fun r => toplevel_matches_window_rule tl r.condition)).map
          (fun r => (r.active_value, r.inactive_value)) := by
  induction rules with
  | nil => rfl
  | cons r rest ih =>
    unfold opacity_rule_of
    by_cases h : toplevel_matches_window_rule tl r.condition = true
    · simp [h]
    · simp [h, ih]

theorem assign_opacity_same (s : mwc_server) (t : Nat) (a i : Rat) :
    ((assign_opacity s t a i).toplevels t).active_opacity = a
    ∧ ((assign_opacity s t a i).toplevels t).inactive_opacity = i
    ∧ ((assign_opacity s t a i).toplevels t).app_id = (s.toplevels t).app_id
    ∧ ((assign_opacity s t a i).toplevels t).title = (s.toplevels t).title
    ∧ (assign_opacity s t a i).config = s.config := by
  simp [assign_opacity, modify_toplevel, set_toplevel]

theorem assign_opacity_twice (s : mwc_server) (t : Nat) (a i a2 i2 : Rat) :
    assign_opacity (assign_opacity s t a i) t a2 i2 = assign_opacity s t a2 i2 := by
  unfold assign_opacity modify_toplevel set_toplevel
  simp only [if_true]
  congr 1
  funext j
  by_cases h : j = t <;> simp [h]

/-- The result of `toplevel_recheck_opacity_rules` does not depend on the
opacities the toplevel had. -/
theorem recheck_opacity_forgets (s : mwc_server) (t : Nat) (a i : Rat) :
    toplevel_recheck_opacity_rules (assign_opacity s t a i) t
      = toplevel_recheck_opacity_rules s t := by
  obtain ⟨_, _, ha, ht, hc⟩ := assign_opacity_same s t a i
  unfold toplevel_recheck_opacity_rules
  rw [hc, opacity_rule_of_congr (s.toplevels t) _ _ ha ht]
  cases opacity_rule_of (s.toplevels t) s.config.rules_opacity with
  | none => exact assign_opacity_twice _ _ _ _ _ _
  | some v => exact assign_opacity_twice _ _ _ _ _ _

/-- C22 (opacity is first-match-wins): after `toplevel_recheck_opacity_rules`
the pair `(active_opacity, inactive_opacity)` is the pair `(active_value,
inactive_value)` of the first rule of the opacity-rule list that matches the
toplevel, or the configured default pair if no rule matches; the result is
the same whatever opacities the toplevel held before, and running the
function a second time changes nothing. -/
theorem recheck_opacity_first_match (s : mwc_server) (t : Nat) :
    (((toplevel_recheck_opacity_rules s t).toplevels t).active_opacity,
        ((toplevel_recheck_opacity_rules s t).toplevels t).inactive_opacity)
      = (match s.config.rules_opacity.find?
            (fun r => toplevel_matches_window_rule (s.toplevels t) r.condition) with
          | some r => (r.active_value, r.inactive_value)
          | none => (s.config.active_opacity, s.config.inactive_opacity))
    ∧ (∀ a i, toplevel_recheck_opacity_rules (assign_opacity s t a i) t
        = toplevel_recheck_opacity_rules s t)
    ∧ toplevel_recheck_opacity_rules (toplevel_recheck_opacity_rules s t) t
        = toplevel_recheck_opacity_rules s t := by
  refine ⟨?_, recheck_opacity_forgets s t, ?_⟩
  · unfold toplevel_recheck_opacity_rules
    rw [opacity_rule_of_find]
    cases s.config.rules_opacity.find?
        (fun r => toplevel_matches_window_rule (s.toplevels t) r.condition) with
    | none =>
      simp only [Option.map_none']
      rw [(assign_opacity_same _ _ _ _).1, (assign_opacity_same _ _ _ _).2.1]
    | some r =>
      simp only [Option.map_some']
      rw [(assign_opacity_same _ _ _ _).1, (assign_opacity_same _ _ _ _).2.1]
  · have h : ∃ a i, toplevel_recheck_opacity_rules s t = assign_opacity s t a i := by
      unfold toplevel_recheck_opacity_rules
      cases opacity_rule_of (s.toplevels t) s.config.rules_opacity with
      | none => exact ⟨_, _, rfl⟩
      | some v => exact ⟨_, _, rfl⟩
    obtain ⟨a, i, e⟩ := h
    rw [e, recheck_opacity_forgets, e]

theorem floating_size_of_no_match (tl : mwc_toplevel) (ua : wlr_box)
    (rules : List window_rule_size)
    (h : ∀ q ∈ rules, toplevel_matches_window_rule tl q.condition = false) :
    floating_size_of tl ua rules = (0, 0) := by
  induction rules with
  | nil => rfl
  | cons r rest ih =>
    unfold floating_size_of
    rw [h r (by simp)]
    simp only [Bool.false_eq_true, if_false]
    exact ih (fun q hq => h q (by simp [hq]))

theorem floating_size_of_first (tl : mwc_toplevel) (ua : wlr_box)
    (pre : List window_rule_size) (r : window_rule_size) (post : List window_rule_size)
    (hpre : ∀ q ∈ pre, toplevel_matches_window_rule tl q.condition = false)
    (hr : toplevel_matches_window_rule tl r.condition = true) :
    floating_size_of tl ua (pre ++ r :: post)
      = ( if r.relative_width then
            ((wrap_u32 ua.width).toNat * r.width % 4294967296) / 100
          else r.width,
          if r.relative_height then
            ((wrap_u32 ua.height).toNat * r.height % 4294967296) / 100
          else r.height ) := by
  induction pre with
  | nil =>
    simp only [List.nil_append]
    unfold floating_size_of
    rw [hr]
    simp only [if_true]
  | cons q pre ih =>
    simp only [List.cons_append]
    unfold floating_size_of
    rw [hpre q (by simp)]
    simp only [Bool.false_eq_true, if_false]
    exact ih (fun q2 hq => hpre q2 (by simp [hq]))

theorem wrap_u32_toNat (v : Int) (h0 : 0 ≤ v) (h1 : v < 4294967296) :
    (wrap_u32 v).toNat = v.toNat := by
  unfold wrap_u32
  rw [Int.emod_eq_of_lt h0 h1]

/-- C23 (size rules): `toplevel_floating_size` returns the size of the first
size rule that matches, where a dimension is the value of the rule if it is
absolute and `usable_area dimension * value / 100` rounded down if it is
relative (the usable-area dimension is not negative and the product fits a
`uint32_t`), so that 100 percent gives the usable-area dimension itself; it
returns (0, 0) when no size rule matches. -/
theorem floating_size_first_match (s : mwc_server) (t : Nat) :
    (∀ pre r post, s.config.rules_size = pre ++ r :: post →
        (∀ q ∈ pre, toplevel_matches_window_rule (s.toplevels t) q.condition = false) →
        toplevel_matches_window_rule (s.toplevels t) r.condition = true →
        0 ≤ (s.outputs (s.workspaces (s.toplevels t).workspace).output).usable_area.width →
        0 ≤ (s.outputs (s.workspaces (s.toplevels t).workspace).output).usable_area.height →
        (s.outputs (s.workspaces (s.toplevels t).workspace).output).usable_area.width
          * r.width < 4294967296 →
        (s.outputs (s.workspaces (s.toplevels t).workspace).output).usable_area.height
          * r.height < 4294967296 →
        toplevel_floating_size s t
          = ( if r.relative_width then
                (s.outputs (s.workspaces (s.toplevels t).workspace).output).usable_area.width.toNat
                  * r.width / 100
              else r.width,
              if r.relative_height then
                (s.outputs (s.workspaces (s.toplevels t).workspace).output).usable_area.height.toNat
                  * r.height / 100
              else r.height )
        ∧ (r.relative_width = true → r.width = 100 →
            (toplevel_floating_size s t).1
              = (s.outputs (s.workspaces (s.toplevels t).workspace).output).usable_area.width.toNat)
        ∧ (r.relative_height = true → r.height = 100 →
            (toplevel_floating_size s t).2
              = (s.outputs
                  (s.workspaces (s.toplevels t).workspace).output).usable_area.height.toNat))
    ∧ ((∀ q ∈ s.config.rules_size,
          toplevel_matches_window_rule (s.toplevels t) q.condition = false) →
        toplevel_floating_size s t = (0, 0)) := by
  constructor
  · intro pre r post hrules hpre hr hw0 hh0 hwo hho
    have key : toplevel_floating_size s t
        = ( if r.relative_width then
              (s.outputs (s.workspaces (s.toplevels t).workspace).output).usable_area.width.toNat
                * r.width / 100
            else r.width,
            if r.relative_height then
              (s.outputs (s.workspaces (s.toplevels t).workspace).output).usable_area.height.toNat
                * r.height / 100
            else r.height ) := by
      unfold toplevel_floating_size
      rw [hrules, floating_size_of_first _ _ _ _ _ hpre hr]
      generalize (s.outputs (s.workspaces (s.toplevels t).workspace).output).usable_area = ua
        at hw0 hh0 hwo hho ⊢
      have bw : ua.width < 4294967296 ∨ r.width = 0 := by
        rcases Nat.eq_zero_or_pos r.width with h | h
        · exact Or.inr h
        · left
          have : ua.width * 1 ≤ ua.width * (r.width : Int) :=
            Int.mul_le_mul_of_nonneg_left (by exact_mod_cast h) hw0
          omega
      have bh : ua.height < 4294967296 ∨ r.height = 0 := by
        rcases Nat.eq_zero_or_pos r.height with h | h
        · exact Or.inr h
        · left
          have : ua.height * 1 ≤ ua.height * (r.height : Int) :=
            Int.mul_le_mul_of_nonneg_left (by exact_mod_cast h) hh0
          omega
      have ew : (wrap_u32 ua.width).toNat * r.width % 4294967296 = ua.width.toNat * r.width := by
        rcases bw with b | b
        · rw [wrap_u32_toNat _ hw0 b]
          apply Nat.mod_eq_of_lt
          have : ((ua.width.toNat * r.width : Nat) : Int) = ua.width * r.width := by
            rw [Nat.cast_mul, Int.toNat_of_nonneg hw0]
          omega
        · rw [b]; simp
      have eh : (wrap_u32 ua.height).toNat * r.height % 4294967296
          = ua.height.toNat * r.height := by
        rcases bh with b | b
        · rw [wrap_u32_toNat _ hh0 b]
          apply Nat.mod_eq_of_lt
          have : ((ua.height.toNat * r.height : Nat) : Int) = ua.height * r.height := by
            rw [Nat.cast_mul, Int.toNat_of_nonneg hh0]
          omega
        · rw [b]; simp
      rw [ew, eh]
    refine ⟨key, ?_, ?_⟩
    · intro h1 h2
      rw [key, h2]
      simp [h1]
    · intro h1 h2
      rw [key, h2]
      simp [h1]
  · intro h
    unfold toplevel_floating_size
    exact floating_size_of_no_match _ _ _ h

theorem floating_size_first_match_witness :
    toplevel_floating_size size_rules_server 5 = (400, 1050)
    ∧ toplevel_floating_size size_rules_server 4 = (960, 300)
    ∧ (toplevel_floating_size size_rules_server 6).1 = 1920 :=
  ⟨(((floating_size_first_match size_rules_server 5).1 [size_rule_term] size_rule_dialog
        [size_rule_any] rfl (by decide) (by decide) (by decide) (by decide) (by decide)
        (by decide)).1).trans (by decide),
    by decide, by decide⟩

theorem recheck_opacity_first_match_witness :
    (((toplevel_recheck_opacity_rules size_rules_server 4).toplevels 4).active_opacity,
        ((toplevel_recheck_opacity_rules size_rules_server 4).toplevels 4).inactive_opacity)
      = (9 / 10, 7 / 10)
    ∧ (((toplevel_recheck_opacity_rules size_rules_server 5).toplevels 5).active_opacity,
        ((toplevel_recheck_opacity_rules size_rules_server 5).toplevels 5).inactive_opacity)
      = (1, 1) :=
  ⟨(recheck_opacity_first_match size_rules_server 4).1.trans (by decide!),
    (recheck_opacity_first_match size_rules_server 5).1.trans (by decide!)⟩

/-! ## Creation, destruction, activation and the initial configure -/

theorem listener_remove_listeners (s : mwc_server) (t : Nat) (l : toplevel_listener) :
    ((listener_remove s t l).toplevels t).listeners = ((s.toplevels t).listeners).erase l := by
  unfold listener_remove
  rw [modify_toplevel_same]

/-- C25 (destroy releases every registration) fails on the code:
`server_handle_new_toplevel` registers ten listeners for the toplevel, and
after `toplevel_handle_destroy` the listeners `set_app_id` and `set_title`
are still linked into their signals. -/
theorem destroy_keeps_two_listeners (s : mwc_server) (t : Nat) :
    ((server_handle_new_toplevel s t).toplevels t).listeners.length = 10
    ∧ ((toplevel_handle_destroy (server_handle_new_toplevel s t) t).toplevels t).listeners
        = [toplevel_listener.set_app_id, toplevel_listener.set_title] := by
  have h : ((server_handle_new_toplevel s t).toplevels t).listeners = new_toplevel_listeners := by
    unfold server_handle_new_toplevel
    rw [set_toplevel_same]
  constructor
  · rw [h]
    rfl
  · unfold toplevel_handle_destroy
    simp only [listener_remove_listeners]
    rw [h]
    decide

/-- C26 (no dangling focus after unmap) fails on the code. Masters [1],
slaves [2, 3], focus on 3. Under a session lock, and also while toplevel 2 is
grabbed for a resize, `toplevel_handle_unmap` of toplevel 3 takes it out of
the slave list and leaves `server.focused_toplevel` at 3: the call of
`focus_toplevel` for the successor returns at once. -/
theorem unmap_under_lock_keeps_focus :
    locked_three_tiled_server.focused_toplevel = some 3
    ∧ (locked_three_tiled_server.workspaces 0).masters = [1]
    ∧ (locked_three_tiled_server.workspaces 0).slaves = [2, 3]
    ∧ (toplevel_handle_unmap demo_layout locked_three_tiled_server 3).map
        (fun r => (r.focused_toplevel, (r.workspaces 0).masters, (r.workspaces 0).slaves))
        = some (some 3, [1], [2])
    ∧ (toplevel_start_resize three_tiled_server 2 WLR_EDGE_RIGHT).grabbed_toplevel = some 2
    ∧ (toplevel_start_resize three_tiled_server 2 WLR_EDGE_RIGHT).focused_toplevel = some 3
    ∧ (toplevel_handle_unmap demo_layout
          (toplevel_start_resize three_tiled_server 2 WLR_EDGE_RIGHT) 3).map
        (fun r => (r.focused_toplevel, (r.workspaces 0).masters, (r.workspaces 0).slaves))
        = some (some 3, [1], [2]) := by
  decide

/-- C28 (activation hand-over) fails on the code for the foreign-toplevel
handle. Toplevel 1 has focus and is marked activated in both states;
`focus_toplevel` of toplevel 2 is not a no-op and marks toplevel 1 as not
activated in the xdg-toplevel state only: in the foreign-toplevel-handle state
toplevel 1 stays activated, so that two toplevels are marked activated
there. -/
theorem focus_keeps_previous_foreign_activated :
    one_tiled_server.focused_toplevel = some 1
    ∧ (one_tiled_server.toplevels 1).xdg_activated = true
    ∧ (one_tiled_server.toplevels 1).foreign_activated = true
    ∧ ¬ focus_blocked one_tiled_server 2
    ∧ (focus_toplevel one_tiled_server 2).focused_toplevel = some 2
    ∧ ((focus_toplevel one_tiled_server 2).toplevels 1).xdg_activated = false
    ∧ ((focus_toplevel one_tiled_server 2).toplevels 1).foreign_activated = true
    ∧ ((focus_toplevel one_tiled_server 2).toplevels 2).xdg_activated = true
    ∧ ((focus_toplevel one_tiled_server 2).toplevels 2).foreign_activated = true := by
  decide

/-- C29 (tiled edges on the initial commit) fails on the code: the mask that
`toplevel_handle_initial_commit` passes to the set-tiled request is the
bitwise AND of the four edge bits 1, 8, 2 and 4, which is 0, not their union
15. -/
theorem initial_commit_tiled_mask_is_zero (L : layout_h) (s : mwc_server) (t : Nat) :
    ((toplevel_handle_initial_commit L s t).toplevels t).xdg_tiled = 0
    ∧ (WLR_EDGE_TOP, WLR_EDGE_RIGHT, WLR_EDGE_BOTTOM, WLR_EDGE_LEFT) = (1, 8, 2, 4)
    ∧ WLR_EDGE_TOP ||| WLR_EDGE_RIGHT ||| WLR_EDGE_BOTTOM ||| WLR_EDGE_LEFT = 15 := by
  refine ⟨?_, by decide, by decide⟩
  unfold toplevel_handle_initial_commit
  rw [(initial_configure_value _ _ _).2.2]
  decide

/-! ## Closest floating toplevel -/

/-- What a loop of `toplevel_find_closest_floating_on_workspace` leaves in
`(min, min_val)`: the pair it started with when no toplevel of the list beat
`min_val`, else the first toplevel of the list with the least distance among
those not skipped. -/
theorem closest_fold (skip : Nat → Bool) (d : Nat → Int) (l : List Nat) :
    ∀ (m : Option Nat) (mv : Int),
      (l.foldl (closest_round skip d) (m, mv) = (m, mv)
          ∧ ∀ v ∈ l, skip v = false → mv ≤ d v)
      ∨ ∃ pre u post, l = pre ++ u :: post ∧ skip u = false
          ∧ l.foldl (closest_round skip d) (m, mv) = (some u, d u) ∧ d u < mv
          ∧ (∀ v ∈ pre, skip v = false → d u < d v)
          ∧ (∀ v ∈ post, skip v = false → d u ≤ d v) := by
  induction l with
  | nil =>
    intro m mv
    exact Or.inl ⟨rfl, fun v hv => by simp at hv⟩
  | cons a l ih =>
    intro m mv
    simp only [List.foldl_cons]
    by_cases hs : skip a = true
    · have e : closest_round skip d (m, mv) a = (m, mv) := by
        unfold closest_round
        rw [if_pos hs]
      rw [e]
      rcases ih m mv with ⟨h1, h2⟩ | ⟨pre, u, post, hl, hu, hf, hlt, hpre, hpost⟩
      · refine Or.inl ⟨h1, fun v hv hsv => ?_⟩
        rcases List.mem_cons.1 hv with hv | hv
        · rw [hv, hs] at hsv
          cases hsv
        · exact h2 v hv hsv
      · refine Or.inr ⟨a :: pre, u, post, by rw [hl]; rfl, hu, hf, hlt, fun v hv hsv => ?_, hpost⟩
        rcases List.mem_cons.1 hv with hv | hv
        · rw [hv, hs] at hsv
          cases hsv
        · exact hpre v hv hsv
    · have hs2 : skip a = false := by simpa using hs
      by_cases hlt : d a < mv
      · have e : closest_round skip d (m, mv) a = (some a, d a) := by
          unfold closest_round
          rw [if_neg hs, if_pos hlt]
        rw [e]
        rcases ih (some a) (d a) with ⟨h1, h2⟩ | ⟨pre, u, post, hl, hu, hf, hlt2, hpre, hpost⟩
        · exact Or.inr ⟨[], a, l, rfl, hs2, h1, hlt, fun v hv => by simp at hv, h2⟩
        · refine Or.inr ⟨a :: pre, u, post, by rw [hl]; rfl, hu, hf, lt_trans hlt2 hlt,
            fun v hv hsv => ?_, hpost⟩
          rcases List.mem_cons.1 hv with hv | hv
          · rw [hv]; exact hlt2
          · exact hpre v hv hsv
      · have e : closest_round skip d (m, mv) a = (m, mv) := by
          unfold closest_round
          rw [if_neg hs, if_neg hlt]
        rw [e]
        rcases ih m mv with ⟨h1, h2⟩ | ⟨pre, u, post, hl, hu, hf, hlt2, hpre, hpost⟩
        · refine Or.inl ⟨h1, fun v hv hsv => ?_⟩
          rcases List.mem_cons.1 hv with hv | hv
          · rw [hv]; exact le_of_not_lt hlt
          · exact h2 v hv hsv
        · refine Or.inr ⟨a :: pre, u, post, by rw [hl]; rfl, hu, hf, hlt2,
            fun v hv hsv => ?_, hpost⟩
          rcases List.mem_cons.1 hv with hv | hv
          · rw [hv]; exact lt_of_lt_of_le hlt2 (le_of_not_lt hlt)
          · exact hpre v hv hsv

/-- The result of one loop, in terms of a side test and a distance that
agree with the `continue` test and the distance of the loop. -/
theorem closest_loop_contract (skip : Nat → Bool) (d : Nat → Int) (l : List Nat) (t : Nat)
    (side : Nat → Prop) (dist : Nat → Int)
    (hs : ∀ u, skip u = false ↔ (u ≠ t ∧ side u))
    (hd : ∀ u ∈ l, d u = dist u)
    (hlt : ∀ u ∈ l, dist u < UINT32_MAX) :
    closest_loop skip d l ≠ some t
    ∧ (closest_loop skip d l = none ↔ ∀ u ∈ l, u ≠ t → ¬ side u)
    ∧ ∀ u, closest_loop skip d l = some u →
        ∃ pre post, l = pre ++ u :: post ∧ u ≠ t ∧ side u
          ∧ (∀ v ∈ pre, v ≠ t → side v → dist u < dist v)
          ∧ (∀ v ∈ post, v ≠ t → side v → dist u ≤ dist v) := by
  unfold closest_loop
  rcases closest_fold skip d l none UINT32_MAX with
    ⟨h1, h2⟩ | ⟨pre, u, post, hl, hu, hf, _, hpre, hpost⟩
  · rw [h1]
    refine ⟨fun e => (by cases e), ⟨fun _ v hv hne hside => ?_, fun _ => rfl⟩,
      fun u e => (by cases e)⟩
    have := h2 v hv ((hs v).2 ⟨hne, hside⟩)
    rw [hd v hv] at this
    exact absurd (hlt v hv) (not_lt.2 this)
  · rw [hf]
    have hmem : u ∈ l := by rw [hl]; simp
    obtain ⟨hut, hus⟩ := (hs u).1 hu
    refine ⟨fun e => hut (Option.some.inj e), ⟨fun e => (by cases e), fun h => ?_⟩,
      fun v e => ?_⟩
    · exact absurd hus (h u hmem hut)
    · cases e
      refine ⟨pre, post, hl, hut, hus, fun v hv hne hside => ?_, fun v hv hne hside => ?_⟩
      · have hv2 : v ∈ l := by rw [hl]; simp [hv]
        rw [← hd u hmem, ← hd v hv2]
        exact hpre v hv ((hs v).2 ⟨hne, hside⟩)
      · have hv2 : v ∈ l := by rw [hl]; simp [hv]
        rw [← hd u hmem, ← hd v hv2]
        exact hpost v hv ((hs v).2 ⟨hne, hside⟩)

theorem abs_difference_eq (a b : Int) (h : |a - b| < 2147483648) :
    abs_difference a b = |a - b| := by
  have h1 := abs_lt.1 h
  have h2 : wrap_i32 (a - b) = a - b :=
    wrap_i32_of_in_i32 _ ⟨le_of_lt h1.1, h1.2⟩
  unfold abs_difference
  rw [h2]
  unfold wrap_u32
  exact Int.emod_eq_of_lt (abs_nonneg _) (lt_trans h (by decide))

/-- C30 (closest floating toplevel): for a floating toplevel `t` whose
coordinate differs from that of every toplevel of the floating list of its
workspace by less than 2^31 (the arithmetic of the distance stays within
`int`, and every distance is below `UINT32_MAX`),
`toplevel_find_closest_floating_on_workspace` returns; the result is never
`t`; it is none if and only if no other toplevel of the floating list lies on
the requested side; otherwise it is a toplevel of the floating list other
than `t` on that side whose distance is strictly less than that of every such
toplevel before it in the list and at most that of every such toplevel after
it. -/
theorem find_closest_floating_contract (L : layout_h) (s : mwc_server) (t : Nat)
    (direction : mwc_direction)
    (hfl : (s.toplevels t).floating = true)
    (hr : ∀ u ∈ (s.workspaces (s.toplevels t).workspace).floating_toplevels,
      coordinate_distance L s t direction u < 2147483648) :
    ∃ r, toplevel_find_closest_floating_on_workspace L s t direction = some r
      ∧ r ≠ some t
      ∧ (r = none ↔ ∀ u ∈ (s.workspaces (s.toplevels t).workspace).floating_toplevels,
          u ≠ t → ¬ on_requested_side L s t direction u)
      ∧ ∀ u, r = some u →
          ∃ pre post,
            (s.workspaces (s.toplevels t).workspace).floating_toplevels = pre ++ u :: post
            ∧ u ≠ t ∧ on_requested_side L s t direction u
            ∧ (∀ v ∈ pre, v ≠ t → on_requested_side L s t direction v →
                coordinate_distance L s t direction u < coordinate_distance L s t direction v)
            ∧ (∀ v ∈ post, v ≠ t → on_requested_side L s t direction v →
                coordinate_distance L s t direction u
                  ≤ coordinate_distance L s t direction v) := by
  have hlt : ∀ u ∈ (s.workspaces (s.toplevels t).workspace).floating_toplevels,
      coordinate_distance L s t direction u < UINT32_MAX :=
    fun u hu => lt_trans (hr u hu) (by decide)
  unfold toplevel_find_closest_floating_on_workspace
  rw [hfl]
  simp only [Bool.not_true, Bool.false_eq_true, if_false]
  cases direction with
  | MWC_UP =>
    exact ⟨_, rfl, closest_loop_contract _ _ _ t _ _
      (fun u => by simp [on_requested_side])
      (fun u hu => abs_difference_eq _ _ (hr u hu)) hlt⟩
  | MWC_DOWN =>
    exact ⟨_, rfl, closest_loop_contract _ _ _ t _ _
      (fun u => by simp [on_requested_side])
      (fun u hu => abs_difference_eq _ _ (hr u hu)) hlt⟩
  | MWC_LEFT =>
    exact ⟨_, rfl, closest_loop_contract _ _ _ t _ _
      (fun u => by simp [on_requested_side])
      (fun u hu => abs_difference_eq _ _ (hr u hu)) hlt⟩
  | MWC_RIGHT =>
    exact ⟨_, rfl, closest_loop_contract _ _ _ t _ _
      (fun u => by simp [on_requested_side])
      (fun u hu => abs_difference_eq _ _ (hr u hu)) hlt⟩

theorem find_closest_floating_contract_witness :
    (closest_demo_server.workspaces 0).floating_toplevels = [1, 2, 3, 4]
    ∧ toplevel_find_closest_floating_on_workspace demo_layout closest_demo_server 1
        mwc_direction.MWC_LEFT = some (some 2)
    ∧ toplevel_find_closest_floating_on_workspace demo_layout closest_demo_server 1
        mwc_direction.MWC_RIGHT = some (some 3)
    ∧ toplevel_find_closest_floating_on_workspace demo_layout closest_demo_server 4
        mwc_direction.MWC_DOWN = some none
    ∧ ∃ r, toplevel_find_closest_floating_on_workspace demo_layout closest_demo_server 1
          mwc_direction.MWC_LEFT = some r
        ∧ r ≠ some 1 :=
  ⟨by decide, by decide, by decide, by decide,
    Exists.imp (fun _ h => ⟨h.1, h.2.1⟩)
      (find_closest_floating_contract demo_layout closest_demo_server 1
        mwc_direction.MWC_LEFT (by decide) (by decide))⟩

/-! ## Insertion at a point -/

theorem list_insert_before_split (pre post : List Nat) (u t : Nat) (h : u ∉ pre) :
    list_insert_before u t (pre ++ u :: post) = pre ++ t :: u :: post := by
  induction pre with
  | nil => simp [list_insert_before]
  | cons a pre ih =>
    have ha : a ≠ u := fun e => h (by simp [e])
    rw [List.cons_append, list_insert_before, if_neg ha,
      ih (fun e => h (List.mem_cons_of_mem _ e))]
    rfl

theorem list_insert_after_split (pre post : List Nat) (u t : Nat) (h : u ∉ pre) :
    list_insert_after u t (pre ++ u :: post) = pre ++ u :: t :: post := by
  induction pre with
  | nil => simp [list_insert_after]
  | cons a pre ih =>
    have ha : a ≠ u := fun e => h (by simp [e])
    rw [List.cons_append, list_insert_after, if_neg ha,
      ih (fun e => h (List.mem_cons_of_mem _ e))]
    rfl

theorem list_insert_before_of_not_mem (l : List Nat) (u t : Nat) (h : u ∉ l) :
    list_insert_before u t l = l := by
  induction l with
  | nil => rfl
  | cons a l ih =>
    have ha : a ≠ u := fun e => h (by simp [e])
    simp only [list_insert_before, if_neg ha]
    rw [ih (fun e => h (List.mem_cons_of_mem _ e))]

theorem list_insert_after_of_not_mem (l : List Nat) (u t : Nat) (h : u ∉ l) :
    list_insert_after u t l = l := by
  induction l with
  | nil => rfl
  | cons a l ih =>
    have ha : a ≠ u := fun e => h (by simp [e])
    simp only [list_insert_after, if_neg ha]
    rw [ih (fun e => h (List.mem_cons_of_mem _ e))]

theorem list_last_split (pre post : List Nat) (u : Nat) (h : u ∉ post) :
    list_last (pre ++ u :: post) = some u ↔ post = [] := by
  unfold list_last
  constructor
  · intro e
    cases post with
    | nil => rfl
    | cons b post =>
      exfalso
      rw [List.getLast?_append_cons, List.getLast?_cons_cons] at e
      exact h (List.mem_of_mem_getLast? e)
  · intro e
    rw [e]
    simp

theorem assign_workspace_workspace (s : mwc_server) (t w u : Nat)
    (h : (s.toplevels u).workspace = w) :
    ((assign_workspace s t w).toplevels u).workspace = w := by
  by_cases e : u = t
  · rw [e]; exact assign_workspace_value s t w
  · rw [assign_workspace_other s t w u e]; exact h

theorem wrap_u32_of_range (v : Int) (h0 : 0 ≤ v) (h1 : v < 4294967296) : wrap_u32 v = v := by
  unfold wrap_u32
  exact Int.emod_eq_of_lt h0 h1

/-- The test of `toplevel_tiled_insert_into_layout` for a master under the
point. -/
theorem insert_before_master (s : mwc_server) (t w u x y : Nat) (pre post : List Nat)
    (hw : (s.toplevels u).workspace = w)
    (hm : (s.workspaces w).masters = pre ++ u :: post) (hpost : u ∉ post)
    (h0 : 0 ≤ (s.toplevels u).current.x + (s.toplevels u).current.width.tdiv 2)
    (h1 : (s.toplevels u).current.x + (s.toplevels u).current.width.tdiv 2 < 4294967296) :
    insert_before_under_cursor (assign_workspace s t w) w u x y
      = decide ((post = [] ∧ (s.workspaces w).slaves ≠ [])
          ∨ (x : Int) ≤ (s.toplevels u).current.x + (s.toplevels u).current.width.tdiv 2) := by
  have hmas : toplevel_is_master (assign_workspace s t w) u = true := by
    unfold toplevel_is_master
    rw [assign_workspace_workspace s t w u hw, (assign_workspace_server s t w).1, hm]
    simp
  have hlast : decide (list_last ((assign_workspace s t w).workspaces w).masters = some u)
      = decide (post = []) := by
    rw [(assign_workspace_server s t w).1, hm]
    exact decide_eq_decide.2 (list_last_split pre post u hpost)
  have hsl : decide (((assign_workspace s t w).workspaces w).slaves.length > 0)
      = decide ((s.workspaces w).slaves ≠ []) := by
    rw [(assign_workspace_server s t w).1]
    exact decide_eq_decide.2 (by rw [gt_iff_lt, List.length_pos])
  unfold insert_before_under_cursor
  simp only [hmas, hlast, hsl, (assign_workspace_fields s t w u).2.2.2.2.2.1,
    wrap_u32_of_range _ h0 h1, Bool.true_and, Bool.not_true, Bool.false_and, Bool.or_false]
  rw [Bool.eq_iff_iff]
  simp

/-- The test of `toplevel_tiled_insert_into_layout` for a slave under the
point. -/
theorem insert_before_slave (s : mwc_server) (t w u x y : Nat)
    (hw : (s.toplevels u).workspace = w)
    (hm : u ∉ (s.workspaces w).masters)
    (h0 : 0 ≤ (s.toplevels u).current.y + (s.toplevels u).current.height.tdiv 2)
    (h1 : (s.toplevels u).current.y + (s.toplevels u).current.height.tdiv 2 < 4294967296) :
    insert_before_under_cursor (assign_workspace s t w) w u x y
      = decide ((y : Int)
          ≤ (s.toplevels u).current.y + (s.toplevels u).current.height.tdiv 2) := by
  have hmas : toplevel_is_master (assign_workspace s t w) u = false := by
    unfold toplevel_is_master
    rw [assign_workspace_workspace s t w u hw, (assign_workspace_server s t w).1]
    simpa using hm
  unfold insert_before_under_cursor
  simp only [hmas, (assign_workspace_fields s t w u).2.2.2.2.2.1,
    wrap_u32_of_range _ h0 h1, Bool.false_and, Bool.not_false, Bool.true_and, Bool.false_or]

/-- The lists after the link statement of `toplevel_tiled_insert_into_layout`
for a master under the point. -/
theorem insert_link_master_lists (s : mwc_server) (t w u x y : Nat) (pre post : List Nat)
    (hw : (s.toplevels u).workspace = w)
    (hm : (s.workspaces w).masters = pre ++ u :: post)
    (hpre : u ∉ pre) (hpost : u ∉ post) (hsl : u ∉ (s.workspaces w).slaves)
    (h0 : 0 ≤ (s.toplevels u).current.x + (s.toplevels u).current.width.tdiv 2)
    (h1 : (s.toplevels u).current.x + (s.toplevels u).current.width.tdiv 2 < 4294967296) :
    ((insert_link (assign_workspace s t w) w t x y u).workspaces w).masters
        = (if (post = [] ∧ (s.workspaces w).slaves ≠ [])
              ∨ (x : Int) ≤ (s.toplevels u).current.x
                  + (s.toplevels u).current.width.tdiv 2 then
            pre ++ t :: u :: post
          else pre ++ u :: t :: post)
    ∧ ((insert_link (assign_workspace s t w) w t x y u).workspaces w).slaves
        = (s.workspaces w).slaves := by
  unfold insert_link
  rw [insert_before_master s t w u x y pre post hw hm hpost h0 h1]
  by_cases hb : (post = [] ∧ (s.workspaces w).slaves ≠ [])
      ∨ (x : Int) ≤ (s.toplevels u).current.x + (s.toplevels u).current.width.tdiv 2
  · rw [if_pos hb, if_pos (decide_eq_true hb)]
    simp only [wl_list_insert_before_lists, (assign_workspace_server s t w).1]
    rw [hm, list_insert_before_split _ _ _ _ hpre, list_insert_before_of_not_mem _ _ _ hsl]
    exact ⟨rfl, rfl⟩
  · rw [if_neg hb, if_neg (by simpa using hb)]
    simp only [wl_list_insert_after_lists, (assign_workspace_server s t w).1]
    rw [hm, list_insert_after_split _ _ _ _ hpre, list_insert_after_of_not_mem _ _ _ hsl]
    exact ⟨rfl, rfl⟩

/-- The lists after the link statement of `toplevel_tiled_insert_into_layout`
for a slave under the point. -/
theorem insert_link_slave_lists (s : mwc_server) (t w u x y : Nat) (pre post : List Nat)
    (hw : (s.toplevels u).workspace = w)
    (hs : (s.workspaces w).slaves = pre ++ u :: post)
    (hpre : u ∉ pre) (hm : u ∉ (s.workspaces w).masters)
    (h0 : 0 ≤ (s.toplevels u).current.y + (s.toplevels u).current.height.tdiv 2)
    (h1 : (s.toplevels u).current.y + (s.toplevels u).current.height.tdiv 2 < 4294967296) :
    ((insert_link (assign_workspace s t w) w t x y u).workspaces w).slaves
        = (if (y : Int) ≤ (s.toplevels u).current.y
              + (s.toplevels u).current.height.tdiv 2 then
            pre ++ t :: u :: post
          else pre ++ u :: t :: post)
    ∧ ((insert_link (assign_workspace s t w) w t x y u).workspaces w).masters
        = (s.workspaces w).masters := by
  unfold insert_link
  rw [insert_before_slave s t w u x y hw hm h0 h1]
  by_cases hb : (y : Int) ≤ (s.toplevels u).current.y + (s.toplevels u).current.height.tdiv 2
  · rw [if_pos hb, if_pos (decide_eq_true hb)]
    simp only [wl_list_insert_before_lists, (assign_workspace_server s t w).1]
    rw [hs, list_insert_before_split _ _ _ _ hpre, list_insert_before_of_not_mem _ _ _ hm]
    exact ⟨rfl, rfl⟩
  · rw [if_neg hb, if_neg (by simpa using hb)]
    simp only [wl_list_insert_after_lists, (assign_workspace_server s t w).1]
    rw [hs, list_insert_after_split _ _ _ _ hpre, list_insert_after_of_not_mem _ _ _ hm]
    exact ⟨rfl, rfl⟩

/-- The demotion of `toplevel_tiled_insert_into_layout` when the master list
`M ++ [last]` is too long. -/
theorem insert_demote_lists (s : mwc_server) (w last : Nat) (M : List Nat)
    (hM : (s.workspaces w).masters = M ++ [last])
    (hgt : s.config.master_count < (M ++ [last]).length)
    (hnm : last ∉ M) (hns : last ∉ (s.workspaces w).slaves) :
    ((insert_demote s w).workspaces w).masters = M
    ∧ ((insert_demote s w).workspaces w).slaves = (s.workspaces w).slaves ++ [last] := by
  unfold insert_demote
  rw [hM, if_pos hgt, list_last_append_singleton]
  simp only [slaves_insert_last_slaves, slaves_insert_last_lists, wl_list_remove_lists,
    if_true, hM]
  rw [List.erase_append_right _ hnm, List.erase_of_not_mem hns]
  simp

theorem insert_demote_of_le (s : mwc_server) (w : Nat)
    (h : (s.workspaces w).masters.length ≤ s.config.master_count) :
    insert_demote s w = s := by
  unfold insert_demote
  rw [if_neg (by omega)]

theorem linked_length (b : Prop) [Decidable b] (pre post : List Nat) (t u : Nat) :
    (if b then pre ++ t :: u :: post else pre ++ u :: t :: post).length
      = (pre ++ u :: post).length + 1 := by
  split_ifs <;> simp <;> omega

theorem linked_mem (b : Prop) [Decidable b] (pre post : List Nat) (t u v : Nat)
    (h : v ∈ (if b then pre ++ t :: u :: post else pre ++ u :: t :: post)) :
    v = t ∨ v ∈ pre ++ u :: post := by
  split_ifs at h <;> simp at h ⊢ <;> tauto

theorem linked_nodup (b : Prop) [Decidable b] (pre post : List Nat) (t u : Nat)
    (hn : (pre ++ u :: post).Nodup) (ht : t ∉ pre ++ u :: post) :
    (if b then pre ++ t :: u :: post else pre ++ u :: t :: post).Nodup := by
  have p1 : (pre ++ t :: u :: post).Perm (t :: (pre ++ u :: post)) := List.perm_middle
  have p2 : (pre ++ u :: t :: post).Perm (t :: (pre ++ u :: post)) := by
    have h := @List.perm_middle _ t (pre ++ [u]) post
    simpa using h
  have nd : (t :: (pre ++ u :: post)).Nodup := List.nodup_cons.2 ⟨ht, hn⟩
  split_ifs
  · exact p1.nodup_iff.2 nd
  · exact p2.nodup_iff.2 nd

/-- C24 (point insertion), as amended. In `toplevel_tiled_insert_into_layout`,
if no tiled toplevel is under the point, the new toplevel `t` is appended to
the masters when there are fewer than `master_count` of them and to the end
of the slaves otherwise. If a toplevel `u` of the active workspace is under
the point, `t` is linked in immediately before `u` when `u` is the last
master and slaves exist, or when `u` is a master and the point is in the left
half of its box, or when `u` is a slave and the point is in the top half of
its box, and immediately after `u` otherwise; then, when the master list has
more than `master_count` entries, its last entry is moved to the end of the
slave list. So for a master `u` the result has the linked master list when
there was room for one more master, and otherwise the linked list without its
last entry, which is the last slave; for a slave `u` (with at most
`master_count` masters) `t` is immediately before or after `u` in the slave
list. Here no toplevel is linked twice, `t` is not linked, and the middle of
the box of `u` is a `uint32_t` value. -/
theorem insert_position (L : layout_h) (s : mwc_server) (t x y : Nat) :
    (L.layout_toplevel_at (assign_workspace s t s.active_workspace) s.active_workspace x y
          = none →
        ((s.workspaces s.active_workspace).masters.length < s.config.master_count →
          ((toplevel_tiled_insert_into_layout L s t x y).workspaces s.active_workspace).masters
              = (s.workspaces s.active_workspace).masters ++ [t]
          ∧ ((toplevel_tiled_insert_into_layout L s t x y).workspaces s.active_workspace).slaves
              = (s.workspaces s.active_workspace).slaves)
        ∧ (¬ (s.workspaces s.active_workspace).masters.length < s.config.master_count →
          ((toplevel_tiled_insert_into_layout L s t x y).workspaces s.active_workspace).masters
              = (s.workspaces s.active_workspace).masters
          ∧ ((toplevel_tiled_insert_into_layout L s t x y).workspaces s.active_workspace).slaves
              = (s.workspaces s.active_workspace).slaves ++ [t]))
    ∧ (∀ u pre post,
        L.layout_toplevel_at (assign_workspace s t s.active_workspace) s.active_workspace x y
          = some u →
        (s.toplevels u).workspace = s.active_workspace →
        (s.workspaces s.active_workspace).masters = pre ++ u :: post →
        ((s.workspaces s.active_workspace).masters
          ++ (s.workspaces s.active_workspace).slaves).Nodup →
        t ∉ (s.workspaces s.active_workspace).masters
          ++ (s.workspaces s.active_workspace).slaves →
        0 ≤ (s.toplevels u).current.x + (s.toplevels u).current.width.tdiv 2 →
        (s.toplevels u).current.x + (s.toplevels u).current.width.tdiv 2 < 4294967296 →
        ((s.workspaces s.active_workspace).masters.length < s.config.master_count →
          ((toplevel_tiled_insert_into_layout L s t x y).workspaces s.active_workspace).masters
              = (if (post = [] ∧ (s.workspaces s.active_workspace).slaves ≠ [])
                    ∨ (x : Int) ≤ (s.toplevels u).current.x
                        + (s.toplevels u).current.width.tdiv 2 then
                  pre ++ t :: u :: post
                else pre ++ u :: t :: post)
          ∧ ((toplevel_tiled_insert_into_layout L s t x y).workspaces s.active_workspace).slaves
              = (s.workspaces s.active_workspace).slaves)
        ∧ (¬ (s.workspaces s.active_workspace).masters.length < s.config.master_count →
          ∀ init last,
            (if (post = [] ∧ (s.workspaces s.active_workspace).slaves ≠ [])
                  ∨ (x : Int) ≤ (s.toplevels u).current.x
                      + (s.toplevels u).current.width.tdiv 2 then
                pre ++ t :: u :: post
              else pre ++ u :: t :: post) = init ++ [last] →
            ((toplevel_tiled_insert_into_layout L s t x y).workspaces
                s.active_workspace).masters = init
            ∧ ((toplevel_tiled_insert_into_layout L s t x y).workspaces
                s.active_workspace).slaves
                = (s.workspaces s.active_workspace).slaves ++ [last]))
    ∧ (∀ u pre post,
        L.layout_toplevel_at (assign_workspace s t s.active_workspace) s.active_workspace x y
          = some u →
        (s.toplevels u).workspace = s.active_workspace →
        (s.workspaces s.active_workspace).slaves = pre ++ u :: post →
        ((s.workspaces s.active_workspace).masters
          ++ (s.workspaces s.active_workspace).slaves).Nodup →
        (s.workspaces s.active_workspace).masters.length ≤ s.config.master_count →
        0 ≤ (s.toplevels u).current.y + (s.toplevels u).current.height.tdiv 2 →
        (s.toplevels u).current.y + (s.toplevels u).current.height.tdiv 2 < 4294967296 →
        ((toplevel_tiled_insert_into_layout L s t x y).workspaces s.active_workspace).slaves
            = (if (y : Int) ≤ (s.toplevels u).current.y
                  + (s.toplevels u).current.height.tdiv 2 then
                pre ++ t :: u :: post
              else pre ++ u :: t :: post)
        ∧ ((toplevel_tiled_insert_into_layout L s t x y).workspaces s.active_workspace).masters
            = (s.workspaces s.active_workspace).masters) := by
  refine ⟨?_, ?_, ?_⟩
  · intro ho
    unfold toplevel_tiled_insert_into_layout
    rw [ho]
    simp only [insert_at, (assign_workspace_server s t s.active_workspace).1,
      (assign_workspace_server s t s.active_workspace).2.2.1]
    constructor
    · intro h
      rw [if_pos h, masters_insert_last_masters, if_pos rfl,
        (masters_insert_last_lists _ _ _ _).1, (assign_workspace_server s t s.active_workspace).1]
      exact ⟨rfl, rfl⟩
    · intro h
      rw [if_neg h, slaves_insert_last_slaves, if_pos rfl,
        (slaves_insert_last_lists _ _ _ _).1, (assign_workspace_server s t s.active_workspace).1]
      exact ⟨rfl, rfl⟩
  · intro u pre post ho hw hm hnd ht h0 h1
    have hndm : (pre ++ u :: post).Nodup := by
      rw [← hm]; exact (List.nodup_append.1 hnd).1
    have hpre : u ∉ pre := fun h => by
      have := (List.nodup_append.1 hndm).2.2
      exact this h (List.mem_cons_self _ _) 
    have hpost : u ∉ post := by
      have := (List.nodup_append.1 hndm).2.1
      exact (List.nodup_cons.1 this).1
    have hdis : ∀ v, v ∈ (s.workspaces s.active_workspace).masters →
        v ∉ (s.workspaces s.active_workspace).slaves := fun v hv hs =>
      (List.nodup_append.1 hnd).2.2 hv hs
    have hsl : u ∉ (s.workspaces s.active_workspace).slaves :=
      hdis u (by rw [hm]; simp)
    have htm : t ∉ pre ++ u :: post := by
      rw [← hm]; exact fun h => ht (List.mem_append_left _ h)
    have hts : t ∉ (s.workspaces s.active_workspace).slaves :=
      fun h => ht (List.mem_append_right _ h)
    obtain ⟨lm, ls⟩ := insert_link_master_lists s t s.active_workspace u x y pre post hw hm
      hpre hpost hsl h0 h1
    have hc : (insert_link (assign_workspace s t s.active_workspace) s.active_workspace t x y
        u).config.master_count = s.config.master_count := by
      rw [insert_link_config]; rfl
    have hlen := linked_length ((post = [] ∧ (s.workspaces s.active_workspace).slaves ≠ [])
        ∨ (x : Int) ≤ (s.toplevels u).current.x + (s.toplevels u).current.width.tdiv 2)
      pre post t u
    unfold toplevel_tiled_insert_into_layout
    rw [ho]
    simp only [insert_at]
    constructor
    · intro hlt
      rw [insert_demote_of_le _ _ (by rw [hc, lm, hlen, ← hm]; omega)]
      exact ⟨lm, ls⟩
    · intro hge init last hsplit
      have hnd2 := linked_nodup ((post = [] ∧ (s.workspaces s.active_workspace).slaves ≠ [])
          ∨ (x : Int) ≤ (s.toplevels u).current.x + (s.toplevels u).current.width.tdiv 2)
        pre post t u hndm htm
      rw [hsplit] at hnd2 hlen
      have hnm : last ∉ init := fun h =>
        (List.nodup_append.1 hnd2).2.2 h (List.mem_singleton_self _)
      have hmem : last = t ∨ last ∈ pre ++ u :: post :=
        linked_mem ((post = [] ∧ (s.workspaces s.active_workspace).slaves ≠ [])
            ∨ (x : Int) ≤ (s.toplevels u).current.x + (s.toplevels u).current.width.tdiv 2)
          pre post t u last (by rw [hsplit]; simp)
      have hns : last ∉ (s.workspaces s.active_workspace).slaves := by
        rcases hmem with e | e
        · rw [e]; exact hts
        · exact hdis last (by rw [hm]; exact e)
      have := insert_demote_lists
        (insert_link (assign_workspace s t s.active_workspace) s.active_workspace t x y u)
        s.active_workspace last init (lm.trans hsplit)
        (by rw [hc, hlen, ← hm]; omega) hnm (by rw [ls]; exact hns)
      rw [ls] at this
      exact this
  · intro u pre post ho hw hs hnd hle h0 h1
    have hnds : (pre ++ u :: post).Nodup := by
      rw [← hs]; exact (List.nodup_append.1 hnd).2.1
    have hpre : u ∉ pre := fun h =>
      (List.nodup_append.1 hnds).2.2 h (List.mem_cons_self _ _)
    have hm : u ∉ (s.workspaces s.active_workspace).masters := fun h =>
      (List.nodup_append.1 hnd).2.2 h (by rw [hs]; simp)
    obtain ⟨ls, lm⟩ := insert_link_slave_lists s t s.active_workspace u x y pre post hw hs
      hpre hm h0 h1
    have hc : (insert_link (assign_workspace s t s.active_workspace) s.active_workspace t x y
        u).config.master_count = s.config.master_count := by
      rw [insert_link_config]; rfl
    unfold toplevel_tiled_insert_into_layout
    rw [ho]
    simp only [insert_at]
    rw [insert_demote_of_le _ _ (by rw [hc, lm]; exact hle)]
    exact ⟨ls, lm⟩

theorem insert_position_witness :
    three_tiled_settled_server.config.master_count = 1
    ∧ (three_tiled_settled_server.workspaces 0).masters = [1]
    ∧ (three_tiled_settled_server.workspaces 0).slaves = [2, 3]
    ∧ (three_tiled_settled_server.toplevels 1).current = ⟨0, 0, 960, 1080⟩
    ∧ (three_tiled_settled_server.toplevels 3).current = ⟨960, 540, 960, 540⟩
    ∧ ((toplevel_tiled_insert_into_layout demo_layout three_tiled_settled_server 7 1000
          900).workspaces 0).slaves = [2, 3, 7]
    ∧ ((toplevel_tiled_insert_into_layout demo_layout three_tiled_settled_server 7 1000
          600).workspaces 0).slaves = [2, 7, 3]
    ∧ ((toplevel_tiled_insert_into_layout demo_layout three_tiled_settled_server 7 100
          100).workspaces 0).masters = [7]
    ∧ ((toplevel_tiled_insert_into_layout demo_layout three_tiled_settled_server 7 100
          100).workspaces 0).slaves = [2, 3, 1] :=
  ⟨by decide, by decide, by decide, by decide, by decide,
    (((insert_position demo_layout three_tiled_settled_server 7 1000 900).2.2 3 [2] []
      (by decide) (by decide) (by decide) (by decide) (by decide) (by decide)
      (by decide)).1).trans (by decide),
    (((insert_position demo_layout three_tiled_settled_server 7 1000 600).2.2 3 [2] []
      (by decide) (by decide) (by decide) (by decide) (by decide) (by decide)
      (by decide)).1).trans (by decide),
    ((((insert_position demo_layout three_tiled_settled_server 7 100 100).2.1 1 [] []
      (by decide) (by decide) (by decide) (by decide) (by decide) (by decide)
      (by decide)).2 (by decide) [7] 1 (by decide)).1),
    ((((insert_position demo_layout three_tiled_settled_server 7 100 100).2.1 1 [] []
      (by decide) (by decide) (by decide) (by decide) (by decide) (by decide)
      (by decide)).2 (by decide) [7] 1 (by decide)).2).trans (by decide)⟩

/-- C24 as stated fails on the code when the toplevel under the point is the
last master and slaves exist: with `master_count = 1`, masters [1] and slaves
[2, 3], `layout_toplevel_at` finds the master 1 under the point (100, 100),
and after `toplevel_tiled_insert_into_layout` the new toplevel 7 is the only
master while 1 is the last slave, behind 2 and 3: the new toplevel is not
immediately before 1 in a list. -/
theorem insert_over_last_master_parts_them :
    three_tiled_settled_server.config.master_count = 1
    ∧ (three_tiled_settled_server.workspaces 0).masters = [1]
    ∧ (three_tiled_settled_server.workspaces 0).slaves = [2, 3]
    ∧ demo_layout.layout_toplevel_at
        (assign_workspace three_tiled_settled_server 7
          three_tiled_settled_server.active_workspace)
        three_tiled_settled_server.active_workspace 100 100 = some 1
    ∧ ((toplevel_tiled_insert_into_layout demo_layout three_tiled_settled_server 7 100
          100).workspaces 0).masters = [7]
    ∧ ((toplevel_tiled_insert_into_layout demo_layout three_tiled_settled_server 7 100
          100).workspaces 0).slaves = [2, 3, 1] := by
  decide

/-! ## Master slots stay filled: list facts -/

theorem nodup_snoc (l : List Nat) (a : Nat) : (l ++ [a]).Nodup ↔ a ∉ l ∧ l.Nodup := by
  rw [List.nodup_middle]
  simp

theorem getLast_split (S : List Nat) (sl : Nat) (h : S.getLast? = some sl) :
    ∃ init, S = init ++ [sl] := by
  refine ⟨S.dropLast, ?_⟩
  have hne : S ≠ [] := by
    intro e
    rw [e] at h
    cases h
  have := List.dropLast_append_getLast hne
  rw [List.getLast?_eq_getLast _ hne] at h
  cases h
  exact this.symm

theorem slots_ok_nil (mc : Nat) : slots_ok mc [] [] :=
  ⟨List.nodup_nil, Nat.zero_le _, fun h => absurd rfl h⟩

theorem slots_ok_append_master (mc : Nat) (M S : List Nat) (t : Nat) (h : slots_ok mc M S)
    (ht : t ∉ M ++ S) (hlt : M.length < mc) : slots_ok mc (M ++ [t]) S := by
  obtain ⟨hn, _, hf⟩ := h
  have hS : S = [] := by
    by_contra e
    have := hf e
    omega
  subst hS
  refine ⟨?_, ?_, fun e => absurd rfl e⟩
  · rw [List.append_nil] at hn ht ⊢
    exact (nodup_snoc M t).2 ⟨ht, hn⟩
  · rw [List.length_append, List.length_singleton]
    exact hlt

theorem slots_ok_append_slave (mc : Nat) (M S : List Nat) (t : Nat) (h : slots_ok mc M S)
    (ht : t ∉ M ++ S) (hge : ¬ M.length < mc) : slots_ok mc M (S ++ [t]) := by
  obtain ⟨hn, hb, _⟩ := h
  refine ⟨?_, hb, fun _ => by omega⟩
  rw [← List.append_assoc]
  exact (nodup_snoc (M ++ S) t).2 ⟨ht, hn⟩

theorem slots_ok_erase_slave (mc : Nat) (M S : List Nat) (t : Nat) (h : slots_ok mc M S) :
    slots_ok mc M (S.erase t) := by
  obtain ⟨hn, hb, hf⟩ := h
  refine ⟨hn.sublist (List.Sublist.append (List.Sublist.refl M) (List.erase_sublist t S)), hb,
    fun e => hf (fun e2 => e (by rw [e2]; rfl))⟩

theorem slots_ok_erase_master (mc : Nat) (M : List Nat) (t : Nat) (h : slots_ok mc M []) :
    slots_ok mc (M.erase t) [] := by
  obtain ⟨hn, hb, _⟩ := h
  refine ⟨hn.sublist (List.Sublist.append (List.erase_sublist t M) (List.Sublist.refl [])),
    (List.length_erase_le t M).trans hb, fun e => absurd rfl e⟩

theorem slots_ok_promote (mc : Nat) (M init : List Nat) (t sl : Nat)
    (h : slots_ok mc M (init ++ [sl])) (ht : t ∈ M) :
    slots_ok mc (M.erase t ++ [sl]) init := by
  obtain ⟨hn, _, hf⟩ := h
  have hlen : M.length = mc := hf (by simp)
  refine ⟨?_, ?_, fun _ => ?_⟩
  · have h1 : (M.erase t ++ (init ++ [sl])).Nodup :=
      hn.sublist (List.Sublist.append (List.erase_sublist t M) (List.Sublist.refl _))
    have hp : List.Perm (M.erase t ++ [sl] ++ init) (M.erase t ++ (init ++ [sl])) := by
      rw [List.append_assoc]
      exact List.Perm.append_left _ List.perm_append_comm
    exact hp.nodup_iff.2 h1
  · rw [List.length_append, List.length_erase_of_mem ht, List.length_singleton]
    have := List.length_pos_of_mem ht
    omega
  · rw [List.length_append, List.length_erase_of_mem ht, List.length_singleton]
    have := List.length_pos_of_mem ht
    omega

/-- The lists after a master has left and the last slave has taken its
place, in the order `toplevel_handle_unmap` does it. -/
theorem promote_then_erase (M init : List Nat) (t sl : Nat)
    (hn : (M ++ (init ++ [sl])).Nodup) (ht : t ∈ M) :
    (M.erase sl ++ [sl]).erase t = M.erase t ++ [sl]
    ∧ ((init ++ [sl]).erase sl).erase t = init := by
  obtain ⟨_, hS, hd⟩ := List.nodup_append.1 hn
  have h1 : sl ∉ M := fun e => hd e (by simp)
  have h2 : sl ∉ init := ((nodup_snoc init sl).1 hS).1
  have h3 : t ∉ init := fun e => hd ht (by simp [e])
  rw [List.erase_of_not_mem h1, List.erase_append_left _ ht, List.erase_append_right _ h2]
  simp [List.erase_of_not_mem h3]

/-- The lists after a master has left and the last slave has taken its
place, in the order `toplevel_start_move` does it. -/
theorem erase_then_promote (M init : List Nat) (t sl : Nat)
    (hn : (M ++ (init ++ [sl])).Nodup) (ht : t ∈ M) :
    (init ++ [sl]).erase t = init ++ [sl]
    ∧ (M.erase t).erase sl ++ [sl] = M.erase t ++ [sl]
    ∧ (init ++ [sl]).erase sl = init := by
  obtain ⟨_, hS, hd⟩ := List.nodup_append.1 hn
  have h1 : sl ∉ M := fun e => hd e (by simp)
  have h2 : sl ∉ init := ((nodup_snoc init sl).1 hS).1
  have h3 : t ∉ init ++ [sl] := fun e => hd ht e
  have h4 : sl ∉ M.erase t := fun e => h1 (List.mem_of_mem_erase e)
  rw [List.erase_of_not_mem h3, List.erase_of_not_mem h4, List.erase_append_right _ h2]
  simp

theorem nodup_list_insert_before (l : List Nat) (u t : Nat) (hn : l.Nodup) (hu : u ∈ l)
    (ht : t ∉ l) : (list_insert_before u t l).Nodup := by
  obtain ⟨pre, post, e⟩ := List.append_of_mem hu
  subst e
  rw [list_insert_before_split _ _ _ _ (nodup_split pre post u hn).1, List.nodup_middle,
    List.nodup_cons]
  exact ⟨ht, hn⟩

theorem nodup_list_insert_after (l : List Nat) (u t : Nat) (hn : l.Nodup) (hu : u ∈ l)
    (ht : t ∉ l) : (list_insert_after u t l).Nodup := by
  obtain ⟨pre, post, e⟩ := List.append_of_mem hu
  subst e
  rw [list_insert_after_split _ _ _ _ (nodup_split pre post u hn).1]
  have hp : List.Perm (pre ++ u :: t :: post) (t :: (pre ++ u :: post)) := by
    have h := @List.perm_middle _ t (pre ++ [u]) post
    simpa using h
  exact hp.nodup_iff.2 (List.nodup_cons.2 ⟨ht, hn⟩)

/-- The lists after the new toplevel has been put next to a master and the
masters have been cut back to `mc`. -/
theorem slots_ok_insert_master (mc : Nat) (M M1 S : List Nat) (t : Nat)
    (h : slots_ok mc M S) (ht : t ∉ M ++ S)
    (hlen : M1.length = M.length + 1) (hn1 : M1.Nodup)
    (hmem : ∀ x, x ∈ M1 ↔ x ∈ M ∨ x = t) :
    (mc < M1.length → ∀ last, M1.getLast? = some last →
        slots_ok mc (M1.erase last) (S.erase last ++ [last]))
    ∧ (¬ mc < M1.length → slots_ok mc M1 S) := by
  obtain ⟨hn, hb, hf⟩ := h
  have hdis : ∀ x, x ∈ M1 → x ∉ S := by
    intro x hx hxs
    rcases (hmem x).1 hx with e | e
    · exact (List.nodup_append.1 hn).2.2 e hxs
    · exact ht (by rw [e] at hxs; simp [hxs])
  have hn2 : (M1 ++ S).Nodup :=
    List.nodup_append.2 ⟨hn1, (List.nodup_append.1 hn).2.1, fun x hx hxs => hdis x hx hxs⟩
  constructor
  · intro hgt last hl
    have hlm : last ∈ M1 := List.mem_of_mem_getLast? hl
    rw [List.erase_of_not_mem (hdis last hlm)]
    refine ⟨?_, ?_, fun _ => ?_⟩
    · have hp : List.Perm (M1.erase last ++ (S ++ [last])) (last :: (M1.erase last ++ S)) := by
        rw [← List.append_assoc]
        exact List.perm_append_singleton _ _
      refine hp.nodup_iff.2 (List.nodup_cons.2 ⟨?_, ?_⟩)
      · intro e
        rcases List.mem_append.1 e with e | e
        · exact (List.Nodup.not_mem_erase hn1) e
        · exact hdis last hlm e
      · exact hn2.sublist (List.Sublist.append (List.erase_sublist _ _) (List.Sublist.refl _))
    · rw [List.length_erase_of_mem hlm]
      omega
    · rw [List.length_erase_of_mem hlm]
      omega
  · intro hle
    have hS : S = [] := by
      by_contra e
      have := hf e
      omega
    subst hS
    exact ⟨hn2, by omega, fun e => absurd rfl e⟩

/-- The lists after the new toplevel has been put next to a slave. -/
theorem slots_ok_insert_slave (mc : Nat) (M S S1 : List Nat) (t u : Nat)
    (h : slots_ok mc M S) (ht : t ∉ M ++ S) (hu : u ∈ S)
    (hn1 : S1.Nodup) (hmem : ∀ x, x ∈ S1 ↔ x ∈ S ∨ x = t) :
    slots_ok mc M S1 ∧ ¬ mc < M.length := by
  obtain ⟨hn, hb, hf⟩ := h
  refine ⟨⟨?_, hb, fun _ => hf (List.ne_nil_of_mem hu)⟩, by omega⟩
  refine List.nodup_append.2 ⟨(List.nodup_append.1 hn).1, hn1, fun x hx hxs => ?_⟩
  rcases (hmem x).1 hxs with e | e
  · exact (List.nodup_append.1 hn).2.2 hx e
  · exact ht (by rw [e] at hx; simp [hx])

/-! ## Master slots stay filled: the statements that leave the lists alone -/

theorem same_tiling_refl (s : mwc_server) : same_tiling s s :=
  ⟨rfl, fun _ => ⟨rfl, rfl⟩, fun _ => ⟨rfl, rfl⟩⟩

theorem same_tiling_trans (a b c : mwc_server) (h1 : same_tiling a b) (h2 : same_tiling b c) :
    same_tiling a c :=
  ⟨h2.1.trans h1.1,
    fun v => ⟨(h2.2.1 v).1.trans (h1.2.1 v).1, (h2.2.1 v).2.trans (h1.2.1 v).2⟩,
    fun u => ⟨(h2.2.2 u).1.trans (h1.2.2 u).1, (h2.2.2 u).2.trans (h1.2.2 u).2⟩⟩

theorem same_tiling_symm (a b : mwc_server) (h : same_tiling a b) : same_tiling b a :=
  ⟨h.1.symm, fun v => ⟨(h.2.1 v).1.symm, (h.2.1 v).2.symm⟩,
    fun u => ⟨(h.2.2 u).1.symm, (h.2.2 u).2.symm⟩⟩

theorem same_tiling_tiled (s r : mwc_server) (h : same_tiling s r) (v u : Nat) :
    tiled r v u ↔ tiled s v u := by
  unfold tiled
  rw [(h.2.1 v).1, (h.2.1 v).2]

theorem slots_invariant_of_same_tiling (s r : mwc_server) (h : same_tiling s r)
    (hs : slots_invariant s) : slots_invariant r := by
  obtain ⟨h1, h2, h3⟩ := hs
  refine ⟨fun w => ?_, fun w u ht => ?_, fun u => ?_⟩
  · rw [h.1, (h.2.1 w).1, (h.2.1 w).2]
    exact h1 w
  · rw [(h.2.2 u).2]
    exact h2 w u ((same_tiling_tiled s r h w u).1 ht)
  · rw [(h.2.2 u).1]
    exact h3 u

theorem same_tiling_layout (L : layout_h) (s : mwc_server) (w : Nat) :
    same_tiling s (layout_set_pending_state L s w) :=
  ⟨(layout_server L s w).2.2.1,
    fun v => by rw [(layout_server L s w).1]; exact ⟨rfl, rfl⟩,
    fun u => ⟨(layout_fields L s w u).1, (layout_fields L s w u).2.1⟩⟩

theorem same_tiling_focus (s : mwc_server) (t : Nat)
    (hf : (s.toplevels t).floating = false) : same_tiling s (focus_toplevel s t) := by
  refine ⟨(focus_server s t).1, fun v => ?_, fun u => focus_floating_flag s t u⟩
  rcases focus_lists s t with h | ⟨h, _⟩
  · exact ⟨(h v).1, (h v).2.1⟩
  · rw [hf] at h
    cases h

theorem same_tiling_clear_focused (s : mwc_server) :
    same_tiling s (clear_focused_toplevel s) :=
  ⟨rfl, fun _ => ⟨rfl, rfl⟩, fun _ => ⟨rfl, rfl⟩⟩

theorem same_tiling_focus_link (s : mwc_server) (o : Option Nat)
    (hf : ∀ u, (s.toplevels u).floating = false) : same_tiling s (focus_link s o) := by
  cases o with
  | none => exact same_tiling_refl s
  | some u => exact same_tiling_focus s u (hf u)

theorem same_tiling_focus_or_clear (s : mwc_server) (o : Option Nat)
    (hf : ∀ u, (s.toplevels u).floating = false) : same_tiling s (focus_or_clear s o) := by
  cases o with
  | none => exact same_tiling_clear_focused s
  | some u => exact same_tiling_focus s u (hf u)

theorem same_tiling_unmap_prepared (s : mwc_server) (t : Nat) :
    same_tiling s (unmap_prepared s t) := by
  obtain ⟨_, _, pc, _, _, pl, pt⟩ := unmap_prepared_frame s t
  exact ⟨pc, fun v => ⟨(pl v).1, (pl v).2.1⟩, pt⟩

theorem same_tiling_remove (a b : mwc_server) (t : Nat) (h : same_tiling a b) :
    same_tiling (wl_list_remove a t) (wl_list_remove b t) := by
  refine ⟨h.1, fun v => ?_, fun u => h.2.2 u⟩
  simp only [wl_list_remove_lists]
  rw [(h.2.1 v).1, (h.2.1 v).2]
  exact ⟨rfl, rfl⟩

theorem same_tiling_masters_insert_last (a b : mwc_server) (w t : Nat) (h : same_tiling a b) :
    same_tiling (masters_insert_last a w t) (masters_insert_last b w t) := by
  refine ⟨h.1, fun v => ?_, fun u => h.2.2 u⟩
  rw [masters_insert_last_masters, masters_insert_last_masters,
    (masters_insert_last_lists a w t v).1, (masters_insert_last_lists b w t v).1,
    (h.2.1 v).1, (h.2.1 v).2, (h.2.1 w).1]
  exact ⟨rfl, rfl⟩

theorem same_tiling_unmap_promote (a b : mwc_server) (w : Nat) (h : same_tiling a b) :
    same_tiling (unmap_promote a w) (unmap_promote b w) := by
  unfold unmap_promote
  rw [(h.2.1 w).2]
  cases list_last (a.workspaces w).slaves with
  | none => exact h
  | some sl => exact same_tiling_masters_insert_last _ _ _ _ (same_tiling_remove _ _ _ h)

theorem map_place_floating_fields (ua : wlr_box) (tl : mwc_toplevel) :
    (map_place_floating ua tl).floating = tl.floating
    ∧ (map_place_floating ua tl).workspace = tl.workspace := by
  unfold map_place_floating center_in size_from_geometry
  split_ifs <;> exact ⟨rfl, rfl⟩

theorem map_patch_animation_fields (b : Bool) (tl : mwc_toplevel) :
    (map_patch_animation b tl).floating = tl.floating
    ∧ (map_patch_animation b tl).workspace = tl.workspace := by
  unfold map_patch_animation
  split_ifs <;> exact ⟨rfl, rfl⟩

theorem same_tiling_modify (s : mwc_server) (t : Nat) (f : mwc_toplevel → mwc_toplevel)
    (hf : ∀ tl, (f tl).floating = tl.floating ∧ (f tl).workspace = tl.workspace) :
    same_tiling s (modify_toplevel s t f) := by
  refine ⟨(modify_toplevel_server s t f).2.2.1,
    fun v => by rw [(modify_toplevel_server s t f).1]; exact ⟨rfl, rfl⟩, fun u => ?_⟩
  by_cases e : u = t
  · rw [e, modify_toplevel_same]
    exact hf _
  · rw [modify_toplevel_other s t u f e]
    exact ⟨rfl, rfl⟩

theorem same_tiling_commit (s : mwc_server) (t : Nat) : same_tiling s (toplevel_commit s t) := by
  unfold toplevel_commit
  exact same_tiling_modify s t _
    (fun tl => ⟨(committed_fields _ tl).2.2.2.1, (committed_fields _ tl).2.2.1⟩)

theorem same_tiling_map_finish (s : mwc_server) (t : Nat) : same_tiling s (map_finish s t) := by
  unfold map_finish
  exact same_tiling_trans _ _ _
    (same_tiling_trans _ _ _
      (same_tiling_modify s t _ (map_place_floating_fields _))
      (same_tiling_modify _ t _ (map_patch_animation_fields _)))
    (same_tiling_commit _ t)

theorem same_tiling_set_position (s : mwc_server) (t : Nat) (x y : Int) :
    same_tiling s (wlr_scene_node_set_position s t x y) := by
  unfold wlr_scene_node_set_position
  exact same_tiling_modify s t _ (fun _ => ⟨rfl, rfl⟩)

theorem same_tiling_set_enabled (s : mwc_server) (t : Nat) (b : Bool) :
    same_tiling s (wlr_scene_node_set_enabled s t b) := by
  unfold wlr_scene_node_set_enabled
  exact same_tiling_modify s t _ (fun _ => ⟨rfl, rfl⟩)

theorem same_tiling_map_place_node (s : mwc_server) (t : Nat) :
    same_tiling s (map_place_node s t) := by
  unfold map_place_node
  dsimp only
  split_ifs
  · exact same_tiling_trans _ _ _ (same_tiling_set_position s t _ _)
      (same_tiling_set_enabled _ t false)
  · exact same_tiling_set_position s t _ _

theorem same_tiling_scene_create (s : mwc_server) (t : Nat) (tree : scene_tree) :
    same_tiling s (wlr_scene_xdg_surface_create s t tree) :=
  same_tiling_modify s t _ (fun _ => ⟨rfl, rfl⟩)

theorem same_tiling_grab_begin (s : mwc_server) (t : Nat) (mode : mwc_cursor_mode)
    (box : wlr_box) : same_tiling s (grab_begin s t mode box) :=
  ⟨rfl, fun _ => ⟨rfl, rfl⟩, fun _ => ⟨rfl, rfl⟩⟩

theorem same_tiling_reset_cursor_mode (s : mwc_server) :
    same_tiling s (server_reset_cursor_mode s) :=
  ⟨rfl, fun _ => ⟨rfl, rfl⟩, fun _ => ⟨rfl, rfl⟩⟩

theorem same_tiling_clear_prev_focused (s : mwc_server) :
    same_tiling s (clear_prev_focused s) :=
  ⟨rfl, fun _ => ⟨rfl, rfl⟩, fun _ => ⟨rfl, rfl⟩⟩

/-- How the invariant is carried to a state whose lists differ from those of
the state before in one workspace only. -/
theorem slots_invariant_transfer (s r : mwc_server) (w : Nat) (hs : slots_invariant s)
    (hc : r.config = s.config)
    (hfl : ∀ u, (r.toplevels u).floating = false)
    (hother : ∀ v, v ≠ w → (r.workspaces v).masters = (s.workspaces v).masters
      ∧ (r.workspaces v).slaves = (s.workspaces v).slaves)
    (hws : ∀ v u, v ≠ w → tiled s v u → (r.toplevels u).workspace = v)
    (hw : slots_ok s.config.master_count (r.workspaces w).masters (r.workspaces w).slaves)
    (hmem : ∀ u, tiled r w u → (r.toplevels u).workspace = w) : slots_invariant r := by
  refine ⟨fun v => ?_, fun v u ht => ?_, hfl⟩
  · rw [hc]
    by_cases e : v = w
    · rw [e]; exact hw
    · rw [(hother v e).1, (hother v e).2]
      exact hs.1 v
  · by_cases e : v = w
    · rw [e] at ht ⊢
      exact hmem u ht
    · apply hws v u e
      unfold tiled at ht ⊢
      rw [(hother v e).1, (hother v e).2] at ht
      exact ht

/-- A toplevel is linked into the lists of its own workspace only. -/
theorem not_tiled_elsewhere (s : mwc_server) (hs : slots_invariant s) (u v : Nat)
    (hv : v ≠ (s.toplevels u).workspace) :
    u ∉ (s.workspaces v).masters ∧ u ∉ (s.workspaces v).slaves := by
  constructor
  · intro h
    exact hv (hs.2.1 v u (Or.inl h)).symm
  · intro h
    exact hv (hs.2.1 v u (Or.inr h)).symm

/-! ## Master slots stay filled: the list statements -/

/-- Linking an unlinked toplevel of the workspace at the end of the masters
when there is room, at the end of the slaves otherwise. -/
theorem slots_invariant_append (s : mwc_server) (w t : Nat) (hs : slots_invariant s)
    (hn : not_tiled s t) (hw : (s.toplevels t).workspace = w) :
    slots_invariant
      (if (s.workspaces w).masters.length < s.config.master_count then
        masters_insert_last s w t else slaves_insert_last s w t) := by
  have htn : t ∉ (s.workspaces w).masters ++ (s.workspaces w).slaves := by
    intro e
    exact hn w (List.mem_append.1 e)
  by_cases hlt : (s.workspaces w).masters.length < s.config.master_count
  · rw [if_pos hlt]
    refine slots_invariant_transfer s _ w hs rfl hs.2.2 (fun v hv => ?_)
      (fun v u _ ht => hs.2.1 v u ht) ?_ (fun u hu => ?_)
    · rw [masters_insert_last_masters, if_neg hv, (masters_insert_last_lists s w t v).1]
      exact ⟨rfl, rfl⟩
    · rw [masters_insert_last_masters, if_pos rfl, (masters_insert_last_lists s w t w).1]
      exact slots_ok_append_master _ _ _ _ (hs.1 w) htn hlt
    · unfold tiled at hu
      rw [masters_insert_last_masters, if_pos rfl, (masters_insert_last_lists s w t w).1] at hu
      show (s.toplevels u).workspace = w
      rcases hu with hu | hu
      · rcases List.mem_append.1 hu with hu | hu
        · exact hs.2.1 w u (Or.inl hu)
        · rw [List.mem_singleton.1 hu]; exact hw
      · exact hs.2.1 w u (Or.inr hu)
  · rw [if_neg hlt]
    refine slots_invariant_transfer s _ w hs rfl hs.2.2 (fun v hv => ?_)
      (fun v u _ ht => hs.2.1 v u ht) ?_ (fun u hu => ?_)
    · rw [slaves_insert_last_slaves, if_neg hv, (slaves_insert_last_lists s w t v).1]
      exact ⟨rfl, rfl⟩
    · rw [slaves_insert_last_slaves, if_pos rfl, (slaves_insert_last_lists s w t w).1]
      exact slots_ok_append_slave _ _ _ _ (hs.1 w) htn hlt
    · unfold tiled at hu
      rw [slaves_insert_last_slaves, if_pos rfl, (slaves_insert_last_lists s w t w).1] at hu
      show (s.toplevels u).workspace = w
      rcases hu with hu | hu
      · exact hs.2.1 w u (Or.inl hu)
      · rcases List.mem_append.1 hu with hu | hu
        · exact hs.2.1 w u (Or.inr hu)
        · rw [List.mem_singleton.1 hu]; exact hw

/-- Taking out a toplevel that is not a master. -/
theorem slots_invariant_remove (s : mwc_server) (t : Nat) (hs : slots_invariant s)
    (hm : t ∉ (s.workspaces (s.toplevels t).workspace).masters) :
    slots_invariant (wl_list_remove s t) := by
  refine slots_invariant_transfer s _ (s.toplevels t).workspace hs rfl hs.2.2 (fun v hv => ?_)
    (fun v u _ ht => hs.2.1 v u ht) ?_ (fun u hu => ?_)
  · obtain ⟨h1, h2⟩ := not_tiled_elsewhere s hs t v hv
    simp only [wl_list_remove_lists]
    exact ⟨List.erase_of_not_mem h1, List.erase_of_not_mem h2⟩
  · simp only [wl_list_remove_lists]
    rw [List.erase_of_not_mem hm]
    exact slots_ok_erase_slave _ _ _ _ (hs.1 _)
  · unfold tiled at hu
    simp only [wl_list_remove_lists] at hu
    exact hs.2.1 _ u (hu.imp List.mem_of_mem_erase List.mem_of_mem_erase)

/-- A state whose lists are those of `s` with the master `t` taken out and
the last slave, if there is one, put at the end of the masters. -/
theorem slots_invariant_lift (s r : mwc_server) (t : Nat) (hs : slots_invariant s)
    (hm : t ∈ (s.workspaces (s.toplevels t).workspace).masters)
    (hc : r.config = s.config) (ht : r.toplevels = s.toplevels)
    (hother : ∀ v, v ≠ (s.toplevels t).workspace →
      (r.workspaces v).masters = (s.workspaces v).masters
      ∧ (r.workspaces v).slaves = (s.workspaces v).slaves)
    (hnil : (s.workspaces (s.toplevels t).workspace).slaves = [] →
      (r.workspaces (s.toplevels t).workspace).masters
          = (s.workspaces (s.toplevels t).workspace).masters.erase t
      ∧ (r.workspaces (s.toplevels t).workspace).slaves = [])
    (hsome : ∀ init sl, (s.workspaces (s.toplevels t).workspace).slaves = init ++ [sl] →
      (r.workspaces (s.toplevels t).workspace).masters
          = (s.workspaces (s.toplevels t).workspace).masters.erase t ++ [sl]
      ∧ (r.workspaces (s.toplevels t).workspace).slaves = init) :
    slots_invariant r := by
  have hok := hs.1 (s.toplevels t).workspace
  refine slots_invariant_transfer s r (s.toplevels t).workspace hs hc
    (fun u => by rw [ht]; exact hs.2.2 u) hother
    (fun v u _ h => by rw [ht]; exact hs.2.1 v u h) ?_ (fun u hu => ?_)
  · cases hl : (s.workspaces (s.toplevels t).workspace).slaves.getLast? with
    | none =>
      have e := List.getLast?_eq_none_iff.1 hl
      rw [(hnil e).1, (hnil e).2]
      rw [e] at hok
      exact slots_ok_erase_master _ _ _ hok
    | some sl =>
      obtain ⟨init, e⟩ := getLast_split _ _ hl
      rw [(hsome init sl e).1, (hsome init sl e).2]
      rw [e] at hok
      exact slots_ok_promote _ _ _ _ _ hok hm
  · rw [ht]
    apply hs.2.1
    unfold tiled at hu ⊢
    cases hl : (s.workspaces (s.toplevels t).workspace).slaves.getLast? with
    | none =>
      have e := List.getLast?_eq_none_iff.1 hl
      rw [(hnil e).1, (hnil e).2] at hu
      rcases hu with hu | hu
      · exact Or.inl (List.mem_of_mem_erase hu)
      · cases hu
    | some sl =>
      obtain ⟨init, e⟩ := getLast_split _ _ hl
      rw [(hsome init sl e).1, (hsome init sl e).2] at hu
      rw [e]
      rcases hu with hu | hu
      · rcases List.mem_append.1 hu with hu | hu
        · exact Or.inl (List.mem_of_mem_erase hu)
        · exact Or.inr (by rw [List.mem_singleton.1 hu]; simp)
      · exact Or.inr (by simp [hu])

/-! ## Master slots stay filled: the four events -/

theorem slots_invariant_map (L : layout_h) (s : mwc_server) (t : Nat)
    (hs : slots_invariant s) (hn : not_tiled s t) :
    slots_invariant (toplevel_handle_map L s t) := by
  have hA := slots_invariant_append s (s.toplevels t).workspace t hs hn rfl
  have h1 : slots_invariant (map_link L s t) := by
    unfold map_link
    rw [hs.2.2 t]
    simp only [Bool.false_eq_true, if_false]
    exact slots_invariant_of_same_tiling _ _
      (same_tiling_trans _ _ _ (same_tiling_scene_create _ t _) (same_tiling_layout L _ _)) hA
  have h2 : slots_invariant (map_place_node (map_link L s t) t) :=
    slots_invariant_of_same_tiling _ _ (same_tiling_map_place_node _ t) h1
  unfold toplevel_handle_map
  exact slots_invariant_of_same_tiling _ _
    (same_tiling_trans _ _ _ (same_tiling_focus _ t (h2.2.2 t)) (same_tiling_map_finish _ t)) h2

theorem same_tiling_unmap_grabbed (s : mwc_server) (w t : Nat)
    (hf : ∀ u, (s.toplevels u).floating = false) :
    same_tiling s (unmap_grabbed s w t) := by
  unfold unmap_grabbed
  dsimp only
  split_ifs
  · exact same_tiling_trans _ _ _ (same_tiling_reset_cursor_mode s)
      (same_tiling_focus_link _ _ hf)
  · exact same_tiling_trans _ _ _ (same_tiling_reset_cursor_mode s)
      (same_tiling_focus_link _ _ hf)
  · exact same_tiling_trans _ _ _ (same_tiling_reset_cursor_mode s)
      (same_tiling_clear_focused _)

theorem same_tiling_unmap_master (p : mwc_server) (w t : Nat)
    (hf : ∀ u, (p.toplevels u).floating = false) :
    same_tiling (wl_list_remove (unmap_promote p w) t) (unmap_master p w t) := by
  have hf2 : ∀ u, ((unmap_promote p w).toplevels u).floating = false := by
    intro u
    rw [(unmap_promote_frame p w).2.2.2.2.1]
    exact hf u
  unfold unmap_master
  dsimp only
  apply same_tiling_remove
  split_ifs
  · exact same_tiling_focus_or_clear _ _ hf2
  · exact same_tiling_refl _

theorem same_tiling_unmap_slave (p x : mwc_server) (w t : Nat)
    (hf : ∀ u, (p.toplevels u).floating = false) (h : unmap_slave p w t = some x) :
    same_tiling (wl_list_remove p t) x := by
  unfold unmap_slave at h
  split_ifs at h
  · cases hn : focus_next_of (p.workspaces w).slaves (list_last (p.workspaces w).masters) t with
    | none => rw [hn] at h; cases h
    | some u =>
      rw [hn] at h
      cases h
      exact same_tiling_remove _ _ _ (same_tiling_focus p u (hf u))
  · cases h
    exact same_tiling_refl _

theorem slots_invariant_unmap_master (p : mwc_server) (t : Nat) (hp : slots_invariant p)
    (hm : t ∈ (p.workspaces (p.toplevels t).workspace).masters) :
    slots_invariant (wl_list_remove (unmap_promote p (p.toplevels t).workspace) t) := by
  have hnd := (hp.1 (p.toplevels t).workspace).1
  refine slots_invariant_lift p _ t hp hm ?_ ?_ (fun v hv => ?_) (fun e => ?_)
    (fun init sl e => ?_)
  · exact (unmap_promote_effect p _).1
  · exact (unmap_promote_frame p _).2.2.2.2.1
  · obtain ⟨h1, h2⟩ := not_tiled_elsewhere p hp t v hv
    simp only [wl_list_remove_lists]
    unfold unmap_promote
    cases hl : list_last (p.workspaces (p.toplevels t).workspace).slaves with
    | none => exact ⟨List.erase_of_not_mem h1, List.erase_of_not_mem h2⟩
    | some sl =>
      have hsl : (p.toplevels sl).workspace = (p.toplevels t).workspace :=
        hp.2.1 _ sl (Or.inr (list_last_mem _ _ hl))
      obtain ⟨h3, h4⟩ := not_tiled_elsewhere p hp sl v (by rw [hsl]; exact hv)
      simp only [masters_insert_last_masters, if_neg hv, masters_insert_last_lists,
        wl_list_remove_lists]
      rw [List.erase_of_not_mem h3, List.erase_of_not_mem h4]
      exact ⟨List.erase_of_not_mem h1, List.erase_of_not_mem h2⟩
  · have hl : list_last (p.workspaces (p.toplevels t).workspace).slaves = none := by
      rw [e]; rfl
    simp only [wl_list_remove_lists]
    unfold unmap_promote
    rw [hl]
    dsimp only
    rw [e]
    exact ⟨rfl, rfl⟩
  · rw [e] at hnd
    simp only [wl_list_remove_lists]
    unfold unmap_promote
    rw [e, list_last_append_singleton]
    simp only [masters_insert_last_masters, if_true, masters_insert_last_lists,
      wl_list_remove_lists, e]
    exact promote_then_erase _ _ _ _ hnd hm

theorem slots_invariant_unmap (L : layout_h) (s r : mwc_server) (t : Nat)
    (hs : slots_invariant s) (h : toplevel_handle_unmap L s t = some r) :
    slots_invariant r := by
  by_cases hg : s.grabbed_toplevel = some t
  · unfold toplevel_handle_unmap at h
    dsimp only at h
    rcases unmap_prev_focused_cases s t with e | e <;> rw [e] at h
    · rw [if_pos hg] at h
      cases h
      exact slots_invariant_of_same_tiling _ _ (same_tiling_unmap_grabbed s _ t hs.2.2) hs
    · rw [if_pos (show (clear_prev_focused s).grabbed_toplevel = some t from hg)] at h
      cases h
      have hc := slots_invariant_of_same_tiling _ _ (same_tiling_clear_prev_focused s) hs
      exact slots_invariant_of_same_tiling _ _
        (same_tiling_unmap_grabbed (clear_prev_focused s) _ t hc.2.2) hc
  · have hp := slots_invariant_of_same_tiling _ _ (same_tiling_unmap_prepared s t) hs
    have hw : ((unmap_prepared s t).toplevels t).workspace = (s.toplevels t).workspace :=
      ((same_tiling_unmap_prepared s t).2.2 t).2
    rw [unmap_of_not_grabbed L s t hg, hp.2.2 t] at h
    simp only [Bool.false_eq_true, if_false] at h
    by_cases hm : toplevel_is_master (unmap_prepared s t) t = true
    · rw [if_pos hm] at h
      cases h
      have hm2 : t ∈ ((unmap_prepared s t).workspaces
          ((unmap_prepared s t).toplevels t).workspace).masters := by
        unfold toplevel_is_master at hm
        simpa using hm
      have h1 := slots_invariant_unmap_master (unmap_prepared s t) t hp hm2
      rw [hw] at h1
      exact slots_invariant_of_same_tiling _ _
        (same_tiling_trans _ _ _ (same_tiling_unmap_master _ _ t hp.2.2)
          (same_tiling_layout L _ _)) h1
    · rw [if_neg hm] at h
      have hm2 : t ∉ ((unmap_prepared s t).workspaces
          ((unmap_prepared s t).toplevels t).workspace).masters := by
        unfold toplevel_is_master at hm
        simpa using hm
      cases hx : unmap_slave (unmap_prepared s t) (s.toplevels t).workspace t with
      | none => rw [hx] at h; cases h
      | some x =>
        rw [hx] at h
        cases h
        have h1 := slots_invariant_remove (unmap_prepared s t) t hp hm2
        exact slots_invariant_of_same_tiling _ _
          (same_tiling_trans _ _ _ (same_tiling_unmap_slave _ _ _ t hp.2.2 hx)
            (same_tiling_layout L _ _)) h1

theorem slots_invariant_move_lift (L : layout_h) (g : mwc_server) (t : Nat)
    (hg : slots_invariant g) : slots_invariant (move_lift L g t) := by
  have hnd := (hg.1 (g.toplevels t).workspace).1
  unfold move_lift
  dsimp only
  rw [hg.2.2 t]
  simp only [Bool.false_eq_true, if_false]
  refine slots_invariant_of_same_tiling _ _ (same_tiling_layout L _ _) ?_
  by_cases hm : toplevel_is_master g t = true
  · have hm2 : t ∈ (g.workspaces (g.toplevels t).workspace).masters := by
      unfold toplevel_is_master at hm
      simpa using hm
    have hts : t ∉ (g.workspaces (g.toplevels t).workspace).slaves :=
      fun e => (List.nodup_append.1 hnd).2.2 hm2 e
    have hsl : ((wl_list_remove g t).workspaces (g.toplevels t).workspace).slaves
        = (g.workspaces (g.toplevels t).workspace).slaves := by
      simp only [wl_list_remove_lists]
      exact List.erase_of_not_mem hts
    rw [hm, hsl]
    simp only [Bool.true_and]
    cases hl : (g.workspaces (g.toplevels t).workspace).slaves.getLast? with
    | none =>
      have e := List.getLast?_eq_none_iff.1 hl
      rw [e]
      simp only [List.isEmpty_nil, Bool.not_true, Bool.false_eq_true, if_false]
      refine slots_invariant_lift g _ t hg hm2 rfl rfl (fun v hv => ?_) (fun _ => ?_)
        (fun init sl e2 => ?_)
      · obtain ⟨h1, h2⟩ := not_tiled_elsewhere g hg t v hv
        simp only [wl_list_remove_lists]
        exact ⟨List.erase_of_not_mem h1, List.erase_of_not_mem h2⟩
      · simp [e]
      · rw [e] at e2
        cases init <;> cases e2
    | some sl =>
      obtain ⟨init, e⟩ := getLast_split _ _ hl
      have hne : (init ++ [sl]).isEmpty = false := by
        cases init <;> rfl
      rw [e, hne, list_last_append_singleton]
      simp only [Bool.not_false, if_true]
      rw [e] at hnd
      obtain ⟨k1, k2, k3⟩ := erase_then_promote _ init t sl hnd hm2
      refine slots_invariant_lift g _ t hg hm2 rfl rfl (fun v hv => ?_) (fun e2 => ?_)
        (fun init2 sl2 e2 => ?_)
      · obtain ⟨h1, h2⟩ := not_tiled_elsewhere g hg t v hv
        have hslw : (g.toplevels sl).workspace = (g.toplevels t).workspace :=
          hg.2.1 _ sl (Or.inr (by rw [e]; simp))
        obtain ⟨h3, h4⟩ := not_tiled_elsewhere g hg sl v (by rw [hslw]; exact hv)
        simp only [masters_insert_last_masters, if_neg hv, masters_insert_last_lists,
          wl_list_remove_lists]
        rw [List.erase_of_not_mem h1, List.erase_of_not_mem h2, List.erase_of_not_mem h3,
          List.erase_of_not_mem h4]
        exact ⟨rfl, rfl⟩
      · rw [e] at e2
        cases init <;> cases e2
      · rw [e] at e2
        obtain ⟨e3, e4⟩ := List.append_inj' e2 rfl
        cases e4
        subst e3
        simp only [masters_insert_last_masters, if_true, masters_insert_last_lists,
          wl_list_remove_lists, e]
        rw [k1, k2, k3]
        exact ⟨rfl, rfl⟩
  · have hm2 : t ∉ (g.workspaces (g.toplevels t).workspace).masters := by
      unfold toplevel_is_master at hm
      simpa using hm
    have hm3 : toplevel_is_master g t = false := by simpa using hm
    rw [hm3]
    simp only [Bool.false_and, Bool.false_eq_true, if_false]
    exact slots_invariant_remove g t hg hm2

theorem slots_invariant_start_move (L : layout_h) (s : mwc_server) (t : Nat)
    (hs : slots_invariant s) : slots_invariant (toplevel_start_move L s t) := by
  unfold toplevel_start_move
  split_ifs
  · exact hs
  · exact slots_invariant_move_lift L _ t
      (slots_invariant_of_same_tiling _ _ (same_tiling_grab_begin s t _ _) hs)

/-- The demotion of `toplevel_tiled_insert_into_layout` after the new
toplevel `t` has been linked in next to `u` by `ins`. -/
theorem slots_invariant_demote (a m : mwc_server) (w t u : Nat) (ins : List Nat → List Nat)
    (ha : slots_invariant a) (hn : not_tiled a t) (hw : (a.toplevels t).workspace = w)
    (hu : tiled a w u)
    (hc : m.config = a.config) (htl : m.toplevels = a.toplevels)
    (hlists : ∀ v, (m.workspaces v).masters = ins (a.workspaces v).masters
      ∧ (m.workspaces v).slaves = ins (a.workspaces v).slaves)
    (hno : ∀ l, u ∉ l → ins l = l)
    (hyes : ∀ l, l.Nodup → u ∈ l → t ∉ l →
      (ins l).Nodup ∧ (ins l).length = l.length + 1 ∧ ∀ x, x ∈ ins l ↔ x ∈ l ∨ x = t) :
    slots_invariant (insert_demote m w) := by
  have hok := ha.1 w
  have hnd := hok.1
  have htM : t ∉ (a.workspaces w).masters := fun e => hn w (Or.inl e)
  have htS : t ∉ (a.workspaces w).slaves := fun e => hn w (Or.inr e)
  have htMS : t ∉ (a.workspaces w).masters ++ (a.workspaces w).slaves := fun e =>
    hn w (List.mem_append.1 e)
  have huw : (a.toplevels u).workspace = w := ha.2.1 w u hu
  have hoth : ∀ v, v ≠ w → (m.workspaces v).masters = (a.workspaces v).masters
      ∧ (m.workspaces v).slaves = (a.workspaces v).slaves := by
    intro v hv
    obtain ⟨h1, h2⟩ := not_tiled_elsewhere a ha u v (by rw [huw]; exact hv)
    rw [(hlists v).1, (hlists v).2, hno _ h1, hno _ h2]
    exact ⟨rfl, rfl⟩
  have hfl : ∀ x, (m.toplevels x).floating = false := fun x => by rw [htl]; exact ha.2.2 x
  have hwsm : ∀ v x, v ≠ w → tiled a v x → (m.toplevels x).workspace = v :=
    fun v x _ h => by rw [htl]; exact ha.2.1 v x h
  rcases hu with huM | huS
  · -- the toplevel under the point is a master
    have huS : u ∉ (a.workspaces w).slaves := fun e => (List.nodup_append.1 hnd).2.2 huM e
    obtain ⟨y1, y2, y3⟩ := hyes _ (List.nodup_append.1 hnd).1 huM htM
    have hM1 : (m.workspaces w).masters = ins (a.workspaces w).masters := (hlists w).1
    have hS1 : (m.workspaces w).slaves = (a.workspaces w).slaves := by
      rw [(hlists w).2, hno _ huS]
    obtain ⟨d1, d2⟩ := slots_ok_insert_master a.config.master_count (a.workspaces w).masters
      (ins (a.workspaces w).masters) (a.workspaces w).slaves t hok htMS y2 y1 y3
    unfold insert_demote
    rw [hc, hM1]
    by_cases hgt : (ins (a.workspaces w).masters).length > a.config.master_count
    · rw [if_pos hgt]
      cases hl : list_last (ins (a.workspaces w).masters) with
      | none =>
        have := list_last_none _ hl
        rw [this] at y2
        simp at y2
      | some last =>
        have hlm : last ∈ ins (a.workspaces w).masters := list_last_mem _ _ hl
        have hlw : last = t ∨ last ∈ (a.workspaces w).masters := by
          rcases (y3 last).1 hlm with e | e
          · exact Or.inr e
          · exact Or.inl e
        refine slots_invariant_transfer a _ w ha hc hfl (fun v hv => ?_)
          (fun v x hv h => hwsm v x hv h) ?_ (fun x hx => ?_)
        · have hl1 : last ∉ (a.workspaces v).masters ∧ last ∉ (a.workspaces v).slaves := by
            rcases hlw with e | e
            · rw [e]
              exact ⟨fun k => hn v (Or.inl k), fun k => hn v (Or.inr k)⟩
            · exact not_tiled_elsewhere a ha last v
                (by rw [ha.2.1 w last (Or.inl e)]; exact hv)
          simp only [slaves_insert_last_slaves, if_neg hv, slaves_insert_last_lists,
            wl_list_remove_lists]
          rw [(hoth v hv).1, (hoth v hv).2, List.erase_of_not_mem hl1.1,
            List.erase_of_not_mem hl1.2]
          exact ⟨rfl, rfl⟩
        · simp only [slaves_insert_last_slaves, if_true, slaves_insert_last_lists,
            wl_list_remove_lists]
          rw [hM1, hS1]
          exact d1 hgt last hl
        · show (m.toplevels x).workspace = w
          rw [htl]
          unfold tiled at hx
          simp only [slaves_insert_last_slaves, if_true, slaves_insert_last_lists,
            wl_list_remove_lists] at hx
          rw [hM1, hS1] at hx
          have hx2 : x ∈ ins (a.workspaces w).masters ∨ x ∈ (a.workspaces w).slaves := by
            rcases hx with hx | hx
            · exact Or.inl (List.mem_of_mem_erase hx)
            · rcases List.mem_append.1 hx with hx | hx
              · exact Or.inr (List.mem_of_mem_erase hx)
              · rw [List.mem_singleton.1 hx]; exact Or.inl hlm
          rcases hx2 with hx2 | hx2
          · rcases (y3 x).1 hx2 with e | e
            · exact ha.2.1 w x (Or.inl e)
            · rw [e]; exact hw
          · exact ha.2.1 w x (Or.inr hx2)
    · rw [if_neg hgt]
      refine slots_invariant_transfer a m w ha hc hfl hoth hwsm ?_ (fun x hx => ?_)
      · rw [hM1, hS1]
        exact d2 hgt
      · rw [htl]
        unfold tiled at hx
        rw [hM1, hS1] at hx
        rcases hx with hx | hx
        · rcases (y3 x).1 hx with e | e
          · exact ha.2.1 w x (Or.inl e)
          · rw [e]; exact hw
        · exact ha.2.1 w x (Or.inr hx)
  · -- the toplevel under the point is a slave
    have huM : u ∉ (a.workspaces w).masters := fun e => (List.nodup_append.1 hnd).2.2 e huS
    obtain ⟨y1, _, y3⟩ := hyes _ (List.nodup_append.1 hnd).2.1 huS htS
    have hM1 : (m.workspaces w).masters = (a.workspaces w).masters := by
      rw [(hlists w).1, hno _ huM]
    have hS1 : (m.workspaces w).slaves = ins (a.workspaces w).slaves := (hlists w).2
    obtain ⟨d1, d2⟩ := slots_ok_insert_slave a.config.master_count (a.workspaces w).masters
      (a.workspaces w).slaves (ins (a.workspaces w).slaves) t u hok htMS huS y1 y3
    unfold insert_demote
    rw [hc, hM1, if_neg d2]
    refine slots_invariant_transfer a m w ha hc hfl hoth hwsm ?_ (fun x hx => ?_)
    · rw [hM1, hS1]
      exact d1
    · rw [htl]
      unfold tiled at hx
      rw [hM1, hS1] at hx
      rcases hx with hx | hx
      · exact ha.2.1 w x (Or.inl hx)
      · rcases (y3 x).1 hx with e | e
        · exact ha.2.1 w x (Or.inr e)
        · rw [e]; exact hw

theorem slots_invariant_assign_workspace (s : mwc_server) (t w : Nat) (hs : slots_invariant s)
    (hn : not_tiled s t) : slots_invariant (assign_workspace s t w) := by
  refine ⟨fun v => ?_, fun v u hu => ?_, fun u => ?_⟩
  · rw [(assign_workspace_server s t w).1, (assign_workspace_server s t w).2.2.1]
    exact hs.1 v
  · have hu2 : tiled s v u := by
      unfold tiled at hu ⊢
      rw [(assign_workspace_server s t w).1] at hu
      exact hu
    have hne : u ≠ t := fun e => hn v (e ▸ hu2)
    rw [assign_workspace_other s t w u hne]
    exact hs.2.1 v u hu2
  · rw [(assign_workspace_fields s t w u).1]
    exact hs.2.2 u

theorem slots_invariant_insert (L : layout_h) (hL : layout_toplevel_at_tiled L)
    (s : mwc_server) (t x y : Nat) (hs : slots_invariant s) (hn : not_tiled s t) :
    slots_invariant (toplevel_tiled_insert_into_layout L s t x y) := by
  have ha := slots_invariant_assign_workspace s t s.active_workspace hs hn
  have hn2 : not_tiled (assign_workspace s t s.active_workspace) t := fun w h => hn w h
  have hw : ((assign_workspace s t s.active_workspace).toplevels t).workspace
      = s.active_workspace := assign_workspace_value s t _
  unfold toplevel_tiled_insert_into_layout
  cases ho : L.layout_toplevel_at (assign_workspace s t s.active_workspace)
      s.active_workspace x y with
  | none =>
    simp only [insert_at]
    exact slots_invariant_append _ _ t ha hn2 hw
  | some u =>
    have hu : tiled (assign_workspace s t s.active_workspace) s.active_workspace u :=
      hL _ _ _ _ u ho
    simp only [insert_at, insert_link]
    split_ifs
    · refine slots_invariant_demote _ (wl_list_insert_before _ u t) _ t u
        (list_insert_before u t) ha hn2 hw hu rfl rfl (fun v => ⟨rfl, rfl⟩)
        (fun l h => list_insert_before_of_not_mem l u t h) (fun l h1 h2 h3 => ⟨?_, ?_, ?_⟩)
      · exact nodup_list_insert_before l u t h1 h2 h3
      · rw [length_list_insert_before, if_pos h2]
      · intro z
        rw [mem_list_insert_before]
        constructor
        · rintro (h | ⟨h, _⟩)
          · exact Or.inl h
          · exact Or.inr h
        · rintro (h | h)
          · exact Or.inl h
          · exact Or.inr ⟨h, h2⟩
    · refine slots_invariant_demote _ (wl_list_insert_after _ u t) _ t u
        (list_insert_after u t) ha hn2 hw hu rfl rfl (fun v => ⟨rfl, rfl⟩)
        (fun l h => list_insert_after_of_not_mem l u t h) (fun l h1 h2 h3 => ⟨?_, ?_, ?_⟩)
      · exact nodup_list_insert_after l u t h1 h2 h3
      · rw [length_list_insert_after, if_pos h2]
      · intro z
        rw [mem_list_insert_after]
        constructor
        · rintro (h | ⟨h, _⟩)
          · exact Or.inl h
          · exact Or.inr h
        · rintro (h | h)
          · exact Or.inl h
          · exact Or.inr ⟨h, h2⟩

/-- The invariant of the tiled lists holds along every run of tiled events
that starts with all lists empty and tiled toplevels only. -/
theorem slots_run_invariant (L : layout_h) (hL : layout_toplevel_at_tiled L)
    (s0 s : mwc_server) (h0 : workspaces_empty s0)
    (hfl : ∀ u, (s0.toplevels u).floating = false) (hr : tiled_run L s0 s) :
    s.config = s0.config ∧ slots_invariant s := by
  induction hr with
  | start =>
    refine ⟨rfl, fun w => ?_, fun w u h => ?_, hfl⟩
    · rw [(h0 w).2.1, (h0 w).2.2]
      exact slots_ok_nil _
    · unfold tiled at h
      rw [(h0 w).2.1, (h0 w).2.2] at h
      simp at h
  | step a b _ e ih =>
    obtain ⟨ic, ii⟩ := ih
    have hcfg := (tiled_run_invariant L hL s0 b h0 (tiled_run.step _ _ _ ‹_› e)).1
    refine ⟨hcfg, ?_⟩
    cases e with
    | map t hf hn => exact slots_invariant_map L a t ii hn
    | unmap t r h => exact slots_invariant_unmap L a b t ii h
    | start_move t => exact slots_invariant_start_move L a t ii
    | insert t x y hn => exact slots_invariant_insert L hL a t x y ii hn

/-- C27 (master slots are filled while slaves exist): with `master_count >=
1`, in every state reached from a server whose workspaces are all empty and
whose toplevels are all tiled ones, by any sequence of tiled
`toplevel_handle_map`, `toplevel_handle_unmap`, `toplevel_start_move` and
`toplevel_tiled_insert_into_layout` events, a workspace with a non-empty slave
list has exactly `master_count` masters, so that the last link of its master
list is a toplevel and not the list head. A toplevel is mapped or inserted
only while it is linked into no tiled list, and `layout_toplevel_at` returns
tiled toplevels of the workspace it is asked about. -/
theorem master_slots_filled (L : layout_h) (hL : layout_toplevel_at_tiled L)
    (s0 s : mwc_server) (hmc : 1 ≤ s0.config.master_count) (h0 : workspaces_empty s0)
    (hfl : ∀ u, (s0.toplevels u).floating = false)
    (hr : tiled_run L s0 s) (w : Nat) (hsl : (s.workspaces w).slaves ≠ []) :
    (s.workspaces w).masters.length = s0.config.master_count
    ∧ ∃ m, list_last (s.workspaces w).masters = some m := by
  obtain ⟨hc, hi⟩ := slots_run_invariant L hL s0 s h0 hfl hr
  have hlen : (s.workspaces w).masters.length = s0.config.master_count := by
    rw [← hc]
    exact (hi.1 w).2.2 hsl
  refine ⟨hlen, ?_⟩
  cases hl : list_last (s.workspaces w).masters with
  | some m => exact ⟨m, rfl⟩
  | none =>
    have := list_last_none _ hl
    rw [this] at hlen
    simp only [List.length_nil] at hlen
    omega

theorem master_slots_filled_witness :
    ((toplevel_handle_map demo_layout
        (toplevel_handle_map demo_layout demo_server 1) 2).workspaces 0).slaves = [2]
    ∧ ((toplevel_handle_map demo_layout
          (toplevel_handle_map demo_layout demo_server 1) 2).workspaces 0).masters.length
        = demo_server.config.master_count
    ∧ ∃ m, list_last ((toplevel_handle_map demo_layout
          (toplevel_handle_map demo_layout demo_server 1) 2).workspaces 0).masters = some m :=
  ⟨by decide,
    master_slots_filled demo_layout demo_layout_at_tiled demo_server _ (by decide)
      (fun _ => ⟨rfl, rfl, rfl⟩) (fun _ => rfl)
      (tiled_run.step _ _ _
        (tiled_run.step _ _ _ (tiled_run.start demo_server)
          (tiled_step.map demo_server 1 rfl (fun w h => by simp [tiled, demo_server] at h)))
        (tiled_step.map _ 2 (by decide)
          (not_tiled_after_map demo_layout demo_server 1 2 rfl (fun _ => Nat.zero_le _)
            (fun w h => by simp [tiled, demo_server] at h) (by decide))))
      0 (by decide)⟩

end Owl
